import Mathlib

/-!
# NAU88L21 codec driver: clock synthesis, stream validation, jack detection

A shallow embedding of `sound/soc/codecs/nau8821.c` (kernel-5.11 tree).
C `unsigned int` values are natural numbers reduced modulo `2^32`
where a wrap is possible, `u64` values modulo `2^64`, and C `int` values are
integers.
-/

namespace Nau8821

/-! ## Constants of nau8821.c -/

def NAU_FREF_MAX : Nat := 13500000
def NAU_FVCO_MAX : Nat := 124000000
def NAU_FVCO_MIN : Nat := 90000000

/-- The maximum frequency of CLK_ADC and CLK_DAC. -/
def CLK_DA_AD_MAX : Int := 6144000

/-- The errno value of `EINVAL`; the driver returns `-EINVAL`. -/
def EINVAL : Int := 22

/-- The C struct `nau8821_fll`; every field is a C `int`. -/
structure nau8821_fll where
  mclk_src : Int
  ratio : Int
  fll_frac : Int
  fll_int : Int
  clk_ref_div : Int
  deriving DecidableEq, Repr

/-- The C struct `nau8821_fll_attr`; both fields are `unsigned int`. -/
structure nau8821_fll_attr where
  param : Nat
  val : Nat
  deriving DecidableEq, Repr

/-- Scaling for mclk from sysclk_src output. -/
def mclk_src_scaling : List nau8821_fll_attr :=
  [⟨1, 0x0⟩, ⟨2, 0x2⟩, ⟨4, 0x3⟩, ⟨8, 0x4⟩, ⟨16, 0x5⟩, ⟨32, 0x6⟩, ⟨3, 0x7⟩,
   ⟨6, 0xa⟩, ⟨12, 0xb⟩, ⟨24, 0xc⟩, ⟨48, 0xd⟩, ⟨96, 0xe⟩, ⟨5, 0xf⟩]

/-- Ratio for input clk freq. -/
def fll_ratio : List nau8821_fll_attr :=
  [⟨512000, 0x01⟩, ⟨256000, 0x02⟩, ⟨128000, 0x04⟩, ⟨64000, 0x08⟩,
   ⟨32000, 0x10⟩, ⟨8000, 0x20⟩, ⟨4000, 0x40⟩]

def fll_pre_scalar : List nau8821_fll_attr :=
  [⟨1, 0x0⟩, ⟨2, 0x1⟩, ⟨4, 0x2⟩, ⟨8, 0x3⟩]

/-- Array subscript `t[i]` on a table of attributes. -/
def attr_at (t : List nau8821_fll_attr) (i : Nat) : nau8821_fll_attr :=
  t.getD i ⟨0, 0⟩

/-! ## nau8821_calc_fll_param -/

/-- The first loop of `nau8821_calc_fll_param`:
`for (i = 0; i < ARRAY_SIZE(fll_pre_scalar); i++) { fref = fll_in / fll_pre_scalar[i].param;
if (fref <= NAU_FREF_MAX) break; }`.
The arguments are the entries not yet visited, the index `i` and the current
`fref`; the result is the pair `(i, fref)` when the loop is left. -/
def pre_scalar_loop (fll_in : Nat) : List nau8821_fll_attr → Nat → Nat → Nat × Nat
  | [], i, fref => (i, fref)
  | a :: rest, i, _ =>
    if fll_in / a.param ≤ NAU_FREF_MAX then (i, fll_in / a.param)
    else pre_scalar_loop fll_in rest (i + 1) (fll_in / a.param)

/-- The second loop of `nau8821_calc_fll_param`:
`for (i = 0; i < ARRAY_SIZE(fll_ratio); i++) { if (fref >= fll_ratio[i].param) break; }`.
The result is `i` when the loop is left. -/
def ratio_loop (fref : Nat) : List nau8821_fll_attr → Nat → Nat
  | [], i => i
  | a :: rest, i => if fref ≥ a.param then i else ratio_loop fref rest (i + 1)

/-- The candidate `fvco = 256ULL * fs * 2 * mclk_src_scaling[i].param`, a `u64` product. -/
def fvco_candidate (fs : Nat) (a : nau8821_fll_attr) : Nat :=
  (256 * fs * 2 * a.param) % 2 ^ 64

/-- The third loop of `nau8821_calc_fll_param`, over the entries not yet visited,
the index `i` and the pair `(fvco_max, fvco_sel)`; the result is that pair
when the loop is left. -/
def fvco_loop (fs : Nat) : List nau8821_fll_attr → Nat → Nat × Nat → Nat × Nat
  | [], _, acc => acc
  | a :: rest, i, acc =>
    if fvco_candidate fs a > NAU_FVCO_MIN ∧ fvco_candidate fs a < NAU_FVCO_MAX ∧
        acc.1 < fvco_candidate fs a then
      fvco_loop fs rest (i + 1) (fvco_candidate fs a, i)
    else fvco_loop fs rest (i + 1) acc

/-- The value `div_u64(fvco_max << 24, fref * fll_param->ratio)`: the dividend is a
`u64`, the divisor the `unsigned int` product of `fref` and the stored ratio. -/
def fll_word (fvco_max fref ratio : Nat) : Nat :=
  ((fvco_max <<< 24) % 2 ^ 64) / ((fref * ratio) % 2 ^ 32)

/-- The function `nau8821_calc_fll_param(fll_in, fs, fll_param)`. The result is the
return code together with the contents of `*fll_param` when the function
returns (fields assigned before a failing check stay assigned). -/
def nau8821_calc_fll_param (fll_in fs : Nat) (fll_param : nau8821_fll) :
    Int × nau8821_fll :=
  let r1 := pre_scalar_loop fll_in fll_pre_scalar 0 0
  if r1.1 = fll_pre_scalar.length then (-EINVAL, fll_param)
  else
    let p1 := { fll_param with clk_ref_div := ((attr_at fll_pre_scalar r1.1).val : Int) }
    let fref := r1.2
    let i2 := ratio_loop fref fll_ratio 0
    if i2 = fll_ratio.length then (-EINVAL, p1)
    else
      let p2 := { p1 with ratio := ((attr_at fll_ratio i2).val : Int) }
      let r3 := fvco_loop fs mclk_src_scaling 0 (0, mclk_src_scaling.length)
      if mclk_src_scaling.length = r3.2 then (-EINVAL, p2)
      else
        let p3 := { p2 with mclk_src := ((attr_at mclk_src_scaling r3.2).val : Int) }
        let fvco := fll_word r3.1 fref (attr_at fll_ratio i2).val
        (0, { p3 with fll_int := (((fvco >>> 24) &&& 0x3ff : Nat) : Int),
                      fll_frac := ((fvco &&& 0xffffff : Nat) : Int) })

/-! ## nau8821_clock_check -/

/-- The C struct `nau8821_osr_attr` (over sampling rate). -/
structure nau8821_osr_attr where
  osr : Nat
  clk_src : Nat
  deriving DecidableEq, Repr

def osr_dac_sel : List nau8821_osr_attr :=
  [⟨64, 2⟩, ⟨256, 0⟩, ⟨128, 1⟩, ⟨0, 0⟩, ⟨32, 3⟩]

def osr_adc_sel : List nau8821_osr_attr :=
  [⟨32, 3⟩, ⟨64, 2⟩, ⟨128, 1⟩, ⟨256, 0⟩]

/-- Array subscript `t[i]` on an OSR table. -/
def osr_at (t : List nau8821_osr_attr) (i : Nat) : nau8821_osr_attr :=
  t.getD i ⟨0, 0⟩

/-- Kernel constants of `enum` stream direction. -/
def SNDRV_PCM_STREAM_PLAYBACK : Int := 0
def SNDRV_PCM_STREAM_CAPTURE : Int := 1

/-- Conversion of a C `int` to `unsigned int`. -/
def to_unsigned (x : Int) : Nat := (x % 2 ^ 32).toNat

/-- Conversion of an integer value to a 32-bit C `int` (two's complement wrap). -/
def to_int (x : Int) : Int := (x + 2 ^ 31) % 2 ^ 32 - 2 ^ 31

/-- The function `nau8821_clock_check(nau8821, stream, rate, osr)`; `rate` and `osr` are
C `int`s, the comparison `osr >= ARRAY_SIZE(..)` is made on unsigned values and the
product `rate * osrate` is an `int` product. -/
def nau8821_clock_check (stream rate osr : Int) : Int :=
  if stream = SNDRV_PCM_STREAM_PLAYBACK then
    if to_unsigned osr ≥ osr_dac_sel.length then -EINVAL
    else
      let osrate : Int := ((osr_at osr_dac_sel (to_unsigned osr)).osr : Int)
      if osrate = 0 ∨ to_int (rate * osrate) > CLK_DA_AD_MAX then -EINVAL else 0
  else
    if to_unsigned osr ≥ osr_adc_sel.length then -EINVAL
    else
      let osrate : Int := ((osr_at osr_adc_sel (to_unsigned osr)).osr : Int)
      if osrate = 0 ∨ to_int (rate * osrate) > CLK_DA_AD_MAX then -EINVAL else 0

/-! ## The header nau8821.h

The header is not among the sources at hand. Its register addresses, field
masks, field shifts and clock identifiers are therefore parameters of the
model: every function below takes them as the argument `h`. -/

/-- The constants of `nau8821.h` used by the modelled functions. -/
structure nau8821_h where
  NAU8821_REG_ENA_CTRL : Nat
  NAU8821_REG_CLK_DIVIDER : Nat
  NAU8821_REG_FLL1 : Nat
  NAU8821_REG_FLL3 : Nat
  NAU8821_REG_FLL4 : Nat
  NAU8821_REG_FLL5 : Nat
  NAU8821_REG_FLL6 : Nat
  NAU8821_REG_FLL7 : Nat
  NAU8821_REG_FLL8 : Nat
  NAU8821_REG_JACK_DET_CTRL : Nat
  NAU8821_REG_INTERRUPT_MASK : Nat
  NAU8821_REG_IRQ_STATUS : Nat
  NAU8821_REG_INT_CLR_KEY_STATUS : Nat
  NAU8821_REG_INTERRUPT_DIS_CTRL : Nat
  NAU8821_REG_GPIO12_CTRL : Nat
  NAU8821_REG_I2S_PCM_CTRL1 : Nat
  NAU8821_REG_I2S_PCM_CTRL2 : Nat
  NAU8821_REG_ADC_RATE : Nat
  NAU8821_REG_DAC_CTRL1 : Nat
  NAU8821_REG_I2C_DEVICE_ID : Nat
  NAU8821_REG_MIC_BIAS : Nat
  NAU8821_REG_GENERAL_STATUS : Nat
  NAU8821_REG_DATA_LEN : Nat
  NAU8821_EN_ADCR : Nat
  NAU8821_EN_ADCL : Nat
  NAU8821_CLK_SRC_MASK : Nat
  NAU8821_CLK_SRC_VCO : Nat
  NAU8821_CLK_SRC_MCLK : Nat
  NAU8821_CLK_ADC_SRC_SFT : Nat
  NAU8821_CLK_ADC_SRC_MASK : Nat
  NAU8821_CLK_DAC_SRC_SFT : Nat
  NAU8821_CLK_DAC_SRC_MASK : Nat
  NAU8821_CLK_MCLK_SRC_MASK : Nat
  NAU8821_ICTRL_LATCH_SFT : Nat
  NAU8821_ICTRL_LATCH_MASK : Nat
  NAU8821_FLL_RATIO_MASK : Nat
  NAU8821_GAIN_ERR_SFT : Nat
  NAU8821_GAIN_ERR_MASK : Nat
  NAU8821_FLL_CLK_SRC_MASK : Nat
  NAU8821_FLL_CLK_SRC_FS : Nat
  NAU8821_FLL_CLK_SRC_BLK : Nat
  NAU8821_FLL_CLK_SRC_MCLK : Nat
  NAU8821_FLL_INTEGER_MASK : Nat
  NAU8821_HIGHBW_EN : Nat
  NAU8821_FLL_REF_DIV_SFT : Nat
  NAU8821_FLL_REF_DIV_MASK : Nat
  NAU8821_FLL_PDB_DAC_EN : Nat
  NAU8821_FLL_LOOP_FTR_EN : Nat
  NAU8821_FLL_CLK_SW_MASK : Nat
  NAU8821_FLL_CLK_SW_REF : Nat
  NAU8821_FLL_FTR_SW_MASK : Nat
  NAU8821_FLL_FTR_SW_ACCU : Nat
  NAU8821_FLL_FTR_SW_FILTER : Nat
  NAU8821_DCO_EN : Nat
  NAU8821_SDM_EN : Nat
  NAU8821_CUTOFF500 : Nat
  NAU8821_JACK_DET_RESTART : Nat
  NAU8821_JACK_DET_DB_BYPASS : Nat
  NAU8821_JACK_INSERT_DEBOUNCE_SFT : Nat
  NAU8821_JACK_INSERT_DEBOUNCE_MASK : Nat
  NAU8821_JACK_EJECT_DEBOUNCE_SFT : Nat
  NAU8821_JACK_EJECT_DEBOUNCE_MASK : Nat
  NAU8821_JACK_POLARITY : Nat
  NAU8821_SPKR_DWN1R : Nat
  NAU8821_SPKR_DWN1L : Nat
  NAU8821_IRQ_PIN_PULL_UP : Nat
  NAU8821_IRQ_PIN_PULL_EN : Nat
  NAU8821_IRQ_OUTPUT_EN : Nat
  NAU8821_IRQ_KEY_RELEASE_EN : Nat
  NAU8821_IRQ_KEY_PRESS_EN : Nat
  NAU8821_IRQ_MIC_DET_EN : Nat
  NAU8821_IRQ_EJECT_EN : Nat
  NAU8821_IRQ_INSERT_EN : Nat
  NAU8821_KEY_RELEASE_IRQ : Nat
  NAU8821_KEY_SHORT_PRESS_IRQ : Nat
  NAU8821_JACK_EJECT_IRQ_MASK : Nat
  NAU8821_JACK_EJECT_DETECTED : Nat
  NAU8821_JACK_INSERT_IRQ_MASK : Nat
  NAU8821_JACK_INSERT_DETECTED : Nat
  NAU8821_IRQ_KEY_RELEASE_DIS : Nat
  NAU8821_IRQ_KEY_PRESS_DIS : Nat
  NAU8821_IRQ_MIC_DIS : Nat
  NAU8821_IRQ_EJECT_DIS : Nat
  NAU8821_IRQ_INSERT_DIS : Nat
  NAU8821_JKDET_OUTPUT_EN : Nat
  NAU8821_JKDET_PULL_EN : Nat
  NAU8821_JKDET_PULL_UP : Nat
  NAU8821_I2S_BP_MASK : Nat
  NAU8821_I2S_BP_INV : Nat
  NAU8821_I2S_PCMB_MASK : Nat
  NAU8821_I2S_PCMB_EN : Nat
  NAU8821_I2S_DL_MASK : Nat
  NAU8821_I2S_DL_32 : Nat
  NAU8821_I2S_DL_24 : Nat
  NAU8821_I2S_DL_20 : Nat
  NAU8821_I2S_DL_16 : Nat
  NAU8821_I2S_DF_MASK : Nat
  NAU8821_I2S_DF_PCM_AB : Nat
  NAU8821_I2S_DF_I2S : Nat
  NAU8821_I2S_DF_LEFT : Nat
  NAU8821_I2S_DF_RIGTH : Nat
  NAU8821_I2S_LRC_DIV_SFT : Nat
  NAU8821_I2S_LRC_DIV_MASK : Nat
  NAU8821_I2S_MS_MASK : Nat
  NAU8821_I2S_MS_MASTER : Nat
  NAU8821_I2S_MS_SLAVE : Nat
  NAU8821_I2S_BLK_DIV_MASK : Nat
  NAU8821_ADC_SYNC_DOWN_MASK : Nat
  NAU8821_DAC_OVERSAMPLE_MASK : Nat
  NAU8821_MICDET : Nat
  NAU8821_MICBIAS_JKR2 : Nat
  NAU8821_GPIO2_IN : Nat
  NAU8821_CLK_DIS : Int
  NAU8821_CLK_MCLK : Int
  NAU8821_CLK_INTERNAL : Int
  NAU8821_CLK_FLL_MCLK : Int
  NAU8821_CLK_FLL_BLK : Int
  NAU8821_CLK_FLL_FS : Int

/-! ## Kernel constants -/

/-- The errno value of `ETIME`, returned negated by `down_timeout`. -/
def ETIME : Int := 62

/-- The number of jiffies per second (`CONFIG_HZ`); the driver only needs it non-zero. -/
def HZ : Nat := 100

def IRQ_NONE : Int := 0
def IRQ_HANDLED : Int := 1

def SND_JACK_HEADPHONE : Nat := 0x0001
def SND_JACK_MICROPHONE : Nat := 0x0002
def SND_JACK_HEADSET : Nat := SND_JACK_HEADPHONE ||| SND_JACK_MICROPHONE
def SND_JACK_BTN_0 : Nat := 0x4000

/-- The line `#define NAU8821_BUTTON SND_JACK_BTN_0` of nau8821.c. -/
def NAU8821_BUTTON : Nat := SND_JACK_BTN_0

def SND_SOC_DAIFMT_I2S : Nat := 1
def SND_SOC_DAIFMT_RIGHT_J : Nat := 2
def SND_SOC_DAIFMT_LEFT_J : Nat := 3
def SND_SOC_DAIFMT_DSP_A : Nat := 4
def SND_SOC_DAIFMT_DSP_B : Nat := 5
def SND_SOC_DAIFMT_NB_NF : Nat := 0 <<< 8
def SND_SOC_DAIFMT_IB_NF : Nat := 3 <<< 8
def SND_SOC_DAIFMT_CBM_CFM : Nat := 1 <<< 12
def SND_SOC_DAIFMT_CBS_CFS : Nat := 4 <<< 12
def SND_SOC_DAIFMT_FORMAT_MASK : Nat := 0x000f
def SND_SOC_DAIFMT_INV_MASK : Nat := 0x0f00
def SND_SOC_DAIFMT_MASTER_MASK : Nat := 0xf000

def SND_SOC_BIAS_OFF : Int := 0
def SND_SOC_BIAS_STANDBY : Int := 1
def SND_SOC_BIAS_PREPARE : Int := 2
def SND_SOC_BIAS_ON : Int := 3

/-! ## Device state -/

/-- What the driver does to its collaborators, in the order it does it: register
writes through regmap, semaphore operations, jack reports, DAPM pin requests,
delays, interrupt line and register cache control. Register reads and
diagnostic messages leave no entry. -/
inductive Event where
  | reg_write (reg val : Nat)
  | reg_update (reg mask val : Nat)
  | down_timeout (timeout : Nat) (ret : Int)
  | down_trylock (ret : Int)
  | up
  | sema_reset
  | jack_report (event mask : Nat)
  | dapm_force_enable_pin
  | dapm_disable_pin
  | dapm_sync
  | mdelay (ms : Nat)
  | disable_irq
  | enable_irq
  | regcache_cache_only (enable : Bool)
  | regcache_mark_dirty
  | regcache_sync
  deriving DecidableEq, Repr

/-- The C struct `nau8821` (the codec private data) together with what the model
needs of its collaborators: `regmap` is the register file as regmap reads it,
`bus_error` says that `regmap_read` currently reports a transport error,
`jd_sem` is `jd_sem.count`, `bias_level` is the component's bias level kept by the
sound core, and `log` records the events so far, oldest first. -/
structure nau8821 where
  regmap : Nat → Nat
  bus_error : Bool
  irq : Int
  jd_sem : Nat
  clk_id : Int
  jkdet_enable : Bool
  jkdet_pull_enable : Bool
  jkdet_pull_up : Bool
  jkdet_polarity : Nat
  micbias_voltage : Nat
  vref_impedance : Nat
  jack_insert_debounce : Nat
  jack_eject_debounce : Nat
  bias_level : Int
  log : List Event

/-- Appends an event to the log. -/
def emit (s : nau8821) (e : Event) : nau8821 :=
  { s with log := s.log ++ [e] }

/-! ## regmap -/

/-- The value `regmap_read` stores through its pointer argument. -/
def regmap_read (s : nau8821) (reg : Nat) : Nat :=
  s.regmap reg

/-- The return code of `regmap_read`. -/
def regmap_read_ret (s : nau8821) : Int :=
  if s.bus_error then -5 else 0

/-- The call `regmap_write(regmap, reg, val)`. -/
def regmap_write (s : nau8821) (reg val : Nat) : nau8821 :=
  emit { s with regmap := fun r => if r = reg then val else s.regmap r }
    (Event.reg_write reg val)

/-- The new register value computed by `regmap_update_bits`:
`(orig & ~mask) | (val & mask)`; `orig & ~mask` is written `orig ^ (orig & mask)`. -/
def update_bits_value (orig mask val : Nat) : Nat :=
  (orig ^^^ (orig &&& mask)) ||| (val &&& mask)

/-- The call `regmap_update_bits(regmap, reg, mask, val)`. -/
def regmap_update_bits (s : nau8821) (reg mask val : Nat) : nau8821 :=
  emit { s with regmap := fun r =>
      if r = reg then update_bits_value (s.regmap reg) mask val else s.regmap r }
    (Event.reg_update reg mask val)

/-! ## The semaphore `jd_sem` -/

/-- The kernel's `down_timeout` when no other task runs: the count is taken if
positive, otherwise the wait expires with `-ETIME`. -/
def down_timeout (s : nau8821) (timeout : Nat) : Int × nau8821 :=
  if 0 < s.jd_sem then
    (0, emit { s with jd_sem := s.jd_sem - 1 } (Event.down_timeout timeout 0))
  else (-ETIME, emit s (Event.down_timeout timeout (-ETIME)))

/-- The kernel's `down_trylock`: 0 when the count was taken, 1 otherwise. -/
def down_trylock (s : nau8821) : Int × nau8821 :=
  if 0 < s.jd_sem then (0, emit { s with jd_sem := s.jd_sem - 1 } (Event.down_trylock 0))
  else (1, emit s (Event.down_trylock 1))

/-- The kernel's `up` when no task waits: the `unsigned int` count is incremented. -/
def up (s : nau8821) : nau8821 :=
  emit { s with jd_sem := (s.jd_sem + 1) % 2 ^ 32 } Event.up

/-- The function `nau8821_sema_acquire(nau8821, timeout)`. -/
def nau8821_sema_acquire (s : nau8821) (timeout : Nat) : Int × nau8821 :=
  if s.irq = 0 then (1, s)
  else if timeout ≠ 0 then down_timeout s timeout
  else down_trylock s

/-- The function `nau8821_sema_release(nau8821)`. -/
def nau8821_sema_release (s : nau8821) : nau8821 :=
  if s.irq = 0 then s else up s

/-- The function `nau8821_sema_reset(nau8821)`: `jd_sem.count = 1`. -/
def nau8821_sema_reset (s : nau8821) : nau8821 :=
  emit { s with jd_sem := 1 } Event.sema_reset

/-! ## nau8821_hw_params and nau8821_set_dai_fmt -/

/-- The end of `nau8821_hw_params`: the `switch (params_width(params))`, the update of
the data length field and the final release of the semaphore. -/
def nau8821_hw_params_width (h : nau8821_h) (s : nau8821) (width : Int) : Int × nau8821 :=
  if width = 16 then
    (0, nau8821_sema_release (regmap_update_bits s h.NAU8821_REG_I2S_PCM_CTRL1
      h.NAU8821_I2S_DL_MASK (0 ||| h.NAU8821_I2S_DL_16)))
  else if width = 20 then
    (0, nau8821_sema_release (regmap_update_bits s h.NAU8821_REG_I2S_PCM_CTRL1
      h.NAU8821_I2S_DL_MASK (0 ||| h.NAU8821_I2S_DL_20)))
  else if width = 24 then
    (0, nau8821_sema_release (regmap_update_bits s h.NAU8821_REG_I2S_PCM_CTRL1
      h.NAU8821_I2S_DL_MASK (0 ||| h.NAU8821_I2S_DL_24)))
  else if width = 32 then
    (0, nau8821_sema_release (regmap_update_bits s h.NAU8821_REG_I2S_PCM_CTRL1
      h.NAU8821_I2S_DL_MASK (0 ||| h.NAU8821_I2S_DL_32)))
  else (-EINVAL, nau8821_sema_release s)

/-- The call that programs the divider fields for bit-clock divider code `bclk_div`:
`regmap_update_bits(.., NAU8821_REG_I2S_PCM_CTRL2, NAU8821_I2S_LRC_DIV_MASK |
NAU8821_I2S_BLK_DIV_MASK, ((bclk_div + 1) << NAU8821_I2S_LRC_DIV_SFT) | bclk_div)`. -/
def nau8821_hw_params_set_div (h : nau8821_h) (s : nau8821) (bclk_div : Nat) : nau8821 :=
  regmap_update_bits s h.NAU8821_REG_I2S_PCM_CTRL2
    (h.NAU8821_I2S_LRC_DIV_MASK ||| h.NAU8821_I2S_BLK_DIV_MASK)
    (((bclk_div + 1) <<< h.NAU8821_I2S_LRC_DIV_SFT) ||| bclk_div)

/-- The middle of `nau8821_hw_params`, from the comment "make BCLK and LRC divde
configuration if the codec as master" on. `bclk` is the `int` returned by
`snd_soc_params_to_bclk(params)`; the quotient `bclk / params_rate(params)` is an
unsigned division, undefined (`none`) when the rate is 0. -/
def nau8821_hw_params_dividers (h : nau8821_h) (s : nau8821) (rate : Nat) (width bclk : Int) :
    Option (Int × nau8821) :=
  if regmap_read s h.NAU8821_REG_I2S_PCM_CTRL2 &&& h.NAU8821_I2S_MS_MASTER ≠ 0 then
    if rate = 0 then none
    else if to_unsigned bclk / rate ≤ 32 then
      some (nau8821_hw_params_width h (nau8821_hw_params_set_div h s 2) width)
    else if to_unsigned bclk / rate ≤ 64 then
      some (nau8821_hw_params_width h (nau8821_hw_params_set_div h s 1) width)
    else if to_unsigned bclk / rate ≤ 128 then
      some (nau8821_hw_params_width h (nau8821_hw_params_set_div h s 0) width)
    else some (-EINVAL, nau8821_sema_release s)
  else some (nau8821_hw_params_width h s width)

/-- The function `nau8821_hw_params(substream, params, dai)`; `stream` is
`substream->stream`, `rate` is `params_rate(params)`, `width` is
`params_width(params)` and `bclk` is `snd_soc_params_to_bclk(params)`. -/
def nau8821_hw_params (h : nau8821_h) (s : nau8821) (stream : Int) (rate : Nat)
    (width bclk : Int) : Option (Int × nau8821) :=
  let s1 := (nau8821_sema_acquire s HZ).2
  if stream = SNDRV_PCM_STREAM_PLAYBACK then
    let osr := regmap_read s1 h.NAU8821_REG_DAC_CTRL1 &&& h.NAU8821_DAC_OVERSAMPLE_MASK
    if nau8821_clock_check stream (to_int rate) (to_int osr) ≠ 0 then
      some (-EINVAL, nau8821_sema_release s1)
    else
      nau8821_hw_params_dividers h
        (regmap_update_bits s1 h.NAU8821_REG_CLK_DIVIDER h.NAU8821_CLK_DAC_SRC_MASK
          (((osr_at osr_dac_sel osr).clk_src <<< h.NAU8821_CLK_DAC_SRC_SFT) % 2 ^ 32))
        rate width bclk
  else
    let osr := regmap_read s1 h.NAU8821_REG_ADC_RATE &&& h.NAU8821_ADC_SYNC_DOWN_MASK
    if nau8821_clock_check stream (to_int rate) (to_int osr) ≠ 0 then
      some (-EINVAL, nau8821_sema_release s1)
    else
      nau8821_hw_params_dividers h
        (regmap_update_bits s1 h.NAU8821_REG_CLK_DIVIDER h.NAU8821_CLK_ADC_SRC_MASK
          (((osr_at osr_adc_sel osr).clk_src <<< h.NAU8821_CLK_ADC_SRC_SFT) % 2 ^ 32))
        rate width bclk

/-- The value of `ctrl2_val` after the first `switch` of `nau8821_set_dai_fmt`, or
`none` on its `default` branch. -/
def set_dai_fmt_master (h : nau8821_h) (fmt : Nat) : Option Nat :=
  if fmt &&& SND_SOC_DAIFMT_MASTER_MASK = SND_SOC_DAIFMT_CBM_CFM then
    some (0 ||| h.NAU8821_I2S_MS_MASTER)
  else if fmt &&& SND_SOC_DAIFMT_MASTER_MASK = SND_SOC_DAIFMT_CBS_CFS then some 0
  else none

/-- The value of `ctrl1_val` after the second `switch`, or `none` on its `default`. -/
def set_dai_fmt_inv (h : nau8821_h) (fmt : Nat) : Option Nat :=
  if fmt &&& SND_SOC_DAIFMT_INV_MASK = SND_SOC_DAIFMT_NB_NF then some 0
  else if fmt &&& SND_SOC_DAIFMT_INV_MASK = SND_SOC_DAIFMT_IB_NF then
    some (0 ||| h.NAU8821_I2S_BP_INV)
  else none

/-- The value of `ctrl1_val` after the third `switch`, or `none` on its `default`. -/
def set_dai_fmt_format (h : nau8821_h) (fmt ctrl1_val : Nat) : Option Nat :=
  if fmt &&& SND_SOC_DAIFMT_FORMAT_MASK = SND_SOC_DAIFMT_I2S then
    some (ctrl1_val ||| h.NAU8821_I2S_DF_I2S)
  else if fmt &&& SND_SOC_DAIFMT_FORMAT_MASK = SND_SOC_DAIFMT_LEFT_J then
    some (ctrl1_val ||| h.NAU8821_I2S_DF_LEFT)
  else if fmt &&& SND_SOC_DAIFMT_FORMAT_MASK = SND_SOC_DAIFMT_RIGHT_J then
    some (ctrl1_val ||| h.NAU8821_I2S_DF_RIGTH)
  else if fmt &&& SND_SOC_DAIFMT_FORMAT_MASK = SND_SOC_DAIFMT_DSP_A then
    some (ctrl1_val ||| h.NAU8821_I2S_DF_PCM_AB)
  else if fmt &&& SND_SOC_DAIFMT_FORMAT_MASK = SND_SOC_DAIFMT_DSP_B then
    some ((ctrl1_val ||| h.NAU8821_I2S_DF_PCM_AB) ||| h.NAU8821_I2S_PCMB_EN)
  else none

/-- The function `nau8821_set_dai_fmt(codec_dai, fmt)`. -/
def nau8821_set_dai_fmt (h : nau8821_h) (s : nau8821) (fmt : Nat) : Int × nau8821 :=
  match set_dai_fmt_master h fmt with
  | none => (-EINVAL, s)
  | some ctrl2_val =>
    match set_dai_fmt_inv h fmt with
    | none => (-EINVAL, s)
    | some ctrl1_inv =>
      match set_dai_fmt_format h fmt ctrl1_inv with
      | none => (-EINVAL, s)
      | some ctrl1_val =>
        let s1 := (nau8821_sema_acquire s HZ).2
        let s2 := regmap_update_bits s1 h.NAU8821_REG_I2S_PCM_CTRL1
          (h.NAU8821_I2S_DL_MASK ||| h.NAU8821_I2S_DF_MASK ||| h.NAU8821_I2S_BP_MASK |||
            h.NAU8821_I2S_PCMB_MASK) ctrl1_val
        let s3 := regmap_update_bits s2 h.NAU8821_REG_I2S_PCM_CTRL2
          h.NAU8821_I2S_MS_MASK ctrl2_val
        (0, nau8821_sema_release s3)

/-! ## Clock source -/

/-- The function `nau8821_is_jack_inserted(regmap)`. -/
def nau8821_is_jack_inserted (h : nau8821_h) (s : nau8821) : Bool :=
  let active_high : Bool :=
    decide (regmap_read s h.NAU8821_REG_JACK_DET_CTRL &&& h.NAU8821_JACK_POLARITY ≠ 0)
  let is_high : Bool :=
    decide (regmap_read s h.NAU8821_REG_GENERAL_STATUS &&& h.NAU8821_GPIO2_IN ≠ 0)
  active_high == is_high

/-- The function `nau8821_configure_mclk_as_sysclk(regmap)`. -/
def nau8821_configure_mclk_as_sysclk (h : nau8821_h) (s : nau8821) : nau8821 :=
  let s := regmap_update_bits s h.NAU8821_REG_CLK_DIVIDER
    h.NAU8821_CLK_SRC_MASK h.NAU8821_CLK_SRC_MCLK
  let s := regmap_update_bits s h.NAU8821_REG_FLL6 h.NAU8821_DCO_EN 0
  regmap_update_bits s h.NAU8821_REG_FLL1 h.NAU8821_ICTRL_LATCH_MASK 0

/-- The `case NAU8821_CLK_INTERNAL` of `nau8821_configure_sysclk`. -/
def nau8821_configure_sysclk_internal (h : nau8821_h) (s : nau8821) : nau8821 :=
  if nau8821_is_jack_inserted h s then
    let s := regmap_update_bits s h.NAU8821_REG_FLL6 h.NAU8821_DCO_EN h.NAU8821_DCO_EN
    let s := regmap_update_bits s h.NAU8821_REG_CLK_DIVIDER
      h.NAU8821_CLK_SRC_MASK h.NAU8821_CLK_SRC_VCO
    let s := regmap_update_bits s h.NAU8821_REG_CLK_DIVIDER h.NAU8821_CLK_MCLK_SRC_MASK 0xf
    let s := regmap_update_bits s h.NAU8821_REG_FLL1
      (h.NAU8821_ICTRL_LATCH_MASK ||| h.NAU8821_FLL_RATIO_MASK) 0x10
    regmap_update_bits s h.NAU8821_REG_FLL6 h.NAU8821_SDM_EN h.NAU8821_SDM_EN
  else nau8821_configure_mclk_as_sysclk h s

/-- The function `nau8821_configure_sysclk(nau8821, clk_id, freq)`. -/
def nau8821_configure_sysclk (h : nau8821_h) (s : nau8821) (clk_id : Int) (_freq : Nat) :
    Int × nau8821 :=
  if clk_id = h.NAU8821_CLK_DIS then
    (0, { nau8821_configure_mclk_as_sysclk h s with clk_id := clk_id })
  else if clk_id = h.NAU8821_CLK_MCLK then
    let s := (nau8821_sema_acquire s HZ).2
    let s := nau8821_configure_mclk_as_sysclk h s
    let s := regmap_update_bits s h.NAU8821_REG_CLK_DIVIDER h.NAU8821_CLK_MCLK_SRC_MASK 0
    (0, { nau8821_sema_release s with clk_id := clk_id })
  else if clk_id = h.NAU8821_CLK_INTERNAL then
    (0, { nau8821_configure_sysclk_internal h s with clk_id := clk_id })
  else if clk_id = h.NAU8821_CLK_FLL_MCLK then
    let s := (nau8821_sema_acquire s HZ).2
    let s := regmap_update_bits s h.NAU8821_REG_FLL3
      (h.NAU8821_FLL_CLK_SRC_MASK ||| h.NAU8821_GAIN_ERR_MASK)
      (h.NAU8821_FLL_CLK_SRC_MCLK ||| 0)
    (0, { nau8821_sema_release s with clk_id := clk_id })
  else if clk_id = h.NAU8821_CLK_FLL_BLK then
    let s := (nau8821_sema_acquire s HZ).2
    let s := regmap_update_bits s h.NAU8821_REG_FLL3
      (h.NAU8821_FLL_CLK_SRC_MASK ||| h.NAU8821_GAIN_ERR_MASK)
      (h.NAU8821_FLL_CLK_SRC_BLK ||| (0xf <<< h.NAU8821_GAIN_ERR_SFT))
    (0, { nau8821_sema_release s with clk_id := clk_id })
  else if clk_id = h.NAU8821_CLK_FLL_FS then
    let s := (nau8821_sema_acquire s HZ).2
    let s := regmap_update_bits s h.NAU8821_REG_FLL3
      (h.NAU8821_FLL_CLK_SRC_MASK ||| h.NAU8821_GAIN_ERR_MASK)
      (h.NAU8821_FLL_CLK_SRC_FS ||| (0xf <<< h.NAU8821_GAIN_ERR_SFT))
    (0, { nau8821_sema_release s with clk_id := clk_id })
  else (-EINVAL, s)

/-- The function `nau8821_fll_apply(nau8821, fll_param)`; the `int` fields of
`fll_param` reach regmap as `unsigned int` values. -/
def nau8821_fll_apply (h : nau8821_h) (s : nau8821) (fll_param : nau8821_fll) : nau8821 :=
  let s := regmap_update_bits s h.NAU8821_REG_CLK_DIVIDER
    (h.NAU8821_CLK_SRC_MASK ||| h.NAU8821_CLK_MCLK_SRC_MASK)
    (h.NAU8821_CLK_SRC_MCLK ||| to_unsigned fll_param.mclk_src)
  let s := regmap_update_bits s h.NAU8821_REG_FLL1
    (h.NAU8821_FLL_RATIO_MASK ||| h.NAU8821_ICTRL_LATCH_MASK)
    (to_unsigned fll_param.ratio ||| (0x6 <<< h.NAU8821_ICTRL_LATCH_SFT))
  let s := regmap_write s h.NAU8821_REG_FLL7 ((to_unsigned fll_param.fll_frac >>> 16) &&& 0xff)
  let s := regmap_write s h.NAU8821_REG_FLL8 (to_unsigned fll_param.fll_frac &&& 0xffff)
  let s := regmap_update_bits s h.NAU8821_REG_FLL3 h.NAU8821_FLL_INTEGER_MASK
    (to_unsigned fll_param.fll_int)
  let s := regmap_update_bits s h.NAU8821_REG_FLL4
    (h.NAU8821_HIGHBW_EN ||| h.NAU8821_FLL_REF_DIV_MASK)
    (h.NAU8821_HIGHBW_EN |||
      (to_unsigned fll_param.clk_ref_div <<< h.NAU8821_FLL_REF_DIV_SFT) % 2 ^ 32)
  let s := regmap_update_bits s h.NAU8821_REG_FLL5
    h.NAU8821_FLL_CLK_SW_MASK h.NAU8821_FLL_CLK_SW_REF
  let s := regmap_update_bits s h.NAU8821_REG_FLL6 h.NAU8821_DCO_EN 0
  if fll_param.fll_frac ≠ 0 then
    let s := regmap_update_bits s h.NAU8821_REG_FLL5
      (h.NAU8821_FLL_PDB_DAC_EN ||| h.NAU8821_FLL_LOOP_FTR_EN ||| h.NAU8821_FLL_FTR_SW_MASK)
      (h.NAU8821_FLL_PDB_DAC_EN ||| h.NAU8821_FLL_LOOP_FTR_EN ||| h.NAU8821_FLL_FTR_SW_FILTER)
    regmap_update_bits s h.NAU8821_REG_FLL6
      (h.NAU8821_SDM_EN ||| h.NAU8821_CUTOFF500) (h.NAU8821_SDM_EN ||| h.NAU8821_CUTOFF500)
  else
    let s := regmap_update_bits s h.NAU8821_REG_FLL5
      (h.NAU8821_FLL_PDB_DAC_EN ||| h.NAU8821_FLL_LOOP_FTR_EN ||| h.NAU8821_FLL_FTR_SW_MASK)
      h.NAU8821_FLL_FTR_SW_ACCU
    regmap_update_bits s h.NAU8821_REG_FLL6 (h.NAU8821_SDM_EN ||| h.NAU8821_CUTOFF500) 0

/-- The function `nau8821_set_fll(component, pll_id, source, freq_in, freq_out)`. The
local `fll_set_param` is uninitialised in C; all its fields are assigned when the
calculation succeeds and it is not used otherwise, so the model starts it at zero. -/
def nau8821_set_fll (h : nau8821_h) (s : nau8821) (freq_in freq_out : Nat) : Int × nau8821 :=
  let r := nau8821_calc_fll_param freq_in (freq_out >>> 8) ⟨0, 0, 0, 0, 0⟩
  if r.1 ≠ 0 then (r.1, s)
  else
    let s := nau8821_fll_apply h s r.2
    let s := emit s (Event.mdelay 2)
    (0, regmap_update_bits s h.NAU8821_REG_CLK_DIVIDER
      h.NAU8821_CLK_SRC_MASK h.NAU8821_CLK_SRC_VCO)

/-! ## Jack detection -/

/-- The function `nau8821_restart_jack_detection(regmap)`. -/
def nau8821_restart_jack_detection (h : nau8821_h) (s : nau8821) : nau8821 :=
  let s := regmap_update_bits s h.NAU8821_REG_JACK_DET_CTRL
    h.NAU8821_JACK_DET_RESTART h.NAU8821_JACK_DET_RESTART
  regmap_update_bits s h.NAU8821_REG_JACK_DET_CTRL h.NAU8821_JACK_DET_RESTART 0

/-- The loop of `nau8821_int_status_clear_all`:
`for (i = 0; i < NAU8821_REG_DATA_LEN; i++) { clear_irq = (0x1 << i);
if (active_irq & clear_irq) regmap_write(regmap, NAU8821_REG_INT_CLR_KEY_STATUS, clear_irq); }`;
the first argument counts the iterations left. -/
def int_status_clear_loop (h : nau8821_h) (active_irq : Nat) : Nat → Nat → nau8821 → nau8821
  | 0, _, s => s
  | n + 1, i, s =>
    if active_irq &&& (0x1 <<< i) ≠ 0 then
      int_status_clear_loop h active_irq n (i + 1)
        (regmap_write s h.NAU8821_REG_INT_CLR_KEY_STATUS (0x1 <<< i))
    else int_status_clear_loop h active_irq n (i + 1) s

/-- The function `nau8821_int_status_clear_all(regmap)`. -/
def nau8821_int_status_clear_all (h : nau8821_h) (s : nau8821) : nau8821 :=
  int_status_clear_loop h (regmap_read s h.NAU8821_REG_IRQ_STATUS) h.NAU8821_REG_DATA_LEN 0 s

/-- The function `nau8821_eject_jack(nau8821)`. -/
def nau8821_eject_jack (h : nau8821_h) (s : nau8821) : nau8821 :=
  let s := nau8821_sema_reset s
  let s := regmap_update_bits s h.NAU8821_REG_MIC_BIAS h.NAU8821_MICBIAS_JKR2 0
  let s := regmap_update_bits s h.NAU8821_REG_JACK_DET_CTRL
    (h.NAU8821_SPKR_DWN1R ||| h.NAU8821_SPKR_DWN1L) 0
  let s := emit s Event.dapm_sync
  let s := nau8821_int_status_clear_all h s
  let s := regmap_update_bits s h.NAU8821_REG_INTERRUPT_DIS_CTRL
    (h.NAU8821_IRQ_EJECT_DIS ||| h.NAU8821_IRQ_INSERT_DIS) h.NAU8821_IRQ_EJECT_DIS
  let s := regmap_update_bits s h.NAU8821_REG_INTERRUPT_MASK
    (h.NAU8821_IRQ_EJECT_EN ||| h.NAU8821_IRQ_INSERT_EN) h.NAU8821_IRQ_EJECT_EN
  let s := regmap_update_bits s h.NAU8821_REG_JACK_DET_CTRL
    h.NAU8821_JACK_DET_DB_BYPASS h.NAU8821_JACK_DET_DB_BYPASS
  let s := regmap_update_bits s h.NAU8821_REG_ENA_CTRL
    (h.NAU8821_EN_ADCR ||| h.NAU8821_EN_ADCL) 0
  (nau8821_configure_sysclk h s h.NAU8821_CLK_DIS 0).2

/-- The function `nau8821_setup_auto_irq(nau8821)`. -/
def nau8821_setup_auto_irq (h : nau8821_h) (s : nau8821) : nau8821 :=
  let s := (nau8821_configure_sysclk h s h.NAU8821_CLK_INTERNAL 0).2
  let s := regmap_update_bits s h.NAU8821_REG_ENA_CTRL
    (h.NAU8821_EN_ADCR ||| h.NAU8821_EN_ADCL) (h.NAU8821_EN_ADCR ||| h.NAU8821_EN_ADCL)
  let s := regmap_update_bits s h.NAU8821_REG_I2S_PCM_CTRL2
    h.NAU8821_I2S_MS_MASK h.NAU8821_I2S_MS_MASTER
  let s := regmap_update_bits s h.NAU8821_REG_I2S_PCM_CTRL2
    h.NAU8821_I2S_MS_MASK h.NAU8821_I2S_MS_SLAVE
  let s := regmap_update_bits s h.NAU8821_REG_JACK_DET_CTRL h.NAU8821_JACK_DET_DB_BYPASS 0
  let s := regmap_update_bits s h.NAU8821_REG_INTERRUPT_MASK
    (h.NAU8821_IRQ_EJECT_EN ||| h.NAU8821_IRQ_MIC_DET_EN |||
      h.NAU8821_IRQ_KEY_RELEASE_EN ||| h.NAU8821_IRQ_KEY_PRESS_EN) 0
  let s := regmap_update_bits s h.NAU8821_REG_INTERRUPT_DIS_CTRL
    (h.NAU8821_IRQ_EJECT_DIS ||| h.NAU8821_IRQ_MIC_DIS |||
      h.NAU8821_IRQ_KEY_RELEASE_DIS ||| h.NAU8821_IRQ_KEY_PRESS_DIS) 0
  nau8821_restart_jack_detection h s

/-- The function `nau8821_jack_insert(nau8821)`: the jack type and the new state. -/
def nau8821_jack_insert (h : nau8821_h) (s : nau8821) : Nat × nau8821 :=
  if regmap_read s h.NAU8821_REG_I2C_DEVICE_ID &&& h.NAU8821_MICDET ≠ 0 then
    let s := regmap_update_bits s h.NAU8821_REG_MIC_BIAS
      h.NAU8821_MICBIAS_JKR2 h.NAU8821_MICBIAS_JKR2
    let s := emit s Event.dapm_force_enable_pin
    (SND_JACK_HEADSET, emit s Event.dapm_sync)
  else (SND_JACK_HEADPHONE, s)

/-- The call `snd_soc_jack_report(nau8821->jack, event, event_mask)`. -/
def snd_soc_jack_report (s : nau8821) (event event_mask : Nat) : nau8821 :=
  emit s (Event.jack_report event event_mask)

/-- The locals of `nau8821_interrupt` after its `if ... else if` chain. -/
structure irq_locals where
  dev : nau8821
  clear_irq : Nat
  event : Nat
  event_mask : Nat

/-- The `if ... else if` chain of `nau8821_interrupt` on the status word `active_irq`;
the locals start as `clear_irq = 0, event = 0, event_mask = 0`. -/
def nau8821_interrupt_dispatch (h : nau8821_h) (s : nau8821) (active_irq : Nat) : irq_locals :=
  if active_irq &&& h.NAU8821_JACK_EJECT_IRQ_MASK = h.NAU8821_JACK_EJECT_DETECTED then
    ⟨nau8821_eject_jack h s, h.NAU8821_JACK_EJECT_IRQ_MASK, 0, 0 ||| SND_JACK_HEADSET⟩
  else if active_irq &&& h.NAU8821_KEY_SHORT_PRESS_IRQ ≠ 0 then
    ⟨s, h.NAU8821_KEY_SHORT_PRESS_IRQ, 0 ||| NAU8821_BUTTON, 0 ||| NAU8821_BUTTON⟩
  else if active_irq &&& h.NAU8821_KEY_RELEASE_IRQ ≠ 0 then
    ⟨s, h.NAU8821_KEY_RELEASE_IRQ, 0, NAU8821_BUTTON⟩
  else if active_irq &&& h.NAU8821_JACK_INSERT_IRQ_MASK = h.NAU8821_JACK_INSERT_DETECTED then
    if nau8821_is_jack_inserted h s then
      if s.clk_id = h.NAU8821_CLK_DIS then
        let s := regmap_update_bits s h.NAU8821_REG_INTERRUPT_DIS_CTRL
          h.NAU8821_IRQ_INSERT_DIS h.NAU8821_IRQ_INSERT_DIS
        let s := regmap_update_bits s h.NAU8821_REG_INTERRUPT_MASK
          h.NAU8821_IRQ_INSERT_EN h.NAU8821_IRQ_INSERT_EN
        ⟨nau8821_setup_auto_irq h s, 0, 0, 0⟩
      else
        ⟨nau8821_sema_release (nau8821_jack_insert h s).2, 0,
          0 ||| (nau8821_jack_insert h s).1, 0 ||| SND_JACK_HEADSET⟩
    else ⟨nau8821_eject_jack h s, 0, 0, 0⟩
  else ⟨s, 0, 0, 0⟩

/-- The function `nau8821_interrupt(irq, data)`: the `irqreturn_t` and the new state. -/
def nau8821_interrupt (h : nau8821_h) (s : nau8821) : Int × nau8821 :=
  if regmap_read_ret s ≠ 0 then (IRQ_NONE, s)
  else
    let active_irq := regmap_read s h.NAU8821_REG_IRQ_STATUS
    let l := nau8821_interrupt_dispatch h s active_irq
    let clear_irq := if l.clear_irq = 0 then active_irq else l.clear_irq
    let s := regmap_write l.dev h.NAU8821_REG_INT_CLR_KEY_STATUS clear_irq
    if l.event_mask ≠ 0 then (IRQ_HANDLED, snd_soc_jack_report s l.event l.event_mask)
    else (IRQ_HANDLED, s)

/-! ## Component callbacks -/

/-- The function `nau8821_codec_remove(component)`. -/
def nau8821_codec_remove (s : nau8821) : nau8821 :=
  if s.irq ≠ 0 then nau8821_sema_reset s else s

/-- The function `nau8821_resume_setup(nau8821)`. -/
def nau8821_resume_setup (h : nau8821_h) (s : nau8821) : Int × nau8821 :=
  let s := (nau8821_configure_sysclk h s h.NAU8821_CLK_DIS 0).2
  if s.irq ≠ 0 then
    let s := nau8821_int_status_clear_all h s
    let s := regmap_update_bits s h.NAU8821_REG_INTERRUPT_MASK
      (h.NAU8821_IRQ_EJECT_EN ||| h.NAU8821_IRQ_INSERT_EN) 0
    let s := regmap_update_bits s h.NAU8821_REG_JACK_DET_CTRL
      h.NAU8821_JACK_DET_DB_BYPASS h.NAU8821_JACK_DET_DB_BYPASS
    (0, regmap_update_bits s h.NAU8821_REG_INTERRUPT_DIS_CTRL
      (h.NAU8821_IRQ_INSERT_DIS ||| h.NAU8821_IRQ_EJECT_DIS) 0)
  else (0, s)

/-- The function `nau8821_set_bias_level(component, level)`; the current level
`snd_soc_component_get_bias_level(component)` is `s.bias_level`. -/
def nau8821_set_bias_level (h : nau8821_h) (s : nau8821) (level : Int) : Int × nau8821 :=
  if level = SND_SOC_BIAS_ON then (0, s)
  else if level = SND_SOC_BIAS_PREPARE then (0, s)
  else if level = SND_SOC_BIAS_STANDBY then
    if s.bias_level = SND_SOC_BIAS_OFF then (0, (nau8821_resume_setup h s).2) else (0, s)
  else if level = SND_SOC_BIAS_OFF then
    let s := regmap_update_bits s h.NAU8821_REG_JACK_DET_CTRL
      (h.NAU8821_SPKR_DWN1R ||| h.NAU8821_SPKR_DWN1L) 0
    if s.irq ≠ 0 then
      let s := nau8821_sema_reset s
      let s := regmap_update_bits s h.NAU8821_REG_MIC_BIAS h.NAU8821_MICBIAS_JKR2 0
      let s := regmap_write s h.NAU8821_REG_INTERRUPT_DIS_CTRL 0xffff
      let s := regmap_update_bits s h.NAU8821_REG_INTERRUPT_MASK
        (h.NAU8821_IRQ_EJECT_EN ||| h.NAU8821_IRQ_INSERT_EN)
        (h.NAU8821_IRQ_EJECT_EN ||| h.NAU8821_IRQ_INSERT_EN)
      (0, regmap_update_bits s h.NAU8821_REG_ENA_CTRL
        (h.NAU8821_EN_ADCR ||| h.NAU8821_EN_ADCL) 0)
    else (0, s)
  else (0, s)

/-- The sound core changing the bias level: the callback runs with the old level
still current, and the new level is recorded when the callback returns 0
(`snd_soc_component_force_bias_level`, `snd_soc_dapm_set_bias_level`). -/
def snd_soc_component_force_bias_level (h : nau8821_h) (s : nau8821) (level : Int) :
    Int × nau8821 :=
  let r := nau8821_set_bias_level h s level
  if r.1 = 0 then (0, { r.2 with bias_level := level }) else r

/-- The function `nau8821_suspend(component)`. -/
def nau8821_suspend (h : nau8821_h) (s : nau8821) : Int × nau8821 :=
  let s := if s.irq ≠ 0 then emit s Event.disable_irq else s
  let s := (snd_soc_component_force_bias_level h s SND_SOC_BIAS_OFF).2
  let s := emit s Event.dapm_disable_pin
  let s := emit s Event.dapm_sync
  let s := emit s (Event.regcache_cache_only true)
  (0, emit s Event.regcache_mark_dirty)

/-- The function `nau8821_resume(component)`. -/
def nau8821_resume (s : nau8821) : Int × nau8821 :=
  let s := emit s (Event.regcache_cache_only false)
  let s := emit s Event.regcache_sync
  if s.irq ≠ 0 then
    let s := (nau8821_sema_acquire s 0).2
    (0, emit s Event.enable_irq)
  else (0, s)

/-- The function `nau8821_setup_irq(nau8821)`; `sema_init(&nau8821->jd_sem, 1)` sets the
count to 1. -/
def nau8821_setup_irq (h : nau8821_h) (s : nau8821) : Int × nau8821 :=
  let s := { s with jd_sem := 1 }
  let s := regmap_update_bits s h.NAU8821_REG_GPIO12_CTRL h.NAU8821_JKDET_OUTPUT_EN
    (if s.jkdet_enable then 0 else h.NAU8821_JKDET_OUTPUT_EN)
  let s := regmap_update_bits s h.NAU8821_REG_GPIO12_CTRL h.NAU8821_JKDET_PULL_EN
    (if s.jkdet_pull_enable then 0 else h.NAU8821_JKDET_PULL_EN)
  let s := regmap_update_bits s h.NAU8821_REG_GPIO12_CTRL h.NAU8821_JKDET_PULL_UP
    (if s.jkdet_pull_up then h.NAU8821_JKDET_PULL_UP else 0)
  let s := regmap_update_bits s h.NAU8821_REG_JACK_DET_CTRL h.NAU8821_JACK_POLARITY
    (if s.jkdet_polarity ≠ 0 then 0 else h.NAU8821_JACK_POLARITY)
  let s := regmap_update_bits s h.NAU8821_REG_JACK_DET_CTRL
    h.NAU8821_JACK_INSERT_DEBOUNCE_MASK
    ((s.jack_insert_debounce <<< h.NAU8821_JACK_INSERT_DEBOUNCE_SFT) % 2 ^ 32)
  let s := regmap_update_bits s h.NAU8821_REG_JACK_DET_CTRL
    h.NAU8821_JACK_EJECT_DEBOUNCE_MASK
    ((s.jack_eject_debounce <<< h.NAU8821_JACK_EJECT_DEBOUNCE_SFT) % 2 ^ 32)
  let s := regmap_update_bits s h.NAU8821_REG_INTERRUPT_MASK
    (h.NAU8821_IRQ_PIN_PULL_UP ||| h.NAU8821_IRQ_PIN_PULL_EN ||| h.NAU8821_IRQ_OUTPUT_EN)
    (h.NAU8821_IRQ_PIN_PULL_UP ||| h.NAU8821_IRQ_PIN_PULL_EN ||| h.NAU8821_IRQ_OUTPUT_EN)
  (0, regmap_update_bits s h.NAU8821_REG_INTERRUPT_MASK 0x3f5 0x3f5)

/-! ## Runs of driver operations -/

/-- One step of a sequential run: a driver entry point called by the sound core
or the interrupt line, or the hardware changing what a register reads or
whether the bus fails. -/
inductive Op where
  | hardware (reg val : Nat)
  | bus (error : Bool)
  | interrupt
  | hw_params (stream : Int) (rate : Nat) (width bclk : Int)
  | set_dai_fmt (fmt : Nat)
  | configure_sysclk (clk_id : Int) (freq : Nat)
  | set_bias_level (level : Int)
  | suspend
  | resume
  | codec_remove
  deriving DecidableEq, Repr

/-- The state after one operation; `none` when the operation is undefined (the
division by a zero rate in `nau8821_hw_params`). -/
def step (h : nau8821_h) (s : nau8821) : Op → Option nau8821
  | Op.hardware reg val =>
    some { s with regmap := fun r => if r = reg then val else s.regmap r }
  | Op.bus error => some { s with bus_error := error }
  | Op.interrupt => some (nau8821_interrupt h s).2
  | Op.hw_params stream rate width bclk =>
    (nau8821_hw_params h s stream rate width bclk).map Prod.snd
  | Op.set_dai_fmt fmt => some (nau8821_set_dai_fmt h s fmt).2
  | Op.configure_sysclk clk_id freq => some (nau8821_configure_sysclk h s clk_id freq).2
  | Op.set_bias_level level => some (snd_soc_component_force_bias_level h s level).2
  | Op.suspend => some (nau8821_suspend h s).2
  | Op.resume => some (nau8821_resume s).2
  | Op.codec_remove => some (nau8821_codec_remove s)

/-- The state after a finite sequence of operations run one after another. -/
def run (h : nau8821_h) : nau8821 → List Op → Option nau8821
  | s, [] => some s
  | s, op :: ops =>
    match step h s op with
    | none => none
    | some s1 => run h s1 ops

/-! ## Reading the log -/

/-- Whether an event is an operation on the semaphore `jd_sem`. -/
def is_gate_event : Event → Bool
  | Event.down_timeout _ _ => true
  | Event.down_trylock _ => true
  | Event.up => true
  | Event.sema_reset => true
  | _ => false

/-- The semaphore operations of a log, in order. -/
def gate_events (l : List Event) : List Event :=
  l.filter is_gate_event

/-- Whether an event is a `regmap_write` or `regmap_update_bits` on register `reg`. -/
def is_write_to (reg : Nat) : Event → Bool
  | Event.reg_write r _ => decide (r = reg)
  | Event.reg_update r _ _ => decide (r = reg)
  | _ => false

/-- The regmap writes and updates of a log that address register `reg`, in order. -/
def writes_to (reg : Nat) (l : List Event) : List Event :=
  l.filter (is_write_to reg)

/-- Whether an event is a jack report. -/
def is_jack_report : Event → Bool
  | Event.jack_report _ _ => true
  | _ => false

/-- The jack reports of a log, in order. -/
def jack_reports (l : List Event) : List Event :=
  l.filter is_jack_report

/-- The second state differs from the first only in the register file and in log
entries that are neither semaphore operations nor jack reports. -/
def regs_only (s s1 : nau8821) : Prop :=
  s1.irq = s.irq ∧ s1.jd_sem = s.jd_sem ∧ s1.clk_id = s.clk_id ∧
  s1.bus_error = s.bus_error ∧ s1.bias_level = s.bias_level ∧
  gate_events s1.log = gate_events s.log ∧ jack_reports s1.log = jack_reports s.log

/-- Whether `nau8821_interrupt` on this state completes an insertion in auto-precision
mode, the branch that calls `nau8821_jack_insert` and `nau8821_sema_release`: the
status read succeeds, neither the eject pattern nor a key bit matches, the insert
pattern matches, the jack reads inserted and the recorded clock source is not
`NAU8821_CLK_DIS`. -/
def completes_insert (h : nau8821_h) (s : nau8821) : Bool :=
  decide (regmap_read_ret s = 0) &&
  !decide (regmap_read s h.NAU8821_REG_IRQ_STATUS &&& h.NAU8821_JACK_EJECT_IRQ_MASK =
    h.NAU8821_JACK_EJECT_DETECTED) &&
  decide (regmap_read s h.NAU8821_REG_IRQ_STATUS &&& h.NAU8821_KEY_SHORT_PRESS_IRQ = 0) &&
  decide (regmap_read s h.NAU8821_REG_IRQ_STATUS &&& h.NAU8821_KEY_RELEASE_IRQ = 0) &&
  decide (regmap_read s h.NAU8821_REG_IRQ_STATUS &&& h.NAU8821_JACK_INSERT_IRQ_MASK =
    h.NAU8821_JACK_INSERT_DETECTED) &&
  nau8821_is_jack_inserted h s &&
  !decide (s.clk_id = h.NAU8821_CLK_DIS)

/-- The number of interrupts in a run that complete an insertion in auto-precision
mode, counted along the states the run goes through. -/
def insert_completions (h : nau8821_h) : nau8821 → List Op → Nat
  | _, [] => 0
  | s, op :: ops =>
    (if op = Op.interrupt ∧ completes_insert h s = true then 1 else 0) +
    match step h s op with
    | none => 0
    | some s1 => insert_completions h s1 ops

/-! ## Well-formedness of the header -/

/-- The registers the modelled functions address, by name. -/
inductive reg_name where
  | ENA_CTRL | CLK_DIVIDER | FLL1 | FLL3 | FLL4 | FLL5 | FLL6 | FLL7 | FLL8
  | JACK_DET_CTRL | INTERRUPT_MASK | IRQ_STATUS | INT_CLR_KEY_STATUS | INTERRUPT_DIS_CTRL
  | GPIO12_CTRL | I2S_PCM_CTRL1 | I2S_PCM_CTRL2 | ADC_RATE | DAC_CTRL1 | I2C_DEVICE_ID
  | MIC_BIAS | GENERAL_STATUS
  deriving DecidableEq, Fintype

/-- The address the header gives to a register name (`NAU8821_REG_...`). -/
def reg_addr (h : nau8821_h) : reg_name → Nat
  | reg_name.ENA_CTRL => h.NAU8821_REG_ENA_CTRL
  | reg_name.CLK_DIVIDER => h.NAU8821_REG_CLK_DIVIDER
  | reg_name.FLL1 => h.NAU8821_REG_FLL1
  | reg_name.FLL3 => h.NAU8821_REG_FLL3
  | reg_name.FLL4 => h.NAU8821_REG_FLL4
  | reg_name.FLL5 => h.NAU8821_REG_FLL5
  | reg_name.FLL6 => h.NAU8821_REG_FLL6
  | reg_name.FLL7 => h.NAU8821_REG_FLL7
  | reg_name.FLL8 => h.NAU8821_REG_FLL8
  | reg_name.JACK_DET_CTRL => h.NAU8821_REG_JACK_DET_CTRL
  | reg_name.INTERRUPT_MASK => h.NAU8821_REG_INTERRUPT_MASK
  | reg_name.IRQ_STATUS => h.NAU8821_REG_IRQ_STATUS
  | reg_name.INT_CLR_KEY_STATUS => h.NAU8821_REG_INT_CLR_KEY_STATUS
  | reg_name.INTERRUPT_DIS_CTRL => h.NAU8821_REG_INTERRUPT_DIS_CTRL
  | reg_name.GPIO12_CTRL => h.NAU8821_REG_GPIO12_CTRL
  | reg_name.I2S_PCM_CTRL1 => h.NAU8821_REG_I2S_PCM_CTRL1
  | reg_name.I2S_PCM_CTRL2 => h.NAU8821_REG_I2S_PCM_CTRL2
  | reg_name.ADC_RATE => h.NAU8821_REG_ADC_RATE
  | reg_name.DAC_CTRL1 => h.NAU8821_REG_DAC_CTRL1
  | reg_name.I2C_DEVICE_ID => h.NAU8821_REG_I2C_DEVICE_ID
  | reg_name.MIC_BIAS => h.NAU8821_REG_MIC_BIAS
  | reg_name.GENERAL_STATUS => h.NAU8821_REG_GENERAL_STATUS

/-- The header gives different registers different addresses. -/
def regs_distinct (h : nau8821_h) : Prop :=
  ∀ a b : reg_name, reg_addr h a = reg_addr h b → a = b

/-- The clock identifiers of the header's `enum`, by name. -/
inductive clk_name where
  | DIS | MCLK | INTERNAL | FLL_MCLK | FLL_BLK | FLL_FS
  deriving DecidableEq, Fintype

/-- The value the header gives to a clock identifier (`NAU8821_CLK_...`). -/
def clk_value (h : nau8821_h) : clk_name → Int
  | clk_name.DIS => h.NAU8821_CLK_DIS
  | clk_name.MCLK => h.NAU8821_CLK_MCLK
  | clk_name.INTERNAL => h.NAU8821_CLK_INTERNAL
  | clk_name.FLL_MCLK => h.NAU8821_CLK_FLL_MCLK
  | clk_name.FLL_BLK => h.NAU8821_CLK_FLL_BLK
  | clk_name.FLL_FS => h.NAU8821_CLK_FLL_FS

/-- The enumerators of the header's clock `enum` have different values. -/
def clk_ids_distinct (h : nau8821_h) : Prop :=
  ∀ a b : clk_name, clk_value h a = clk_value h b → a = b

/-- The device after the hardware has changed what its registers read. -/
def with_regs (s : nau8821) (regmap : Nat → Nat) : nau8821 :=
  { s with regmap := regmap }

/-- Whether an event is a register access that sets the bit `NAU8821_MICBIAS_JKR2` of
the mic-bias register. -/
def is_micbias_enable (h : nau8821_h) : Event → Bool
  | Event.reg_write r v =>
    decide (r = h.NAU8821_REG_MIC_BIAS) && decide (v &&& h.NAU8821_MICBIAS_JKR2 ≠ 0)
  | Event.reg_update r m v =>
    decide (r = h.NAU8821_REG_MIC_BIAS) && decide (v &&& m &&& h.NAU8821_MICBIAS_JKR2 ≠ 0)
  | _ => false

/-- The writes `nau8821_int_status_clear_all` issues for the status word `active_irq`: one
write of the single bit `1 << i` to the clear register for every set bit `i` below
`NAU8821_REG_DATA_LEN`, in increasing order. -/
def clear_all_writes (h : nau8821_h) (active_irq : Nat) : List Event :=
  ((List.range h.NAU8821_REG_DATA_LEN).filter
    (fun i => decide (active_irq &&& (0x1 <<< i) ≠ 0))).map
    (fun i => Event.reg_write h.NAU8821_REG_INT_CLR_KEY_STATUS (0x1 <<< i))

/-- A driver step `F` acts on the register file field by field: each bit of each register
is either left as it was or forced to a value that does not depend on the state. -/
def bitwise_fields (F : nau8821 → nau8821) : Prop :=
  ∀ r i, (∀ s, ((F s).regmap r).testBit i = (s.regmap r).testBit i) ∨
    (∃ b, ∀ s, ((F s).regmap r).testBit i = b)

/-- The bit fields of the FLL5 and FLL6 registers the way `nau8821_fll_apply` uses them: the
free-running enable lies outside the modulator and cutoff bits, the loop-filter
enables lie outside the filter-switch field, and both filter-switch codes lie
inside that field. -/
def fll_fields_disjoint (h : nau8821_h) : Prop :=
  h.NAU8821_DCO_EN &&& (h.NAU8821_SDM_EN ||| h.NAU8821_CUTOFF500) = 0 ∧
  (h.NAU8821_FLL_PDB_DAC_EN ||| h.NAU8821_FLL_LOOP_FTR_EN) &&& h.NAU8821_FLL_FTR_SW_MASK = 0 ∧
  h.NAU8821_FLL_FTR_SW_ACCU &&& h.NAU8821_FLL_FTR_SW_MASK = h.NAU8821_FLL_FTR_SW_ACCU ∧
  h.NAU8821_FLL_FTR_SW_FILTER &&& h.NAU8821_FLL_FTR_SW_MASK = h.NAU8821_FLL_FTR_SW_FILTER

/-! ## The machine driver pisound-nau8821.c -/

/-- The table `bcm2835_rates_12000000` of the sample rates the machine driver offers. -/
def bcm2835_rates_12000000 : List Nat :=
  [8000, 16000, 32000, 44100, 48000, 96000, 88200]

/-- The arguments `(freq_in, freq_out)` of the `snd_soc_dai_set_pll` call in
`pisound_nau8821_hw_params`, frame sync as the FLL reference: `params_rate(params)` and the
`unsigned int` product `params_rate(params) * 256`. -/
def pisound_nau8821_set_pll_args (rate : Nat) : Nat × Nat :=
  (rate, (rate * 256) % 2 ^ 32)

/-! ## A concrete device for running the model -/

/-- An assignment of the header constants following the register map of the NAU88L21
(16-bit registers, interrupt status at 0x10, clear register at 0x11). It is used
only to run the model on concrete inputs; no general theorem depends on it. -/
def sample_h : nau8821_h where
  NAU8821_REG_ENA_CTRL := 0x01
  NAU8821_REG_CLK_DIVIDER := 0x03
  NAU8821_REG_FLL1 := 0x04
  NAU8821_REG_FLL3 := 0x06
  NAU8821_REG_FLL4 := 0x07
  NAU8821_REG_FLL5 := 0x08
  NAU8821_REG_FLL6 := 0x09
  NAU8821_REG_FLL7 := 0x0a
  NAU8821_REG_FLL8 := 0x0b
  NAU8821_REG_JACK_DET_CTRL := 0x0d
  NAU8821_REG_INTERRUPT_MASK := 0x0f
  NAU8821_REG_IRQ_STATUS := 0x10
  NAU8821_REG_INT_CLR_KEY_STATUS := 0x11
  NAU8821_REG_INTERRUPT_DIS_CTRL := 0x12
  NAU8821_REG_GPIO12_CTRL := 0x1a
  NAU8821_REG_I2S_PCM_CTRL1 := 0x1c
  NAU8821_REG_I2S_PCM_CTRL2 := 0x1d
  NAU8821_REG_ADC_RATE := 0x2b
  NAU8821_REG_DAC_CTRL1 := 0x2c
  NAU8821_REG_I2C_DEVICE_ID := 0x58
  NAU8821_REG_MIC_BIAS := 0x74
  NAU8821_REG_GENERAL_STATUS := 0x82
  NAU8821_REG_DATA_LEN := 16
  NAU8821_EN_ADCR := 0x1 <<< 9
  NAU8821_EN_ADCL := 0x1 <<< 8
  NAU8821_CLK_SRC_MASK := 0x1 <<< 15
  NAU8821_CLK_SRC_VCO := 0x1 <<< 15
  NAU8821_CLK_SRC_MCLK := 0x0 <<< 15
  NAU8821_CLK_ADC_SRC_SFT := 6
  NAU8821_CLK_ADC_SRC_MASK := 0x3 <<< 6
  NAU8821_CLK_DAC_SRC_SFT := 4
  NAU8821_CLK_DAC_SRC_MASK := 0x3 <<< 4
  NAU8821_CLK_MCLK_SRC_MASK := 0xf
  NAU8821_ICTRL_LATCH_SFT := 10
  NAU8821_ICTRL_LATCH_MASK := 0x7 <<< 10
  NAU8821_FLL_RATIO_MASK := 0x7f
  NAU8821_GAIN_ERR_SFT := 12
  NAU8821_GAIN_ERR_MASK := 0xf <<< 12
  NAU8821_FLL_CLK_SRC_MASK := 0x3 <<< 10
  NAU8821_FLL_CLK_SRC_FS := 0x3 <<< 10
  NAU8821_FLL_CLK_SRC_BLK := 0x2 <<< 10
  NAU8821_FLL_CLK_SRC_MCLK := 0x0 <<< 10
  NAU8821_FLL_INTEGER_MASK := 0x3ff
  NAU8821_HIGHBW_EN := 0x1 <<< 15
  NAU8821_FLL_REF_DIV_SFT := 10
  NAU8821_FLL_REF_DIV_MASK := 0x3 <<< 10
  NAU8821_FLL_PDB_DAC_EN := 0x1 <<< 15
  NAU8821_FLL_LOOP_FTR_EN := 0x1 <<< 14
  NAU8821_FLL_CLK_SW_MASK := 0x1 <<< 13
  NAU8821_FLL_CLK_SW_REF := 0x0 <<< 13
  NAU8821_FLL_FTR_SW_MASK := 0x1 <<< 12
  NAU8821_FLL_FTR_SW_ACCU := 0x1 <<< 12
  NAU8821_FLL_FTR_SW_FILTER := 0x0 <<< 12
  NAU8821_DCO_EN := 0x1 <<< 15
  NAU8821_SDM_EN := 0x1 <<< 14
  NAU8821_CUTOFF500 := 0x1 <<< 13
  NAU8821_JACK_DET_RESTART := 0x1 <<< 9
  NAU8821_JACK_DET_DB_BYPASS := 0x1 <<< 8
  NAU8821_JACK_INSERT_DEBOUNCE_SFT := 5
  NAU8821_JACK_INSERT_DEBOUNCE_MASK := 0x7 <<< 5
  NAU8821_JACK_EJECT_DEBOUNCE_SFT := 2
  NAU8821_JACK_EJECT_DEBOUNCE_MASK := 0x7 <<< 2
  NAU8821_JACK_POLARITY := 0x1 <<< 1
  NAU8821_SPKR_DWN1R := 0x1 <<< 15
  NAU8821_SPKR_DWN1L := 0x1 <<< 14
  NAU8821_IRQ_PIN_PULL_UP := 0x1 <<< 14
  NAU8821_IRQ_PIN_PULL_EN := 0x1 <<< 13
  NAU8821_IRQ_OUTPUT_EN := 0x1 <<< 11
  NAU8821_IRQ_KEY_RELEASE_EN := 0x1 <<< 7
  NAU8821_IRQ_KEY_PRESS_EN := 0x1 <<< 6
  NAU8821_IRQ_MIC_DET_EN := 0x1 <<< 4
  NAU8821_IRQ_EJECT_EN := 0x1 <<< 2
  NAU8821_IRQ_INSERT_EN := 0x1
  NAU8821_KEY_RELEASE_IRQ := 0x1 <<< 7
  NAU8821_KEY_SHORT_PRESS_IRQ := 0x1 <<< 6
  NAU8821_JACK_EJECT_IRQ_MASK := 0x3 <<< 2
  NAU8821_JACK_EJECT_DETECTED := 0x1 <<< 2
  NAU8821_JACK_INSERT_IRQ_MASK := 0x3
  NAU8821_JACK_INSERT_DETECTED := 0x1
  NAU8821_IRQ_KEY_RELEASE_DIS := 0x1 <<< 7
  NAU8821_IRQ_KEY_PRESS_DIS := 0x1 <<< 6
  NAU8821_IRQ_MIC_DIS := 0x1 <<< 4
  NAU8821_IRQ_EJECT_DIS := 0x1 <<< 2
  NAU8821_IRQ_INSERT_DIS := 0x1
  NAU8821_JKDET_OUTPUT_EN := 0x1 <<< 8
  NAU8821_JKDET_PULL_EN := 0x1 <<< 9
  NAU8821_JKDET_PULL_UP := 0x1 <<< 11
  NAU8821_I2S_BP_MASK := 0x1 <<< 7
  NAU8821_I2S_BP_INV := 0x1 <<< 7
  NAU8821_I2S_PCMB_MASK := 0x1 <<< 6
  NAU8821_I2S_PCMB_EN := 0x1 <<< 6
  NAU8821_I2S_DL_MASK := 0x3 <<< 2
  NAU8821_I2S_DL_32 := 0x3 <<< 2
  NAU8821_I2S_DL_24 := 0x2 <<< 2
  NAU8821_I2S_DL_20 := 0x1 <<< 2
  NAU8821_I2S_DL_16 := 0x0 <<< 2
  NAU8821_I2S_DF_MASK := 0x3
  NAU8821_I2S_DF_PCM_AB := 0x3
  NAU8821_I2S_DF_I2S := 0x2
  NAU8821_I2S_DF_LEFT := 0x1
  NAU8821_I2S_DF_RIGTH := 0x0
  NAU8821_I2S_LRC_DIV_SFT := 12
  NAU8821_I2S_LRC_DIV_MASK := 0x3 <<< 12
  NAU8821_I2S_MS_MASK := 0x1 <<< 3
  NAU8821_I2S_MS_MASTER := 0x1 <<< 3
  NAU8821_I2S_MS_SLAVE := 0x0 <<< 3
  NAU8821_I2S_BLK_DIV_MASK := 0x7
  NAU8821_ADC_SYNC_DOWN_MASK := 0x3
  NAU8821_DAC_OVERSAMPLE_MASK := 0x7
  NAU8821_MICDET := 0x1 <<< 6
  NAU8821_MICBIAS_JKR2 := 0x1 <<< 12
  NAU8821_GPIO2_IN := 0x1 <<< 1
  NAU8821_CLK_DIS := 0
  NAU8821_CLK_MCLK := 1
  NAU8821_CLK_INTERNAL := 2
  NAU8821_CLK_FLL_MCLK := 3
  NAU8821_CLK_FLL_BLK := 4
  NAU8821_CLK_FLL_FS := 5

/-- A device as `nau8821_i2c_probe` allocates it (zeroed, properties at their
defaults), with interrupt line `irq` and register file `regmap`. -/
def sample_dev (irq : Int) (regmap : Nat → Nat) : nau8821 where
  regmap := regmap
  bus_error := false
  irq := irq
  jd_sem := 0
  clk_id := 0
  jkdet_enable := false
  jkdet_pull_enable := false
  jkdet_pull_up := false
  jkdet_polarity := 1
  micbias_voltage := 6
  vref_impedance := 2
  jack_insert_debounce := 7
  jack_eject_debounce := 0
  bias_level := SND_SOC_BIAS_OFF
  log := []

/-- A register file that reads 0 everywhere except at the listed addresses. -/
def regs_of (l : List (Nat × Nat)) : Nat → Nat :=
  fun r => ((l.find? (fun p => p.1 == r)).map Prod.snd).getD 0

/-! ## Stage lemmas for nau8821_calc_fll_param -/

theorem pre_scalar_loop_table (fll_in : Nat) :
    pre_scalar_loop fll_in fll_pre_scalar 0 0 =
      if fll_in ≤ 13500000 then (0, fll_in)
      else if fll_in / 2 ≤ 13500000 then (1, fll_in / 2)
      else if fll_in / 4 ≤ 13500000 then (2, fll_in / 4)
      else if fll_in / 8 ≤ 13500000 then (3, fll_in / 8)
      else (4, fll_in / 8) := by
  simp [pre_scalar_loop, fll_pre_scalar, NAU_FREF_MAX]

theorem ratio_loop_table (fref : Nat) :
    ratio_loop fref fll_ratio 0 =
      if 512000 ≤ fref then 0
      else if 256000 ≤ fref then 1
      else if 128000 ≤ fref then 2
      else if 64000 ≤ fref then 3
      else if 32000 ≤ fref then 4
      else if 8000 ≤ fref then 5
      else if 4000 ≤ fref then 6
      else 7 := by
  simp [ratio_loop, fll_ratio]

theorem calc_fll_clk_ref_div (fll_in fs : Nat) (p0 : nau8821_fll)
    (h : (pre_scalar_loop fll_in fll_pre_scalar 0 0).1 ≠ fll_pre_scalar.length) :
    (nau8821_calc_fll_param fll_in fs p0).2.clk_ref_div =
      ((attr_at fll_pre_scalar (pre_scalar_loop fll_in fll_pre_scalar 0 0).1).val : Int) := by
  unfold nau8821_calc_fll_param
  simp only [if_neg h]
  split_ifs <;> rfl

theorem calc_fll_pre_scalar_fail (fll_in fs : Nat) (p0 : nau8821_fll)
    (h : (pre_scalar_loop fll_in fll_pre_scalar 0 0).1 = fll_pre_scalar.length) :
    nau8821_calc_fll_param fll_in fs p0 = (-EINVAL, p0) := by
  unfold nau8821_calc_fll_param
  simp only [if_pos h]

theorem pre_scalar_fail_iff (fll_in : Nat) :
    (pre_scalar_loop fll_in fll_pre_scalar 0 0).1 = fll_pre_scalar.length ↔
      13500000 < fll_in / 8 := by
  rw [pre_scalar_loop_table]
  simp only [fll_pre_scalar, List.length_cons, List.length_nil]
  split_ifs <;> simp <;> omega

/-- C2: the divider search of `nau8821_calc_fll_param` leaves the loop at the smallest
divisor `d` of the increasing table 1, 2, 4, 8 with `fll_in / d <= 13500000`, the
function stores that divisor's register code in `clk_ref_div` (whatever the later
steps do), and the search finds nothing, the function then returning `-EINVAL`
with `*fll_param` untouched, exactly when `fll_in / 8 > 13500000`. -/
theorem C2_pre_scalar_smallest_divisor (fll_in fs : Nat) (p0 : nau8821_fll) :
    ((pre_scalar_loop fll_in fll_pre_scalar 0 0).1 = fll_pre_scalar.length ↔
        13500000 < fll_in / 8) ∧
    (13500000 < fll_in / 8 → nau8821_calc_fll_param fll_in fs p0 = (-EINVAL, p0)) ∧
    (fll_in / 8 ≤ 13500000 →
      ∃ a ∈ fll_pre_scalar,
        a = attr_at fll_pre_scalar (pre_scalar_loop fll_in fll_pre_scalar 0 0).1 ∧
        (pre_scalar_loop fll_in fll_pre_scalar 0 0).2 = fll_in / a.param ∧
        fll_in / a.param ≤ 13500000 ∧
        (∀ b ∈ fll_pre_scalar, fll_in / b.param ≤ 13500000 → a.param ≤ b.param) ∧
        (nau8821_calc_fll_param fll_in fs p0).2.clk_ref_div = (a.val : Int)) := by
  refine ⟨pre_scalar_fail_iff fll_in, ?_, ?_⟩
  · intro h
    exact calc_fll_pre_scalar_fail fll_in fs p0 ((pre_scalar_fail_iff fll_in).2 h)
  · intro h
    have hne : (pre_scalar_loop fll_in fll_pre_scalar 0 0).1 ≠ fll_pre_scalar.length := by
      rw [Ne, pre_scalar_fail_iff]; omega
    refine ⟨_, ?_, rfl, ?_, ?_, ?_, calc_fll_clk_ref_div fll_in fs p0 hne⟩
    all_goals rw [pre_scalar_loop_table]
    all_goals split_ifs <;> simp [attr_at, fll_pre_scalar] <;> try omega

/-- C2 at `fll_in = 27000001`: divisor 1 leaves 27000001 > 13500000, divisor 2 leaves
13500000, so the loop stops at index 1 and `clk_ref_div` holds the code 0x1. -/
theorem C2_pre_scalar_smallest_divisor_witness :
    (27000001 : Nat) / 8 ≤ 13500000 ∧
    pre_scalar_loop 27000001 fll_pre_scalar 0 0 = (1, 13500000) ∧
    ∃ a ∈ fll_pre_scalar,
      a = attr_at fll_pre_scalar (pre_scalar_loop 27000001 fll_pre_scalar 0 0).1 ∧
      (∀ b ∈ fll_pre_scalar, 27000001 / b.param ≤ 13500000 → a.param ≤ b.param) ∧
      (nau8821_calc_fll_param 27000001 48000 ⟨0, 0, 0, 0, 0⟩).2.clk_ref_div = (a.val : Int) :=
  ⟨by decide, by decide,
    ((C2_pre_scalar_smallest_divisor 27000001 48000 ⟨0, 0, 0, 0, 0⟩).2.2 (by decide)).imp
      (fun _ ha => ⟨ha.1, ha.2.1, ha.2.2.2.2.1, ha.2.2.2.2.2⟩)⟩

theorem pre_scalar_fref_le (fll_in : Nat)
    (h : (pre_scalar_loop fll_in fll_pre_scalar 0 0).1 ≠ fll_pre_scalar.length) :
    (pre_scalar_loop fll_in fll_pre_scalar 0 0).2 ≤ 13500000 := by
  revert h
  rw [pre_scalar_loop_table]
  split_ifs <;> simp [fll_pre_scalar] <;> omega

theorem ratio_fail_iff (fref : Nat) :
    ratio_loop fref fll_ratio 0 = fll_ratio.length ↔ fref < 4000 := by
  rw [ratio_loop_table]
  simp only [fll_ratio, List.length_cons, List.length_nil]
  split_ifs <;> simp <;> omega

theorem calc_fll_ratio_fail (fll_in fs : Nat) (p0 : nau8821_fll)
    (h1 : (pre_scalar_loop fll_in fll_pre_scalar 0 0).1 ≠ fll_pre_scalar.length)
    (h2 : ratio_loop (pre_scalar_loop fll_in fll_pre_scalar 0 0).2 fll_ratio 0 =
      fll_ratio.length) :
    (nau8821_calc_fll_param fll_in fs p0).1 = -EINVAL := by
  unfold nau8821_calc_fll_param
  simp only [if_neg h1, if_pos h2]

theorem calc_fll_ratio (fll_in fs : Nat) (p0 : nau8821_fll)
    (h1 : (pre_scalar_loop fll_in fll_pre_scalar 0 0).1 ≠ fll_pre_scalar.length)
    (h2 : ratio_loop (pre_scalar_loop fll_in fll_pre_scalar 0 0).2 fll_ratio 0 ≠
      fll_ratio.length) :
    (nau8821_calc_fll_param fll_in fs p0).2.ratio =
      ((attr_at fll_ratio
        (ratio_loop (pre_scalar_loop fll_in fll_pre_scalar 0 0).2 fll_ratio 0)).val : Int) := by
  unfold nau8821_calc_fll_param
  simp only [if_neg h1, if_neg h2]
  split_ifs <;> rfl

/-- C3: when the divider step of `nau8821_calc_fll_param` has produced a reference
frequency `fref`, the ratio loop stops at the first entry of the descending table
`fll_ratio` whose threshold is `<= fref` (every earlier threshold is above `fref`),
the function stores that entry's ratio value in `ratio`, and the loop finds
nothing, the function then returning `-EINVAL`, exactly when `fref < 4000`. -/
theorem C3_ratio_first_threshold (fll_in fs : Nat) (p0 : nau8821_fll)
    (hdiv : (pre_scalar_loop fll_in fll_pre_scalar 0 0).1 ≠ fll_pre_scalar.length) :
    (ratio_loop (pre_scalar_loop fll_in fll_pre_scalar 0 0).2 fll_ratio 0 = fll_ratio.length ↔
        (pre_scalar_loop fll_in fll_pre_scalar 0 0).2 < 4000) ∧
    ((pre_scalar_loop fll_in fll_pre_scalar 0 0).2 < 4000 →
        (nau8821_calc_fll_param fll_in fs p0).1 = -EINVAL) ∧
    (4000 ≤ (pre_scalar_loop fll_in fll_pre_scalar 0 0).2 →
      ratio_loop (pre_scalar_loop fll_in fll_pre_scalar 0 0).2 fll_ratio 0 < fll_ratio.length ∧
      (attr_at fll_ratio
          (ratio_loop (pre_scalar_loop fll_in fll_pre_scalar 0 0).2 fll_ratio 0)).param ≤
        (pre_scalar_loop fll_in fll_pre_scalar 0 0).2 ∧
      (∀ j, j < ratio_loop (pre_scalar_loop fll_in fll_pre_scalar 0 0).2 fll_ratio 0 →
        (pre_scalar_loop fll_in fll_pre_scalar 0 0).2 < (attr_at fll_ratio j).param) ∧
      (nau8821_calc_fll_param fll_in fs p0).2.ratio =
        ((attr_at fll_ratio
          (ratio_loop (pre_scalar_loop fll_in fll_pre_scalar 0 0).2 fll_ratio 0)).val : Int)) := by
  generalize hf : (pre_scalar_loop fll_in fll_pre_scalar 0 0).2 = fref
  refine ⟨ratio_fail_iff fref, ?_, ?_⟩
  · intro h
    exact calc_fll_ratio_fail fll_in fs p0 hdiv (by rw [hf]; exact (ratio_fail_iff fref).2 h)
  · intro h
    have hne : ratio_loop fref fll_ratio 0 ≠ fll_ratio.length := by
      rw [Ne, ratio_fail_iff]; omega
    have hr := calc_fll_ratio fll_in fs p0 hdiv (by rw [hf]; exact hne)
    rw [hf] at hr
    refine ⟨?_, ?_, ?_, hr⟩
    · rw [ratio_loop_table]
      simp only [fll_ratio, List.length_cons, List.length_nil]
      split_ifs <;> omega
    · rw [ratio_loop_table]
      split_ifs <;> simp [attr_at, fll_ratio] <;> omega
    · intro j hj
      rw [ratio_loop_table] at hj
      split_ifs at hj <;> interval_cases j <;> simp [attr_at, fll_ratio] <;> omega

/-- C3 at 12 MHz: the divider step gives `fref = 12000000` and the ratio step stops at
the first entry (threshold 512000, ratio value 1). -/
theorem C3_ratio_first_threshold_witness :
    (pre_scalar_loop 12000000 fll_pre_scalar 0 0).1 ≠ fll_pre_scalar.length ∧
    ratio_loop (pre_scalar_loop 12000000 fll_pre_scalar 0 0).2 fll_ratio 0 = 0 ∧
    (nau8821_calc_fll_param 12000000 48000 ⟨0, 0, 0, 0, 0⟩).2.ratio = 1 :=
  ⟨by decide, by decide,
    ((C3_ratio_first_threshold 12000000 48000 ⟨0, 0, 0, 0, 0⟩ (by decide)).2.2
      (by decide)).2.2.2.trans (by decide)⟩

theorem attr_at_of_drop (t rest : List nau8821_fll_attr) (a : nau8821_fll_attr) (i : Nat)
    (hd : t.drop i = a :: rest) : attr_at t i = a ∧ t.drop (i + 1) = rest := by
  constructor
  · have h0 : (t.drop i)[0]? = some a := by rw [hd]; simp
    rw [List.getElem?_drop] at h0
    simp only [attr_at, List.getD_eq_getElem?_getD]
    simpa using congrArg (fun o => Option.getD o (⟨0, 0⟩ : nau8821_fll_attr)) h0
  · have h1 : (t.drop i).drop 1 = rest := by rw [hd]; rfl
    rw [List.drop_drop] at h1
    rw [← h1, Nat.add_comm]

/-- Invariant of the VCO loop after the entries of index below `i` have been visited:
either nothing was selected and no visited candidate lies in the open interval,
or the selected index points at a visited in-range candidate that bounds every
visited in-range candidate. -/
theorem fvco_loop_inv (fs N : Nat) (t : List nau8821_fll_attr) :
    ∀ (rest : List nau8821_fll_attr) (i : Nat) (acc : Nat × Nat),
      t.drop i = rest → i + rest.length = t.length →
      ((acc = (0, N) ∧ ∀ j, j < i →
          ¬ (NAU_FVCO_MIN < fvco_candidate fs (attr_at t j) ∧
             fvco_candidate fs (attr_at t j) < NAU_FVCO_MAX)) ∨
        (acc.2 < i ∧ acc.1 = fvco_candidate fs (attr_at t acc.2) ∧
          NAU_FVCO_MIN < acc.1 ∧ acc.1 < NAU_FVCO_MAX ∧
          ∀ j, j < i → NAU_FVCO_MIN < fvco_candidate fs (attr_at t j) →
            fvco_candidate fs (attr_at t j) < NAU_FVCO_MAX →
            fvco_candidate fs (attr_at t j) ≤ acc.1)) →
      (((fvco_loop fs rest i acc) = (0, N) ∧ ∀ j, j < t.length →
          ¬ (NAU_FVCO_MIN < fvco_candidate fs (attr_at t j) ∧
             fvco_candidate fs (attr_at t j) < NAU_FVCO_MAX)) ∨
        ((fvco_loop fs rest i acc).2 < t.length ∧
          (fvco_loop fs rest i acc).1 =
            fvco_candidate fs (attr_at t (fvco_loop fs rest i acc).2) ∧
          NAU_FVCO_MIN < (fvco_loop fs rest i acc).1 ∧
          (fvco_loop fs rest i acc).1 < NAU_FVCO_MAX ∧
          ∀ j, j < t.length → NAU_FVCO_MIN < fvco_candidate fs (attr_at t j) →
            fvco_candidate fs (attr_at t j) < NAU_FVCO_MAX →
            fvco_candidate fs (attr_at t j) ≤ (fvco_loop fs rest i acc).1)) := by
  intro rest
  induction rest with
  | nil =>
    intro i acc _ hlen hinv
    simp only [List.length_nil, Nat.add_zero] at hlen
    subst hlen
    simpa [fvco_loop] using hinv
  | cons a rest ih =>
    intro i acc hd hlen hinv
    obtain ⟨ha, hd1⟩ := attr_at_of_drop t rest a i hd
    have hlen1 : i + 1 + rest.length = t.length := by
      simp only [List.length_cons] at hlen; omega
    simp only [fvco_loop]
    split_ifs with hc
    · apply ih (i + 1) _ hd1 hlen1
      right
      obtain ⟨hc1, hc2, hc3⟩ := hc
      refine ⟨Nat.lt_succ_self i, by simp [ha], hc1, hc2, ?_⟩
      intro j hj hj1 hj2
      rcases Nat.lt_succ_iff_lt_or_eq.1 hj with hlt | heq
      · rcases hinv with ⟨hacc, hno⟩ | ⟨_, _, _, _, hmax⟩
        · exact absurd ⟨hj1, hj2⟩ (hno j hlt)
        · exact le_of_lt (lt_of_le_of_lt (hmax j hlt hj1 hj2) hc3)
      · subst heq; simp [ha]
    · apply ih (i + 1) _ hd1 hlen1
      rcases hinv with ⟨hacc, hno⟩ | ⟨hsel, hval, hlo, hhi, hmax⟩
      · left
        refine ⟨hacc, ?_⟩
        intro j hj
        rcases Nat.lt_succ_iff_lt_or_eq.1 hj with hlt | heq
        · exact hno j hlt
        · subst heq
          rw [ha]
          intro hin
          apply hc
          refine ⟨hin.1, hin.2, ?_⟩
          rw [hacc]
          exact lt_of_le_of_lt (Nat.zero_le _) hin.1
      · right
        refine ⟨Nat.lt_succ_of_lt hsel, hval, hlo, hhi, ?_⟩
        intro j hj hj1 hj2
        rcases Nat.lt_succ_iff_lt_or_eq.1 hj with hlt | heq
        · exact hmax j hlt hj1 hj2
        · subst heq
          rw [ha]
          rw [ha] at hj1 hj2
          by_contra hgt
          exact hc ⟨hj1, hj2, Nat.lt_of_not_le hgt⟩

theorem fvco_candidate_exact (fs : Nat) (hfs : fs < 2 ^ 32) (a : nau8821_fll_attr)
    (ha : a ∈ mclk_src_scaling) : fvco_candidate fs a = 256 * fs * 2 * a.param := by
  have hp : a.param ≤ 96 := by
    simp only [mclk_src_scaling, List.mem_cons, List.mem_singleton, List.mem_nil_iff,
      or_false] at ha
    rcases ha with h | h | h | h | h | h | h | h | h | h | h | h | h <;> subst h <;> decide
  unfold fvco_candidate
  apply Nat.mod_eq_of_lt
  calc 256 * fs * 2 * a.param ≤ 256 * fs * 2 * 96 := Nat.mul_le_mul_left _ hp
    _ < 2 ^ 64 := by omega

theorem attr_at_mem (t : List nau8821_fll_attr) (j : Nat) (hj : j < t.length) :
    attr_at t j ∈ t := by
  simp only [attr_at, List.getD_eq_getElem?_getD, List.getElem?_eq_getElem hj,
    Option.getD_some]
  exact List.getElem_mem hj

theorem exists_attr_at_of_mem (t : List nau8821_fll_attr) (a : nau8821_fll_attr)
    (ha : a ∈ t) : ∃ j, j < t.length ∧ attr_at t j = a := by
  obtain ⟨j, hj, rfl⟩ := List.getElem_of_mem ha
  refine ⟨j, hj, ?_⟩
  simp [attr_at, List.getD_eq_getElem?_getD, List.getElem?_eq_getElem hj]

/-- The VCO loop run from its initial state on the whole table. -/
theorem fvco_loop_table (fs : Nat) :
    ((fvco_loop fs mclk_src_scaling 0 (0, mclk_src_scaling.length)) =
        (0, mclk_src_scaling.length) ∧
      ∀ a ∈ mclk_src_scaling,
        ¬ (NAU_FVCO_MIN < fvco_candidate fs a ∧ fvco_candidate fs a < NAU_FVCO_MAX)) ∨
    ((fvco_loop fs mclk_src_scaling 0 (0, mclk_src_scaling.length)).2 <
        mclk_src_scaling.length ∧
      (fvco_loop fs mclk_src_scaling 0 (0, mclk_src_scaling.length)).1 =
        fvco_candidate fs (attr_at mclk_src_scaling
          (fvco_loop fs mclk_src_scaling 0 (0, mclk_src_scaling.length)).2) ∧
      NAU_FVCO_MIN < (fvco_loop fs mclk_src_scaling 0 (0, mclk_src_scaling.length)).1 ∧
      (fvco_loop fs mclk_src_scaling 0 (0, mclk_src_scaling.length)).1 < NAU_FVCO_MAX ∧
      ∀ b ∈ mclk_src_scaling, NAU_FVCO_MIN < fvco_candidate fs b →
        fvco_candidate fs b < NAU_FVCO_MAX →
        fvco_candidate fs b ≤
          (fvco_loop fs mclk_src_scaling 0 (0, mclk_src_scaling.length)).1) := by
  have h := fvco_loop_inv fs mclk_src_scaling.length mclk_src_scaling mclk_src_scaling 0
    (0, mclk_src_scaling.length) rfl (by simp)
    (Or.inl ⟨rfl, fun j hj => absurd hj (Nat.not_lt_zero j)⟩)
  rcases h with ⟨h1, h2⟩ | ⟨h1, h2, h3, h4, h5⟩
  · left
    refine ⟨h1, fun a ha => ?_⟩
    obtain ⟨j, hj, rfl⟩ := exists_attr_at_of_mem _ a ha
    exact h2 j hj
  · right
    refine ⟨h1, h2, h3, h4, fun b hb => ?_⟩
    obtain ⟨j, hj, rfl⟩ := exists_attr_at_of_mem _ b hb
    exact h5 j hj

theorem calc_fll_vco_fail (fll_in fs : Nat) (p0 : nau8821_fll)
    (h1 : (pre_scalar_loop fll_in fll_pre_scalar 0 0).1 ≠ fll_pre_scalar.length)
    (h2 : ratio_loop (pre_scalar_loop fll_in fll_pre_scalar 0 0).2 fll_ratio 0 ≠
      fll_ratio.length)
    (h3 : mclk_src_scaling.length =
      (fvco_loop fs mclk_src_scaling 0 (0, mclk_src_scaling.length)).2) :
    (nau8821_calc_fll_param fll_in fs p0).1 = -EINVAL := by
  unfold nau8821_calc_fll_param
  simp only [if_neg h1, if_neg h2, if_pos h3]

theorem calc_fll_success (fll_in fs : Nat) (p0 : nau8821_fll)
    (h1 : (pre_scalar_loop fll_in fll_pre_scalar 0 0).1 ≠ fll_pre_scalar.length)
    (h2 : ratio_loop (pre_scalar_loop fll_in fll_pre_scalar 0 0).2 fll_ratio 0 ≠
      fll_ratio.length)
    (h3 : mclk_src_scaling.length ≠
      (fvco_loop fs mclk_src_scaling 0 (0, mclk_src_scaling.length)).2) :
    nau8821_calc_fll_param fll_in fs p0 =
      (0, { mclk_src := ((attr_at mclk_src_scaling
              (fvco_loop fs mclk_src_scaling 0 (0, mclk_src_scaling.length)).2).val : Int),
            ratio := ((attr_at fll_ratio
              (ratio_loop (pre_scalar_loop fll_in fll_pre_scalar 0 0).2 fll_ratio 0)).val : Int),
            fll_frac := ((fll_word
              (fvco_loop fs mclk_src_scaling 0 (0, mclk_src_scaling.length)).1
              (pre_scalar_loop fll_in fll_pre_scalar 0 0).2
              (attr_at fll_ratio
                (ratio_loop (pre_scalar_loop fll_in fll_pre_scalar 0 0).2 fll_ratio 0)).val
                &&& 0xffffff : Nat) : Int),
            fll_int := (((fll_word
              (fvco_loop fs mclk_src_scaling 0 (0, mclk_src_scaling.length)).1
              (pre_scalar_loop fll_in fll_pre_scalar 0 0).2
              (attr_at fll_ratio
                (ratio_loop (pre_scalar_loop fll_in fll_pre_scalar 0 0).2 fll_ratio 0)).val
                >>> 24) &&& 0x3ff : Nat) : Int),
            clk_ref_div := ((attr_at fll_pre_scalar
              (pre_scalar_loop fll_in fll_pre_scalar 0 0).1).val : Int) }) := by
  unfold nau8821_calc_fll_param
  simp only [if_neg h1, if_neg h2, if_neg h3]

/-- The function returns 0 or `-EINVAL`, and 0 exactly when all three searches succeed. -/
theorem calc_fll_ret (fll_in fs : Nat) (p0 : nau8821_fll) :
    ((nau8821_calc_fll_param fll_in fs p0).1 = 0 ∧
      (pre_scalar_loop fll_in fll_pre_scalar 0 0).1 ≠ fll_pre_scalar.length ∧
      ratio_loop (pre_scalar_loop fll_in fll_pre_scalar 0 0).2 fll_ratio 0 ≠
        fll_ratio.length ∧
      mclk_src_scaling.length ≠
        (fvco_loop fs mclk_src_scaling 0 (0, mclk_src_scaling.length)).2) ∨
    ((nau8821_calc_fll_param fll_in fs p0).1 = -EINVAL ∧
      ((pre_scalar_loop fll_in fll_pre_scalar 0 0).1 = fll_pre_scalar.length ∨
      ratio_loop (pre_scalar_loop fll_in fll_pre_scalar 0 0).2 fll_ratio 0 =
        fll_ratio.length ∨
      mclk_src_scaling.length =
        (fvco_loop fs mclk_src_scaling 0 (0, mclk_src_scaling.length)).2)) := by
  by_cases h1 : (pre_scalar_loop fll_in fll_pre_scalar 0 0).1 = fll_pre_scalar.length
  · right
    exact ⟨by rw [calc_fll_pre_scalar_fail fll_in fs p0 h1], Or.inl h1⟩
  · by_cases h2 : ratio_loop (pre_scalar_loop fll_in fll_pre_scalar 0 0).2 fll_ratio 0 =
        fll_ratio.length
    · right
      exact ⟨calc_fll_ratio_fail fll_in fs p0 h1 h2, Or.inr (Or.inl h2)⟩
    · by_cases h3 : mclk_src_scaling.length =
          (fvco_loop fs mclk_src_scaling 0 (0, mclk_src_scaling.length)).2
      · right
        exact ⟨calc_fll_vco_fail fll_in fs p0 h1 h2 h3, Or.inr (Or.inr h3)⟩
      · left
        exact ⟨by rw [calc_fll_success fll_in fs p0 h1 h2 h3], h1, h2, h3⟩

theorem calc_fll_ok_stages (fll_in fs : Nat) (p0 : nau8821_fll)
    (hok : (nau8821_calc_fll_param fll_in fs p0).1 = 0) :
    (pre_scalar_loop fll_in fll_pre_scalar 0 0).1 ≠ fll_pre_scalar.length ∧
    ratio_loop (pre_scalar_loop fll_in fll_pre_scalar 0 0).2 fll_ratio 0 ≠
      fll_ratio.length ∧
    mclk_src_scaling.length ≠
      (fvco_loop fs mclk_src_scaling 0 (0, mclk_src_scaling.length)).2 := by
  rcases calc_fll_ret fll_in fs p0 with h | h
  · exact h.2
  · rw [h.1] at hok
    exact absurd hok (by decide)

/-- C4: for a sample rate `fs` (an `unsigned int`), the VCO loop of
`nau8821_calc_fll_param` finds nothing exactly when no scaling factor `k` of
`mclk_src_scaling` gives `256 * fs * 2 * k` strictly between 90000000 and 124000000;
otherwise `fvco_max` is the value of the selected entry, lies in that open interval
and is the maximum of the in-range values; once the divider and ratio steps have
succeeded the function returns `-EINVAL` exactly in the first case and otherwise
returns 0 with `mclk_src` the register code of the selected scaling factor. -/
theorem C4_vco_target_is_maximum (fll_in fs : Nat) (p0 : nau8821_fll) (hfs : fs < 2 ^ 32) :
    ((fvco_loop fs mclk_src_scaling 0 (0, mclk_src_scaling.length)).2 =
        mclk_src_scaling.length ↔
      ∀ a ∈ mclk_src_scaling,
        ¬ (90000000 < 256 * fs * 2 * a.param ∧ 256 * fs * 2 * a.param < 124000000)) ∧
    ((fvco_loop fs mclk_src_scaling 0 (0, mclk_src_scaling.length)).2 ≠
        mclk_src_scaling.length →
      attr_at mclk_src_scaling
          (fvco_loop fs mclk_src_scaling 0 (0, mclk_src_scaling.length)).2 ∈
        mclk_src_scaling ∧
      (fvco_loop fs mclk_src_scaling 0 (0, mclk_src_scaling.length)).1 =
        256 * fs * 2 * (attr_at mclk_src_scaling
          (fvco_loop fs mclk_src_scaling 0 (0, mclk_src_scaling.length)).2).param ∧
      90000000 < (fvco_loop fs mclk_src_scaling 0 (0, mclk_src_scaling.length)).1 ∧
      (fvco_loop fs mclk_src_scaling 0 (0, mclk_src_scaling.length)).1 < 124000000 ∧
      ∀ b ∈ mclk_src_scaling, 90000000 < 256 * fs * 2 * b.param →
        256 * fs * 2 * b.param < 124000000 →
        256 * fs * 2 * b.param ≤
          (fvco_loop fs mclk_src_scaling 0 (0, mclk_src_scaling.length)).1) ∧
    ((pre_scalar_loop fll_in fll_pre_scalar 0 0).1 ≠ fll_pre_scalar.length →
      ratio_loop (pre_scalar_loop fll_in fll_pre_scalar 0 0).2 fll_ratio 0 ≠
        fll_ratio.length →
      ((nau8821_calc_fll_param fll_in fs p0).1 = -EINVAL ↔
        (fvco_loop fs mclk_src_scaling 0 (0, mclk_src_scaling.length)).2 =
          mclk_src_scaling.length) ∧
      ((fvco_loop fs mclk_src_scaling 0 (0, mclk_src_scaling.length)).2 ≠
          mclk_src_scaling.length →
        (nau8821_calc_fll_param fll_in fs p0).1 = 0 ∧
        (nau8821_calc_fll_param fll_in fs p0).2.mclk_src =
          ((attr_at mclk_src_scaling
            (fvco_loop fs mclk_src_scaling 0 (0, mclk_src_scaling.length)).2).val : Int))) := by
  have hex := fvco_candidate_exact fs hfs
  have htab := fvco_loop_table fs
  simp only [NAU_FVCO_MIN, NAU_FVCO_MAX] at htab
  refine ⟨?_, ?_, ?_⟩
  · constructor
    · intro hsel
      rcases htab with ⟨_, hno⟩ | ⟨hlt, _⟩
      · intro a ha
        have := hno a ha
        rwa [hex a ha] at this
      · omega
    · intro hno
      rcases htab with ⟨heq, _⟩ | ⟨hlt, hval, hlo, hhi, _⟩
      · rw [heq]
      · exfalso
        have hmem := attr_at_mem mclk_src_scaling _ hlt
        rw [hval, hex _ hmem] at hlo hhi
        exact hno _ hmem ⟨hlo, hhi⟩
  · intro hsel
    rcases htab with ⟨heq, _⟩ | ⟨hlt, hval, hlo, hhi, hmax⟩
    · rw [heq] at hsel
      exact absurd rfl hsel
    · have hmem := attr_at_mem mclk_src_scaling _ hlt
      refine ⟨hmem, by rw [← hex _ hmem]; exact hval, hlo, hhi, ?_⟩
      intro b hb hb1 hb2
      have := hmax b hb (by rw [hex b hb]; exact hb1) (by rw [hex b hb]; exact hb2)
      rwa [hex b hb] at this
  · intro h1 h2
    constructor
    · constructor
      · intro hret
        by_contra hne
        rw [calc_fll_success fll_in fs p0 h1 h2 (fun h => hne h.symm)] at hret
        simp [EINVAL] at hret
      · intro hsel
        exact calc_fll_vco_fail fll_in fs p0 h1 h2 hsel.symm
    · intro hsel
      rw [calc_fll_success fll_in fs p0 h1 h2 (fun h => hsel h.symm)]
      exact ⟨rfl, rfl⟩

/-- C4 at `fs = 48000`: the in-range candidates are 98304000 (factor 4) and 122880000
(factor 5); the loop selects index 12 (factor 5, register code 0xf). -/
theorem C4_vco_target_is_maximum_witness :
    (48000 : Nat) < 2 ^ 32 ∧
    (fvco_loop 48000 mclk_src_scaling 0 (0, mclk_src_scaling.length)) = (122880000, 12) ∧
    (nau8821_calc_fll_param 12000000 48000 ⟨0, 0, 0, 0, 0⟩).2.mclk_src = 0xf :=
  ⟨by decide, by decide,
    (((C4_vco_target_is_maximum 12000000 48000 ⟨0, 0, 0, 0, 0⟩ (by decide)).2.2
      (by decide) (by decide)).2 (by decide)).2.trans (by decide)⟩

theorem fref_ratio_bounds (fref : Nat) (hle : fref ≤ 13500000)
    (hne : ratio_loop fref fll_ratio 0 ≠ fll_ratio.length) :
    256000 ≤ fref * (attr_at fll_ratio (ratio_loop fref fll_ratio 0)).val ∧
    fref * (attr_at fll_ratio (ratio_loop fref fll_ratio 0)).val ≤ 13500000 := by
  revert hne
  rw [ratio_loop_table]
  split_ifs <;> simp [attr_at, fll_ratio] <;> omega

theorem fll_word_exact (v fref ratio : Nat) (hv : v < 124000000)
    (hlo : 256000 ≤ fref * ratio) (hhi : fref * ratio ≤ 13500000) :
    fll_word v fref ratio = v * 2 ^ 24 / (fref * ratio) ∧
    fll_word v fref ratio < 2 ^ 34 := by
  have h1 : fll_word v fref ratio = v * 2 ^ 24 / (fref * ratio) := by
    unfold fll_word
    rw [Nat.shiftLeft_eq, Nat.mod_eq_of_lt (by omega : v * 2 ^ 24 < 2 ^ 64),
      Nat.mod_eq_of_lt (by omega : fref * ratio < 2 ^ 32)]
  refine ⟨h1, ?_⟩
  rw [h1]
  apply Nat.div_lt_of_lt_mul
  generalize fref * ratio = d at hlo hhi
  omega

theorem fll_word_fields (w : Nat) (hw : w < 2 ^ 34) :
    (w >>> 24) &&& 0x3ff = w / 2 ^ 24 % 2 ^ 10 ∧ w &&& 0xffffff = w % 2 ^ 24 ∧
    w / 2 ^ 24 % 2 ^ 10 = w / 2 ^ 24 := by
  refine ⟨?_, ?_, ?_⟩
  · rw [Nat.shiftRight_eq_div_pow]
    exact Nat.and_pow_two_sub_one_eq_mod _ 10
  · exact Nat.and_pow_two_sub_one_eq_mod _ 24
  · apply Nat.mod_eq_of_lt
    omega

/-- C5: when `nau8821_calc_fll_param` succeeds, the divisor `fref * ratio` is non-zero
and fits an `unsigned int`, the dividend `fvco_max << 24` fits a `u64`, and with
`w = floor((fvco_max * 2^24) / (fref * ratio))` the result has `fll_int` equal to
bits 33..24 of `w` and `fll_frac` equal to bits 23..0 of `w`. -/
theorem C5_synthesis_word_fields (fll_in fs : Nat) (p0 : nau8821_fll)
    (hok : (nau8821_calc_fll_param fll_in fs p0).1 = 0) :
    ∃ ratio : Nat,
      (nau8821_calc_fll_param fll_in fs p0).2.ratio = (ratio : Int) ∧
      0 < (pre_scalar_loop fll_in fll_pre_scalar 0 0).2 * ratio ∧
      (pre_scalar_loop fll_in fll_pre_scalar 0 0).2 * ratio < 2 ^ 32 ∧
      (fvco_loop fs mclk_src_scaling 0 (0, mclk_src_scaling.length)).1 * 2 ^ 24 < 2 ^ 64 ∧
      (nau8821_calc_fll_param fll_in fs p0).2.fll_int =
        (((fvco_loop fs mclk_src_scaling 0 (0, mclk_src_scaling.length)).1 * 2 ^ 24 /
          ((pre_scalar_loop fll_in fll_pre_scalar 0 0).2 * ratio) / 2 ^ 24 % 2 ^ 10 : Nat) : Int) ∧
      (nau8821_calc_fll_param fll_in fs p0).2.fll_frac =
        (((fvco_loop fs mclk_src_scaling 0 (0, mclk_src_scaling.length)).1 * 2 ^ 24 /
          ((pre_scalar_loop fll_in fll_pre_scalar 0 0).2 * ratio) % 2 ^ 24 : Nat) : Int) := by
  obtain ⟨h1, h2, h3⟩ := calc_fll_ok_stages fll_in fs p0 hok
  have hfref := pre_scalar_fref_le fll_in h1
  obtain ⟨hlo, hhi⟩ := fref_ratio_bounds _ hfref h2
  have hv : (fvco_loop fs mclk_src_scaling 0 (0, mclk_src_scaling.length)).1 < 124000000 := by
    rcases fvco_loop_table fs with ⟨heq, _⟩ | ⟨_, _, _, hlt, _⟩
    · rw [heq]; decide
    · exact hlt
  obtain ⟨hw, hwlt⟩ := fll_word_exact _ _ _ hv hlo hhi
  obtain ⟨hb1, hb2, _⟩ := fll_word_fields _ hwlt
  refine ⟨(attr_at fll_ratio
    (ratio_loop (pre_scalar_loop fll_in fll_pre_scalar 0 0).2 fll_ratio 0)).val, ?_, ?_, ?_, ?_, ?_, ?_⟩
  · rw [calc_fll_success fll_in fs p0 h1 h2 h3]
  · omega
  · omega
  · omega
  · rw [calc_fll_success fll_in fs p0 h1 h2 h3]
    simp only
    rw [hb1, hw]
  · rw [calc_fll_success fll_in fs p0 h1 h2 h3]
    simp only
    rw [hb2, hw]

/-- C5 at 12 MHz and 48 kHz: `w = floor(122880000 * 2^24 / 12000000) = 171798691`, of
which bits 33..24 are 10 and bits 23..0 are 4026531. -/
theorem C5_synthesis_word_fields_witness :
    (nau8821_calc_fll_param 12000000 48000 ⟨0, 0, 0, 0, 0⟩).1 = 0 ∧
    (nau8821_calc_fll_param 12000000 48000 ⟨0, 0, 0, 0, 0⟩).2.fll_int = 10 ∧
    (nau8821_calc_fll_param 12000000 48000 ⟨0, 0, 0, 0, 0⟩).2.fll_frac = 4026531 ∧
    ∃ ratio : Nat,
      (nau8821_calc_fll_param 12000000 48000 ⟨0, 0, 0, 0, 0⟩).2.ratio = (ratio : Int) ∧
      (nau8821_calc_fll_param 12000000 48000 ⟨0, 0, 0, 0, 0⟩).2.fll_frac =
        (((fvco_loop 48000 mclk_src_scaling 0 (0, mclk_src_scaling.length)).1 * 2 ^ 24 /
          ((pre_scalar_loop 12000000 fll_pre_scalar 0 0).2 * ratio) % 2 ^ 24 : Nat) : Int) :=
  ⟨by decide, by decide, by decide,
    (C5_synthesis_word_fields 12000000 48000 ⟨0, 0, 0, 0, 0⟩ (by decide)).imp
      (fun _ h => ⟨h.1, h.2.2.2.2.2⟩)⟩

theorem pre_scalar_sel (fll_in : Nat)
    (h : (pre_scalar_loop fll_in fll_pre_scalar 0 0).1 ≠ fll_pre_scalar.length) :
    attr_at fll_pre_scalar (pre_scalar_loop fll_in fll_pre_scalar 0 0).1 ∈ fll_pre_scalar ∧
    (pre_scalar_loop fll_in fll_pre_scalar 0 0).2 =
      fll_in / (attr_at fll_pre_scalar (pre_scalar_loop fll_in fll_pre_scalar 0 0).1).param := by
  revert h
  rw [pre_scalar_loop_table]
  split_ifs <;> simp [attr_at, fll_pre_scalar]

theorem recon_bounds (v d : Nat) (hv1 : 90000000 < v) (hv2 : v < 124000000)
    (hd1 : 0 < d) (hd2 : d ≤ 13500000) :
    90000000 * 2 ^ 24 ≤ d * (v * 2 ^ 24 / d) ∧ d * (v * 2 ^ 24 / d) < 124000000 * 2 ^ 24 := by
  have h1 : d * (v * 2 ^ 24 / d) ≤ v * 2 ^ 24 := Nat.mul_div_le _ _
  have h2 : v * 2 ^ 24 < d * (v * 2 ^ 24 / d) + d := by
    have := Nat.div_add_mod (v * 2 ^ 24) d
    have hm := Nat.mod_lt (v * 2 ^ 24) hd1
    omega
  generalize d * (v * 2 ^ 24 / d) = x at h1 h2
  omega

/-- C1: `nau8821_calc_fll_param` returns 0 or `-EINVAL`; whenever it returns 0, the
VCO frequency reconstructed from the returned parameters,
`fref * ratio * (fll_int * 2^24 + fll_frac) / 2^24` with `fref = fll_in / d` for the
pre-scale divisor `d` whose register code is in `clk_ref_div`, is at least 90000000
and strictly below 124000000, both as an exact quotient and rounded down. -/
theorem C1_reconstructed_vco_in_range (fll_in fs : Nat) (p0 : nau8821_fll) :
    ((nau8821_calc_fll_param fll_in fs p0).1 = 0 ∨
      (nau8821_calc_fll_param fll_in fs p0).1 = -EINVAL) ∧
    ((nau8821_calc_fll_param fll_in fs p0).1 = 0 →
      ∃ a ∈ fll_pre_scalar,
        (nau8821_calc_fll_param fll_in fs p0).2.clk_ref_div = (a.val : Int) ∧
        (90000000 : Int) * 2 ^ 24 ≤
          ((fll_in / a.param : Nat) : Int) * (nau8821_calc_fll_param fll_in fs p0).2.ratio *
            ((nau8821_calc_fll_param fll_in fs p0).2.fll_int * 2 ^ 24 +
              (nau8821_calc_fll_param fll_in fs p0).2.fll_frac) ∧
        ((fll_in / a.param : Nat) : Int) * (nau8821_calc_fll_param fll_in fs p0).2.ratio *
            ((nau8821_calc_fll_param fll_in fs p0).2.fll_int * 2 ^ 24 +
              (nau8821_calc_fll_param fll_in fs p0).2.fll_frac) < 124000000 * 2 ^ 24 ∧
        (90000000 : Int) ≤
          ((fll_in / a.param : Nat) : Int) * (nau8821_calc_fll_param fll_in fs p0).2.ratio *
            ((nau8821_calc_fll_param fll_in fs p0).2.fll_int * 2 ^ 24 +
              (nau8821_calc_fll_param fll_in fs p0).2.fll_frac) / 2 ^ 24 ∧
        ((fll_in / a.param : Nat) : Int) * (nau8821_calc_fll_param fll_in fs p0).2.ratio *
            ((nau8821_calc_fll_param fll_in fs p0).2.fll_int * 2 ^ 24 +
              (nau8821_calc_fll_param fll_in fs p0).2.fll_frac) / 2 ^ 24 < 124000000) := by
  constructor
  · rcases calc_fll_ret fll_in fs p0 with h | h
    · exact Or.inl h.1
    · exact Or.inr h.1
  · intro hok
    obtain ⟨h1, h2, h3⟩ := calc_fll_ok_stages fll_in fs p0 hok
    have hfref := pre_scalar_fref_le fll_in h1
    obtain ⟨hmem, hfeq⟩ := pre_scalar_sel fll_in h1
    obtain ⟨hlo, hhi⟩ := fref_ratio_bounds _ hfref h2
    obtain ⟨hv1, hv2⟩ :
        90000000 < (fvco_loop fs mclk_src_scaling 0 (0, mclk_src_scaling.length)).1 ∧
        (fvco_loop fs mclk_src_scaling 0 (0, mclk_src_scaling.length)).1 < 124000000 := by
      rcases fvco_loop_table fs with ⟨heq, _⟩ | ⟨_, _, hgt, hlt, _⟩
      · rw [heq] at h3; exact absurd rfl h3
      · exact ⟨hgt, hlt⟩
    obtain ⟨hw, hwlt⟩ := fll_word_exact _ _ _ hv2 hlo hhi
    obtain ⟨hb1, hb2, hb3⟩ := fll_word_fields _ hwlt
    obtain ⟨hr1, hr2⟩ := recon_bounds _ _ hv1 hv2 (by omega : 0 < _) hhi
    refine ⟨_, hmem, ?_, ?_⟩
    · rw [calc_fll_success fll_in fs p0 h1 h2 h3]
    · rw [← hfeq, calc_fll_success fll_in fs p0 h1 h2 h3]
      simp only
      rw [hb1, hb3, hb2]
      have hsum : (((fll_word (fvco_loop fs mclk_src_scaling 0 (0, mclk_src_scaling.length)).1
          (pre_scalar_loop fll_in fll_pre_scalar 0 0).2
          (attr_at fll_ratio
            (ratio_loop (pre_scalar_loop fll_in fll_pre_scalar 0 0).2 fll_ratio 0)).val /
            2 ^ 24 : Nat) : Int) * 2 ^ 24 +
          ((fll_word (fvco_loop fs mclk_src_scaling 0 (0, mclk_src_scaling.length)).1
          (pre_scalar_loop fll_in fll_pre_scalar 0 0).2
          (attr_at fll_ratio
            (ratio_loop (pre_scalar_loop fll_in fll_pre_scalar 0 0).2 fll_ratio 0)).val %
            2 ^ 24 : Nat) : Int)) =
          ((fll_word (fvco_loop fs mclk_src_scaling 0 (0, mclk_src_scaling.length)).1
          (pre_scalar_loop fll_in fll_pre_scalar 0 0).2
          (attr_at fll_ratio
            (ratio_loop (pre_scalar_loop fll_in fll_pre_scalar 0 0).2 fll_ratio 0)).val : Nat) :
            Int) := by
        omega
      rw [hsum, hw]
      rw [← Nat.cast_mul, ← Nat.cast_mul]
      generalize (pre_scalar_loop fll_in fll_pre_scalar 0 0).2 *
        (attr_at fll_ratio
          (ratio_loop (pre_scalar_loop fll_in fll_pre_scalar 0 0).2 fll_ratio 0)).val *
        ((fvco_loop fs mclk_src_scaling 0 (0, mclk_src_scaling.length)).1 * 2 ^ 24 /
          ((pre_scalar_loop fll_in fll_pre_scalar 0 0).2 *
            (attr_at fll_ratio
              (ratio_loop (pre_scalar_loop fll_in fll_pre_scalar 0 0).2 fll_ratio 0)).val)) = x
        at hr1 hr2
      omega

/-- C1 at 12 MHz and 48 kHz: the function succeeds with divisor code 0, ratio 1,
`fll_int = 10` and `fll_frac = 4026531`; the reconstructed VCO is
`floor(12000000 * 171798691 / 2^24) = 122879999`. -/
theorem C1_reconstructed_vco_in_range_witness :
    nau8821_calc_fll_param 12000000 48000 ⟨0, 0, 0, 0, 0⟩ = (0, ⟨0xf, 1, 4026531, 10, 0⟩) ∧
    ((12000000 : Int) * 1 * (10 * 2 ^ 24 + 4026531) / 2 ^ 24 = 122879999) ∧
    ∃ a ∈ fll_pre_scalar,
      (nau8821_calc_fll_param 12000000 48000 ⟨0, 0, 0, 0, 0⟩).2.clk_ref_div = (a.val : Int) ∧
      (90000000 : Int) ≤
        ((12000000 / a.param : Nat) : Int) *
          (nau8821_calc_fll_param 12000000 48000 ⟨0, 0, 0, 0, 0⟩).2.ratio *
          ((nau8821_calc_fll_param 12000000 48000 ⟨0, 0, 0, 0, 0⟩).2.fll_int * 2 ^ 24 +
            (nau8821_calc_fll_param 12000000 48000 ⟨0, 0, 0, 0, 0⟩).2.fll_frac) / 2 ^ 24 ∧
      ((12000000 / a.param : Nat) : Int) *
          (nau8821_calc_fll_param 12000000 48000 ⟨0, 0, 0, 0, 0⟩).2.ratio *
          ((nau8821_calc_fll_param 12000000 48000 ⟨0, 0, 0, 0, 0⟩).2.fll_int * 2 ^ 24 +
            (nau8821_calc_fll_param 12000000 48000 ⟨0, 0, 0, 0, 0⟩).2.fll_frac) / 2 ^ 24 <
        124000000 :=
  ⟨by decide, by decide,
    ((C1_reconstructed_vco_in_range 12000000 48000 ⟨0, 0, 0, 0, 0⟩).2 (by decide)).imp
      (fun _ ha => ⟨ha.1, ha.2.1, ha.2.2.2.2.1, ha.2.2.2.2.2⟩)⟩

theorem to_unsigned_small (x : Int) (n : Nat) (hn : n ≤ 2 ^ 31)
    (hx1 : -(2 : Int) ^ 31 ≤ x) (hx2 : x < 2 ^ 31) :
    to_unsigned x < n ↔ 0 ≤ x ∧ x < n := by
  unfold to_unsigned
  omega

/-- C6: for every stream direction, every oversampling selector (a C `int`) and every
sample rate between 0 and 192000, `nau8821_clock_check` returns 0 if and only if the
selector indexes an entry of the direction's OSR table whose oversampling rate is
non-zero and satisfies `rate * oversampling_rate <= 6144000`; every other case
returns `-EINVAL`; the ceiling is inclusive: oversampling rate 32 (playback
selector 4, capture selector 0) with sample rate 192000 is accepted. -/
theorem C6_clock_check_ceiling (stream rate osr : Int)
    (hr0 : 0 ≤ rate) (hr1 : rate ≤ 192000)
    (ho0 : -(2 : Int) ^ 31 ≤ osr) (ho1 : osr < 2 ^ 31) :
    (nau8821_clock_check stream rate osr = 0 ↔
      0 ≤ osr ∧
      osr.toNat < (if stream = SNDRV_PCM_STREAM_PLAYBACK then osr_dac_sel
        else osr_adc_sel).length ∧
      (osr_at (if stream = SNDRV_PCM_STREAM_PLAYBACK then osr_dac_sel else osr_adc_sel)
        osr.toNat).osr ≠ 0 ∧
      rate * ((osr_at (if stream = SNDRV_PCM_STREAM_PLAYBACK then osr_dac_sel
        else osr_adc_sel) osr.toNat).osr : Int) ≤ 6144000) ∧
    (nau8821_clock_check stream rate osr ≠ 0 →
      nau8821_clock_check stream rate osr = -EINVAL) ∧
    nau8821_clock_check SNDRV_PCM_STREAM_PLAYBACK 192000 4 = 0 ∧
    nau8821_clock_check SNDRV_PCM_STREAM_CAPTURE 192000 0 = 0 := by
  refine ⟨?_, ?_, by decide, by decide⟩
  · by_cases hs : stream = SNDRV_PCM_STREAM_PLAYBACK
    · simp only [nau8821_clock_check, if_pos hs]
      by_cases hsel : 0 ≤ osr ∧ osr < 5
      · obtain ⟨h0, h5⟩ := hsel
        interval_cases osr <;>
          simp [to_unsigned, to_int, osr_at, osr_dac_sel, CLK_DA_AD_MAX, EINVAL] <;> omega
      · have hu : ¬ to_unsigned osr < 5 := by
          rw [to_unsigned_small osr 5 (by norm_num) ho0 ho1]; exact hsel
        have hlen : osr_dac_sel.length = 5 := rfl
        simp only [hlen, ge_iff_le]
        rw [if_pos (by omega)]
        simp only [EINVAL]
        constructor
        · intro h; omega
        · intro h; omega
    · simp only [nau8821_clock_check, if_neg hs]
      by_cases hsel : 0 ≤ osr ∧ osr < 4
      · obtain ⟨h0, h4⟩ := hsel
        interval_cases osr <;>
          simp [to_unsigned, to_int, osr_at, osr_adc_sel, CLK_DA_AD_MAX, EINVAL] <;> omega
      · have hu : ¬ to_unsigned osr < 4 := by
          rw [to_unsigned_small osr 4 (by norm_num) ho0 ho1]; exact hsel
        have hlen : osr_adc_sel.length = 4 := rfl
        simp only [hlen, ge_iff_le]
        rw [if_pos (by omega)]
        simp only [EINVAL]
        constructor
        · intro h; omega
        · intro h; omega
  · intro hne
    simp only [nau8821_clock_check] at hne ⊢
    split_ifs at hne ⊢ <;> first | rfl | exact absurd rfl hne

/-- C6 at the boundary: playback, selector 4 (oversampling rate 32), 192000 Hz. -/
theorem C6_clock_check_ceiling_witness :
    nau8821_clock_check SNDRV_PCM_STREAM_PLAYBACK 192000 4 = 0 ∧
    nau8821_clock_check SNDRV_PCM_STREAM_PLAYBACK 192001 4 = -EINVAL ∧
    (192000 : Int) * ((osr_at osr_dac_sel 4).osr : Int) ≤ 6144000 :=
  ⟨by decide, by decide,
    ((C6_clock_check_ceiling SNDRV_PCM_STREAM_PLAYBACK 192000 4 (by decide) (by decide)
      (by decide) (by decide)).1.1 (by decide)).2.2.2⟩

/-! ## Frame lemmas for the primitives -/

theorem writes_to_append (reg : Nat) (a b : List Event) :
    writes_to reg (a ++ b) = writes_to reg a ++ writes_to reg b := by
  simp [writes_to, List.filter_append]

theorem jack_reports_append (a b : List Event) :
    jack_reports (a ++ b) = jack_reports a ++ jack_reports b := by
  simp [jack_reports, List.filter_append]

@[simp] theorem sema_acquire_regmap (s : nau8821) (timeout : Nat) :
    (nau8821_sema_acquire s timeout).2.regmap = s.regmap := by
  simp only [nau8821_sema_acquire, down_timeout, down_trylock]
  split_ifs <;> rfl

@[simp] theorem sema_acquire_irq (s : nau8821) (timeout : Nat) :
    (nau8821_sema_acquire s timeout).2.irq = s.irq := by
  simp only [nau8821_sema_acquire, down_timeout, down_trylock]
  split_ifs <;> rfl

@[simp] theorem sema_acquire_clk_id (s : nau8821) (timeout : Nat) :
    (nau8821_sema_acquire s timeout).2.clk_id = s.clk_id := by
  simp only [nau8821_sema_acquire, down_timeout, down_trylock]
  split_ifs <;> rfl

@[simp] theorem sema_acquire_bus_error (s : nau8821) (timeout : Nat) :
    (nau8821_sema_acquire s timeout).2.bus_error = s.bus_error := by
  simp only [nau8821_sema_acquire, down_timeout, down_trylock]
  split_ifs <;> rfl

@[simp] theorem sema_acquire_bias_level (s : nau8821) (timeout : Nat) :
    (nau8821_sema_acquire s timeout).2.bias_level = s.bias_level := by
  simp only [nau8821_sema_acquire, down_timeout, down_trylock]
  split_ifs <;> rfl

@[simp] theorem sema_acquire_writes_to (s : nau8821) (timeout reg : Nat) :
    writes_to reg (nau8821_sema_acquire s timeout).2.log = writes_to reg s.log := by
  simp only [nau8821_sema_acquire, down_timeout, down_trylock]
  split_ifs <;> simp [emit, writes_to, is_write_to, List.filter_append]

@[simp] theorem sema_acquire_jack_reports (s : nau8821) (timeout : Nat) :
    jack_reports (nau8821_sema_acquire s timeout).2.log = jack_reports s.log := by
  simp only [nau8821_sema_acquire, down_timeout, down_trylock]
  split_ifs <;> simp [emit, jack_reports, is_jack_report, List.filter_append]

@[simp] theorem sema_release_regmap (s : nau8821) :
    (nau8821_sema_release s).regmap = s.regmap := by
  simp only [nau8821_sema_release, up]
  split_ifs <;> rfl

@[simp] theorem sema_release_irq (s : nau8821) :
    (nau8821_sema_release s).irq = s.irq := by
  simp only [nau8821_sema_release, up]
  split_ifs <;> rfl

@[simp] theorem sema_release_clk_id (s : nau8821) :
    (nau8821_sema_release s).clk_id = s.clk_id := by
  simp only [nau8821_sema_release, up]
  split_ifs <;> rfl

@[simp] theorem sema_release_bus_error (s : nau8821) :
    (nau8821_sema_release s).bus_error = s.bus_error := by
  simp only [nau8821_sema_release, up]
  split_ifs <;> rfl

@[simp] theorem sema_release_bias_level (s : nau8821) :
    (nau8821_sema_release s).bias_level = s.bias_level := by
  simp only [nau8821_sema_release, up]
  split_ifs <;> rfl

@[simp] theorem sema_release_writes_to (s : nau8821) (reg : Nat) :
    writes_to reg (nau8821_sema_release s).log = writes_to reg s.log := by
  simp only [nau8821_sema_release, up]
  split_ifs <;> simp [emit, writes_to, is_write_to, List.filter_append]

@[simp] theorem sema_release_jack_reports (s : nau8821) :
    jack_reports (nau8821_sema_release s).log = jack_reports s.log := by
  simp only [nau8821_sema_release, up]
  split_ifs <;> simp [emit, jack_reports, is_jack_report, List.filter_append]

@[simp] theorem update_bits_irq (s : nau8821) (reg mask val : Nat) :
    (regmap_update_bits s reg mask val).irq = s.irq := rfl

@[simp] theorem update_bits_jd_sem (s : nau8821) (reg mask val : Nat) :
    (regmap_update_bits s reg mask val).jd_sem = s.jd_sem := rfl

@[simp] theorem update_bits_clk_id (s : nau8821) (reg mask val : Nat) :
    (regmap_update_bits s reg mask val).clk_id = s.clk_id := rfl

@[simp] theorem update_bits_bus_error (s : nau8821) (reg mask val : Nat) :
    (regmap_update_bits s reg mask val).bus_error = s.bus_error := rfl

@[simp] theorem update_bits_bias_level (s : nau8821) (reg mask val : Nat) :
    (regmap_update_bits s reg mask val).bias_level = s.bias_level := rfl

@[simp] theorem update_bits_log (s : nau8821) (reg mask val : Nat) :
    (regmap_update_bits s reg mask val).log = s.log ++ [Event.reg_update reg mask val] := rfl

theorem update_bits_regmap_same (s : nau8821) (reg mask val : Nat) :
    (regmap_update_bits s reg mask val).regmap reg =
      update_bits_value (s.regmap reg) mask val := by
  simp [regmap_update_bits, emit]

theorem update_bits_regmap_other (s : nau8821) (reg mask val r : Nat) (hr : r ≠ reg) :
    (regmap_update_bits s reg mask val).regmap r = s.regmap r := by
  simp [regmap_update_bits, emit, hr]

@[simp] theorem regmap_write_irq (s : nau8821) (reg val : Nat) :
    (regmap_write s reg val).irq = s.irq := rfl

@[simp] theorem regmap_write_jd_sem (s : nau8821) (reg val : Nat) :
    (regmap_write s reg val).jd_sem = s.jd_sem := rfl

@[simp] theorem regmap_write_clk_id (s : nau8821) (reg val : Nat) :
    (regmap_write s reg val).clk_id = s.clk_id := rfl

@[simp] theorem regmap_write_bus_error (s : nau8821) (reg val : Nat) :
    (regmap_write s reg val).bus_error = s.bus_error := rfl

@[simp] theorem regmap_write_bias_level (s : nau8821) (reg val : Nat) :
    (regmap_write s reg val).bias_level = s.bias_level := rfl

@[simp] theorem regmap_write_log (s : nau8821) (reg val : Nat) :
    (regmap_write s reg val).log = s.log ++ [Event.reg_write reg val] := rfl

theorem regmap_write_regmap_same (s : nau8821) (reg val : Nat) :
    (regmap_write s reg val).regmap reg = val := by
  simp [regmap_write, emit]

theorem regmap_write_regmap_other (s : nau8821) (reg val r : Nat) (hr : r ≠ reg) :
    (regmap_write s reg val).regmap r = s.regmap r := by
  simp [regmap_write, emit, hr]

theorem hw_params_width_frame (h : nau8821_h) (s : nau8821) (width : Int)
    (hreg : h.NAU8821_REG_I2S_PCM_CTRL1 ≠ h.NAU8821_REG_I2S_PCM_CTRL2) :
    (nau8821_hw_params_width h s width).2.regmap h.NAU8821_REG_I2S_PCM_CTRL2 =
      s.regmap h.NAU8821_REG_I2S_PCM_CTRL2 ∧
    writes_to h.NAU8821_REG_I2S_PCM_CTRL2 (nau8821_hw_params_width h s width).2.log =
      writes_to h.NAU8821_REG_I2S_PCM_CTRL2 s.log := by
  simp only [nau8821_hw_params_width]
  split_ifs <;>
    simp [update_bits_regmap_other, writes_to_append, hreg, hreg.symm] <;>
    simp [writes_to, is_write_to, hreg, hreg.symm]

theorem hw_params_width_ret (h : nau8821_h) (s : nau8821) (width : Int) :
    ((nau8821_hw_params_width h s width).1 = 0 ↔
      width = 16 ∨ width = 20 ∨ width = 24 ∨ width = 32) ∧
    ((nau8821_hw_params_width h s width).1 ≠ 0 →
      (nau8821_hw_params_width h s width).1 = -EINVAL) := by
  simp only [nau8821_hw_params_width]
  split_ifs <;> simp [*, EINVAL]

/-! ## The gate in nau8821_hw_params -/

theorem getLast?_append_of_some (pre new : List Event) (x : Event)
    (h : new.getLast? = some x) : (pre ++ new).getLast? = some x := by
  rw [List.getLast?_append, h]; rfl

theorem gate_events_append (a b : List Event) :
    gate_events (a ++ b) = gate_events a ++ gate_events b := by
  simp [gate_events, List.filter_append]

theorem sema_acquire_hz (s : nau8821) (hirq : s.irq ≠ 0) :
    (nau8821_sema_acquire s HZ).2.log =
      s.log ++ [Event.down_timeout HZ (if 0 < s.jd_sem then 0 else -ETIME)] ∧
    (nau8821_sema_acquire s HZ).2.jd_sem = s.jd_sem - 1 := by
  have hz : HZ ≠ 0 := by decide
  simp only [nau8821_sema_acquire, if_neg hirq, hz, ne_eq, not_false_eq_true, if_true,
    down_timeout]
  split_ifs with hc
  · simp [emit]
  · simp [emit]; omega

theorem hw_params_width_log (h : nau8821_h) (s : nau8821) (width : Int) (hirq : s.irq ≠ 0) :
    ∃ new, (nau8821_hw_params_width h s width).2.log = s.log ++ new ∧
      gate_events new = [Event.up] ∧ new.getLast? = some Event.up := by
  simp only [nau8821_hw_params_width]
  split_ifs <;>
    simp [nau8821_sema_release, regmap_update_bits, emit, up, hirq, gate_events, is_gate_event,
      List.filter_append]

theorem hw_params_set_div_log (h : nau8821_h) (s : nau8821) (d : Nat) :
    (nau8821_hw_params_set_div h s d).irq = s.irq ∧
    ∃ e, (nau8821_hw_params_set_div h s d).log = s.log ++ [e] ∧ gate_events [e] = [] := by
  simp [nau8821_hw_params_set_div, gate_events, is_gate_event]

theorem hw_params_dividers_log (h : nau8821_h) (s : nau8821) (rate : Nat) (width bclk : Int)
    (hirq : s.irq ≠ 0) (r : Int × nau8821)
    (hr : nau8821_hw_params_dividers h s rate width bclk = some r) :
    ∃ new, r.2.log = s.log ++ new ∧
      gate_events new = [Event.up] ∧ new.getLast? = some Event.up := by
  have key : ∀ d, ∃ new, (nau8821_hw_params_width h
      (nau8821_hw_params_set_div h s d) width).2.log = s.log ++ new ∧
      gate_events new = [Event.up] ∧ new.getLast? = some Event.up := by
    intro d
    obtain ⟨hi, e, he, hg⟩ := hw_params_set_div_log h s d
    obtain ⟨new, h1, h2, h3⟩ := hw_params_width_log h (nau8821_hw_params_set_div h s d) width
      (by rw [hi]; exact hirq)
    refine ⟨[e] ++ new, ?_, ?_, getLast?_append_of_some _ _ _ h3⟩
    · rw [h1, he, List.append_assoc]
    · rw [gate_events_append, hg, h2]; rfl
  simp only [nau8821_hw_params_dividers] at hr
  split_ifs at hr
  · simp only [Option.some.injEq] at hr; subst hr; exact key 2
  · simp only [Option.some.injEq] at hr; subst hr; exact key 1
  · simp only [Option.some.injEq] at hr; subst hr; exact key 0
  · simp only [Option.some.injEq] at hr; subst hr
    simp [nau8821_sema_release, emit, up, hirq, gate_events, is_gate_event]
  · simp only [Option.some.injEq] at hr; subst hr
    exact hw_params_width_log h s width hirq

/-- C8: on a device with an interrupt line, every call of `nau8821_hw_params` with a
non-zero rate returns, and whichever way it returns (clock-check failure for
playback or capture, bit-clock ratio rejection, unsupported sample width, success)
the semaphore operations of the call are exactly one acquire attempt
`down_timeout(.., HZ)` followed by exactly one release `up`, the release being the
last thing the call does. -/
theorem C8_hw_params_releases_gate_once (h : nau8821_h) (s : nau8821) (stream : Int)
    (rate : Nat) (width bclk : Int) (hirq : s.irq ≠ 0) :
    (rate ≠ 0 → ∃ r, nau8821_hw_params h s stream rate width bclk = some r) ∧
    ∀ ret s1, nau8821_hw_params h s stream rate width bclk = some (ret, s1) →
      ∃ new, s1.log = s.log ++ new ∧
        gate_events new =
          [Event.down_timeout HZ (if 0 < s.jd_sem then 0 else -ETIME), Event.up] ∧
        new.getLast? = some Event.up := by
  constructor
  · intro hrate
    simp only [nau8821_hw_params, nau8821_hw_params_dividers, if_neg hrate]
    split_ifs <;> exact ⟨_, rfl⟩
  intro ret s1 hr
  obtain ⟨ha1, _⟩ := sema_acquire_hz s hirq
  have hirq1 : (nau8821_sema_acquire s HZ).2.irq ≠ 0 := by simpa using hirq
  have key : ∀ reg mask val (r : Int × nau8821),
      nau8821_hw_params_dividers h
        (regmap_update_bits (nau8821_sema_acquire s HZ).2 reg mask val) rate width bclk = some r →
      ∃ new, r.2.log = s.log ++ new ∧
        gate_events new =
          [Event.down_timeout HZ (if 0 < s.jd_sem then 0 else -ETIME), Event.up] ∧
        new.getLast? = some Event.up := by
    intro reg mask val r hd
    obtain ⟨new, h1, h2, h3⟩ := hw_params_dividers_log h _ rate width bclk
      (by simpa using hirq1) r hd
    refine ⟨[Event.down_timeout HZ (if 0 < s.jd_sem then 0 else -ETIME)] ++
      ([Event.reg_update reg mask val] ++ new), ?_, ?_,
      getLast?_append_of_some _ _ _ (getLast?_append_of_some _ _ _ h3)⟩
    · rw [h1]; simp [ha1]
    · rw [gate_events_append, gate_events_append, h2]; rfl
  have fail : ∃ new, (nau8821_sema_release (nau8821_sema_acquire s HZ).2).log = s.log ++ new ∧
        gate_events new =
          [Event.down_timeout HZ (if 0 < s.jd_sem then 0 else -ETIME), Event.up] ∧
        new.getLast? = some Event.up := by
    refine ⟨[Event.down_timeout HZ (if 0 < s.jd_sem then 0 else -ETIME), Event.up], ?_, rfl, rfl⟩
    simp [nau8821_sema_release, hirq, up, emit, ha1]
  simp only [nau8821_hw_params] at hr
  split_ifs at hr
  · simp only [Option.some.injEq, Prod.mk.injEq] at hr; obtain ⟨-, rfl⟩ := hr; exact fail
  · exact key _ _ _ _ hr
  · simp only [Option.some.injEq, Prod.mk.injEq] at hr; obtain ⟨-, rfl⟩ := hr; exact fail
  · exact key _ _ _ _ hr

/-- C8 on the sample device after `nau8821_setup_irq`: a capture stream at 192000 Hz
with ADC selector 0 (oversampling rate 32) and an unsupported width of 8 bits leaves
through the `default` branch of the width switch with `-EINVAL`, one acquire and
one release. -/
theorem C8_hw_params_releases_gate_once_witness :
    (nau8821_setup_irq sample_h (sample_dev 1 (regs_of []))).2.irq ≠ 0 ∧
    (nau8821_hw_params sample_h (nau8821_setup_irq sample_h (sample_dev 1 (regs_of []))).2
      SNDRV_PCM_STREAM_CAPTURE 192000 8 3072000).map Prod.fst = some (-EINVAL) ∧
    ∃ r, nau8821_hw_params sample_h (nau8821_setup_irq sample_h (sample_dev 1 (regs_of []))).2
        SNDRV_PCM_STREAM_CAPTURE 192000 8 3072000 = some r ∧
      ∃ new, r.2.log =
          (nau8821_setup_irq sample_h (sample_dev 1 (regs_of []))).2.log ++ new ∧
        gate_events new = [Event.down_timeout HZ 0, Event.up] ∧
        new.getLast? = some Event.up :=
  ⟨by decide, by decide,
    ((C8_hw_params_releases_gate_once sample_h
      (nau8821_setup_irq sample_h (sample_dev 1 (regs_of []))).2
      SNDRV_PCM_STREAM_CAPTURE 192000 8 3072000 (by decide)).1 (by decide)).imp
      (fun r hr => ⟨hr, (C8_hw_params_releases_gate_once sample_h
        (nau8821_setup_irq sample_h (sample_dev 1 (regs_of []))).2
        SNDRV_PCM_STREAM_CAPTURE 192000 8 3072000 (by decide)).2 r.1 r.2 hr⟩)⟩

/-! ## The dividers in nau8821_hw_params -/

/-- The bit-clock divider code of `nau8821_hw_params` for ratio `r <= 128`. -/
theorem hw_params_dividers_master (h : nau8821_h) (s : nau8821) (rate : Nat) (width bclk : Int)
    (hreg : h.NAU8821_REG_I2S_PCM_CTRL1 ≠ h.NAU8821_REG_I2S_PCM_CTRL2)
    (hrate : rate ≠ 0)
    (hm : s.regmap h.NAU8821_REG_I2S_PCM_CTRL2 &&& h.NAU8821_I2S_MS_MASTER ≠ 0) :
    (to_unsigned bclk / rate ≤ 128 →
      ∃ r, nau8821_hw_params_dividers h s rate width bclk = some r ∧
        writes_to h.NAU8821_REG_I2S_PCM_CTRL2 r.2.log =
          writes_to h.NAU8821_REG_I2S_PCM_CTRL2 s.log ++
            [Event.reg_update h.NAU8821_REG_I2S_PCM_CTRL2
              (h.NAU8821_I2S_LRC_DIV_MASK ||| h.NAU8821_I2S_BLK_DIV_MASK)
              ((((if to_unsigned bclk / rate ≤ 32 then 2
                  else if to_unsigned bclk / rate ≤ 64 then 1 else 0) + 1) <<<
                  h.NAU8821_I2S_LRC_DIV_SFT) |||
                (if to_unsigned bclk / rate ≤ 32 then 2
                  else if to_unsigned bclk / rate ≤ 64 then 1 else 0))] ∧
        r.2.regmap h.NAU8821_REG_I2S_PCM_CTRL2 =
          update_bits_value (s.regmap h.NAU8821_REG_I2S_PCM_CTRL2)
            (h.NAU8821_I2S_LRC_DIV_MASK ||| h.NAU8821_I2S_BLK_DIV_MASK)
            ((((if to_unsigned bclk / rate ≤ 32 then 2
                else if to_unsigned bclk / rate ≤ 64 then 1 else 0) + 1) <<<
                h.NAU8821_I2S_LRC_DIV_SFT) |||
              (if to_unsigned bclk / rate ≤ 32 then 2
                else if to_unsigned bclk / rate ≤ 64 then 1 else 0))) ∧
    (128 < to_unsigned bclk / rate →
      ∃ s1, nau8821_hw_params_dividers h s rate width bclk = some (-EINVAL, s1) ∧
        writes_to h.NAU8821_REG_I2S_PCM_CTRL2 s1.log =
          writes_to h.NAU8821_REG_I2S_PCM_CTRL2 s.log ∧
        s1.regmap h.NAU8821_REG_I2S_PCM_CTRL2 = s.regmap h.NAU8821_REG_I2S_PCM_CTRL2) := by
  have key : ∀ d, 
      writes_to h.NAU8821_REG_I2S_PCM_CTRL2
          (nau8821_hw_params_width h (nau8821_hw_params_set_div h s d) width).2.log =
        writes_to h.NAU8821_REG_I2S_PCM_CTRL2 s.log ++
          [Event.reg_update h.NAU8821_REG_I2S_PCM_CTRL2
            (h.NAU8821_I2S_LRC_DIV_MASK ||| h.NAU8821_I2S_BLK_DIV_MASK)
            (((d + 1) <<< h.NAU8821_I2S_LRC_DIV_SFT) ||| d)] ∧
      (nau8821_hw_params_width h (nau8821_hw_params_set_div h s d) width).2.regmap
          h.NAU8821_REG_I2S_PCM_CTRL2 =
        update_bits_value (s.regmap h.NAU8821_REG_I2S_PCM_CTRL2)
          (h.NAU8821_I2S_LRC_DIV_MASK ||| h.NAU8821_I2S_BLK_DIV_MASK)
          (((d + 1) <<< h.NAU8821_I2S_LRC_DIV_SFT) ||| d) := by
    intro d
    obtain ⟨h1, h2⟩ := hw_params_width_frame h (nau8821_hw_params_set_div h s d) width hreg
    rw [h1, h2]
    simp [nau8821_hw_params_set_div, update_bits_regmap_same, writes_to_append]
    simp [writes_to, is_write_to]
  have hm1 : regmap_read s h.NAU8821_REG_I2S_PCM_CTRL2 &&& h.NAU8821_I2S_MS_MASTER ≠ 0 := hm
  constructor
  · intro hr
    simp only [nau8821_hw_params_dividers, if_pos hm1, if_neg hrate]
    split_ifs with h32 h64
    · exact ⟨_, rfl, key 2⟩
    · exact ⟨_, rfl, key 1⟩
    · exact ⟨_, rfl, key 0⟩
  · intro hr
    simp only [nau8821_hw_params_dividers, if_pos hm1, if_neg hrate]
    rw [if_neg (by omega), if_neg (by omega), if_neg (by omega)]
    exact ⟨_, rfl, by simp, by simp⟩


theorem hw_params_after_check (h : nau8821_h) (s : nau8821) (stream : Int) (rate : Nat)
    (width : Int)
    (hcheck : nau8821_clock_check stream (to_int rate)
      (to_int ((s.regmap (if stream = SNDRV_PCM_STREAM_PLAYBACK then h.NAU8821_REG_DAC_CTRL1
          else h.NAU8821_REG_ADC_RATE) &&&
        (if stream = SNDRV_PCM_STREAM_PLAYBACK then h.NAU8821_DAC_OVERSAMPLE_MASK
          else h.NAU8821_ADC_SYNC_DOWN_MASK) : Nat))) = 0) :
    ∃ mask val, ∀ bclk, nau8821_hw_params h s stream rate width bclk =
      nau8821_hw_params_dividers h
        (regmap_update_bits (nau8821_sema_acquire s HZ).2 h.NAU8821_REG_CLK_DIVIDER mask val)
        rate width bclk := by
  by_cases hs : stream = SNDRV_PCM_STREAM_PLAYBACK
  · simp only [if_pos hs] at hcheck
    simp only [nau8821_hw_params, if_pos hs, regmap_read, sema_acquire_regmap, hcheck, ne_eq,
      not_true_eq_false, if_false]
    exact ⟨_, _, fun _ => rfl⟩
  · simp only [if_neg hs] at hcheck
    simp only [nau8821_hw_params, if_neg hs, regmap_read, sema_acquire_regmap, hcheck, ne_eq,
      not_true_eq_false, if_false]
    exact ⟨_, _, fun _ => rfl⟩

/-- C7: once the clock check has passed on a non-zero rate, with `r = bclk / rate` the
unsigned quotient the code computes: when the codec is clock-bus master
(`I2S_PCM_CTRL2 & NAU8821_I2S_MS_MASTER` non-zero), `nau8821_hw_params` picks the
bit-clock divider code 2 when `r <= 32`, 1 when `32 < r <= 64`, 0 when
`64 < r <= 128`, and its only write to `I2S_PCM_CTRL2` is the update of the divider
fields `NAU8821_I2S_LRC_DIV_MASK | NAU8821_I2S_BLK_DIV_MASK` with
`((code + 1) << NAU8821_I2S_LRC_DIV_SFT) | code`; when `r > 128` it returns `-EINVAL`
without writing that register; when the codec is slave the register is not
written, and the result does not depend on `bclk` (no ratio is rejected: the
return code is 0 exactly for the widths 16, 20, 24, 32). -/
theorem C7_master_bclk_dividers (h : nau8821_h) (s : nau8821) (stream : Int) (rate : Nat)
    (width bclk : Int)
    (hreg1 : h.NAU8821_REG_I2S_PCM_CTRL1 ≠ h.NAU8821_REG_I2S_PCM_CTRL2)
    (hreg2 : h.NAU8821_REG_CLK_DIVIDER ≠ h.NAU8821_REG_I2S_PCM_CTRL2)
    (hrate : rate ≠ 0)
    (hcheck : nau8821_clock_check stream (to_int rate)
      (to_int ((s.regmap (if stream = SNDRV_PCM_STREAM_PLAYBACK then h.NAU8821_REG_DAC_CTRL1
          else h.NAU8821_REG_ADC_RATE) &&&
        (if stream = SNDRV_PCM_STREAM_PLAYBACK then h.NAU8821_DAC_OVERSAMPLE_MASK
          else h.NAU8821_ADC_SYNC_DOWN_MASK) : Nat))) = 0) :
    (s.regmap h.NAU8821_REG_I2S_PCM_CTRL2 &&& h.NAU8821_I2S_MS_MASTER ≠ 0 →
      (to_unsigned bclk / rate ≤ 128 →
        ∃ r, nau8821_hw_params h s stream rate width bclk = some r ∧
          writes_to h.NAU8821_REG_I2S_PCM_CTRL2 r.2.log =
            writes_to h.NAU8821_REG_I2S_PCM_CTRL2 s.log ++
              [Event.reg_update h.NAU8821_REG_I2S_PCM_CTRL2
                (h.NAU8821_I2S_LRC_DIV_MASK ||| h.NAU8821_I2S_BLK_DIV_MASK)
                ((((if to_unsigned bclk / rate ≤ 32 then 2
                    else if to_unsigned bclk / rate ≤ 64 then 1 else 0) + 1) <<<
                    h.NAU8821_I2S_LRC_DIV_SFT) |||
                  (if to_unsigned bclk / rate ≤ 32 then 2
                    else if to_unsigned bclk / rate ≤ 64 then 1 else 0))] ∧
          r.2.regmap h.NAU8821_REG_I2S_PCM_CTRL2 =
            update_bits_value (s.regmap h.NAU8821_REG_I2S_PCM_CTRL2)
              (h.NAU8821_I2S_LRC_DIV_MASK ||| h.NAU8821_I2S_BLK_DIV_MASK)
              ((((if to_unsigned bclk / rate ≤ 32 then 2
                  else if to_unsigned bclk / rate ≤ 64 then 1 else 0) + 1) <<<
                  h.NAU8821_I2S_LRC_DIV_SFT) |||
                (if to_unsigned bclk / rate ≤ 32 then 2
                  else if to_unsigned bclk / rate ≤ 64 then 1 else 0))) ∧
      (128 < to_unsigned bclk / rate →
        ∃ s1, nau8821_hw_params h s stream rate width bclk = some (-EINVAL, s1) ∧
          writes_to h.NAU8821_REG_I2S_PCM_CTRL2 s1.log =
            writes_to h.NAU8821_REG_I2S_PCM_CTRL2 s.log ∧
          s1.regmap h.NAU8821_REG_I2S_PCM_CTRL2 =
            s.regmap h.NAU8821_REG_I2S_PCM_CTRL2)) ∧
    (s.regmap h.NAU8821_REG_I2S_PCM_CTRL2 &&& h.NAU8821_I2S_MS_MASTER = 0 →
      ∃ r, nau8821_hw_params h s stream rate width bclk = some r ∧
        (∀ bclk1, nau8821_hw_params h s stream rate width bclk1 = some r) ∧
        (r.1 = 0 ↔ width = 16 ∨ width = 20 ∨ width = 24 ∨ width = 32) ∧
        writes_to h.NAU8821_REG_I2S_PCM_CTRL2 r.2.log =
          writes_to h.NAU8821_REG_I2S_PCM_CTRL2 s.log ∧
        r.2.regmap h.NAU8821_REG_I2S_PCM_CTRL2 = s.regmap h.NAU8821_REG_I2S_PCM_CTRL2) := by
  have hreg2' := hreg2.symm
  have hw2 : ∀ mask val, writes_to h.NAU8821_REG_I2S_PCM_CTRL2
      (regmap_update_bits (nau8821_sema_acquire s HZ).2 h.NAU8821_REG_CLK_DIVIDER mask val).log =
      writes_to h.NAU8821_REG_I2S_PCM_CTRL2 s.log := by
    intro mask val
    simp [writes_to_append]
    simp [writes_to, is_write_to, hreg2]
  have hr2 : ∀ mask val,
      (regmap_update_bits (nau8821_sema_acquire s HZ).2 h.NAU8821_REG_CLK_DIVIDER mask val).regmap
        h.NAU8821_REG_I2S_PCM_CTRL2 = s.regmap h.NAU8821_REG_I2S_PCM_CTRL2 := by
    intro mask val
    rw [update_bits_regmap_other _ _ _ _ _ hreg2', sema_acquire_regmap]
  constructor
  · intro hm
    obtain ⟨mask, val, heq⟩ := hw_params_after_check h s stream rate width hcheck
    have hd := hw_params_dividers_master h
      (regmap_update_bits (nau8821_sema_acquire s HZ).2 h.NAU8821_REG_CLK_DIVIDER mask val)
      rate width bclk hreg1 hrate (by rw [hr2]; exact hm)
    rw [← heq bclk, hw2, hr2] at hd
    exact hd
  · intro hsl
    obtain ⟨mask, val, heq⟩ := hw_params_after_check h s stream rate width hcheck
    have hd : ∀ b, nau8821_hw_params_dividers h
        (regmap_update_bits (nau8821_sema_acquire s HZ).2 h.NAU8821_REG_CLK_DIVIDER mask val)
        rate width b = some (nau8821_hw_params_width h
        (regmap_update_bits (nau8821_sema_acquire s HZ).2 h.NAU8821_REG_CLK_DIVIDER mask val)
        width) := by
      intro b
      simp only [nau8821_hw_params_dividers, regmap_read, hr2, hsl, ne_eq, not_true_eq_false,
        if_false]
    refine ⟨_, (heq bclk).trans (hd bclk), ?_, (hw_params_width_ret h _ width).1, ?_, ?_⟩
    · intro b
      exact (heq b).trans (hd b)
    · rw [(hw_params_width_frame h _ width hreg1).2, hw2]
    · rw [(hw_params_width_frame h _ width hreg1).1, hr2]

/-- C7 on the sample device as master (`I2S_PCM_CTRL2 = 0x0008`), playback at 48000 Hz
with `bclk = 1536000` (ratio 32): the divider code is 2 and the update writes
`(3 << 12) | 2` under the mask `0x3007`. -/
theorem C7_master_bclk_dividers_witness :
    sample_h.NAU8821_REG_I2S_PCM_CTRL1 ≠ sample_h.NAU8821_REG_I2S_PCM_CTRL2 ∧
    sample_h.NAU8821_REG_CLK_DIVIDER ≠ sample_h.NAU8821_REG_I2S_PCM_CTRL2 ∧
    (sample_dev 1 (regs_of [(0x1d, 0x0008)])).regmap sample_h.NAU8821_REG_I2S_PCM_CTRL2 &&&
      sample_h.NAU8821_I2S_MS_MASTER ≠ 0 ∧
    to_unsigned 1536000 / 48000 = 32 ∧
    ∃ r, nau8821_hw_params sample_h (sample_dev 1 (regs_of [(0x1d, 0x0008)]))
        SNDRV_PCM_STREAM_PLAYBACK 48000 16 1536000 = some r ∧
      writes_to sample_h.NAU8821_REG_I2S_PCM_CTRL2 r.2.log =
        [Event.reg_update 0x1d 0x3007 0x3002] :=
  ⟨by decide, by decide, by decide, by decide,
    (((C7_master_bclk_dividers sample_h (sample_dev 1 (regs_of [(0x1d, 0x0008)]))
      SNDRV_PCM_STREAM_PLAYBACK 48000 16 1536000 (by decide) (by decide) (by decide)
      (by decide)).1 (by decide)).1 (by decide)).imp
      (fun _ hr => ⟨hr.1, hr.2.1.trans (by decide)⟩)⟩

/-! ## Frame lemmas for the composite functions -/

theorem regs_only_refl (s : nau8821) : regs_only s s := by simp [regs_only]

theorem regs_only_trans {a b c : nau8821} (h1 : regs_only a b) (h2 : regs_only b c) :
    regs_only a c := by
  obtain ⟨a1, a2, a3, a4, a5, a6, a7⟩ := h1
  obtain ⟨b1, b2, b3, b4, b5, b6, b7⟩ := h2
  exact ⟨b1.trans a1, b2.trans a2, b3.trans a3, b4.trans a4, b5.trans a5, b6.trans a6,
    b7.trans a7⟩

theorem regs_only_update_bits (s : nau8821) (reg mask val : Nat) :
    regs_only s (regmap_update_bits s reg mask val) := by
  simp [regs_only, gate_events_append, jack_reports_append]
  simp [gate_events, jack_reports, is_gate_event, is_jack_report]

theorem regs_only_write (s : nau8821) (reg val : Nat) :
    regs_only s (regmap_write s reg val) := by
  simp [regs_only, gate_events_append, jack_reports_append]
  simp [gate_events, jack_reports, is_gate_event, is_jack_report]

theorem regs_only_emit (s : nau8821) (e : Event) (hg : is_gate_event e = false)
    (hj : is_jack_report e = false) : regs_only s (emit s e) := by
  simp [regs_only, emit, gate_events_append, jack_reports_append]
  simp [gate_events, jack_reports, hg, hj]

theorem regs_only_mclk (h : nau8821_h) (s : nau8821) :
    regs_only s (nau8821_configure_mclk_as_sysclk h s) := by
  simp only [nau8821_configure_mclk_as_sysclk]
  repeat' first
    | exact regs_only_refl _
    | refine regs_only_trans ?_ (regs_only_update_bits _ _ _ _)

theorem regs_only_internal (h : nau8821_h) (s : nau8821) :
    regs_only s (nau8821_configure_sysclk_internal h s) := by
  simp only [nau8821_configure_sysclk_internal]
  split_ifs
  · repeat' first
      | exact regs_only_refl _
      | refine regs_only_trans ?_ (regs_only_update_bits _ _ _ _)
  · exact regs_only_mclk h s

theorem regs_only_clear_loop (h : nau8821_h) (a : Nat) :
    ∀ (n i : Nat) (s : nau8821), regs_only s (int_status_clear_loop h a n i s) := by
  intro n
  induction n with
  | zero => intro i s; exact regs_only_refl s
  | succ n ih =>
    intro i s
    simp only [int_status_clear_loop]
    split_ifs
    · exact regs_only_trans (regs_only_write _ _ _) (ih _ _)
    · exact ih _ _

theorem regs_only_clear_all (h : nau8821_h) (s : nau8821) :
    regs_only s (nau8821_int_status_clear_all h s) :=
  regs_only_clear_loop h _ _ _ _

theorem regs_only_restart (h : nau8821_h) (s : nau8821) :
    regs_only s (nau8821_restart_jack_detection h s) := by
  simp only [nau8821_restart_jack_detection]
  repeat' first
    | exact regs_only_refl _
    | refine regs_only_trans ?_ (regs_only_update_bits _ _ _ _)


theorem sema_acquire_jd_sem (s : nau8821) (timeout : Nat) :
    (nau8821_sema_acquire s timeout).2.jd_sem =
      if s.irq = 0 then s.jd_sem else s.jd_sem - 1 := by
  simp only [nau8821_sema_acquire, down_timeout, down_trylock]
  split_ifs <;> simp [emit] <;> omega

theorem sema_release_jd_sem (s : nau8821) :
    (nau8821_sema_release s).jd_sem =
      if s.irq = 0 then s.jd_sem else (s.jd_sem + 1) % 2 ^ 32 := by
  simp only [nau8821_sema_release, up]
  split_ifs <;> simp [emit]

/-- An acquire, register programming and a release keep a count of 0 or 1 at 0 or 1 and
report nothing to the jack. -/
theorem acquire_release_frame (s s2 : nau8821) (timeout : Nat)
    (h2 : regs_only (nau8821_sema_acquire s timeout).2 s2) :
    (nau8821_sema_release s2).irq = s.irq ∧
    (nau8821_sema_release s2).bus_error = s.bus_error ∧
    (nau8821_sema_release s2).bias_level = s.bias_level ∧
    (nau8821_sema_release s2).clk_id = s.clk_id ∧
    jack_reports (nau8821_sema_release s2).log = jack_reports s.log ∧
    (s.jd_sem ≤ 1 → (nau8821_sema_release s2).jd_sem ≤ 1) := by
  obtain ⟨a1, a2, a3, a4, a5, a6, a7⟩ := h2
  refine ⟨by simp [a1], by simp [a4], by simp [a5], by simp [a3], by simp [a7], ?_⟩
  intro hle
  rw [sema_release_jd_sem, a1, a2, sema_acquire_irq, sema_acquire_jd_sem]
  split_ifs <;> omega

theorem configure_sysclk_frame (h : nau8821_h) (s : nau8821) (clk_id : Int) (freq : Nat) :
    (nau8821_configure_sysclk h s clk_id freq).2.irq = s.irq ∧
    (nau8821_configure_sysclk h s clk_id freq).2.bus_error = s.bus_error ∧
    (nau8821_configure_sysclk h s clk_id freq).2.bias_level = s.bias_level ∧
    jack_reports (nau8821_configure_sysclk h s clk_id freq).2.log = jack_reports s.log ∧
    (s.jd_sem ≤ 1 → (nau8821_configure_sysclk h s clk_id freq).2.jd_sem ≤ 1) ∧
    (clk_id = h.NAU8821_CLK_DIS →
      (nau8821_configure_sysclk h s clk_id freq).2.jd_sem = s.jd_sem) := by
  have hm := regs_only_mclk h s
  have hi := regs_only_internal h s
  simp only [nau8821_configure_sysclk]
  split_ifs with c1 c2 c3 c4 c5 c6
  · obtain ⟨a1, a2, a3, a4, a5, a6, a7⟩ := hm
    simp [a1, a2, a4, a5, a7]
  · obtain ⟨b1, b2, b3, b4, b5, b6⟩ := acquire_release_frame s _ HZ
      (regs_only_trans (regs_only_mclk h _) (regs_only_update_bits _ _ _ _))
    exact ⟨b1, b2, b3, b5, b6, fun hc => absurd hc c1⟩
  · obtain ⟨a1, a2, a3, a4, a5, a6, a7⟩ := hi
    simp [a1, a2, a4, a5, a7, c1]
  · obtain ⟨b1, b2, b3, b4, b5, b6⟩ := acquire_release_frame s _ HZ
      (regs_only_update_bits _ _ _ _)
    exact ⟨b1, b2, b3, b5, b6, fun hc => absurd hc c1⟩
  · obtain ⟨b1, b2, b3, b4, b5, b6⟩ := acquire_release_frame s _ HZ
      (regs_only_update_bits _ _ _ _)
    exact ⟨b1, b2, b3, b5, b6, fun hc => absurd hc c1⟩
  · obtain ⟨b1, b2, b3, b4, b5, b6⟩ := acquire_release_frame s _ HZ
      (regs_only_update_bits _ _ _ _)
    exact ⟨b1, b2, b3, b5, b6, fun hc => absurd hc c1⟩
  · simp [c1]

theorem eject_jack_frame (h : nau8821_h) (s : nau8821) :
    (nau8821_eject_jack h s).irq = s.irq ∧
    (nau8821_eject_jack h s).bus_error = s.bus_error ∧
    (nau8821_eject_jack h s).bias_level = s.bias_level ∧
    jack_reports (nau8821_eject_jack h s).log = jack_reports s.log ∧
    (nau8821_eject_jack h s).jd_sem = 1 ∧
    (nau8821_eject_jack h s).clk_id = h.NAU8821_CLK_DIS := by
  have hpre : ∀ s0 : nau8821, regs_only (nau8821_sema_reset s)  s0 →
      (nau8821_configure_sysclk h s0 h.NAU8821_CLK_DIS 0).2.irq = s.irq ∧
      (nau8821_configure_sysclk h s0 h.NAU8821_CLK_DIS 0).2.bus_error = s.bus_error ∧
      (nau8821_configure_sysclk h s0 h.NAU8821_CLK_DIS 0).2.bias_level = s.bias_level ∧
      jack_reports (nau8821_configure_sysclk h s0 h.NAU8821_CLK_DIS 0).2.log =
        jack_reports s.log ∧
      (nau8821_configure_sysclk h s0 h.NAU8821_CLK_DIS 0).2.jd_sem = 1 ∧
      (nau8821_configure_sysclk h s0 h.NAU8821_CLK_DIS 0).2.clk_id = h.NAU8821_CLK_DIS := by
    intro s0 hs0
    obtain ⟨a1, a2, a3, a4, a5, a6, a7⟩ := hs0
    obtain ⟨c1, c2, c3, c4, c5, c6⟩ := configure_sysclk_frame h s0 h.NAU8821_CLK_DIS 0
    refine ⟨c1.trans a1, c2.trans a4, c3.trans a5, c4.trans (a7.trans ?_),
      (c6 rfl).trans a2, ?_⟩
    · simp [nau8821_sema_reset, emit, jack_reports_append]
      simp [jack_reports, is_jack_report]
    · simp [nau8821_configure_sysclk]
  simp only [nau8821_eject_jack]
  apply hpre
  repeat' first
    | exact regs_only_refl _
    | refine regs_only_trans ?_ (regs_only_update_bits _ _ _ _)
    | refine regs_only_trans ?_ (regs_only_clear_all _ _)
    | refine regs_only_trans ?_ (regs_only_emit _ _ rfl rfl)


theorem setup_auto_irq_frame (h : nau8821_h) (s : nau8821) :
    (nau8821_setup_auto_irq h s).irq = s.irq ∧
    (nau8821_setup_auto_irq h s).bus_error = s.bus_error ∧
    (nau8821_setup_auto_irq h s).bias_level = s.bias_level ∧
    jack_reports (nau8821_setup_auto_irq h s).log = jack_reports s.log ∧
    (s.jd_sem ≤ 1 → (nau8821_setup_auto_irq h s).jd_sem ≤ 1) := by
  obtain ⟨c1, c2, c3, c4, c5, -⟩ := configure_sysclk_frame h s h.NAU8821_CLK_INTERNAL 0
  have hr : regs_only (nau8821_configure_sysclk h s h.NAU8821_CLK_INTERNAL 0).2
      (nau8821_setup_auto_irq h s) := by
    simp only [nau8821_setup_auto_irq]
    repeat' first
      | exact regs_only_refl _
      | refine regs_only_trans ?_ (regs_only_update_bits _ _ _ _)
  obtain ⟨a1, a2, a3, a4, a5, a6, a7⟩ := hr
  exact ⟨a1.trans c1, a4.trans c2, a5.trans c3, a7.trans c4, fun hle => a2 ▸ c5 hle⟩

theorem jack_insert_frame (h : nau8821_h) (s : nau8821) :
    regs_only s (nau8821_jack_insert h s).2 ∧
    ((nau8821_jack_insert h s).1 = SND_JACK_HEADSET ∨
      (nau8821_jack_insert h s).1 = SND_JACK_HEADPHONE) := by
  simp only [nau8821_jack_insert]
  split_ifs
  · refine ⟨?_, Or.inl rfl⟩
    repeat' first
      | exact regs_only_refl _
      | refine regs_only_trans ?_ (regs_only_update_bits _ _ _ _)
      | refine regs_only_trans ?_ (regs_only_emit _ _ rfl rfl)
  · exact ⟨regs_only_refl _, Or.inr rfl⟩

/-- What the `if ... else if` chain of `nau8821_interrupt` leaves: no jack report, the
interrupt line, and a count of 0 or 1 unless the branch is the completion of an
insertion in auto-precision mode, which adds one release. -/
theorem interrupt_dispatch_frame (h : nau8821_h) (s : nau8821) (active_irq : Nat) :
    jack_reports (nau8821_interrupt_dispatch h s active_irq).dev.log = jack_reports s.log ∧
    (nau8821_interrupt_dispatch h s active_irq).dev.irq = s.irq := by
  simp only [nau8821_interrupt_dispatch]
  split_ifs
  · exact ⟨(eject_jack_frame h s).2.2.2.1, (eject_jack_frame h s).1⟩
  · exact ⟨rfl, rfl⟩
  · exact ⟨rfl, rfl⟩
  · obtain ⟨a1, -, -, a4, -⟩ := setup_auto_irq_frame h
      (regmap_update_bits (regmap_update_bits s h.NAU8821_REG_INTERRUPT_DIS_CTRL
        h.NAU8821_IRQ_INSERT_DIS h.NAU8821_IRQ_INSERT_DIS) h.NAU8821_REG_INTERRUPT_MASK
        h.NAU8821_IRQ_INSERT_EN h.NAU8821_IRQ_INSERT_EN)
    refine ⟨a4.trans ?_, a1⟩
    simp [jack_reports_append]
    simp [jack_reports, is_jack_report]
  · obtain ⟨⟨a1, a2, a3, a4, a5, a6, a7⟩, -⟩ := jack_insert_frame h s
    simp [a7, a1]
  · exact ⟨(eject_jack_frame h s).2.2.2.1, (eject_jack_frame h s).1⟩
  · exact ⟨rfl, rfl⟩


/-! ## Priority of the interrupt patterns -/

/-- C10: when the status read succeeds, `nau8821_interrupt` classifies the status word by
the fixed priority eject pattern, key short-press bit, key release bit, insert
pattern. If the eject pattern matches, the eject sequence runs and a removal
(event 0) is reported under the headset mask, whatever the other bits are; a short
press is handled only if the eject pattern does not match, and is reported as
`NAU8821_BUTTON` under the mask `NAU8821_BUTTON`; a release is handled only if neither
matches, and is reported as event 0 under the mask `NAU8821_BUTTON`; the insert
pattern is handled only if none of the three matches (completion with a report
under the headset mask, re-arming for auto mode, or the eject sequence for a
spurious insertion); and every invocation adds at most one jack report. -/
theorem C10_interrupt_priority (h : nau8821_h) (s : nau8821) (hbus : s.bus_error = false) :
    (s.regmap h.NAU8821_REG_IRQ_STATUS &&& h.NAU8821_JACK_EJECT_IRQ_MASK =
        h.NAU8821_JACK_EJECT_DETECTED →
      nau8821_interrupt h s =
        (IRQ_HANDLED, snd_soc_jack_report
          (regmap_write (nau8821_eject_jack h s) h.NAU8821_REG_INT_CLR_KEY_STATUS
            (if h.NAU8821_JACK_EJECT_IRQ_MASK = 0 then s.regmap h.NAU8821_REG_IRQ_STATUS
              else h.NAU8821_JACK_EJECT_IRQ_MASK))
          0 SND_JACK_HEADSET) ∧
      jack_reports (nau8821_interrupt h s).2.log =
        jack_reports s.log ++ [Event.jack_report 0 SND_JACK_HEADSET]) ∧
    (s.regmap h.NAU8821_REG_IRQ_STATUS &&& h.NAU8821_JACK_EJECT_IRQ_MASK ≠
        h.NAU8821_JACK_EJECT_DETECTED →
      s.regmap h.NAU8821_REG_IRQ_STATUS &&& h.NAU8821_KEY_SHORT_PRESS_IRQ ≠ 0 →
      nau8821_interrupt h s =
        (IRQ_HANDLED, snd_soc_jack_report
          (regmap_write s h.NAU8821_REG_INT_CLR_KEY_STATUS h.NAU8821_KEY_SHORT_PRESS_IRQ)
          NAU8821_BUTTON NAU8821_BUTTON)) ∧
    (s.regmap h.NAU8821_REG_IRQ_STATUS &&& h.NAU8821_JACK_EJECT_IRQ_MASK ≠
        h.NAU8821_JACK_EJECT_DETECTED →
      s.regmap h.NAU8821_REG_IRQ_STATUS &&& h.NAU8821_KEY_SHORT_PRESS_IRQ = 0 →
      s.regmap h.NAU8821_REG_IRQ_STATUS &&& h.NAU8821_KEY_RELEASE_IRQ ≠ 0 →
      nau8821_interrupt h s =
        (IRQ_HANDLED, snd_soc_jack_report
          (regmap_write s h.NAU8821_REG_INT_CLR_KEY_STATUS h.NAU8821_KEY_RELEASE_IRQ)
          0 NAU8821_BUTTON)) ∧
    (s.regmap h.NAU8821_REG_IRQ_STATUS &&& h.NAU8821_JACK_EJECT_IRQ_MASK ≠
        h.NAU8821_JACK_EJECT_DETECTED →
      s.regmap h.NAU8821_REG_IRQ_STATUS &&& h.NAU8821_KEY_SHORT_PRESS_IRQ = 0 →
      s.regmap h.NAU8821_REG_IRQ_STATUS &&& h.NAU8821_KEY_RELEASE_IRQ = 0 →
      s.regmap h.NAU8821_REG_IRQ_STATUS &&& h.NAU8821_JACK_INSERT_IRQ_MASK =
        h.NAU8821_JACK_INSERT_DETECTED →
      (nau8821_interrupt h s).1 = IRQ_HANDLED ∧
      (nau8821_is_jack_inserted h s = true → s.clk_id ≠ h.NAU8821_CLK_DIS →
        (nau8821_interrupt h s).2 =
          snd_soc_jack_report
            (regmap_write (nau8821_sema_release (nau8821_jack_insert h s).2)
              h.NAU8821_REG_INT_CLR_KEY_STATUS (s.regmap h.NAU8821_REG_IRQ_STATUS))
            (nau8821_jack_insert h s).1 SND_JACK_HEADSET) ∧
      (nau8821_is_jack_inserted h s = true → s.clk_id = h.NAU8821_CLK_DIS →
        (nau8821_interrupt h s).2 =
          regmap_write
            (nau8821_setup_auto_irq h
              (regmap_update_bits
                (regmap_update_bits s h.NAU8821_REG_INTERRUPT_DIS_CTRL
                  h.NAU8821_IRQ_INSERT_DIS h.NAU8821_IRQ_INSERT_DIS)
                h.NAU8821_REG_INTERRUPT_MASK h.NAU8821_IRQ_INSERT_EN h.NAU8821_IRQ_INSERT_EN))
            h.NAU8821_REG_INT_CLR_KEY_STATUS (s.regmap h.NAU8821_REG_IRQ_STATUS)) ∧
      (nau8821_is_jack_inserted h s = false →
        (nau8821_interrupt h s).2 =
          regmap_write (nau8821_eject_jack h s) h.NAU8821_REG_INT_CLR_KEY_STATUS
            (s.regmap h.NAU8821_REG_IRQ_STATUS))) ∧
    (∃ l, jack_reports (nau8821_interrupt h s).2.log = jack_reports s.log ++ l ∧
      l.length ≤ 1) := by
  have hret : regmap_read_ret s = 0 := by simp [regmap_read_ret, hbus]
  have hhs : (0 ||| SND_JACK_HEADSET) ≠ 0 := by decide
  have hbt : (0 ||| NAU8821_BUTTON) ≠ 0 := by decide
  have hbt1 : NAU8821_BUTTON ≠ 0 := by decide
  refine ⟨?_, ?_, ?_, ?_, ?_⟩
  · intro he
    have heq : nau8821_interrupt h s =
        (IRQ_HANDLED, snd_soc_jack_report
          (regmap_write (nau8821_eject_jack h s) h.NAU8821_REG_INT_CLR_KEY_STATUS
            (if h.NAU8821_JACK_EJECT_IRQ_MASK = 0 then s.regmap h.NAU8821_REG_IRQ_STATUS
              else h.NAU8821_JACK_EJECT_IRQ_MASK))
          0 SND_JACK_HEADSET) := by
      simp only [nau8821_interrupt, hret, ne_eq, not_true_eq_false, if_false,
        nau8821_interrupt_dispatch, regmap_read, he, if_true, hhs, not_false_eq_true]
      simp
    refine ⟨heq, ?_⟩
    rw [heq]
    simp [snd_soc_jack_report, emit, jack_reports_append, (eject_jack_frame h s).2.2.2.1]
    simp [jack_reports, is_jack_report]
  · intro he hp
    simp only [nau8821_interrupt, hret, ne_eq, not_true_eq_false, if_false,
      nau8821_interrupt_dispatch, regmap_read, he, hp, if_true, hbt, not_false_eq_true]
    have hne : h.NAU8821_KEY_SHORT_PRESS_IRQ ≠ 0 := by
      intro h0; rw [h0] at hp; simp at hp
    simp [hne]
  · intro he hp hr
    simp only [nau8821_interrupt, hret, ne_eq, not_true_eq_false, if_false,
      nau8821_interrupt_dispatch, regmap_read, he, hp, hr, if_true, hbt1, not_false_eq_true]
    have hne : h.NAU8821_KEY_RELEASE_IRQ ≠ 0 := by
      intro h0; rw [h0] at hr; simp at hr
    simp [hne]
  · intro he hp hr hi
    refine ⟨?_, ?_, ?_, ?_⟩
    · simp only [nau8821_interrupt, hret, ne_eq, not_true_eq_false, if_false]
      split_ifs <;> rfl
    · intro hin hclk
      simp only [nau8821_interrupt, hret, ne_eq, not_true_eq_false, if_false,
        nau8821_interrupt_dispatch, regmap_read, he, hp, hr, hi, hin, hclk, if_true, hhs,
        not_false_eq_true]
      simp
    · intro hin hclk
      simp only [nau8821_interrupt, hret, ne_eq, not_true_eq_false, if_false,
        nau8821_interrupt_dispatch, regmap_read, he, hp, hr, hi, hin, hclk, if_true,
        not_false_eq_true]
    · intro hin
      simp only [nau8821_interrupt, hret, ne_eq, not_true_eq_false, if_false,
        nau8821_interrupt_dispatch, regmap_read, he, hp, hr, hi, hin, if_true,
        not_false_eq_true, Bool.false_eq_true]
  · obtain ⟨hd, -⟩ := interrupt_dispatch_frame h s (regmap_read s h.NAU8821_REG_IRQ_STATUS)
    simp only [nau8821_interrupt, hret, ne_eq, not_true_eq_false, if_false]
    by_cases hm : (nau8821_interrupt_dispatch h s
        (regmap_read s h.NAU8821_REG_IRQ_STATUS)).event_mask = 0
    · simp only [hm, not_true_eq_false, if_false]
      refine ⟨[], ?_, by simp⟩
      simp [jack_reports_append, hd]
      simp [jack_reports, is_jack_report]
    · simp only [hm, not_false_eq_true, if_true]
      refine ⟨[Event.jack_report
        (nau8821_interrupt_dispatch h s (regmap_read s h.NAU8821_REG_IRQ_STATUS)).event
        (nau8821_interrupt_dispatch h s (regmap_read s h.NAU8821_REG_IRQ_STATUS)).event_mask],
        ?_, by simp⟩
      simp [snd_soc_jack_report, emit, jack_reports_append, hd]
      simp [jack_reports, is_jack_report]

/-- C10 on the sample device with both the eject pattern and the key short-press bit
pending (status 0x0044): only the removal is reported. -/
theorem C10_interrupt_priority_witness :
    (sample_dev 1 (regs_of [(0x10, 0x0044)])).bus_error = false ∧
    (sample_dev 1 (regs_of [(0x10, 0x0044)])).regmap sample_h.NAU8821_REG_IRQ_STATUS &&&
      sample_h.NAU8821_JACK_EJECT_IRQ_MASK = sample_h.NAU8821_JACK_EJECT_DETECTED ∧
    (sample_dev 1 (regs_of [(0x10, 0x0044)])).regmap sample_h.NAU8821_REG_IRQ_STATUS &&&
      sample_h.NAU8821_KEY_SHORT_PRESS_IRQ ≠ 0 ∧
    jack_reports (nau8821_interrupt sample_h (sample_dev 1 (regs_of [(0x10, 0x0044)]))).2.log =
      [Event.jack_report 0 3] :=
  ⟨by decide, by decide, by decide,
    ((C10_interrupt_priority sample_h (sample_dev 1 (regs_of [(0x10, 0x0044)]))
      (by decide)).1 (by decide)).2.trans (by decide)⟩

/-! ## The semaphore count over runs -/

theorem interrupt_dispatch_jd_sem (h : nau8821_h) (s : nau8821) :
    (completes_insert h s = false → s.jd_sem ≤ 1 → regmap_read_ret s = 0 →
      (nau8821_interrupt_dispatch h s (regmap_read s h.NAU8821_REG_IRQ_STATUS)).dev.jd_sem ≤ 1) ∧
    (completes_insert h s = true →
      (nau8821_interrupt_dispatch h s (regmap_read s h.NAU8821_REG_IRQ_STATUS)).dev.jd_sem =
        if s.irq = 0 then s.jd_sem else (s.jd_sem + 1) % 2 ^ 32) := by
  constructor
  · intro hc hle hret
    simp only [nau8821_interrupt_dispatch]
    split_ifs with c1 c2 c3 c4 c5 c6
    · exact le_of_eq (eject_jack_frame h s).2.2.2.2.1
    · exact hle
    · exact hle
    · exact (setup_auto_irq_frame h _).2.2.2.2 (by simpa using hle)
    · exfalso
      have : completes_insert h s = true := by
        simp only [completes_insert, hret, c1, c4, c5, c6]
        simp only [ne_eq, Decidable.not_not] at c2 c3
        simp [c2, c3]
      rw [hc] at this
      exact Bool.false_ne_true this
    · exact le_of_eq (eject_jack_frame h s).2.2.2.2.1
    · exact hle
  · intro hc
    simp only [completes_insert, Bool.and_eq_true, decide_eq_true_eq, Bool.not_eq_true',
      decide_eq_false_iff_not] at hc
    obtain ⟨⟨⟨⟨⟨⟨-, c1⟩, c2⟩, c3⟩, c4⟩, c5⟩, c6⟩ := hc
    simp only [nau8821_interrupt_dispatch, if_neg c1, c2, c3, c4, c5, c6, ne_eq,
      not_true_eq_false, if_false, if_true]
    rw [sema_release_jd_sem]
    obtain ⟨⟨a1, a2, -⟩, -⟩ := jack_insert_frame h s
    rw [a1, a2]

theorem interrupt_jd_sem_eq (h : nau8821_h) (s : nau8821) (hret : regmap_read_ret s = 0) :
    (nau8821_interrupt h s).2.jd_sem =
      (nau8821_interrupt_dispatch h s (regmap_read s h.NAU8821_REG_IRQ_STATUS)).dev.jd_sem := by
  simp only [nau8821_interrupt, hret, ne_eq, not_true_eq_false, if_false]
  split_ifs <;> rfl

theorem interrupt_jd_sem (h : nau8821_h) (s : nau8821) :
    (completes_insert h s = false → s.jd_sem ≤ 1 → (nau8821_interrupt h s).2.jd_sem ≤ 1) ∧
    (completes_insert h s = true →
      (nau8821_interrupt h s).2.jd_sem =
        if s.irq = 0 then s.jd_sem else (s.jd_sem + 1) % 2 ^ 32) := by
  obtain ⟨d1, d2⟩ := interrupt_dispatch_jd_sem h s
  constructor
  · intro hc hle
    by_cases hret : regmap_read_ret s = 0
    · rw [interrupt_jd_sem_eq h s hret]
      exact d1 hc hle hret
    · simp only [nau8821_interrupt, ne_eq, hret, not_false_eq_true, if_true]
      exact hle
  · intro hc
    have hret : regmap_read_ret s = 0 := by
      simp only [completes_insert, Bool.and_eq_true, decide_eq_true_eq] at hc
      exact hc.1.1.1.1.1.1
    rw [interrupt_jd_sem_eq h s hret]
    exact d2 hc

theorem hw_params_width_jd_sem (h : nau8821_h) (s : nau8821) (width : Int) :
    (nau8821_hw_params_width h s width).2.jd_sem =
      if s.irq = 0 then s.jd_sem else (s.jd_sem + 1) % 2 ^ 32 := by
  simp only [nau8821_hw_params_width]
  split_ifs <;> simp [sema_release_jd_sem, *]

theorem hw_params_dividers_jd_sem (h : nau8821_h) (s : nau8821) (rate : Nat) (width bclk : Int)
    (r : Int × nau8821) (hr : nau8821_hw_params_dividers h s rate width bclk = some r) :
    r.2.jd_sem = if s.irq = 0 then s.jd_sem else (s.jd_sem + 1) % 2 ^ 32 := by
  simp only [nau8821_hw_params_dividers] at hr
  split_ifs at hr
  all_goals simp only [Option.some.injEq] at hr
  all_goals subst hr
  all_goals first
    | exact hw_params_width_jd_sem h s width
    | (rw [hw_params_width_jd_sem]; simp [nau8821_hw_params_set_div])
    | (rw [sema_release_jd_sem])

theorem hw_params_jd_sem (h : nau8821_h) (s : nau8821) (stream : Int) (rate : Nat)
    (width bclk : Int) (r : Int × nau8821)
    (hr : nau8821_hw_params h s stream rate width bclk = some r) (hle : s.jd_sem ≤ 1) :
    r.2.jd_sem ≤ 1 := by
  have key : ∀ reg mask val, nau8821_hw_params_dividers h
      (regmap_update_bits (nau8821_sema_acquire s HZ).2 reg mask val) rate width bclk = some r →
      r.2.jd_sem ≤ 1 := by
    intro reg mask val hd
    rw [hw_params_dividers_jd_sem h _ rate width bclk r hd]
    simp only [update_bits_irq, update_bits_jd_sem, sema_acquire_irq, sema_acquire_jd_sem]
    split_ifs <;> omega
  have fail : (nau8821_sema_release (nau8821_sema_acquire s HZ).2).jd_sem ≤ 1 := by
    rw [sema_release_jd_sem, sema_acquire_irq, sema_acquire_jd_sem]
    split_ifs <;> omega
  simp only [nau8821_hw_params] at hr
  split_ifs at hr
  · simp only [Option.some.injEq] at hr; subst hr; exact fail
  · exact key _ _ _ hr
  · simp only [Option.some.injEq] at hr; subst hr; exact fail
  · exact key _ _ _ hr

theorem set_dai_fmt_jd_sem (h : nau8821_h) (s : nau8821) (fmt : Nat) (hle : s.jd_sem ≤ 1) :
    (nau8821_set_dai_fmt h s fmt).2.jd_sem ≤ 1 := by
  simp only [nau8821_set_dai_fmt]
  split
  · exact hle
  · split
    · exact hle
    · split
      · exact hle
      · simp only [sema_release_jd_sem, update_bits_irq, update_bits_jd_sem, sema_acquire_irq,
          sema_acquire_jd_sem]
        split_ifs <;> omega

theorem resume_setup_jd_sem (h : nau8821_h) (s : nau8821) :
    (nau8821_resume_setup h s).2.jd_sem = s.jd_sem := by
  obtain ⟨-, -, -, -, -, c6⟩ := configure_sysclk_frame h s h.NAU8821_CLK_DIS 0
  simp only [nau8821_resume_setup]
  split_ifs
  · have hr : regs_only (nau8821_configure_sysclk h s h.NAU8821_CLK_DIS 0).2
        (regmap_update_bits
          (regmap_update_bits
            (regmap_update_bits
              (nau8821_int_status_clear_all h (nau8821_configure_sysclk h s h.NAU8821_CLK_DIS 0).2)
              h.NAU8821_REG_INTERRUPT_MASK
              (h.NAU8821_IRQ_EJECT_EN ||| h.NAU8821_IRQ_INSERT_EN) 0)
            h.NAU8821_REG_JACK_DET_CTRL h.NAU8821_JACK_DET_DB_BYPASS
            h.NAU8821_JACK_DET_DB_BYPASS)
          h.NAU8821_REG_INTERRUPT_DIS_CTRL
          (h.NAU8821_IRQ_INSERT_DIS ||| h.NAU8821_IRQ_EJECT_DIS) 0) := by
      repeat' first
        | exact regs_only_refl _
        | refine regs_only_trans ?_ (regs_only_update_bits _ _ _ _)
        | refine regs_only_trans ?_ (regs_only_clear_all _ _)
    exact hr.2.1.trans (c6 rfl)
  · exact c6 rfl

theorem set_bias_level_jd_sem (h : nau8821_h) (s : nau8821) (level : Int)
    (hle : s.jd_sem ≤ 1) : (nau8821_set_bias_level h s level).2.jd_sem ≤ 1 := by
  simp only [nau8821_set_bias_level]
  split_ifs
  all_goals first
    | exact hle
    | (rw [resume_setup_jd_sem]; exact hle)
    | simp [nau8821_sema_reset, emit]

theorem force_bias_level_jd_sem (h : nau8821_h) (s : nau8821) (level : Int)
    (hle : s.jd_sem ≤ 1) : (snd_soc_component_force_bias_level h s level).2.jd_sem ≤ 1 := by
  simp only [snd_soc_component_force_bias_level]
  split_ifs
  · exact set_bias_level_jd_sem h s level hle
  · exact set_bias_level_jd_sem h s level hle

theorem suspend_jd_sem (h : nau8821_h) (s : nau8821) (hle : s.jd_sem ≤ 1) :
    (nau8821_suspend h s).2.jd_sem ≤ 1 := by
  simp only [nau8821_suspend]
  have := force_bias_level_jd_sem h (if s.irq ≠ 0 then emit s Event.disable_irq else s)
    SND_SOC_BIAS_OFF (by split_ifs <;> simpa [emit] using hle)
  simpa [emit] using this

theorem resume_jd_sem (s : nau8821) (hle : s.jd_sem ≤ 1) :
    (nau8821_resume s).2.jd_sem ≤ 1 := by
  simp only [nau8821_resume]
  split_ifs
  · simp only [emit, sema_acquire_jd_sem]
    split_ifs <;> omega
  · simpa [emit] using hle

theorem codec_remove_jd_sem (s : nau8821) (hle : s.jd_sem ≤ 1) :
    (nau8821_codec_remove s).jd_sem ≤ 1 := by
  simp only [nau8821_codec_remove]
  split_ifs
  · simp [nau8821_sema_reset, emit]
  · exact hle


theorem setup_irq_jd_sem (h : nau8821_h) (s : nau8821) :
    (nau8821_setup_irq h s).2.jd_sem = 1 := by
  simp [nau8821_setup_irq]


/-- C9 as stated fails: on the sample device left by `nau8821_setup_irq` (count 1), an
insert status followed by two interrupts (the first re-arms detection in manual
mode, the second completes the insertion and releases the gate without a matching
acquire) leaves the semaphore count at 2. -/
theorem C9_gate_count_counterexample :
    (nau8821_setup_irq sample_h (sample_dev 1 (regs_of []))).2.jd_sem = 1 ∧
    (run sample_h (nau8821_setup_irq sample_h (sample_dev 1 (regs_of []))).2
      [Op.hardware 0x10 0x1, Op.interrupt, Op.interrupt]).map (fun s => s.jd_sem) = some 2 := by
  decide

/-! ## The interrupt handler branch by branch -/

theorem reg_ne (h : nau8821_h) (hd : regs_distinct h) (a b : reg_name) (hab : a ≠ b) :
    reg_addr h a ≠ reg_addr h b :=
  fun e => hab (hd a b e)

theorem clk_ne (h : nau8821_h) (hc : clk_ids_distinct h) (a b : clk_name) (hab : a ≠ b) :
    clk_value h a ≠ clk_value h b :=
  fun e => hab (hc a b e)

theorem update_bits_value_set (orig mask : Nat) :
    update_bits_value orig mask mask &&& mask = mask := by
  apply Nat.eq_of_testBit_eq
  intro i
  simp only [update_bits_value, Nat.testBit_and, Nat.testBit_or, Nat.testBit_xor]
  cases orig.testBit i <;> cases mask.testBit i <;> rfl

theorem update_bits_value_clear (orig mask : Nat) :
    update_bits_value orig mask 0 &&& mask = 0 := by
  apply Nat.eq_of_testBit_eq
  intro i
  simp only [update_bits_value, Nat.testBit_and, Nat.testBit_or, Nat.testBit_xor,
    Nat.zero_testBit]
  cases orig.testBit i <;> cases mask.testBit i <;> rfl

theorem update_bits_value_field (orig mask val : Nat) :
    update_bits_value orig mask val &&& mask = val &&& mask := by
  apply Nat.eq_of_testBit_eq
  intro i
  simp only [update_bits_value, Nat.testBit_and, Nat.testBit_or, Nat.testBit_xor]
  cases orig.testBit i <;> cases mask.testBit i <;> cases val.testBit i <;> rfl

theorem interrupt_ret (h : nau8821_h) (s : nau8821) (hbus : s.bus_error = false) :
    (nau8821_interrupt h s).1 = IRQ_HANDLED := by
  have hret : regmap_read_ret s = 0 := by simp [regmap_read_ret, hbus]
  simp only [nau8821_interrupt, hret, ne_eq, not_true_eq_false, if_false]
  split_ifs <;> rfl

/-- C12: when the status read succeeds and the status word matches none of the four
patterns (eject, key short-press, key release, insert), `nau8821_interrupt` does one
thing only: it writes the whole status word to the interrupt-clear register; it
reports no jack event and returns `IRQ_HANDLED`. -/
theorem C12_no_pattern_clears_whole_word (h : nau8821_h) (s : nau8821)
    (hbus : s.bus_error = false)
    (he : s.regmap h.NAU8821_REG_IRQ_STATUS &&& h.NAU8821_JACK_EJECT_IRQ_MASK ≠
      h.NAU8821_JACK_EJECT_DETECTED)
    (hp : s.regmap h.NAU8821_REG_IRQ_STATUS &&& h.NAU8821_KEY_SHORT_PRESS_IRQ = 0)
    (hr : s.regmap h.NAU8821_REG_IRQ_STATUS &&& h.NAU8821_KEY_RELEASE_IRQ = 0)
    (hi : s.regmap h.NAU8821_REG_IRQ_STATUS &&& h.NAU8821_JACK_INSERT_IRQ_MASK ≠
      h.NAU8821_JACK_INSERT_DETECTED) :
    nau8821_interrupt h s =
      (IRQ_HANDLED, regmap_write s h.NAU8821_REG_INT_CLR_KEY_STATUS
        (s.regmap h.NAU8821_REG_IRQ_STATUS)) ∧
    (nau8821_interrupt h s).2.log =
      s.log ++ [Event.reg_write h.NAU8821_REG_INT_CLR_KEY_STATUS
        (s.regmap h.NAU8821_REG_IRQ_STATUS)] ∧
    (nau8821_interrupt h s).2.regmap h.NAU8821_REG_INT_CLR_KEY_STATUS =
      s.regmap h.NAU8821_REG_IRQ_STATUS ∧
    jack_reports (nau8821_interrupt h s).2.log = jack_reports s.log := by
  have hret : regmap_read_ret s = 0 := by simp [regmap_read_ret, hbus]
  have heq : nau8821_interrupt h s =
      (IRQ_HANDLED, regmap_write s h.NAU8821_REG_INT_CLR_KEY_STATUS
        (s.regmap h.NAU8821_REG_IRQ_STATUS)) := by
    simp only [nau8821_interrupt, hret, ne_eq, not_true_eq_false, if_false,
      nau8821_interrupt_dispatch, regmap_read, he, hp, hr, hi, if_true]
  refine ⟨heq, ?_, ?_, ?_⟩
  · rw [heq]; simp
  · rw [heq]; simp [regmap_write_regmap_same]
  · rw [heq]; simp [jack_reports_append]; simp [jack_reports, is_jack_report]


theorem mclk_log (h : nau8821_h) (s : nau8821) :
    (nau8821_configure_mclk_as_sysclk h s).log =
      s.log ++ [Event.reg_update h.NAU8821_REG_CLK_DIVIDER h.NAU8821_CLK_SRC_MASK
          h.NAU8821_CLK_SRC_MCLK,
        Event.reg_update h.NAU8821_REG_FLL6 h.NAU8821_DCO_EN 0,
        Event.reg_update h.NAU8821_REG_FLL1 h.NAU8821_ICTRL_LATCH_MASK 0] := by
  simp [nau8821_configure_mclk_as_sysclk]

theorem configure_sysclk_dis (h : nau8821_h) (s : nau8821) (freq : Nat) :
    nau8821_configure_sysclk h s h.NAU8821_CLK_DIS freq =
      (0, { nau8821_configure_mclk_as_sysclk h s with clk_id := h.NAU8821_CLK_DIS }) := by
  simp [nau8821_configure_sysclk]

theorem clear_loop_log (h : nau8821_h) (a : Nat) :
    ∀ (n i : Nat) (s : nau8821), (int_status_clear_loop h a n i s).log =
      s.log ++ ((List.range' i n).filter (fun j => decide (a &&& (0x1 <<< j) ≠ 0))).map
        (fun j => Event.reg_write h.NAU8821_REG_INT_CLR_KEY_STATUS (0x1 <<< j)) := by
  intro n
  induction n with
  | zero => intro i s; simp [int_status_clear_loop]
  | succ n ih =>
    intro i s
    simp only [int_status_clear_loop, List.range'_succ]
    split_ifs with hc
    · rw [ih, List.filter_cons_of_pos (by simpa using hc)]
      simp
    · rw [ih, List.filter_cons_of_neg (by simpa using hc)]

theorem clear_all_log (h : nau8821_h) (s : nau8821) :
    (nau8821_int_status_clear_all h s).log =
      s.log ++ clear_all_writes h (s.regmap h.NAU8821_REG_IRQ_STATUS) := by
  simp only [nau8821_int_status_clear_all, clear_all_writes, regmap_read, clear_loop_log,
    List.range_eq_range']

theorem clear_loop_regmap (h : nau8821_h) (a : Nat) (r : Nat)
    (hr : r ≠ h.NAU8821_REG_INT_CLR_KEY_STATUS) :
    ∀ (n i : Nat) (s : nau8821), (int_status_clear_loop h a n i s).regmap r = s.regmap r := by
  intro n
  induction n with
  | zero => intro i s; rfl
  | succ n ih =>
    intro i s
    simp only [int_status_clear_loop]
    split_ifs
    · rw [ih, regmap_write_regmap_other _ _ _ _ hr]
    · rw [ih]

theorem eject_jack_log (h : nau8821_h) (s : nau8821)
    (h1 : h.NAU8821_REG_IRQ_STATUS ≠ h.NAU8821_REG_MIC_BIAS)
    (h2 : h.NAU8821_REG_IRQ_STATUS ≠ h.NAU8821_REG_JACK_DET_CTRL) :
    (nau8821_eject_jack h s).log =
      s.log ++
        ([Event.sema_reset,
          Event.reg_update h.NAU8821_REG_MIC_BIAS h.NAU8821_MICBIAS_JKR2 0,
          Event.reg_update h.NAU8821_REG_JACK_DET_CTRL
            (h.NAU8821_SPKR_DWN1R ||| h.NAU8821_SPKR_DWN1L) 0,
          Event.dapm_sync] ++
        clear_all_writes h (s.regmap h.NAU8821_REG_IRQ_STATUS) ++
        [Event.reg_update h.NAU8821_REG_INTERRUPT_DIS_CTRL
            (h.NAU8821_IRQ_EJECT_DIS ||| h.NAU8821_IRQ_INSERT_DIS) h.NAU8821_IRQ_EJECT_DIS,
          Event.reg_update h.NAU8821_REG_INTERRUPT_MASK
            (h.NAU8821_IRQ_EJECT_EN ||| h.NAU8821_IRQ_INSERT_EN) h.NAU8821_IRQ_EJECT_EN,
          Event.reg_update h.NAU8821_REG_JACK_DET_CTRL
            h.NAU8821_JACK_DET_DB_BYPASS h.NAU8821_JACK_DET_DB_BYPASS,
          Event.reg_update h.NAU8821_REG_ENA_CTRL
            (h.NAU8821_EN_ADCR ||| h.NAU8821_EN_ADCL) 0,
          Event.reg_update h.NAU8821_REG_CLK_DIVIDER h.NAU8821_CLK_SRC_MASK
            h.NAU8821_CLK_SRC_MCLK,
          Event.reg_update h.NAU8821_REG_FLL6 h.NAU8821_DCO_EN 0,
          Event.reg_update h.NAU8821_REG_FLL1 h.NAU8821_ICTRL_LATCH_MASK 0]) := by
  simp only [nau8821_eject_jack, configure_sysclk_dis, mclk_log, update_bits_log,
    clear_all_log]
  simp [emit, nau8821_sema_reset, update_bits_regmap_other, h1, h2]


theorem interrupt_eq_eject (h : nau8821_h) (s : nau8821) (hbus : s.bus_error = false)
    (he : s.regmap h.NAU8821_REG_IRQ_STATUS &&& h.NAU8821_JACK_EJECT_IRQ_MASK =
      h.NAU8821_JACK_EJECT_DETECTED) :
    nau8821_interrupt h s =
      (IRQ_HANDLED, snd_soc_jack_report
        (regmap_write (nau8821_eject_jack h s) h.NAU8821_REG_INT_CLR_KEY_STATUS
          (if h.NAU8821_JACK_EJECT_IRQ_MASK = 0 then s.regmap h.NAU8821_REG_IRQ_STATUS
            else h.NAU8821_JACK_EJECT_IRQ_MASK))
        0 SND_JACK_HEADSET) := by
  have hret : regmap_read_ret s = 0 := by simp [regmap_read_ret, hbus]
  have hhs : (0 ||| SND_JACK_HEADSET) ≠ 0 := by decide
  simp only [nau8821_interrupt, hret, ne_eq, not_true_eq_false, if_false,
    nau8821_interrupt_dispatch, regmap_read, he, if_true, hhs, not_false_eq_true]
  simp

theorem interrupt_eq_press (h : nau8821_h) (s : nau8821) (hbus : s.bus_error = false)
    (he : s.regmap h.NAU8821_REG_IRQ_STATUS &&& h.NAU8821_JACK_EJECT_IRQ_MASK ≠
      h.NAU8821_JACK_EJECT_DETECTED)
    (hp : s.regmap h.NAU8821_REG_IRQ_STATUS &&& h.NAU8821_KEY_SHORT_PRESS_IRQ ≠ 0) :
    nau8821_interrupt h s =
      (IRQ_HANDLED, snd_soc_jack_report
        (regmap_write s h.NAU8821_REG_INT_CLR_KEY_STATUS h.NAU8821_KEY_SHORT_PRESS_IRQ)
        NAU8821_BUTTON NAU8821_BUTTON) := by
  have hret : regmap_read_ret s = 0 := by simp [regmap_read_ret, hbus]
  have hbt : (0 ||| NAU8821_BUTTON) ≠ 0 := by decide
  simp only [nau8821_interrupt, hret, ne_eq, not_true_eq_false, if_false,
    nau8821_interrupt_dispatch, regmap_read, he, hp, if_true, hbt, not_false_eq_true]
  have hne : h.NAU8821_KEY_SHORT_PRESS_IRQ ≠ 0 := by
    intro h0; rw [h0] at hp; simp at hp
  simp [hne]

theorem interrupt_eq_release (h : nau8821_h) (s : nau8821) (hbus : s.bus_error = false)
    (he : s.regmap h.NAU8821_REG_IRQ_STATUS &&& h.NAU8821_JACK_EJECT_IRQ_MASK ≠
      h.NAU8821_JACK_EJECT_DETECTED)
    (hp : s.regmap h.NAU8821_REG_IRQ_STATUS &&& h.NAU8821_KEY_SHORT_PRESS_IRQ = 0)
    (hr : s.regmap h.NAU8821_REG_IRQ_STATUS &&& h.NAU8821_KEY_RELEASE_IRQ ≠ 0) :
    nau8821_interrupt h s =
      (IRQ_HANDLED, snd_soc_jack_report
        (regmap_write s h.NAU8821_REG_INT_CLR_KEY_STATUS h.NAU8821_KEY_RELEASE_IRQ)
        0 NAU8821_BUTTON) := by
  have hret : regmap_read_ret s = 0 := by simp [regmap_read_ret, hbus]
  have hbt1 : NAU8821_BUTTON ≠ 0 := by decide
  simp only [nau8821_interrupt, hret, ne_eq, not_true_eq_false, if_false,
    nau8821_interrupt_dispatch, regmap_read, he, hp, hr, if_true, hbt1, not_false_eq_true]
  have hne : h.NAU8821_KEY_RELEASE_IRQ ≠ 0 := by
    intro h0; rw [h0] at hr; simp at hr
  simp [hne]

theorem interrupt_eq_auto (h : nau8821_h) (s : nau8821) (hbus : s.bus_error = false)
    (he : s.regmap h.NAU8821_REG_IRQ_STATUS &&& h.NAU8821_JACK_EJECT_IRQ_MASK ≠
      h.NAU8821_JACK_EJECT_DETECTED)
    (hp : s.regmap h.NAU8821_REG_IRQ_STATUS &&& h.NAU8821_KEY_SHORT_PRESS_IRQ = 0)
    (hr : s.regmap h.NAU8821_REG_IRQ_STATUS &&& h.NAU8821_KEY_RELEASE_IRQ = 0)
    (hi : s.regmap h.NAU8821_REG_IRQ_STATUS &&& h.NAU8821_JACK_INSERT_IRQ_MASK =
      h.NAU8821_JACK_INSERT_DETECTED)
    (hin : nau8821_is_jack_inserted h s = true) (hclk : s.clk_id ≠ h.NAU8821_CLK_DIS) :
    nau8821_interrupt h s =
      (IRQ_HANDLED, snd_soc_jack_report
        (regmap_write (nau8821_sema_release (nau8821_jack_insert h s).2)
          h.NAU8821_REG_INT_CLR_KEY_STATUS (s.regmap h.NAU8821_REG_IRQ_STATUS))
        (nau8821_jack_insert h s).1 SND_JACK_HEADSET) := by
  have hret : regmap_read_ret s = 0 := by simp [regmap_read_ret, hbus]
  have hhs : (0 ||| SND_JACK_HEADSET) ≠ 0 := by decide
  simp only [nau8821_interrupt, hret, ne_eq, not_true_eq_false, if_false,
    nau8821_interrupt_dispatch, regmap_read, he, hp, hr, hi, hin, hclk, if_true, hhs,
    not_false_eq_true]
  simp

theorem interrupt_eq_manual (h : nau8821_h) (s : nau8821) (hbus : s.bus_error = false)
    (he : s.regmap h.NAU8821_REG_IRQ_STATUS &&& h.NAU8821_JACK_EJECT_IRQ_MASK ≠
      h.NAU8821_JACK_EJECT_DETECTED)
    (hp : s.regmap h.NAU8821_REG_IRQ_STATUS &&& h.NAU8821_KEY_SHORT_PRESS_IRQ = 0)
    (hr : s.regmap h.NAU8821_REG_IRQ_STATUS &&& h.NAU8821_KEY_RELEASE_IRQ = 0)
    (hi : s.regmap h.NAU8821_REG_IRQ_STATUS &&& h.NAU8821_JACK_INSERT_IRQ_MASK =
      h.NAU8821_JACK_INSERT_DETECTED)
    (hin : nau8821_is_jack_inserted h s = true) (hclk : s.clk_id = h.NAU8821_CLK_DIS) :
    nau8821_interrupt h s =
      (IRQ_HANDLED, regmap_write
        (nau8821_setup_auto_irq h
          (regmap_update_bits
            (regmap_update_bits s h.NAU8821_REG_INTERRUPT_DIS_CTRL
              h.NAU8821_IRQ_INSERT_DIS h.NAU8821_IRQ_INSERT_DIS)
            h.NAU8821_REG_INTERRUPT_MASK h.NAU8821_IRQ_INSERT_EN h.NAU8821_IRQ_INSERT_EN))
        h.NAU8821_REG_INT_CLR_KEY_STATUS (s.regmap h.NAU8821_REG_IRQ_STATUS)) := by
  have hret : regmap_read_ret s = 0 := by simp [regmap_read_ret, hbus]
  simp only [nau8821_interrupt, hret, ne_eq, not_true_eq_false, if_false,
    nau8821_interrupt_dispatch, regmap_read, he, hp, hr, hi, hin, hclk, if_true,
    not_false_eq_true]

theorem interrupt_eq_spurious (h : nau8821_h) (s : nau8821) (hbus : s.bus_error = false)
    (he : s.regmap h.NAU8821_REG_IRQ_STATUS &&& h.NAU8821_JACK_EJECT_IRQ_MASK ≠
      h.NAU8821_JACK_EJECT_DETECTED)
    (hp : s.regmap h.NAU8821_REG_IRQ_STATUS &&& h.NAU8821_KEY_SHORT_PRESS_IRQ = 0)
    (hr : s.regmap h.NAU8821_REG_IRQ_STATUS &&& h.NAU8821_KEY_RELEASE_IRQ = 0)
    (hi : s.regmap h.NAU8821_REG_IRQ_STATUS &&& h.NAU8821_JACK_INSERT_IRQ_MASK =
      h.NAU8821_JACK_INSERT_DETECTED)
    (hin : nau8821_is_jack_inserted h s = false) :
    nau8821_interrupt h s =
      (IRQ_HANDLED, regmap_write (nau8821_eject_jack h s) h.NAU8821_REG_INT_CLR_KEY_STATUS
        (s.regmap h.NAU8821_REG_IRQ_STATUS)) := by
  have hret : regmap_read_ret s = 0 := by simp [regmap_read_ret, hbus]
  simp only [nau8821_interrupt, hret, ne_eq, not_true_eq_false, if_false,
    nau8821_interrupt_dispatch, regmap_read, he, hp, hr, hi, hin, if_true,
    not_false_eq_true, Bool.false_eq_true]

theorem jack_insert_headset (h : nau8821_h) (s : nau8821)
    (hm : s.regmap h.NAU8821_REG_I2C_DEVICE_ID &&& h.NAU8821_MICDET ≠ 0) :
    (nau8821_jack_insert h s).1 = SND_JACK_HEADSET ∧
    (nau8821_jack_insert h s).2 =
      emit (emit (regmap_update_bits s h.NAU8821_REG_MIC_BIAS
        h.NAU8821_MICBIAS_JKR2 h.NAU8821_MICBIAS_JKR2) Event.dapm_force_enable_pin)
        Event.dapm_sync := by
  simp [nau8821_jack_insert, regmap_read, hm]

theorem jack_insert_headphone (h : nau8821_h) (s : nau8821)
    (hm : s.regmap h.NAU8821_REG_I2C_DEVICE_ID &&& h.NAU8821_MICDET = 0) :
    (nau8821_jack_insert h s).1 = SND_JACK_HEADPHONE ∧ (nau8821_jack_insert h s).2 = s := by
  simp [nau8821_jack_insert, regmap_read, hm]

/-- C13: in auto-precision mode (recorded clock source other than `NAU8821_CLK_DIS`), on a
device with an interrupt line, for an interrupt whose first matching pattern is the
insert pattern and whose raw jack level agrees with the configured polarity: if the
mic-presence bit `NAU8821_MICDET` is set, the handler sets `NAU8821_MICBIAS_JKR2` in the
mic-bias register and reports `SND_JACK_HEADSET`; if it is clear, the handler does
not touch the mic-bias register and reports `SND_JACK_HEADPHONE`; in both cases the
report is made under the mask `SND_JACK_HEADSET` and the semaphore is released by
exactly one `up`. -/
theorem C13_auto_insert_reports_type (h : nau8821_h) (s : nau8821)
    (hbus : s.bus_error = false) (hirq : s.irq ≠ 0)
    (hreg : h.NAU8821_REG_MIC_BIAS ≠ h.NAU8821_REG_INT_CLR_KEY_STATUS)
    (he : s.regmap h.NAU8821_REG_IRQ_STATUS &&& h.NAU8821_JACK_EJECT_IRQ_MASK ≠
      h.NAU8821_JACK_EJECT_DETECTED)
    (hp : s.regmap h.NAU8821_REG_IRQ_STATUS &&& h.NAU8821_KEY_SHORT_PRESS_IRQ = 0)
    (hr : s.regmap h.NAU8821_REG_IRQ_STATUS &&& h.NAU8821_KEY_RELEASE_IRQ = 0)
    (hi : s.regmap h.NAU8821_REG_IRQ_STATUS &&& h.NAU8821_JACK_INSERT_IRQ_MASK =
      h.NAU8821_JACK_INSERT_DETECTED)
    (hin : nau8821_is_jack_inserted h s = true) (hclk : s.clk_id ≠ h.NAU8821_CLK_DIS) :
    (s.regmap h.NAU8821_REG_I2C_DEVICE_ID &&& h.NAU8821_MICDET ≠ 0 →
      (nau8821_interrupt h s).2.log =
        s.log ++ [Event.reg_update h.NAU8821_REG_MIC_BIAS
            h.NAU8821_MICBIAS_JKR2 h.NAU8821_MICBIAS_JKR2,
          Event.dapm_force_enable_pin, Event.dapm_sync, Event.up,
          Event.reg_write h.NAU8821_REG_INT_CLR_KEY_STATUS
            (s.regmap h.NAU8821_REG_IRQ_STATUS),
          Event.jack_report SND_JACK_HEADSET SND_JACK_HEADSET] ∧
      (nau8821_interrupt h s).2.regmap h.NAU8821_REG_MIC_BIAS &&& h.NAU8821_MICBIAS_JKR2 =
        h.NAU8821_MICBIAS_JKR2) ∧
    (s.regmap h.NAU8821_REG_I2C_DEVICE_ID &&& h.NAU8821_MICDET = 0 →
      (nau8821_interrupt h s).2.log =
        s.log ++ [Event.up,
          Event.reg_write h.NAU8821_REG_INT_CLR_KEY_STATUS
            (s.regmap h.NAU8821_REG_IRQ_STATUS),
          Event.jack_report SND_JACK_HEADPHONE SND_JACK_HEADSET] ∧
      (nau8821_interrupt h s).2.regmap h.NAU8821_REG_MIC_BIAS =
        s.regmap h.NAU8821_REG_MIC_BIAS) ∧
    (nau8821_interrupt h s).1 = IRQ_HANDLED := by
  have heq := interrupt_eq_auto h s hbus he hp hr hi hin hclk
  refine ⟨?_, ?_, by rw [heq]⟩
  · intro hm
    obtain ⟨j1, j2⟩ := jack_insert_headset h s hm
    rw [heq, j1, j2]
    constructor
    · simp [snd_soc_jack_report, emit, nau8821_sema_release, up, hirq]
    · simp only [snd_soc_jack_report, emit]
      rw [regmap_write_regmap_other _ _ _ _ hreg]
      simp [update_bits_regmap_same, update_bits_value_set]
  · intro hm
    obtain ⟨j1, j2⟩ := jack_insert_headphone h s hm
    rw [heq, j1, j2]
    constructor
    · simp [snd_soc_jack_report, emit, nau8821_sema_release, up, hirq]
    · simp only [snd_soc_jack_report, emit]
      rw [regmap_write_regmap_other _ _ _ _ hreg]
      simp


theorem is_jack_inserted_update (h : nau8821_h) (s : nau8821) (reg mask val : Nat)
    (h1 : h.NAU8821_REG_JACK_DET_CTRL ≠ reg) (h2 : h.NAU8821_REG_GENERAL_STATUS ≠ reg) :
    nau8821_is_jack_inserted h (regmap_update_bits s reg mask val) =
      nau8821_is_jack_inserted h s := by
  simp [nau8821_is_jack_inserted, regmap_read, update_bits_regmap_other _ _ _ _ _ h1,
    update_bits_regmap_other _ _ _ _ _ h2]

theorem configure_sysclk_internal_eq (h : nau8821_h) (s : nau8821) (freq : Nat)
    (h1 : h.NAU8821_CLK_INTERNAL ≠ h.NAU8821_CLK_DIS)
    (h2 : h.NAU8821_CLK_INTERNAL ≠ h.NAU8821_CLK_MCLK) :
    nau8821_configure_sysclk h s h.NAU8821_CLK_INTERNAL freq =
      (0, { nau8821_configure_sysclk_internal h s with clk_id := h.NAU8821_CLK_INTERNAL }) := by
  simp [nau8821_configure_sysclk, h1, h2]

theorem internal_log_inserted (h : nau8821_h) (s : nau8821)
    (hin : nau8821_is_jack_inserted h s = true) :
    (nau8821_configure_sysclk_internal h s).log =
      s.log ++ [Event.reg_update h.NAU8821_REG_FLL6 h.NAU8821_DCO_EN h.NAU8821_DCO_EN,
        Event.reg_update h.NAU8821_REG_CLK_DIVIDER h.NAU8821_CLK_SRC_MASK
          h.NAU8821_CLK_SRC_VCO,
        Event.reg_update h.NAU8821_REG_CLK_DIVIDER h.NAU8821_CLK_MCLK_SRC_MASK 0xf,
        Event.reg_update h.NAU8821_REG_FLL1
          (h.NAU8821_ICTRL_LATCH_MASK ||| h.NAU8821_FLL_RATIO_MASK) 0x10,
        Event.reg_update h.NAU8821_REG_FLL6 h.NAU8821_SDM_EN h.NAU8821_SDM_EN] := by
  simp [nau8821_configure_sysclk_internal, hin]

theorem setup_auto_irq_log (h : nau8821_h) (s : nau8821)
    (h1 : h.NAU8821_CLK_INTERNAL ≠ h.NAU8821_CLK_DIS)
    (h2 : h.NAU8821_CLK_INTERNAL ≠ h.NAU8821_CLK_MCLK)
    (hin : nau8821_is_jack_inserted h s = true) :
    (nau8821_setup_auto_irq h s).log =
      s.log ++ [Event.reg_update h.NAU8821_REG_FLL6 h.NAU8821_DCO_EN h.NAU8821_DCO_EN,
        Event.reg_update h.NAU8821_REG_CLK_DIVIDER h.NAU8821_CLK_SRC_MASK
          h.NAU8821_CLK_SRC_VCO,
        Event.reg_update h.NAU8821_REG_CLK_DIVIDER h.NAU8821_CLK_MCLK_SRC_MASK 0xf,
        Event.reg_update h.NAU8821_REG_FLL1
          (h.NAU8821_ICTRL_LATCH_MASK ||| h.NAU8821_FLL_RATIO_MASK) 0x10,
        Event.reg_update h.NAU8821_REG_FLL6 h.NAU8821_SDM_EN h.NAU8821_SDM_EN,
        Event.reg_update h.NAU8821_REG_ENA_CTRL
          (h.NAU8821_EN_ADCR ||| h.NAU8821_EN_ADCL) (h.NAU8821_EN_ADCR ||| h.NAU8821_EN_ADCL),
        Event.reg_update h.NAU8821_REG_I2S_PCM_CTRL2 h.NAU8821_I2S_MS_MASK
          h.NAU8821_I2S_MS_MASTER,
        Event.reg_update h.NAU8821_REG_I2S_PCM_CTRL2 h.NAU8821_I2S_MS_MASK
          h.NAU8821_I2S_MS_SLAVE,
        Event.reg_update h.NAU8821_REG_JACK_DET_CTRL h.NAU8821_JACK_DET_DB_BYPASS 0,
        Event.reg_update h.NAU8821_REG_INTERRUPT_MASK
          (h.NAU8821_IRQ_EJECT_EN ||| h.NAU8821_IRQ_MIC_DET_EN |||
            h.NAU8821_IRQ_KEY_RELEASE_EN ||| h.NAU8821_IRQ_KEY_PRESS_EN) 0,
        Event.reg_update h.NAU8821_REG_INTERRUPT_DIS_CTRL
          (h.NAU8821_IRQ_EJECT_DIS ||| h.NAU8821_IRQ_MIC_DIS |||
            h.NAU8821_IRQ_KEY_RELEASE_DIS ||| h.NAU8821_IRQ_KEY_PRESS_DIS) 0,
        Event.reg_update h.NAU8821_REG_JACK_DET_CTRL h.NAU8821_JACK_DET_RESTART
          h.NAU8821_JACK_DET_RESTART,
        Event.reg_update h.NAU8821_REG_JACK_DET_CTRL h.NAU8821_JACK_DET_RESTART 0] := by
  simp only [nau8821_setup_auto_irq, configure_sysclk_internal_eq h s 0 h1 h2,
    nau8821_restart_jack_detection, update_bits_log]
  simp [internal_log_inserted h s hin]

theorem setup_auto_irq_clk_id (h : nau8821_h) (s : nau8821) :
    (nau8821_setup_auto_irq h s).clk_id = h.NAU8821_CLK_INTERNAL := by
  have hr : regs_only (nau8821_configure_sysclk h s h.NAU8821_CLK_INTERNAL 0).2
      (nau8821_setup_auto_irq h s) := by
    simp only [nau8821_setup_auto_irq]
    repeat' first
      | exact regs_only_refl _
      | refine regs_only_trans ?_ (regs_only_update_bits _ _ _ _)
  rw [hr.2.2.1]
  simp only [nau8821_configure_sysclk]
  split_ifs <;> simp_all

theorem setup_auto_irq_jd_sem_eq (h : nau8821_h) (s : nau8821)
    (h1 : h.NAU8821_CLK_INTERNAL ≠ h.NAU8821_CLK_DIS)
    (h2 : h.NAU8821_CLK_INTERNAL ≠ h.NAU8821_CLK_MCLK) :
    (nau8821_setup_auto_irq h s).jd_sem = s.jd_sem := by
  have hr : regs_only (nau8821_configure_sysclk h s h.NAU8821_CLK_INTERNAL 0).2
      (nau8821_setup_auto_irq h s) := by
    simp only [nau8821_setup_auto_irq]
    repeat' first
      | exact regs_only_refl _
      | refine regs_only_trans ?_ (regs_only_update_bits _ _ _ _)
  rw [hr.2.1, configure_sysclk_internal_eq h s 0 h1 h2]
  exact (regs_only_internal h s).2.1

/-- C14: in manual-precision mode (recorded clock source `NAU8821_CLK_DIS`), for an
interrupt whose first matching pattern is the insert pattern and whose raw jack
level agrees with the configured polarity, on a header whose register addresses and
clock ids are pairwise distinct, `nau8821_interrupt` performs exactly these register
operations, in this order: insertion interrupt disabled and masked; the internal
oscillator programmed (DCO enabled, clock source VCO, MCLK divider field 0xf, FLL
ratio 0x10, SDM enabled); both detection ADCs enabled; master mode switched on then
off; debounce bypass cleared; eject, mic-detect, key-release and key-press interrupts
unmasked and enabled; the jack-detect restart bit set then cleared; the whole status
word written to the interrupt-clear register. Afterwards the recorded clock source
is `NAU8821_CLK_INTERNAL`, which differs from `NAU8821_CLK_DIS`; no jack event is
reported and the semaphore is neither acquired nor released. -/
theorem C14_manual_insert_rearms (h : nau8821_h) (s : nau8821)
    (hd : regs_distinct h) (hc : clk_ids_distinct h) (hbus : s.bus_error = false)
    (he : s.regmap h.NAU8821_REG_IRQ_STATUS &&& h.NAU8821_JACK_EJECT_IRQ_MASK ≠
      h.NAU8821_JACK_EJECT_DETECTED)
    (hp : s.regmap h.NAU8821_REG_IRQ_STATUS &&& h.NAU8821_KEY_SHORT_PRESS_IRQ = 0)
    (hr : s.regmap h.NAU8821_REG_IRQ_STATUS &&& h.NAU8821_KEY_RELEASE_IRQ = 0)
    (hi : s.regmap h.NAU8821_REG_IRQ_STATUS &&& h.NAU8821_JACK_INSERT_IRQ_MASK =
      h.NAU8821_JACK_INSERT_DETECTED)
    (hin : nau8821_is_jack_inserted h s = true) (hclk : s.clk_id = h.NAU8821_CLK_DIS) :
    (nau8821_interrupt h s).1 = IRQ_HANDLED ∧
    (nau8821_interrupt h s).2.log =
      s.log ++ [Event.reg_update h.NAU8821_REG_INTERRUPT_DIS_CTRL
          h.NAU8821_IRQ_INSERT_DIS h.NAU8821_IRQ_INSERT_DIS,
        Event.reg_update h.NAU8821_REG_INTERRUPT_MASK
          h.NAU8821_IRQ_INSERT_EN h.NAU8821_IRQ_INSERT_EN,
        Event.reg_update h.NAU8821_REG_FLL6 h.NAU8821_DCO_EN h.NAU8821_DCO_EN,
        Event.reg_update h.NAU8821_REG_CLK_DIVIDER h.NAU8821_CLK_SRC_MASK
          h.NAU8821_CLK_SRC_VCO,
        Event.reg_update h.NAU8821_REG_CLK_DIVIDER h.NAU8821_CLK_MCLK_SRC_MASK 0xf,
        Event.reg_update h.NAU8821_REG_FLL1
          (h.NAU8821_ICTRL_LATCH_MASK ||| h.NAU8821_FLL_RATIO_MASK) 0x10,
        Event.reg_update h.NAU8821_REG_FLL6 h.NAU8821_SDM_EN h.NAU8821_SDM_EN,
        Event.reg_update h.NAU8821_REG_ENA_CTRL
          (h.NAU8821_EN_ADCR ||| h.NAU8821_EN_ADCL) (h.NAU8821_EN_ADCR ||| h.NAU8821_EN_ADCL),
        Event.reg_update h.NAU8821_REG_I2S_PCM_CTRL2 h.NAU8821_I2S_MS_MASK
          h.NAU8821_I2S_MS_MASTER,
        Event.reg_update h.NAU8821_REG_I2S_PCM_CTRL2 h.NAU8821_I2S_MS_MASK
          h.NAU8821_I2S_MS_SLAVE,
        Event.reg_update h.NAU8821_REG_JACK_DET_CTRL h.NAU8821_JACK_DET_DB_BYPASS 0,
        Event.reg_update h.NAU8821_REG_INTERRUPT_MASK
          (h.NAU8821_IRQ_EJECT_EN ||| h.NAU8821_IRQ_MIC_DET_EN |||
            h.NAU8821_IRQ_KEY_RELEASE_EN ||| h.NAU8821_IRQ_KEY_PRESS_EN) 0,
        Event.reg_update h.NAU8821_REG_INTERRUPT_DIS_CTRL
          (h.NAU8821_IRQ_EJECT_DIS ||| h.NAU8821_IRQ_MIC_DIS |||
            h.NAU8821_IRQ_KEY_RELEASE_DIS ||| h.NAU8821_IRQ_KEY_PRESS_DIS) 0,
        Event.reg_update h.NAU8821_REG_JACK_DET_CTRL h.NAU8821_JACK_DET_RESTART
          h.NAU8821_JACK_DET_RESTART,
        Event.reg_update h.NAU8821_REG_JACK_DET_CTRL h.NAU8821_JACK_DET_RESTART 0,
        Event.reg_write h.NAU8821_REG_INT_CLR_KEY_STATUS
          (s.regmap h.NAU8821_REG_IRQ_STATUS)] ∧
    (nau8821_interrupt h s).2.clk_id = h.NAU8821_CLK_INTERNAL ∧
    (nau8821_interrupt h s).2.clk_id ≠ h.NAU8821_CLK_DIS ∧
    (nau8821_interrupt h s).2.jd_sem = s.jd_sem ∧
    gate_events (nau8821_interrupt h s).2.log = gate_events s.log ∧
    jack_reports (nau8821_interrupt h s).2.log = jack_reports s.log := by
  have c1 : h.NAU8821_CLK_INTERNAL ≠ h.NAU8821_CLK_DIS :=
    clk_ne h hc clk_name.INTERNAL clk_name.DIS (by decide)
  have c2 : h.NAU8821_CLK_INTERNAL ≠ h.NAU8821_CLK_MCLK :=
    clk_ne h hc clk_name.INTERNAL clk_name.MCLK (by decide)
  have r1 : h.NAU8821_REG_JACK_DET_CTRL ≠ h.NAU8821_REG_INTERRUPT_DIS_CTRL :=
    reg_ne h hd reg_name.JACK_DET_CTRL reg_name.INTERRUPT_DIS_CTRL (by decide)
  have r2 : h.NAU8821_REG_GENERAL_STATUS ≠ h.NAU8821_REG_INTERRUPT_DIS_CTRL :=
    reg_ne h hd reg_name.GENERAL_STATUS reg_name.INTERRUPT_DIS_CTRL (by decide)
  have r3 : h.NAU8821_REG_JACK_DET_CTRL ≠ h.NAU8821_REG_INTERRUPT_MASK :=
    reg_ne h hd reg_name.JACK_DET_CTRL reg_name.INTERRUPT_MASK (by decide)
  have r4 : h.NAU8821_REG_GENERAL_STATUS ≠ h.NAU8821_REG_INTERRUPT_MASK :=
    reg_ne h hd reg_name.GENERAL_STATUS reg_name.INTERRUPT_MASK (by decide)
  have hin2 : nau8821_is_jack_inserted h
      (regmap_update_bits
        (regmap_update_bits s h.NAU8821_REG_INTERRUPT_DIS_CTRL
          h.NAU8821_IRQ_INSERT_DIS h.NAU8821_IRQ_INSERT_DIS)
        h.NAU8821_REG_INTERRUPT_MASK h.NAU8821_IRQ_INSERT_EN h.NAU8821_IRQ_INSERT_EN) = true := by
    rw [is_jack_inserted_update h _ _ _ _ r3 r4, is_jack_inserted_update h _ _ _ _ r1 r2]
    exact hin
  have heq := interrupt_eq_manual h s hbus he hp hr hi hin hclk
  have hlog := congrArg (fun p => p.2.log) heq
  simp only [regmap_write_log, setup_auto_irq_log h _ c1 c2 hin2, update_bits_log,
    List.append_assoc, List.cons_append, List.nil_append] at hlog
  refine ⟨by rw [heq], hlog, ?_, ?_, ?_, ?_, ?_⟩
  · rw [heq]; simp [setup_auto_irq_clk_id]
  · rw [heq]; simp [setup_auto_irq_clk_id, c1]
  · rw [heq]
    simp only [regmap_write_jd_sem, setup_auto_irq_jd_sem_eq h _ c1 c2, update_bits_jd_sem]
  · rw [hlog, gate_events_append]; simp [gate_events, is_gate_event]
  · rw [hlog, jack_reports_append]; simp [jack_reports, is_jack_report]


theorem regs_distinct_sample : regs_distinct sample_h := by
  unfold regs_distinct; decide

theorem clk_ids_distinct_sample : clk_ids_distinct sample_h := by
  unfold clk_ids_distinct; decide

theorem C12_no_pattern_clears_whole_word_witness :
    (nau8821_interrupt sample_h (sample_dev 1 (regs_of [(0x10, 0x0100)]))).2.log =
      [Event.reg_write 0x11 0x0100] :=
  (C12_no_pattern_clears_whole_word sample_h (sample_dev 1 (regs_of [(0x10, 0x0100)]))
    (by decide) (by decide) (by decide) (by decide) (by decide)).2.1.trans (by decide)

theorem C13_auto_insert_reports_type_witness :
    jack_reports (nau8821_interrupt sample_h
      { sample_dev 1 (regs_of [(0x10, 0x1), (0x58, 0x40)]) with clk_id := 2 }).2.log =
      [Event.jack_report SND_JACK_HEADSET SND_JACK_HEADSET] :=
  (congrArg jack_reports
    ((C13_auto_insert_reports_type sample_h
      { sample_dev 1 (regs_of [(0x10, 0x1), (0x58, 0x40)]) with clk_id := 2 }
      (by decide) (by decide) (by decide) (by decide) (by decide) (by decide) (by decide)
      (by decide) (by decide)).1 (by decide)).1).trans (by decide)

theorem C14_manual_insert_rearms_witness :
    (nau8821_interrupt sample_h (sample_dev 1 (regs_of [(0x10, 0x1)]))).2.clk_id = 2 ∧
    (nau8821_interrupt sample_h (sample_dev 1 (regs_of [(0x10, 0x1)]))).2.jd_sem = 0 :=
  ⟨(C14_manual_insert_rearms sample_h (sample_dev 1 (regs_of [(0x10, 0x1)]))
    regs_distinct_sample clk_ids_distinct_sample
    (by decide) (by decide) (by decide) (by decide) (by decide) (by decide)
    (by decide)).2.2.1, by decide⟩

/-- C15: for an interrupt whose first matching pattern is the insert pattern while the
raw jack level disagrees with the configured insertion polarity, `nau8821_interrupt`
runs `nau8821_eject_jack` and then writes the status word to the interrupt-clear
register, nothing else: afterwards the recorded clock source is `NAU8821_CLK_DIS` and
the semaphore count is 1, no jack event is reported, and the handler returns
`IRQ_HANDLED`. -/
theorem C15_spurious_insert_ejects (h : nau8821_h) (s : nau8821)
    (hbus : s.bus_error = false)
    (he : s.regmap h.NAU8821_REG_IRQ_STATUS &&& h.NAU8821_JACK_EJECT_IRQ_MASK ≠
      h.NAU8821_JACK_EJECT_DETECTED)
    (hp : s.regmap h.NAU8821_REG_IRQ_STATUS &&& h.NAU8821_KEY_SHORT_PRESS_IRQ = 0)
    (hr : s.regmap h.NAU8821_REG_IRQ_STATUS &&& h.NAU8821_KEY_RELEASE_IRQ = 0)
    (hi : s.regmap h.NAU8821_REG_IRQ_STATUS &&& h.NAU8821_JACK_INSERT_IRQ_MASK =
      h.NAU8821_JACK_INSERT_DETECTED)
    (hin : nau8821_is_jack_inserted h s = false) :
    (nau8821_interrupt h s).1 = IRQ_HANDLED ∧
    (nau8821_interrupt h s).2 =
      regmap_write (nau8821_eject_jack h s) h.NAU8821_REG_INT_CLR_KEY_STATUS
        (s.regmap h.NAU8821_REG_IRQ_STATUS) ∧
    (nau8821_interrupt h s).2.clk_id = h.NAU8821_CLK_DIS ∧
    (nau8821_interrupt h s).2.jd_sem = 1 ∧
    jack_reports (nau8821_interrupt h s).2.log = jack_reports s.log := by
  have heq := interrupt_eq_spurious h s hbus he hp hr hi hin
  have hf := eject_jack_frame h s
  refine ⟨by rw [heq], by rw [heq], ?_, ?_, ?_⟩
  · rw [heq]; simpa using hf.2.2.2.2.2
  · rw [heq]; simpa using hf.2.2.2.2.1
  · rw [heq]
    simp only [regmap_write_log, jack_reports_append, hf.2.2.2.1]
    simp [jack_reports, is_jack_report]

theorem C15_spurious_insert_ejects_witness :
    (nau8821_interrupt sample_h
      { sample_dev 1 (regs_of [(0x10, 0x1), (0x82, 0x2)]) with clk_id := 2 }).1 = IRQ_HANDLED ∧
    (nau8821_interrupt sample_h
      { sample_dev 1 (regs_of [(0x10, 0x1), (0x82, 0x2)]) with clk_id := 2 }).2.clk_id = 0 :=
  ⟨(C15_spurious_insert_ejects sample_h
      { sample_dev 1 (regs_of [(0x10, 0x1), (0x82, 0x2)]) with clk_id := 2 }
      (by decide) (by decide) (by decide) (by decide) (by decide) (by decide)).1,
    by decide⟩

theorem clear_all_writes_mem (h : nau8821_h) (st : Nat) (e : Event) :
    e ∈ clear_all_writes h st ↔
      ∃ i, i < h.NAU8821_REG_DATA_LEN ∧ st &&& (0x1 <<< i) ≠ 0 ∧
        e = Event.reg_write h.NAU8821_REG_INT_CLR_KEY_STATUS (0x1 <<< i) := by
  simp only [clear_all_writes, List.mem_map, List.mem_filter, List.mem_range,
    decide_eq_true_eq]
  constructor
  · rintro ⟨i, ⟨h1, h2⟩, h3⟩; exact ⟨i, h1, h2, h3.symm⟩
  · rintro ⟨i, h1, h2, h3⟩; exact ⟨i, ⟨h1, h2⟩, h3.symm⟩

theorem clear_all_regmap (h : nau8821_h) (s : nau8821) (r : Nat)
    (hr : r ≠ h.NAU8821_REG_INT_CLR_KEY_STATUS) :
    (nau8821_int_status_clear_all h s).regmap r = s.regmap r := by
  simp only [nau8821_int_status_clear_all]
  exact clear_loop_regmap h _ r hr _ _ _

theorem mclk_regmap_other (h : nau8821_h) (s : nau8821) (r : Nat)
    (h1 : r ≠ h.NAU8821_REG_CLK_DIVIDER) (h2 : r ≠ h.NAU8821_REG_FLL6)
    (h3 : r ≠ h.NAU8821_REG_FLL1) :
    (nau8821_configure_mclk_as_sysclk h s).regmap r = s.regmap r := by
  simp only [nau8821_configure_mclk_as_sysclk]
  rw [update_bits_regmap_other _ _ _ _ _ h3, update_bits_regmap_other _ _ _ _ _ h2,
    update_bits_regmap_other _ _ _ _ _ h1]

theorem eject_jack_mic_bias (h : nau8821_h) (hd : regs_distinct h) (s : nau8821) :
    (nau8821_eject_jack h s).regmap h.NAU8821_REG_MIC_BIAS &&& h.NAU8821_MICBIAS_JKR2 = 0 := by
  have a1 := reg_ne h hd reg_name.MIC_BIAS reg_name.CLK_DIVIDER (by decide)
  have a2 := reg_ne h hd reg_name.MIC_BIAS reg_name.FLL6 (by decide)
  have a3 := reg_ne h hd reg_name.MIC_BIAS reg_name.FLL1 (by decide)
  have a4 := reg_ne h hd reg_name.MIC_BIAS reg_name.ENA_CTRL (by decide)
  have a5 := reg_ne h hd reg_name.MIC_BIAS reg_name.JACK_DET_CTRL (by decide)
  have a6 := reg_ne h hd reg_name.MIC_BIAS reg_name.INTERRUPT_MASK (by decide)
  have a7 := reg_ne h hd reg_name.MIC_BIAS reg_name.INTERRUPT_DIS_CTRL (by decide)
  have a8 := reg_ne h hd reg_name.MIC_BIAS reg_name.INT_CLR_KEY_STATUS (by decide)
  simp only [reg_addr] at a1 a2 a3 a4 a5 a6 a7 a8
  simp only [nau8821_eject_jack, configure_sysclk_dis]
  show (nau8821_configure_mclk_as_sysclk h _).regmap _ &&& _ = 0
  rw [mclk_regmap_other h _ _ a1 a2 a3, update_bits_regmap_other _ _ _ _ _ a4,
    update_bits_regmap_other _ _ _ _ _ a5, update_bits_regmap_other _ _ _ _ _ a6,
    update_bits_regmap_other _ _ _ _ _ a7, clear_all_regmap h _ _ a8]
  simp only [emit]
  rw [update_bits_regmap_other _ _ _ _ _ a5, update_bits_regmap_same,
    update_bits_value_clear]

/-- C16: on a header with pairwise distinct register addresses, for every prior device
state `nau8821_eject_jack` performs exactly these operations, in this order: the
semaphore count reset to 1; `NAU8821_MICBIAS_JKR2` cleared; both `SPKR_DWN1` bits
cleared; a DAPM sync; one write to the interrupt-clear register for every set bit of
the status word below `NAU8821_REG_DATA_LEN`, lowest bit first; ejection disabled and
insertion enabled; ejection masked and insertion unmasked; debounce bypass set; both
ADC enables cleared; the three register updates of the MCLK passthrough. Afterwards
the count is 1, the recorded clock source is `NAU8821_CLK_DIS` and `NAU8821_MICBIAS_JKR2`
reads clear. -/
theorem C16_eject_jack_sequence (h : nau8821_h) (s : nau8821) (hd : regs_distinct h) :
    (nau8821_eject_jack h s).log =
      s.log ++
        ([Event.sema_reset,
          Event.reg_update h.NAU8821_REG_MIC_BIAS h.NAU8821_MICBIAS_JKR2 0,
          Event.reg_update h.NAU8821_REG_JACK_DET_CTRL
            (h.NAU8821_SPKR_DWN1R ||| h.NAU8821_SPKR_DWN1L) 0,
          Event.dapm_sync] ++
        clear_all_writes h (s.regmap h.NAU8821_REG_IRQ_STATUS) ++
        [Event.reg_update h.NAU8821_REG_INTERRUPT_DIS_CTRL
            (h.NAU8821_IRQ_EJECT_DIS ||| h.NAU8821_IRQ_INSERT_DIS) h.NAU8821_IRQ_EJECT_DIS,
          Event.reg_update h.NAU8821_REG_INTERRUPT_MASK
            (h.NAU8821_IRQ_EJECT_EN ||| h.NAU8821_IRQ_INSERT_EN) h.NAU8821_IRQ_EJECT_EN,
          Event.reg_update h.NAU8821_REG_JACK_DET_CTRL
            h.NAU8821_JACK_DET_DB_BYPASS h.NAU8821_JACK_DET_DB_BYPASS,
          Event.reg_update h.NAU8821_REG_ENA_CTRL
            (h.NAU8821_EN_ADCR ||| h.NAU8821_EN_ADCL) 0,
          Event.reg_update h.NAU8821_REG_CLK_DIVIDER h.NAU8821_CLK_SRC_MASK
            h.NAU8821_CLK_SRC_MCLK,
          Event.reg_update h.NAU8821_REG_FLL6 h.NAU8821_DCO_EN 0,
          Event.reg_update h.NAU8821_REG_FLL1 h.NAU8821_ICTRL_LATCH_MASK 0]) ∧
    (∀ i, i < h.NAU8821_REG_DATA_LEN →
      s.regmap h.NAU8821_REG_IRQ_STATUS &&& (0x1 <<< i) ≠ 0 →
      Event.reg_write h.NAU8821_REG_INT_CLR_KEY_STATUS (0x1 <<< i) ∈
        clear_all_writes h (s.regmap h.NAU8821_REG_IRQ_STATUS)) ∧
    (nau8821_eject_jack h s).jd_sem = 1 ∧
    (nau8821_eject_jack h s).clk_id = h.NAU8821_CLK_DIS ∧
    (nau8821_eject_jack h s).regmap h.NAU8821_REG_MIC_BIAS &&& h.NAU8821_MICBIAS_JKR2 = 0 := by
  have h1 := reg_ne h hd reg_name.IRQ_STATUS reg_name.MIC_BIAS (by decide)
  have h2 := reg_ne h hd reg_name.IRQ_STATUS reg_name.JACK_DET_CTRL (by decide)
  have hf := eject_jack_frame h s
  refine ⟨eject_jack_log h s h1 h2, ?_, hf.2.2.2.2.1, hf.2.2.2.2.2, eject_jack_mic_bias h hd s⟩
  intro i hi hb
  exact (clear_all_writes_mem h _ _).2 ⟨i, hi, hb, rfl⟩

theorem C16_eject_jack_sequence_witness :
    writes_to 0x11 (nau8821_eject_jack sample_h
      { sample_dev 1 (regs_of [(0x10, 0x0044)]) with clk_id := 2 }).log =
      [Event.reg_write 0x11 0x4, Event.reg_write 0x11 0x40] :=
  (congrArg (writes_to 0x11)
    (C16_eject_jack_sequence sample_h
      { sample_dev 1 (regs_of [(0x10, 0x0044)]) with clk_id := 2 }
      regs_distinct_sample).1).trans (by decide)


theorem is_jack_inserted_regmap (h : nau8821_h) (s t : nau8821) (hr : s.regmap = t.regmap) :
    nau8821_is_jack_inserted h s = nau8821_is_jack_inserted h t := by
  simp [nau8821_is_jack_inserted, regmap_read, hr]

theorem interrupt_eject_facts (h : nau8821_h) (s : nau8821) (hd : regs_distinct h)
    (hbus : s.bus_error = false)
    (he : s.regmap h.NAU8821_REG_IRQ_STATUS &&& h.NAU8821_JACK_EJECT_IRQ_MASK =
      h.NAU8821_JACK_EJECT_DETECTED) :
    (nau8821_interrupt h s).2.bus_error = false ∧
    (nau8821_interrupt h s).2.irq = s.irq ∧
    (nau8821_interrupt h s).2.clk_id = h.NAU8821_CLK_DIS ∧
    (nau8821_interrupt h s).2.log =
      s.log ++
        ([Event.sema_reset,
          Event.reg_update h.NAU8821_REG_MIC_BIAS h.NAU8821_MICBIAS_JKR2 0,
          Event.reg_update h.NAU8821_REG_JACK_DET_CTRL
            (h.NAU8821_SPKR_DWN1R ||| h.NAU8821_SPKR_DWN1L) 0,
          Event.dapm_sync] ++
        clear_all_writes h (s.regmap h.NAU8821_REG_IRQ_STATUS) ++
        [Event.reg_update h.NAU8821_REG_INTERRUPT_DIS_CTRL
            (h.NAU8821_IRQ_EJECT_DIS ||| h.NAU8821_IRQ_INSERT_DIS) h.NAU8821_IRQ_EJECT_DIS,
          Event.reg_update h.NAU8821_REG_INTERRUPT_MASK
            (h.NAU8821_IRQ_EJECT_EN ||| h.NAU8821_IRQ_INSERT_EN) h.NAU8821_IRQ_EJECT_EN,
          Event.reg_update h.NAU8821_REG_JACK_DET_CTRL
            h.NAU8821_JACK_DET_DB_BYPASS h.NAU8821_JACK_DET_DB_BYPASS,
          Event.reg_update h.NAU8821_REG_ENA_CTRL
            (h.NAU8821_EN_ADCR ||| h.NAU8821_EN_ADCL) 0,
          Event.reg_update h.NAU8821_REG_CLK_DIVIDER h.NAU8821_CLK_SRC_MASK
            h.NAU8821_CLK_SRC_MCLK,
          Event.reg_update h.NAU8821_REG_FLL6 h.NAU8821_DCO_EN 0,
          Event.reg_update h.NAU8821_REG_FLL1 h.NAU8821_ICTRL_LATCH_MASK 0,
          Event.reg_write h.NAU8821_REG_INT_CLR_KEY_STATUS
            (if h.NAU8821_JACK_EJECT_IRQ_MASK = 0 then s.regmap h.NAU8821_REG_IRQ_STATUS
              else h.NAU8821_JACK_EJECT_IRQ_MASK),
          Event.jack_report 0 SND_JACK_HEADSET]) := by
  have h1 := reg_ne h hd reg_name.IRQ_STATUS reg_name.MIC_BIAS (by decide)
  have h2 := reg_ne h hd reg_name.IRQ_STATUS reg_name.JACK_DET_CTRL (by decide)
  have heq := interrupt_eq_eject h s hbus he
  have hf := eject_jack_frame h s
  rw [heq]
  refine ⟨?_, ?_, ?_, ?_⟩
  · simpa [snd_soc_jack_report, emit, hbus] using hf.2.1
  · simpa [snd_soc_jack_report, emit] using hf.1
  · simpa [snd_soc_jack_report, emit] using hf.2.2.2.2.2
  · simp [snd_soc_jack_report, emit, eject_jack_log h s h1 h2]

theorem interrupt_manual_facts (h : nau8821_h) (s : nau8821)
    (hd : regs_distinct h) (hc : clk_ids_distinct h) (hbus : s.bus_error = false)
    (he : s.regmap h.NAU8821_REG_IRQ_STATUS &&& h.NAU8821_JACK_EJECT_IRQ_MASK ≠
      h.NAU8821_JACK_EJECT_DETECTED)
    (hp : s.regmap h.NAU8821_REG_IRQ_STATUS &&& h.NAU8821_KEY_SHORT_PRESS_IRQ = 0)
    (hr : s.regmap h.NAU8821_REG_IRQ_STATUS &&& h.NAU8821_KEY_RELEASE_IRQ = 0)
    (hi : s.regmap h.NAU8821_REG_IRQ_STATUS &&& h.NAU8821_JACK_INSERT_IRQ_MASK =
      h.NAU8821_JACK_INSERT_DETECTED)
    (hin : nau8821_is_jack_inserted h s = true) (hclk : s.clk_id = h.NAU8821_CLK_DIS) :
    (nau8821_interrupt h s).2.bus_error = false ∧
    (nau8821_interrupt h s).2.irq = s.irq ∧
    (nau8821_interrupt h s).2.clk_id = h.NAU8821_CLK_INTERNAL ∧
    (nau8821_interrupt h s).2.log =
      s.log ++ [Event.reg_update h.NAU8821_REG_INTERRUPT_DIS_CTRL
          h.NAU8821_IRQ_INSERT_DIS h.NAU8821_IRQ_INSERT_DIS,
        Event.reg_update h.NAU8821_REG_INTERRUPT_MASK
          h.NAU8821_IRQ_INSERT_EN h.NAU8821_IRQ_INSERT_EN,
        Event.reg_update h.NAU8821_REG_FLL6 h.NAU8821_DCO_EN h.NAU8821_DCO_EN,
        Event.reg_update h.NAU8821_REG_CLK_DIVIDER h.NAU8821_CLK_SRC_MASK
          h.NAU8821_CLK_SRC_VCO,
        Event.reg_update h.NAU8821_REG_CLK_DIVIDER h.NAU8821_CLK_MCLK_SRC_MASK 0xf,
        Event.reg_update h.NAU8821_REG_FLL1
          (h.NAU8821_ICTRL_LATCH_MASK ||| h.NAU8821_FLL_RATIO_MASK) 0x10,
        Event.reg_update h.NAU8821_REG_FLL6 h.NAU8821_SDM_EN h.NAU8821_SDM_EN,
        Event.reg_update h.NAU8821_REG_ENA_CTRL
          (h.NAU8821_EN_ADCR ||| h.NAU8821_EN_ADCL) (h.NAU8821_EN_ADCR ||| h.NAU8821_EN_ADCL),
        Event.reg_update h.NAU8821_REG_I2S_PCM_CTRL2 h.NAU8821_I2S_MS_MASK
          h.NAU8821_I2S_MS_MASTER,
        Event.reg_update h.NAU8821_REG_I2S_PCM_CTRL2 h.NAU8821_I2S_MS_MASK
          h.NAU8821_I2S_MS_SLAVE,
        Event.reg_update h.NAU8821_REG_JACK_DET_CTRL h.NAU8821_JACK_DET_DB_BYPASS 0,
        Event.reg_update h.NAU8821_REG_INTERRUPT_MASK
          (h.NAU8821_IRQ_EJECT_EN ||| h.NAU8821_IRQ_MIC_DET_EN |||
            h.NAU8821_IRQ_KEY_RELEASE_EN ||| h.NAU8821_IRQ_KEY_PRESS_EN) 0,
        Event.reg_update h.NAU8821_REG_INTERRUPT_DIS_CTRL
          (h.NAU8821_IRQ_EJECT_DIS ||| h.NAU8821_IRQ_MIC_DIS |||
            h.NAU8821_IRQ_KEY_RELEASE_DIS ||| h.NAU8821_IRQ_KEY_PRESS_DIS) 0,
        Event.reg_update h.NAU8821_REG_JACK_DET_CTRL h.NAU8821_JACK_DET_RESTART
          h.NAU8821_JACK_DET_RESTART,
        Event.reg_update h.NAU8821_REG_JACK_DET_CTRL h.NAU8821_JACK_DET_RESTART 0,
        Event.reg_write h.NAU8821_REG_INT_CLR_KEY_STATUS
          (s.regmap h.NAU8821_REG_IRQ_STATUS)] := by
  have c1 : h.NAU8821_CLK_INTERNAL ≠ h.NAU8821_CLK_DIS :=
    clk_ne h hc clk_name.INTERNAL clk_name.DIS (by decide)
  have c2 : h.NAU8821_CLK_INTERNAL ≠ h.NAU8821_CLK_MCLK :=
    clk_ne h hc clk_name.INTERNAL clk_name.MCLK (by decide)
  have r1 : h.NAU8821_REG_JACK_DET_CTRL ≠ h.NAU8821_REG_INTERRUPT_DIS_CTRL :=
    reg_ne h hd reg_name.JACK_DET_CTRL reg_name.INTERRUPT_DIS_CTRL (by decide)
  have r2 : h.NAU8821_REG_GENERAL_STATUS ≠ h.NAU8821_REG_INTERRUPT_DIS_CTRL :=
    reg_ne h hd reg_name.GENERAL_STATUS reg_name.INTERRUPT_DIS_CTRL (by decide)
  have r3 : h.NAU8821_REG_JACK_DET_CTRL ≠ h.NAU8821_REG_INTERRUPT_MASK :=
    reg_ne h hd reg_name.JACK_DET_CTRL reg_name.INTERRUPT_MASK (by decide)
  have r4 : h.NAU8821_REG_GENERAL_STATUS ≠ h.NAU8821_REG_INTERRUPT_MASK :=
    reg_ne h hd reg_name.GENERAL_STATUS reg_name.INTERRUPT_MASK (by decide)
  have hin2 : nau8821_is_jack_inserted h
      (regmap_update_bits
        (regmap_update_bits s h.NAU8821_REG_INTERRUPT_DIS_CTRL
          h.NAU8821_IRQ_INSERT_DIS h.NAU8821_IRQ_INSERT_DIS)
        h.NAU8821_REG_INTERRUPT_MASK h.NAU8821_IRQ_INSERT_EN h.NAU8821_IRQ_INSERT_EN) = true := by
    rw [is_jack_inserted_update h _ _ _ _ r3 r4, is_jack_inserted_update h _ _ _ _ r1 r2]
    exact hin
  have heq := interrupt_eq_manual h s hbus he hp hr hi hin hclk
  have hf := setup_auto_irq_frame h
    (regmap_update_bits
      (regmap_update_bits s h.NAU8821_REG_INTERRUPT_DIS_CTRL
        h.NAU8821_IRQ_INSERT_DIS h.NAU8821_IRQ_INSERT_DIS)
      h.NAU8821_REG_INTERRUPT_MASK h.NAU8821_IRQ_INSERT_EN h.NAU8821_IRQ_INSERT_EN)
  rw [heq]
  refine ⟨?_, ?_, ?_, ?_⟩
  · simpa [hbus] using hf.2.1
  · simpa using hf.1
  · simp [setup_auto_irq_clk_id]
  · simp only [regmap_write_log, setup_auto_irq_log h _ c1 c2 hin2, update_bits_log,
      List.append_assoc, List.cons_append, List.nil_append]

theorem interrupt_auto_headset_facts (h : nau8821_h) (s : nau8821)
    (hbus : s.bus_error = false) (hirq : s.irq ≠ 0)
    (hreg : h.NAU8821_REG_MIC_BIAS ≠ h.NAU8821_REG_INT_CLR_KEY_STATUS)
    (he : s.regmap h.NAU8821_REG_IRQ_STATUS &&& h.NAU8821_JACK_EJECT_IRQ_MASK ≠
      h.NAU8821_JACK_EJECT_DETECTED)
    (hp : s.regmap h.NAU8821_REG_IRQ_STATUS &&& h.NAU8821_KEY_SHORT_PRESS_IRQ = 0)
    (hr : s.regmap h.NAU8821_REG_IRQ_STATUS &&& h.NAU8821_KEY_RELEASE_IRQ = 0)
    (hi : s.regmap h.NAU8821_REG_IRQ_STATUS &&& h.NAU8821_JACK_INSERT_IRQ_MASK =
      h.NAU8821_JACK_INSERT_DETECTED)
    (hin : nau8821_is_jack_inserted h s = true) (hclk : s.clk_id ≠ h.NAU8821_CLK_DIS)
    (hm : s.regmap h.NAU8821_REG_I2C_DEVICE_ID &&& h.NAU8821_MICDET ≠ 0) :
    (nau8821_interrupt h s).2.log =
      s.log ++ [Event.reg_update h.NAU8821_REG_MIC_BIAS
          h.NAU8821_MICBIAS_JKR2 h.NAU8821_MICBIAS_JKR2,
        Event.dapm_force_enable_pin, Event.dapm_sync, Event.up,
        Event.reg_write h.NAU8821_REG_INT_CLR_KEY_STATUS
          (s.regmap h.NAU8821_REG_IRQ_STATUS),
        Event.jack_report SND_JACK_HEADSET SND_JACK_HEADSET] ∧
    (nau8821_interrupt h s).2.regmap h.NAU8821_REG_MIC_BIAS &&& h.NAU8821_MICBIAS_JKR2 =
      h.NAU8821_MICBIAS_JKR2 := by
  have heq := interrupt_eq_auto h s hbus he hp hr hi hin hclk
  obtain ⟨j1, j2⟩ := jack_insert_headset h s hm
  rw [heq, j1, j2]
  constructor
  · simp [snd_soc_jack_report, emit, nau8821_sema_release, up, hirq]
  · simp only [snd_soc_jack_report, emit]
    rw [regmap_write_regmap_other _ _ _ _ hreg]
    simp [update_bits_regmap_same, update_bits_value_set]

theorem clear_all_writes_jack_reports (h : nau8821_h) (st : Nat) :
    jack_reports (clear_all_writes h st) = [] := by
  simp only [jack_reports, List.filter_eq_nil_iff]
  intro e he
  obtain ⟨i, _, _, rfl⟩ := (clear_all_writes_mem h st e).1 he
  simp [is_jack_report]

theorem clear_all_writes_micbias (h : nau8821_h) (st : Nat)
    (hr : h.NAU8821_REG_INT_CLR_KEY_STATUS ≠ h.NAU8821_REG_MIC_BIAS) :
    (clear_all_writes h st).filter (is_micbias_enable h) = [] := by
  simp only [List.filter_eq_nil_iff]
  intro e he
  obtain ⟨i, _, _, rfl⟩ := (clear_all_writes_mem h st e).1 he
  simp [is_micbias_enable, hr]

/-- C17: on a device with an interrupt line and a header with pairwise distinct register
addresses and clock ids (and a non-zero `NAU8821_MICBIAS_JKR2`), run `nau8821_interrupt`
three times, the hardware presenting a new register file before the second and the
third run: first a status whose eject pattern matches, then a status whose first
matching pattern is insert with the jack reading inserted, then again such a status
with `NAU8821_MICDET` set. The jack reports made over the three runs are "nothing
inserted" followed by `SND_JACK_HEADSET`; among all register operations of the three
runs exactly one switches `NAU8821_MICBIAS_JKR2` on, and the bit reads set at the end. -/
theorem C17_eject_insert_insert_headset (h : nau8821_h) (s0 : nau8821) (r2 r3 : Nat → Nat)
    (hd : regs_distinct h) (hc : clk_ids_distinct h) (hj : h.NAU8821_MICBIAS_JKR2 ≠ 0)
    (hbus : s0.bus_error = false) (hirq : s0.irq ≠ 0)
    (he1 : s0.regmap h.NAU8821_REG_IRQ_STATUS &&& h.NAU8821_JACK_EJECT_IRQ_MASK =
      h.NAU8821_JACK_EJECT_DETECTED)
    (he2 : r2 h.NAU8821_REG_IRQ_STATUS &&& h.NAU8821_JACK_EJECT_IRQ_MASK ≠
      h.NAU8821_JACK_EJECT_DETECTED)
    (hp2 : r2 h.NAU8821_REG_IRQ_STATUS &&& h.NAU8821_KEY_SHORT_PRESS_IRQ = 0)
    (hr2 : r2 h.NAU8821_REG_IRQ_STATUS &&& h.NAU8821_KEY_RELEASE_IRQ = 0)
    (hi2 : r2 h.NAU8821_REG_IRQ_STATUS &&& h.NAU8821_JACK_INSERT_IRQ_MASK =
      h.NAU8821_JACK_INSERT_DETECTED)
    (hin2 : nau8821_is_jack_inserted h (with_regs s0 r2) = true)
    (he3 : r3 h.NAU8821_REG_IRQ_STATUS &&& h.NAU8821_JACK_EJECT_IRQ_MASK ≠
      h.NAU8821_JACK_EJECT_DETECTED)
    (hp3 : r3 h.NAU8821_REG_IRQ_STATUS &&& h.NAU8821_KEY_SHORT_PRESS_IRQ = 0)
    (hr3 : r3 h.NAU8821_REG_IRQ_STATUS &&& h.NAU8821_KEY_RELEASE_IRQ = 0)
    (hi3 : r3 h.NAU8821_REG_IRQ_STATUS &&& h.NAU8821_JACK_INSERT_IRQ_MASK =
      h.NAU8821_JACK_INSERT_DETECTED)
    (hin3 : nau8821_is_jack_inserted h (with_regs s0 r3) = true)
    (hm3 : r3 h.NAU8821_REG_I2C_DEVICE_ID &&& h.NAU8821_MICDET ≠ 0) :
    jack_reports (nau8821_interrupt h (with_regs (nau8821_interrupt h
        (with_regs (nau8821_interrupt h s0).2 r2)).2 r3)).2.log =
      jack_reports s0.log ++ [Event.jack_report 0 SND_JACK_HEADSET,
        Event.jack_report SND_JACK_HEADSET SND_JACK_HEADSET] ∧
    (List.drop s0.log.length (nau8821_interrupt h (with_regs (nau8821_interrupt h
        (with_regs (nau8821_interrupt h s0).2 r2)).2 r3)).2.log).filter
        (is_micbias_enable h) =
      [Event.reg_update h.NAU8821_REG_MIC_BIAS h.NAU8821_MICBIAS_JKR2
        h.NAU8821_MICBIAS_JKR2] ∧
    (nau8821_interrupt h (with_regs (nau8821_interrupt h
        (with_regs (nau8821_interrupt h s0).2 r2)).2 r3)).2.regmap
        h.NAU8821_REG_MIC_BIAS &&& h.NAU8821_MICBIAS_JKR2 = h.NAU8821_MICBIAS_JKR2 := by
  have c1 : h.NAU8821_CLK_INTERNAL ≠ h.NAU8821_CLK_DIS :=
    clk_ne h hc clk_name.INTERNAL clk_name.DIS (by decide)
  obtain ⟨b1, i1, k1, l1⟩ := interrupt_eject_facts h s0 hd hbus he1
  obtain ⟨b2, i2, k2, l2⟩ := interrupt_manual_facts h
    (with_regs (nau8821_interrupt h s0).2 r2) hd hc b1 he2 hp2 hr2 hi2
    ((is_jack_inserted_regmap h _ _ rfl).trans hin2) k1
  have hirq3 : (with_regs (nau8821_interrupt h
      (with_regs (nau8821_interrupt h s0).2 r2)).2 r3).irq ≠ 0 := by
    show (nau8821_interrupt h (with_regs (nau8821_interrupt h s0).2 r2)).2.irq ≠ 0
    rw [i2]
    show (nau8821_interrupt h s0).2.irq ≠ 0
    rw [i1]; exact hirq
  have hclk3 : (with_regs (nau8821_interrupt h
      (with_regs (nau8821_interrupt h s0).2 r2)).2 r3).clk_id ≠ h.NAU8821_CLK_DIS := by
    show (nau8821_interrupt h (with_regs (nau8821_interrupt h s0).2 r2)).2.clk_id ≠ _
    rw [k2]; exact c1
  obtain ⟨l3, m3⟩ := interrupt_auto_headset_facts h
    (with_regs (nau8821_interrupt h (with_regs (nau8821_interrupt h s0).2 r2)).2 r3)
    b2 hirq3 (reg_ne h hd reg_name.MIC_BIAS reg_name.INT_CLR_KEY_STATUS (by decide))
    he3 hp3 hr3 hi3 ((is_jack_inserted_regmap h _ _ rfl).trans hin3) hclk3 hm3
  have q1 := reg_ne h hd reg_name.JACK_DET_CTRL reg_name.MIC_BIAS (by decide)
  have q2 := reg_ne h hd reg_name.INTERRUPT_DIS_CTRL reg_name.MIC_BIAS (by decide)
  have q3 := reg_ne h hd reg_name.INTERRUPT_MASK reg_name.MIC_BIAS (by decide)
  have q4 := reg_ne h hd reg_name.ENA_CTRL reg_name.MIC_BIAS (by decide)
  have q5 := reg_ne h hd reg_name.CLK_DIVIDER reg_name.MIC_BIAS (by decide)
  have q6 := reg_ne h hd reg_name.FLL6 reg_name.MIC_BIAS (by decide)
  have q7 := reg_ne h hd reg_name.FLL1 reg_name.MIC_BIAS (by decide)
  have q8 := reg_ne h hd reg_name.INT_CLR_KEY_STATUS reg_name.MIC_BIAS (by decide)
  have q9 := reg_ne h hd reg_name.I2S_PCM_CTRL2 reg_name.MIC_BIAS (by decide)
  simp only [reg_addr] at q1 q2 q3 q4 q5 q6 q7 q8 q9
  have hl2 : (with_regs (nau8821_interrupt h s0).2 r2).log = (nau8821_interrupt h s0).2.log :=
    rfl
  have hl3 : (with_regs (nau8821_interrupt h
      (with_regs (nau8821_interrupt h s0).2 r2)).2 r3).log =
      (nau8821_interrupt h (with_regs (nau8821_interrupt h s0).2 r2)).2.log := rfl
  rw [hl3, l2, hl2, l1] at l3
  refine ⟨?_, ?_, m3⟩
  · rw [l3]
    simp only [jack_reports_append, clear_all_writes_jack_reports]
    simp [jack_reports, is_jack_report]
  · rw [l3]
    simp only [List.append_assoc, List.drop_left, List.filter_append,
      clear_all_writes_micbias h _ q8]
    simp [is_micbias_enable, q1, q2, q3, q4, q5, q6, q7, q8, q9, hj]

theorem C17_eject_insert_insert_headset_witness :
    (jack_reports (nau8821_interrupt sample_h (with_regs (nau8821_interrupt sample_h
        (with_regs (nau8821_interrupt sample_h (sample_dev 1 (regs_of [(0x10, 0x4)]))).2
          (regs_of [(0x10, 0x1)]))).2
        (regs_of [(0x10, 0x1), (0x58, 0x40)]))).2.log).getLast? =
      some (Event.jack_report SND_JACK_HEADSET SND_JACK_HEADSET) :=
  (congrArg List.getLast?
    (C17_eject_insert_insert_headset sample_h (sample_dev 1 (regs_of [(0x10, 0x4)]))
      (regs_of [(0x10, 0x1)]) (regs_of [(0x10, 0x1), (0x58, 0x40)])
      regs_distinct_sample clk_ids_distinct_sample (by decide) (by decide) (by decide)
      (by decide) (by decide) (by decide) (by decide) (by decide) (by decide) (by decide)
      (by decide) (by decide) (by decide) (by decide) (by decide)).1).trans (by decide)


theorem clear_all_writes_writes_to (h : nau8821_h) (st : Nat) :
    writes_to h.NAU8821_REG_INT_CLR_KEY_STATUS (clear_all_writes h st) =
      clear_all_writes h st := by
  simp only [writes_to, List.filter_eq_self]
  intro e he
  obtain ⟨i, _, _, rfl⟩ := (clear_all_writes_mem h st e).1 he
  simp [is_write_to]

/-- C11 as stated fails on the sample device. With status `0x0044` the first matching
pattern is eject while the key short-press bit `0x40` is also pending, and the
handler writes `0x40` to the interrupt-clear register during that same run; with
status `0x0101` the first matching pattern is insert and the handler writes the whole
word, bit 8 included. -/
theorem C11_only_first_pattern_cleared_counterexample :
    (sample_dev 1 (regs_of [(0x10, 0x0044)])).regmap sample_h.NAU8821_REG_IRQ_STATUS &&&
      sample_h.NAU8821_JACK_EJECT_IRQ_MASK = sample_h.NAU8821_JACK_EJECT_DETECTED ∧
    sample_h.NAU8821_KEY_SHORT_PRESS_IRQ = 0x40 ∧
    writes_to sample_h.NAU8821_REG_INT_CLR_KEY_STATUS
      (nau8821_interrupt sample_h (sample_dev 1 (regs_of [(0x10, 0x0044)]))).2.log =
      [Event.reg_write 0x11 0x4, Event.reg_write 0x11 0x40, Event.reg_write 0x11 0xc] ∧
    writes_to sample_h.NAU8821_REG_INT_CLR_KEY_STATUS
      (nau8821_interrupt sample_h (sample_dev 1 (regs_of [(0x10, 0x0101)]))).2.log =
      [Event.reg_write 0x11 0x0101] := by
  decide

/-- C11 (amended): which interrupt-clear writes one run of `nau8821_interrupt` makes, by
first matching pattern (header with pairwise distinct register addresses and clock
ids, status read succeeding). Key short-press or key release: exactly one write, of
that pattern's bit, so every other pending bit stays set. Eject: `nau8821_eject_jack`
writes every set status bit below `NAU8821_REG_DATA_LEN`, one write per bit, and the
handler then writes the eject mask. Insert: the handler writes the whole status
word, preceded by the per-bit writes of the eject sequence when the jack level
disagrees with the polarity. -/
theorem C11_clear_writes_by_pattern (h : nau8821_h) (s : nau8821)
    (hd : regs_distinct h) (hc : clk_ids_distinct h) (hbus : s.bus_error = false) :
    (s.regmap h.NAU8821_REG_IRQ_STATUS &&& h.NAU8821_JACK_EJECT_IRQ_MASK =
        h.NAU8821_JACK_EJECT_DETECTED →
      writes_to h.NAU8821_REG_INT_CLR_KEY_STATUS (nau8821_interrupt h s).2.log =
        writes_to h.NAU8821_REG_INT_CLR_KEY_STATUS s.log ++
          (clear_all_writes h (s.regmap h.NAU8821_REG_IRQ_STATUS) ++
            [Event.reg_write h.NAU8821_REG_INT_CLR_KEY_STATUS
              (if h.NAU8821_JACK_EJECT_IRQ_MASK = 0 then s.regmap h.NAU8821_REG_IRQ_STATUS
                else h.NAU8821_JACK_EJECT_IRQ_MASK)])) ∧
    (s.regmap h.NAU8821_REG_IRQ_STATUS &&& h.NAU8821_JACK_EJECT_IRQ_MASK ≠
        h.NAU8821_JACK_EJECT_DETECTED →
      s.regmap h.NAU8821_REG_IRQ_STATUS &&& h.NAU8821_KEY_SHORT_PRESS_IRQ ≠ 0 →
      writes_to h.NAU8821_REG_INT_CLR_KEY_STATUS (nau8821_interrupt h s).2.log =
        writes_to h.NAU8821_REG_INT_CLR_KEY_STATUS s.log ++
          [Event.reg_write h.NAU8821_REG_INT_CLR_KEY_STATUS h.NAU8821_KEY_SHORT_PRESS_IRQ]) ∧
    (s.regmap h.NAU8821_REG_IRQ_STATUS &&& h.NAU8821_JACK_EJECT_IRQ_MASK ≠
        h.NAU8821_JACK_EJECT_DETECTED →
      s.regmap h.NAU8821_REG_IRQ_STATUS &&& h.NAU8821_KEY_SHORT_PRESS_IRQ = 0 →
      s.regmap h.NAU8821_REG_IRQ_STATUS &&& h.NAU8821_KEY_RELEASE_IRQ ≠ 0 →
      writes_to h.NAU8821_REG_INT_CLR_KEY_STATUS (nau8821_interrupt h s).2.log =
        writes_to h.NAU8821_REG_INT_CLR_KEY_STATUS s.log ++
          [Event.reg_write h.NAU8821_REG_INT_CLR_KEY_STATUS h.NAU8821_KEY_RELEASE_IRQ]) ∧
    (s.regmap h.NAU8821_REG_IRQ_STATUS &&& h.NAU8821_JACK_EJECT_IRQ_MASK ≠
        h.NAU8821_JACK_EJECT_DETECTED →
      s.regmap h.NAU8821_REG_IRQ_STATUS &&& h.NAU8821_KEY_SHORT_PRESS_IRQ = 0 →
      s.regmap h.NAU8821_REG_IRQ_STATUS &&& h.NAU8821_KEY_RELEASE_IRQ = 0 →
      s.regmap h.NAU8821_REG_IRQ_STATUS &&& h.NAU8821_JACK_INSERT_IRQ_MASK =
        h.NAU8821_JACK_INSERT_DETECTED →
      writes_to h.NAU8821_REG_INT_CLR_KEY_STATUS (nau8821_interrupt h s).2.log =
        writes_to h.NAU8821_REG_INT_CLR_KEY_STATUS s.log ++
          ((if nau8821_is_jack_inserted h s then []
            else clear_all_writes h (s.regmap h.NAU8821_REG_IRQ_STATUS)) ++
            [Event.reg_write h.NAU8821_REG_INT_CLR_KEY_STATUS
              (s.regmap h.NAU8821_REG_IRQ_STATUS)])) := by
  have q0 := reg_ne h hd reg_name.MIC_BIAS reg_name.INT_CLR_KEY_STATUS (by decide)
  have q1 := reg_ne h hd reg_name.JACK_DET_CTRL reg_name.INT_CLR_KEY_STATUS (by decide)
  have q2 := reg_ne h hd reg_name.INTERRUPT_DIS_CTRL reg_name.INT_CLR_KEY_STATUS (by decide)
  have q3 := reg_ne h hd reg_name.INTERRUPT_MASK reg_name.INT_CLR_KEY_STATUS (by decide)
  have q4 := reg_ne h hd reg_name.ENA_CTRL reg_name.INT_CLR_KEY_STATUS (by decide)
  have q5 := reg_ne h hd reg_name.CLK_DIVIDER reg_name.INT_CLR_KEY_STATUS (by decide)
  have q6 := reg_ne h hd reg_name.FLL6 reg_name.INT_CLR_KEY_STATUS (by decide)
  have q7 := reg_ne h hd reg_name.FLL1 reg_name.INT_CLR_KEY_STATUS (by decide)
  have q9 := reg_ne h hd reg_name.I2S_PCM_CTRL2 reg_name.INT_CLR_KEY_STATUS (by decide)
  have h1 := reg_ne h hd reg_name.IRQ_STATUS reg_name.MIC_BIAS (by decide)
  have h2 := reg_ne h hd reg_name.IRQ_STATUS reg_name.JACK_DET_CTRL (by decide)
  simp only [reg_addr] at q0 q1 q2 q3 q4 q5 q6 q7 q9 h1 h2
  refine ⟨?_, ?_, ?_, ?_⟩
  · intro he
    rw [(interrupt_eject_facts h s hd hbus he).2.2.2]
    simp only [writes_to_append, clear_all_writes_writes_to]
    simp [writes_to, is_write_to, q0, q1, q2, q3, q4, q5, q6, q7]
  · intro he hp
    rw [interrupt_eq_press h s hbus he hp]
    simp [snd_soc_jack_report, emit, writes_to_append]
    simp [writes_to, is_write_to]
  · intro he hp hr
    rw [interrupt_eq_release h s hbus he hp hr]
    simp [snd_soc_jack_report, emit, writes_to_append]
    simp [writes_to, is_write_to]
  · intro he hp hr hi
    cases hin : nau8821_is_jack_inserted h s
    · rw [interrupt_eq_spurious h s hbus he hp hr hi hin]
      simp only [regmap_write_log, eject_jack_log h s h1 h2, writes_to_append,
        clear_all_writes_writes_to]
      simp [writes_to, is_write_to, q0, q1, q2, q3, q4, q5, q6, q7]
    · by_cases hclk : s.clk_id = h.NAU8821_CLK_DIS
      · rw [(interrupt_manual_facts h s hd hc hbus he hp hr hi hin hclk).2.2.2]
        simp only [writes_to_append]
        simp [writes_to, is_write_to, q0, q1, q2, q3, q4, q5, q6, q7, q9]
      · rw [interrupt_eq_auto h s hbus he hp hr hi hin hclk]
        by_cases hm : s.regmap h.NAU8821_REG_I2C_DEVICE_ID &&& h.NAU8821_MICDET = 0
        · obtain ⟨j1, j2⟩ := jack_insert_headphone h s hm
          rw [j1, j2]
          simp only [snd_soc_jack_report, emit, regmap_write_log, writes_to_append,
            sema_release_writes_to]
          simp [writes_to, is_write_to]
        · obtain ⟨j1, j2⟩ := jack_insert_headset h s hm
          rw [j1, j2]
          simp only [snd_soc_jack_report, emit, regmap_write_log, writes_to_append,
            sema_release_writes_to, update_bits_log]
          simp [writes_to, is_write_to, q0]

theorem C11_clear_writes_by_pattern_witness :
    writes_to 0x11 (nau8821_interrupt sample_h (sample_dev 1 (regs_of [(0x10, 0x00c0)]))).2.log =
      [Event.reg_write 0x11 0x40] :=
  ((C11_clear_writes_by_pattern sample_h (sample_dev 1 (regs_of [(0x10, 0x00c0)]))
    regs_distinct_sample clk_ids_distinct_sample (by decide)).2.1
      (by decide) (by decide)).trans (by decide)

/-! ## Clock source selection -/

theorem update_bits_value_testBit (orig mask val i : Nat) :
    (update_bits_value orig mask val).testBit i =
      if mask.testBit i then val.testBit i else orig.testBit i := by
  simp only [update_bits_value, Nat.testBit_and, Nat.testBit_or, Nat.testBit_xor]
  cases orig.testBit i <;> cases mask.testBit i <;> cases val.testBit i <;> rfl

theorem bitwise_fields_of_regmap_eq (F : nau8821 → nau8821)
    (hF : ∀ s, (F s).regmap = s.regmap) : bitwise_fields F := by
  intro r i
  left
  intro s
  rw [hF]

theorem bitwise_fields_comp (F G : nau8821 → nau8821) (hF : bitwise_fields F)
    (hG : bitwise_fields G) : bitwise_fields (fun s => F (G s)) := by
  intro r i
  rcases hF r i with hf | ⟨b, hb⟩
  · rcases hG r i with hg | ⟨c, hc⟩
    · left; intro s; rw [hf, hg]
    · right; exact ⟨c, fun s => by rw [hf, hc]⟩
  · right; exact ⟨b, fun s => hb _⟩

theorem bitwise_fields_update_bits (reg mask val : Nat) :
    bitwise_fields (fun s => regmap_update_bits s reg mask val) := by
  intro r i
  by_cases hr : r = reg
  · subst hr
    by_cases hm : mask.testBit i = true
    · right
      refine ⟨val.testBit i, fun s => ?_⟩
      simp only [update_bits_regmap_same, update_bits_value_testBit, hm, if_true]
    · left
      intro s
      simp only [update_bits_regmap_same, update_bits_value_testBit, hm]
      simp
  · left
    intro s
    rw [update_bits_regmap_other _ _ _ _ _ hr]

theorem bitwise_fields_idem (F : nau8821 → nau8821) (hF : bitwise_fields F) (s : nau8821) :
    (F (F s)).regmap = (F s).regmap := by
  funext r
  apply Nat.eq_of_testBit_eq
  intro i
  rcases hF r i with hf | ⟨b, hb⟩
  · rw [hf]
  · rw [hb, hb]

theorem bitwise_fields_id : bitwise_fields (fun s => s) :=
  bitwise_fields_of_regmap_eq _ (fun _ => rfl)

theorem bitwise_fields_update_after (G : nau8821 → nau8821) (hG : bitwise_fields G)
    (reg mask val : Nat) : bitwise_fields (fun s => regmap_update_bits (G s) reg mask val) :=
  bitwise_fields_comp _ G (bitwise_fields_update_bits reg mask val) hG

theorem bitwise_fields_acquire_after (G : nau8821 → nau8821) (hG : bitwise_fields G)
    (t : Nat) : bitwise_fields (fun s => (nau8821_sema_acquire (G s) t).2) :=
  bitwise_fields_comp (fun s => (nau8821_sema_acquire s t).2) G
    (bitwise_fields_of_regmap_eq _ (fun s => by simp)) hG

theorem bitwise_fields_release_after (G : nau8821 → nau8821) (hG : bitwise_fields G) :
    bitwise_fields (fun s => nau8821_sema_release (G s)) :=
  bitwise_fields_comp nau8821_sema_release G
    (bitwise_fields_of_regmap_eq _ (fun s => by simp)) hG

theorem bitwise_fields_clk_id_after (G : nau8821 → nau8821) (hG : bitwise_fields G)
    (c : Int) : bitwise_fields (fun s => { G s with clk_id := c }) :=
  bitwise_fields_comp (fun s => { s with clk_id := c }) G
    (bitwise_fields_of_regmap_eq _ (fun _ => rfl)) hG

theorem bitwise_fields_mclk_after (h : nau8821_h) (G : nau8821 → nau8821)
    (hG : bitwise_fields G) :
    bitwise_fields (fun s => nau8821_configure_mclk_as_sysclk h (G s)) := by
  unfold nau8821_configure_mclk_as_sysclk
  exact bitwise_fields_update_after _ (bitwise_fields_update_after _
    (bitwise_fields_update_after _ hG _ _ _) _ _ _) _ _ _

theorem internal_eq_on (h : nau8821_h) (s : nau8821)
    (hin : nau8821_is_jack_inserted h s = true) :
    nau8821_configure_sysclk_internal h s =
      regmap_update_bits
        (regmap_update_bits
          (regmap_update_bits
            (regmap_update_bits
              (regmap_update_bits s h.NAU8821_REG_FLL6 h.NAU8821_DCO_EN h.NAU8821_DCO_EN)
              h.NAU8821_REG_CLK_DIVIDER h.NAU8821_CLK_SRC_MASK h.NAU8821_CLK_SRC_VCO)
            h.NAU8821_REG_CLK_DIVIDER h.NAU8821_CLK_MCLK_SRC_MASK 0xf)
          h.NAU8821_REG_FLL1 (h.NAU8821_ICTRL_LATCH_MASK ||| h.NAU8821_FLL_RATIO_MASK) 0x10)
        h.NAU8821_REG_FLL6 h.NAU8821_SDM_EN h.NAU8821_SDM_EN := by
  simp [nau8821_configure_sysclk_internal, hin]

theorem internal_eq_off (h : nau8821_h) (s : nau8821)
    (hin : nau8821_is_jack_inserted h s = false) :
    nau8821_configure_sysclk_internal h s = nau8821_configure_mclk_as_sysclk h s := by
  simp [nau8821_configure_sysclk_internal, hin]

theorem internal_keeps_jack (h : nau8821_h) (hd : regs_distinct h) (s : nau8821) (c : Int) :
    nau8821_is_jack_inserted h { nau8821_configure_sysclk_internal h s with clk_id := c } =
      nau8821_is_jack_inserted h s := by
  have a1 := reg_ne h hd reg_name.JACK_DET_CTRL reg_name.CLK_DIVIDER (by decide)
  have a2 := reg_ne h hd reg_name.JACK_DET_CTRL reg_name.FLL6 (by decide)
  have a3 := reg_ne h hd reg_name.JACK_DET_CTRL reg_name.FLL1 (by decide)
  have b1 := reg_ne h hd reg_name.GENERAL_STATUS reg_name.CLK_DIVIDER (by decide)
  have b2 := reg_ne h hd reg_name.GENERAL_STATUS reg_name.FLL6 (by decide)
  have b3 := reg_ne h hd reg_name.GENERAL_STATUS reg_name.FLL1 (by decide)
  simp only [reg_addr] at a1 a2 a3 b1 b2 b3
  refine (is_jack_inserted_regmap h _ (nau8821_configure_sysclk_internal h s) rfl).trans ?_
  cases hin : nau8821_is_jack_inserted h s
  · rw [internal_eq_off h s hin]
    simp only [nau8821_configure_mclk_as_sysclk]
    rw [is_jack_inserted_update h _ _ _ _ a3 b3, is_jack_inserted_update h _ _ _ _ a2 b2,
      is_jack_inserted_update h _ _ _ _ a1 b1, hin]
  · rw [internal_eq_on h s hin]
    rw [is_jack_inserted_update h _ _ _ _ a2 b2, is_jack_inserted_update h _ _ _ _ a3 b3,
      is_jack_inserted_update h _ _ _ _ a1 b1, is_jack_inserted_update h _ _ _ _ a1 b1,
      is_jack_inserted_update h _ _ _ _ a2 b2, hin]

theorem twice_of_eq (G F : nau8821 → nau8821) (hF : bitwise_fields F) (s : nau8821)
    (e1 : G s = F s) (e2 : G (F s) = F (F s)) : (G (G s)).regmap = (G s).regmap := by
  rw [e1, e2]
  exact bitwise_fields_idem F hF s

theorem configure_sysclk_twice (h : nau8821_h) (hd : regs_distinct h) (s : nau8821)
    (c : Int) (f : Nat) :
    (nau8821_configure_sysclk h (nau8821_configure_sysclk h s c f).2 c f).2.regmap =
      (nau8821_configure_sysclk h s c f).2.regmap := by
  by_cases h0 : c = h.NAU8821_CLK_DIS
  · have e : ∀ t, (nau8821_configure_sysclk h t c f).2 =
        { nau8821_configure_mclk_as_sysclk h t with clk_id := c } := by
      intro t; simp only [nau8821_configure_sysclk, h0, if_true]
    exact twice_of_eq (fun t => (nau8821_configure_sysclk h t c f).2) _
      (bitwise_fields_clk_id_after _ (bitwise_fields_mclk_after h _ bitwise_fields_id) c) s
      (e s) (e _)
  by_cases h1 : c = h.NAU8821_CLK_MCLK
  · have e : ∀ t, (nau8821_configure_sysclk h t c f).2 =
        { nau8821_sema_release (regmap_update_bits
          (nau8821_configure_mclk_as_sysclk h (nau8821_sema_acquire t HZ).2)
          h.NAU8821_REG_CLK_DIVIDER h.NAU8821_CLK_MCLK_SRC_MASK 0) with clk_id := c } := by
      intro t; simp only [nau8821_configure_sysclk, if_neg h0, if_pos h1]
    exact twice_of_eq (fun t => (nau8821_configure_sysclk h t c f).2) _
      (bitwise_fields_clk_id_after _ (bitwise_fields_release_after _
        (bitwise_fields_update_after _ (bitwise_fields_mclk_after h _
          (bitwise_fields_acquire_after _ bitwise_fields_id HZ)) _ _ _)) c) s
      (e s) (e _)
  by_cases h2 : c = h.NAU8821_CLK_INTERNAL
  · have e : ∀ t, (nau8821_configure_sysclk h t c f).2 =
        { nau8821_configure_sysclk_internal h t with clk_id := c } := by
      intro t; simp only [nau8821_configure_sysclk, if_neg h0, if_neg h1, if_pos h2]
    have hk := internal_keeps_jack h hd s c
    cases hin : nau8821_is_jack_inserted h s
    · rw [hin] at hk
      refine twice_of_eq (fun t => (nau8821_configure_sysclk h t c f).2)
        (fun t => { nau8821_configure_mclk_as_sysclk h t with clk_id := c })
        (bitwise_fields_clk_id_after _ (bitwise_fields_mclk_after h _ bitwise_fields_id) c)
        s ?_ ?_
      · show (nau8821_configure_sysclk h s c f).2 = _
        rw [e, internal_eq_off h s hin]
      · show (nau8821_configure_sysclk h _ c f).2 = _
        rw [internal_eq_off h s hin] at hk
        rw [e, internal_eq_off h _ hk]
    · rw [hin] at hk
      refine twice_of_eq (fun t => (nau8821_configure_sysclk h t c f).2)
        (fun t => { (regmap_update_bits
        (regmap_update_bits
          (regmap_update_bits
            (regmap_update_bits
              (regmap_update_bits t h.NAU8821_REG_FLL6 h.NAU8821_DCO_EN h.NAU8821_DCO_EN)
              h.NAU8821_REG_CLK_DIVIDER h.NAU8821_CLK_SRC_MASK h.NAU8821_CLK_SRC_VCO)
            h.NAU8821_REG_CLK_DIVIDER h.NAU8821_CLK_MCLK_SRC_MASK 0xf)
          h.NAU8821_REG_FLL1 (h.NAU8821_ICTRL_LATCH_MASK ||| h.NAU8821_FLL_RATIO_MASK) 0x10)
        h.NAU8821_REG_FLL6 h.NAU8821_SDM_EN h.NAU8821_SDM_EN) with clk_id := c })
        (bitwise_fields_clk_id_after _ (bitwise_fields_update_after _
          (bitwise_fields_update_after _ (bitwise_fields_update_after _
            (bitwise_fields_update_after _ (bitwise_fields_update_after _
              bitwise_fields_id _ _ _) _ _ _) _ _ _) _ _ _) _ _ _) c)
        s ?_ ?_
      · show (nau8821_configure_sysclk h s c f).2 = _
        rw [e, internal_eq_on h s hin]
      · show (nau8821_configure_sysclk h _ c f).2 = _
        rw [internal_eq_on h s hin] at hk
        rw [e, internal_eq_on h _ hk]
  have hfll : ∀ v : Nat, bitwise_fields (fun t => { nau8821_sema_release (regmap_update_bits
      (nau8821_sema_acquire t HZ).2 h.NAU8821_REG_FLL3
      (h.NAU8821_FLL_CLK_SRC_MASK ||| h.NAU8821_GAIN_ERR_MASK) v) with clk_id := c }) :=
    fun v => bitwise_fields_clk_id_after _ (bitwise_fields_release_after _
      (bitwise_fields_update_after _ (bitwise_fields_acquire_after _ bitwise_fields_id HZ)
        _ _ _)) c
  by_cases h3 : c = h.NAU8821_CLK_FLL_MCLK
  · have e : ∀ t, (nau8821_configure_sysclk h t c f).2 =
        { nau8821_sema_release (regmap_update_bits (nau8821_sema_acquire t HZ).2
          h.NAU8821_REG_FLL3 (h.NAU8821_FLL_CLK_SRC_MASK ||| h.NAU8821_GAIN_ERR_MASK)
          (h.NAU8821_FLL_CLK_SRC_MCLK ||| 0)) with clk_id := c } := fun t => by
      simp only [nau8821_configure_sysclk, if_neg h0, if_neg h1, if_neg h2, if_pos h3]
    exact twice_of_eq (fun t => (nau8821_configure_sysclk h t c f).2) _ (hfll _) s
      (e s) (e _)
  by_cases h4 : c = h.NAU8821_CLK_FLL_BLK
  · have e : ∀ t, (nau8821_configure_sysclk h t c f).2 =
        { nau8821_sema_release (regmap_update_bits (nau8821_sema_acquire t HZ).2
          h.NAU8821_REG_FLL3 (h.NAU8821_FLL_CLK_SRC_MASK ||| h.NAU8821_GAIN_ERR_MASK)
          (h.NAU8821_FLL_CLK_SRC_BLK ||| (0xf <<< h.NAU8821_GAIN_ERR_SFT))) with clk_id := c } := fun t => by
      simp only [nau8821_configure_sysclk, if_neg h0, if_neg h1, if_neg h2, if_neg h3,
        if_pos h4]
    exact twice_of_eq (fun t => (nau8821_configure_sysclk h t c f).2) _ (hfll _) s
      (e s) (e _)
  by_cases h5 : c = h.NAU8821_CLK_FLL_FS
  · have e : ∀ t, (nau8821_configure_sysclk h t c f).2 =
        { nau8821_sema_release (regmap_update_bits (nau8821_sema_acquire t HZ).2
          h.NAU8821_REG_FLL3 (h.NAU8821_FLL_CLK_SRC_MASK ||| h.NAU8821_GAIN_ERR_MASK)
          (h.NAU8821_FLL_CLK_SRC_FS ||| (0xf <<< h.NAU8821_GAIN_ERR_SFT))) with clk_id := c } := fun t => by
      simp only [nau8821_configure_sysclk, if_neg h0, if_neg h1, if_neg h2, if_neg h3,
        if_neg h4, if_pos h5]
    exact twice_of_eq (fun t => (nau8821_configure_sysclk h t c f).2) _ (hfll _) s
      (e s) (e _)
  simp only [nau8821_configure_sysclk, if_neg h0, if_neg h1, if_neg h2, if_neg h3,
    if_neg h4, if_neg h5]


theorem update_bits_value_set_keep (x m d : Nat) (hx : x &&& d = d) :
    update_bits_value x m m &&& d = d := by
  apply Nat.eq_of_testBit_eq
  intro i
  have hb := congrArg (fun n => n.testBit i) hx
  simp only [Nat.testBit_and] at hb
  simp only [Nat.testBit_and, update_bits_value_testBit]
  cases hxi : x.testBit i <;> cases hdi : d.testBit i <;> cases hmi : m.testBit i <;>
    simp_all

theorem mclk_regmap_fll6 (h : nau8821_h) (hd : regs_distinct h) (s : nau8821) :
    (nau8821_configure_mclk_as_sysclk h s).regmap h.NAU8821_REG_FLL6 =
      update_bits_value (s.regmap h.NAU8821_REG_FLL6) h.NAU8821_DCO_EN 0 := by
  have a1 := reg_ne h hd reg_name.FLL6 reg_name.FLL1 (by decide)
  have a2 := reg_ne h hd reg_name.FLL6 reg_name.CLK_DIVIDER (by decide)
  simp only [reg_addr] at a1 a2
  simp only [nau8821_configure_mclk_as_sysclk]
  rw [update_bits_regmap_other _ _ _ _ _ a1, update_bits_regmap_same,
    update_bits_regmap_other _ _ _ _ _ a2]

theorem mclk_regmap_clk_divider (h : nau8821_h) (hd : regs_distinct h) (s : nau8821) :
    (nau8821_configure_mclk_as_sysclk h s).regmap h.NAU8821_REG_CLK_DIVIDER =
      update_bits_value (s.regmap h.NAU8821_REG_CLK_DIVIDER) h.NAU8821_CLK_SRC_MASK
        h.NAU8821_CLK_SRC_MCLK := by
  have a1 := reg_ne h hd reg_name.CLK_DIVIDER reg_name.FLL1 (by decide)
  have a2 := reg_ne h hd reg_name.CLK_DIVIDER reg_name.FLL6 (by decide)
  simp only [reg_addr] at a1 a2
  simp only [nau8821_configure_mclk_as_sysclk]
  rw [update_bits_regmap_other _ _ _ _ _ a1, update_bits_regmap_other _ _ _ _ _ a2,
    update_bits_regmap_same]

theorem internal_on_regmap_fll6 (h : nau8821_h) (hd : regs_distinct h) (s : nau8821)
    (hin : nau8821_is_jack_inserted h s = true) :
    (nau8821_configure_sysclk_internal h s).regmap h.NAU8821_REG_FLL6 &&& h.NAU8821_DCO_EN =
      h.NAU8821_DCO_EN := by
  have a1 := reg_ne h hd reg_name.FLL6 reg_name.FLL1 (by decide)
  have a2 := reg_ne h hd reg_name.FLL6 reg_name.CLK_DIVIDER (by decide)
  simp only [reg_addr] at a1 a2
  rw [internal_eq_on h s hin, update_bits_regmap_same,
    update_bits_regmap_other _ _ _ _ _ a1, update_bits_regmap_other _ _ _ _ _ a2,
    update_bits_regmap_other _ _ _ _ _ a2, update_bits_regmap_same]
  exact update_bits_value_set_keep _ _ _ (update_bits_value_set _ _)

theorem configure_sysclk_dco (h : nau8821_h) (hd : regs_distinct h) (s : nau8821)
    (c : Int) (f : Nat)
    (hc : c ≠ h.NAU8821_CLK_INTERNAL ∨ nau8821_is_jack_inserted h s = false) :
    (nau8821_configure_sysclk h s c f).2.regmap h.NAU8821_REG_FLL6 &&& h.NAU8821_DCO_EN = 0 ∨
    (nau8821_configure_sysclk h s c f).2.regmap h.NAU8821_REG_FLL6 =
      s.regmap h.NAU8821_REG_FLL6 := by
  have a1 := reg_ne h hd reg_name.FLL6 reg_name.CLK_DIVIDER (by decide)
  have a3 := reg_ne h hd reg_name.FLL6 reg_name.FLL3 (by decide)
  simp only [reg_addr] at a1 a3
  by_cases h0 : c = h.NAU8821_CLK_DIS
  · left
    simp only [nau8821_configure_sysclk, if_pos h0]
    show (nau8821_configure_mclk_as_sysclk h s).regmap _ &&& _ = 0
    rw [mclk_regmap_fll6 h hd, update_bits_value_clear]
  by_cases h1 : c = h.NAU8821_CLK_MCLK
  · left
    simp only [nau8821_configure_sysclk, if_neg h0, if_pos h1]
    show (nau8821_sema_release _).regmap _ &&& _ = 0
    rw [sema_release_regmap, update_bits_regmap_other _ _ _ _ _ a1, mclk_regmap_fll6 h hd,
      update_bits_value_clear]
  by_cases h2 : c = h.NAU8821_CLK_INTERNAL
  · left
    rcases hc with hc | hc
    · exact absurd h2 hc
    · simp only [nau8821_configure_sysclk, if_neg h0, if_neg h1, if_pos h2]
      show (nau8821_configure_sysclk_internal h s).regmap _ &&& _ = 0
      rw [internal_eq_off h s hc, mclk_regmap_fll6 h hd, update_bits_value_clear]
  right
  by_cases h3 : c = h.NAU8821_CLK_FLL_MCLK
  · simp only [nau8821_configure_sysclk, if_neg h0, if_neg h1, if_neg h2, if_pos h3]
    show (nau8821_sema_release _).regmap _ = _
    rw [sema_release_regmap, update_bits_regmap_other _ _ _ _ _ a3, sema_acquire_regmap]
  by_cases h4 : c = h.NAU8821_CLK_FLL_BLK
  · simp only [nau8821_configure_sysclk, if_neg h0, if_neg h1, if_neg h2, if_neg h3,
      if_pos h4]
    show (nau8821_sema_release _).regmap _ = _
    rw [sema_release_regmap, update_bits_regmap_other _ _ _ _ _ a3, sema_acquire_regmap]
  by_cases h5 : c = h.NAU8821_CLK_FLL_FS
  · simp only [nau8821_configure_sysclk, if_neg h0, if_neg h1, if_neg h2, if_neg h3,
      if_neg h4, if_pos h5]
    show (nau8821_sema_release _).regmap _ = _
    rw [sema_release_regmap, update_bits_regmap_other _ _ _ _ _ a3, sema_acquire_regmap]
  simp only [nau8821_configure_sysclk, if_neg h0, if_neg h1, if_neg h2, if_neg h3,
    if_neg h4, if_neg h5]

/-- C19 as stated fails on the sample device: with the jack reading not inserted
(`GENERAL_STATUS = 0x2` against active-low polarity), requesting the internal
oscillator returns 0 and the recorded clock source afterwards is
`NAU8821_CLK_INTERNAL`, not `NAU8821_CLK_MCLK`. -/
theorem C19_fallback_records_internal_counterexample :
    nau8821_is_jack_inserted sample_h (sample_dev 1 (regs_of [(0x82, 0x2)])) = false ∧
    (nau8821_configure_sysclk sample_h (sample_dev 1 (regs_of [(0x82, 0x2)]))
      sample_h.NAU8821_CLK_INTERNAL 0).1 = 0 ∧
    (nau8821_configure_sysclk sample_h (sample_dev 1 (regs_of [(0x82, 0x2)]))
      sample_h.NAU8821_CLK_INTERNAL 0).2.clk_id = sample_h.NAU8821_CLK_INTERNAL ∧
    (nau8821_configure_sysclk sample_h (sample_dev 1 (regs_of [(0x82, 0x2)]))
      sample_h.NAU8821_CLK_INTERNAL 0).2.clk_id ≠ sample_h.NAU8821_CLK_MCLK := by
  decide

/-- C19 (amended): on a header with pairwise distinct register addresses and clock ids,
`nau8821_configure_sysclk` called for `NAU8821_CLK_INTERNAL` returns 0 and records
`NAU8821_CLK_INTERNAL` whatever the jack reads. If the jack reads inserted, `NAU8821_DCO_EN`
is set afterwards. If it does not, the registers are programmed as the MCLK
passthrough (clock source field MCLK, `NAU8821_DCO_EN` clear), yet the recorded clock
source is still `NAU8821_CLK_INTERNAL`, not `NAU8821_CLK_MCLK`. For every other request,
and for `NAU8821_CLK_INTERNAL` without a jack, `NAU8821_DCO_EN` is cleared or the FLL6
register is left as it was: the oscillator is switched on only with the jack
inserted. -/
theorem C19_internal_request_by_jack (h : nau8821_h) (s : nau8821) (f : Nat)
    (hd : regs_distinct h) (hc : clk_ids_distinct h) :
    (nau8821_is_jack_inserted h s = true →
      (nau8821_configure_sysclk h s h.NAU8821_CLK_INTERNAL f).1 = 0 ∧
      (nau8821_configure_sysclk h s h.NAU8821_CLK_INTERNAL f).2.regmap h.NAU8821_REG_FLL6 &&&
        h.NAU8821_DCO_EN = h.NAU8821_DCO_EN ∧
      (nau8821_configure_sysclk h s h.NAU8821_CLK_INTERNAL f).2.clk_id =
        h.NAU8821_CLK_INTERNAL) ∧
    (nau8821_is_jack_inserted h s = false →
      (nau8821_configure_sysclk h s h.NAU8821_CLK_INTERNAL f).1 = 0 ∧
      (nau8821_configure_sysclk h s h.NAU8821_CLK_INTERNAL f).2.log =
        s.log ++ [Event.reg_update h.NAU8821_REG_CLK_DIVIDER h.NAU8821_CLK_SRC_MASK
            h.NAU8821_CLK_SRC_MCLK,
          Event.reg_update h.NAU8821_REG_FLL6 h.NAU8821_DCO_EN 0,
          Event.reg_update h.NAU8821_REG_FLL1 h.NAU8821_ICTRL_LATCH_MASK 0] ∧
      (nau8821_configure_sysclk h s h.NAU8821_CLK_INTERNAL f).2.regmap h.NAU8821_REG_FLL6 &&&
        h.NAU8821_DCO_EN = 0 ∧
      (nau8821_configure_sysclk h s h.NAU8821_CLK_INTERNAL f).2.regmap
        h.NAU8821_REG_CLK_DIVIDER &&& h.NAU8821_CLK_SRC_MASK =
        h.NAU8821_CLK_SRC_MCLK &&& h.NAU8821_CLK_SRC_MASK ∧
      (nau8821_configure_sysclk h s h.NAU8821_CLK_INTERNAL f).2.clk_id =
        h.NAU8821_CLK_INTERNAL ∧
      (nau8821_configure_sysclk h s h.NAU8821_CLK_INTERNAL f).2.clk_id ≠
        h.NAU8821_CLK_MCLK) ∧
    (∀ c : Int, (c ≠ h.NAU8821_CLK_INTERNAL ∨ nau8821_is_jack_inserted h s = false) →
      (nau8821_configure_sysclk h s c f).2.regmap h.NAU8821_REG_FLL6 &&&
          h.NAU8821_DCO_EN = 0 ∨
        (nau8821_configure_sysclk h s c f).2.regmap h.NAU8821_REG_FLL6 =
          s.regmap h.NAU8821_REG_FLL6) := by
  have c1 : h.NAU8821_CLK_INTERNAL ≠ h.NAU8821_CLK_DIS :=
    clk_ne h hc clk_name.INTERNAL clk_name.DIS (by decide)
  have c2 : h.NAU8821_CLK_INTERNAL ≠ h.NAU8821_CLK_MCLK :=
    clk_ne h hc clk_name.INTERNAL clk_name.MCLK (by decide)
  have heq := configure_sysclk_internal_eq h s f c1 c2
  refine ⟨?_, ?_, fun c hcc => configure_sysclk_dco h hd s c f hcc⟩
  · intro hin
    rw [heq]
    exact ⟨rfl, internal_on_regmap_fll6 h hd s hin, rfl⟩
  · intro hin
    rw [heq]
    refine ⟨rfl, ?_, ?_, ?_, rfl, c2⟩
    · show (nau8821_configure_sysclk_internal h s).log = _
      rw [internal_eq_off h s hin, mclk_log]
    · show (nau8821_configure_sysclk_internal h s).regmap _ &&& _ = 0
      rw [internal_eq_off h s hin, mclk_regmap_fll6 h hd, update_bits_value_clear]
    · show (nau8821_configure_sysclk_internal h s).regmap _ &&& _ = _
      rw [internal_eq_off h s hin, mclk_regmap_clk_divider h hd, update_bits_value_field]

theorem C19_internal_request_by_jack_witness :
    (nau8821_configure_sysclk sample_h (sample_dev 1 (regs_of [(0x82, 0x2), (0x09, 0x8000)]))
      sample_h.NAU8821_CLK_INTERNAL 0).2.regmap sample_h.NAU8821_REG_FLL6 &&&
      sample_h.NAU8821_DCO_EN = 0 :=
  ((C19_internal_request_by_jack sample_h
    (sample_dev 1 (regs_of [(0x82, 0x2), (0x09, 0x8000)])) 0
    regs_distinct_sample clk_ids_distinct_sample).2.1 (by decide)).2.2.1


/-- C18 as stated fails on the sample device. The driver records `NAU8821_CLK_MCLK`, then
`nau8821_set_fll` switches the clock source field to the VCO without touching the
recorded source; asking for `NAU8821_CLK_MCLK` again, the recorded source being
already `NAU8821_CLK_MCLK`, rewrites the clock divider register (`0x800f` becomes 0). -/
theorem C18_reinvoke_writes_counterexample :
    (nau8821_set_fll sample_h
      (nau8821_configure_sysclk sample_h (sample_dev 1 (regs_of []))
        sample_h.NAU8821_CLK_MCLK 12288000).2 12288000 12288000).1 = 0 ∧
    (nau8821_set_fll sample_h
      (nau8821_configure_sysclk sample_h (sample_dev 1 (regs_of []))
        sample_h.NAU8821_CLK_MCLK 12288000).2 12288000 12288000).2.clk_id =
      sample_h.NAU8821_CLK_MCLK ∧
    (nau8821_set_fll sample_h
      (nau8821_configure_sysclk sample_h (sample_dev 1 (regs_of []))
        sample_h.NAU8821_CLK_MCLK 12288000).2 12288000 12288000).2.regmap
      sample_h.NAU8821_REG_CLK_DIVIDER = 0x800f ∧
    (nau8821_configure_sysclk sample_h
      (nau8821_set_fll sample_h
        (nau8821_configure_sysclk sample_h (sample_dev 1 (regs_of []))
          sample_h.NAU8821_CLK_MCLK 12288000).2 12288000 12288000).2
      sample_h.NAU8821_CLK_MCLK 12288000).2.regmap sample_h.NAU8821_REG_CLK_DIVIDER = 0 := by
  decide

/-- C18 (amended): on a header with pairwise distinct register addresses, calling
`nau8821_configure_sysclk` a second time with the same clock id, directly after the
first call, leaves every register exactly as the first call left it and returns
the same code; a call that returns 0 records the requested id. The function never
compares the request with the recorded source, so nothing is promised for a state
whose registers were changed after the source was recorded. -/
theorem C18_repeat_keeps_registers (h : nau8821_h) (s : nau8821) (c : Int) (f : Nat)
    (hd : regs_distinct h) :
    (nau8821_configure_sysclk h (nau8821_configure_sysclk h s c f).2 c f).2.regmap =
      (nau8821_configure_sysclk h s c f).2.regmap ∧
    (nau8821_configure_sysclk h (nau8821_configure_sysclk h s c f).2 c f).1 =
      (nau8821_configure_sysclk h s c f).1 ∧
    ((nau8821_configure_sysclk h s c f).1 = 0 →
      (nau8821_configure_sysclk h s c f).2.clk_id = c) := by
  refine ⟨configure_sysclk_twice h hd s c f, ?_, ?_⟩
  · simp only [nau8821_configure_sysclk]
    split_ifs <;> rfl
  · simp only [nau8821_configure_sysclk]
    split_ifs <;> simp [EINVAL]

theorem C18_repeat_keeps_registers_witness :
    (nau8821_configure_sysclk sample_h
      (nau8821_configure_sysclk sample_h (sample_dev 1 (regs_of [(0x03, 0x8000)]))
        sample_h.NAU8821_CLK_MCLK 0).2 sample_h.NAU8821_CLK_MCLK 0).2.regmap 0x03 =
    (nau8821_configure_sysclk sample_h (sample_dev 1 (regs_of [(0x03, 0x8000)]))
        sample_h.NAU8821_CLK_MCLK 0).2.regmap 0x03 :=
  congrFun (C18_repeat_keeps_registers sample_h (sample_dev 1 (regs_of [(0x03, 0x8000)]))
    sample_h.NAU8821_CLK_MCLK 0 regs_distinct_sample).1 0x03

/-- C20 as stated fails on the sample device: with an interrupt line and the semaphore
count at 0 the bounded wait times out, yet the request for `NAU8821_CLK_FLL_FS`
returns 0, records the new source and rewrites the FLL3 register. -/
theorem C20_timeout_proceeds_counterexample :
    (sample_dev 1 (regs_of [])).irq ≠ 0 ∧ (sample_dev 1 (regs_of [])).jd_sem = 0 ∧
    (sample_dev 1 (regs_of [])).clk_id = sample_h.NAU8821_CLK_DIS ∧
    (nau8821_sema_acquire (sample_dev 1 (regs_of [])) HZ).1 = -ETIME ∧
    (nau8821_configure_sysclk sample_h (sample_dev 1 (regs_of []))
      sample_h.NAU8821_CLK_FLL_FS 0).1 = 0 ∧
    (nau8821_configure_sysclk sample_h (sample_dev 1 (regs_of []))
      sample_h.NAU8821_CLK_FLL_FS 0).2.clk_id = sample_h.NAU8821_CLK_FLL_FS ∧
    (sample_dev 1 (regs_of [])).regmap sample_h.NAU8821_REG_FLL3 = 0 ∧
    (nau8821_configure_sysclk sample_h (sample_dev 1 (regs_of []))
      sample_h.NAU8821_CLK_FLL_FS 0).2.regmap sample_h.NAU8821_REG_FLL3 = 0xfc00 := by
  decide

/-- C20 (amended): `nau8821_configure_sysclk` ignores the result of the bounded wait. On
a device with an interrupt line whose semaphore count is 0 (so that
`nau8821_sema_acquire` returns `-ETIME`), with pairwise distinct clock ids, a request for
`NAU8821_CLK_MCLK`, `NAU8821_CLK_FLL_MCLK`, `NAU8821_CLK_FLL_BLK` or `NAU8821_CLK_FLL_FS` returns 0,
records the requested source, programs the registers exactly as it does when the
semaphore is available, and still performs its release: the gate events are the
failed wait followed by one `up`, and the count ends at 1. -/
theorem C20_timeout_proceeds (h : nau8821_h) (s : nau8821) (c : Int) (f : Nat)
    (hc : clk_ids_distinct h) (hirq : s.irq ≠ 0) (hsem : s.jd_sem = 0)
    (hv : c = h.NAU8821_CLK_MCLK ∨ c = h.NAU8821_CLK_FLL_MCLK ∨ c = h.NAU8821_CLK_FLL_BLK ∨
      c = h.NAU8821_CLK_FLL_FS) :
    (nau8821_sema_acquire s HZ).1 = -ETIME ∧
    (nau8821_configure_sysclk h s c f).1 = 0 ∧
    (nau8821_configure_sysclk h s c f).2.clk_id = c ∧
    (nau8821_configure_sysclk h s c f).2.jd_sem = 1 ∧
    gate_events (nau8821_configure_sysclk h s c f).2.log =
      gate_events s.log ++ [Event.down_timeout HZ (-ETIME), Event.up] ∧
    (nau8821_configure_sysclk h s c f).2.regmap =
      (nau8821_configure_sysclk h { s with jd_sem := 1 } c f).2.regmap := by
  have d1 := clk_ne h hc clk_name.MCLK clk_name.DIS (by decide)
  have d2 := clk_ne h hc clk_name.FLL_MCLK clk_name.DIS (by decide)
  have d3 := clk_ne h hc clk_name.FLL_MCLK clk_name.MCLK (by decide)
  have d4 := clk_ne h hc clk_name.FLL_MCLK clk_name.INTERNAL (by decide)
  have d5 := clk_ne h hc clk_name.FLL_BLK clk_name.DIS (by decide)
  have d6 := clk_ne h hc clk_name.FLL_BLK clk_name.MCLK (by decide)
  have d7 := clk_ne h hc clk_name.FLL_BLK clk_name.INTERNAL (by decide)
  have d8 := clk_ne h hc clk_name.FLL_BLK clk_name.FLL_MCLK (by decide)
  have d9 := clk_ne h hc clk_name.FLL_FS clk_name.DIS (by decide)
  have d10 := clk_ne h hc clk_name.FLL_FS clk_name.MCLK (by decide)
  have d11 := clk_ne h hc clk_name.FLL_FS clk_name.INTERNAL (by decide)
  have d12 := clk_ne h hc clk_name.FLL_FS clk_name.FLL_MCLK (by decide)
  have d13 := clk_ne h hc clk_name.FLL_FS clk_name.FLL_BLK (by decide)
  simp only [clk_value] at d1 d2 d3 d4 d5 d6 d7 d8 d9 d10 d11 d12 d13
  have hz : HZ ≠ 0 := by decide
  have hacq : nau8821_sema_acquire s HZ =
      (-ETIME, emit s (Event.down_timeout HZ (-ETIME))) := by
    simp [nau8821_sema_acquire, hirq, hz, down_timeout, hsem]
  have hacq1 : nau8821_sema_acquire { s with jd_sem := 1 } HZ =
      (0, emit { s with jd_sem := 0 } (Event.down_timeout HZ 0)) := by
    simp [nau8821_sema_acquire, hirq, hz, down_timeout]
  refine ⟨by rw [hacq], ?_⟩
  rcases hv with hv | hv | hv | hv <;> subst hv
  · simp only [nau8821_configure_sysclk, if_neg d1, if_true, hacq, hacq1]
    simp [nau8821_sema_release, up, emit, hirq, hsem, nau8821_configure_mclk_as_sysclk,
      regmap_update_bits, gate_events, is_gate_event, List.filter_append]
  · simp only [nau8821_configure_sysclk, if_neg d2, if_neg d3, if_neg d4, if_true, hacq, hacq1]
    simp [nau8821_sema_release, up, emit, hirq, hsem,
      regmap_update_bits, gate_events, is_gate_event, List.filter_append]
  · simp only [nau8821_configure_sysclk, if_neg d5, if_neg d6, if_neg d7, if_neg d8, if_true,
      hacq, hacq1]
    simp [nau8821_sema_release, up, emit, hirq, hsem,
      regmap_update_bits, gate_events, is_gate_event, List.filter_append]
  · simp only [nau8821_configure_sysclk, if_neg d9, if_neg d10, if_neg d11, if_neg d12,
      if_neg d13, if_true, hacq, hacq1]
    simp [nau8821_sema_release, up, emit, hirq, hsem,
      regmap_update_bits, gate_events, is_gate_event, List.filter_append]

theorem C20_timeout_proceeds_witness :
    (nau8821_configure_sysclk sample_h (sample_dev 1 (regs_of []))
      sample_h.NAU8821_CLK_FLL_BLK 0).2.jd_sem = 1 :=
  (C20_timeout_proceeds sample_h (sample_dev 1 (regs_of [])) sample_h.NAU8821_CLK_FLL_BLK 0
    clk_ids_distinct_sample (by decide) (by decide) (by decide)).2.2.2.1

/-! ## Worked FLL requests -/

/-- C22 as stated fails in its middle part: for a 12 MHz reference the ratio loop stops
at index 0, the entry with threshold 512000 and ratio code `0x01`; the entry with
threshold 8000 is at index 5 and carries the code `0x20`, which is not what is stored. -/
theorem C22_ratio_band_counterexample :
    (pre_scalar_loop 12000000 fll_pre_scalar 0 0).2 = 12000000 ∧
    ratio_loop 12000000 fll_ratio 0 = 0 ∧
    attr_at fll_ratio 0 = ⟨512000, 0x01⟩ ∧
    attr_at fll_ratio 5 = ⟨8000, 0x20⟩ ∧
    (nau8821_calc_fll_param 12000000 48000 ⟨0, 0, 0, 0, 0⟩).1 = 0 ∧
    (nau8821_calc_fll_param 12000000 48000 ⟨0, 0, 0, 0, 0⟩).2.ratio = 0x01 ∧
    (nau8821_calc_fll_param 12000000 48000 ⟨0, 0, 0, 0, 0⟩).2.ratio ≠ 0x20 := by
  decide

/-- C22 (amended): for `fll_in = 12000000` and `fs = 48000`, whatever `*fll_param` held
before, `nau8821_calc_fll_param` returns 0 with pre-scale divisor 1 (code 0, reference
12000000), with the ratio of the first table entry, threshold 512000 and code `0x01`
(the loop stops at the first threshold the reference reaches), and with the VCO
target 122880000 = 256 * 48000 * 2 * 5 (scaling code `0xf`), the largest table
candidate below 124000000; the synthesis word has integer part 10 and fraction
4026531. -/
theorem C22_example_12mhz_48khz (p0 : nau8821_fll) :
    nau8821_calc_fll_param 12000000 48000 p0 =
      (0, { mclk_src := 0xf, ratio := 0x01, fll_frac := 4026531, fll_int := 10,
            clk_ref_div := 0 }) ∧
    pre_scalar_loop 12000000 fll_pre_scalar 0 0 = (0, 12000000) ∧
    attr_at fll_pre_scalar 0 = ⟨1, 0x0⟩ ∧
    ratio_loop 12000000 fll_ratio 0 = 0 ∧
    attr_at fll_ratio 0 = ⟨512000, 0x01⟩ ∧
    fvco_loop 48000 mclk_src_scaling 0 (0, mclk_src_scaling.length) = (122880000, 12) ∧
    attr_at mclk_src_scaling 12 = ⟨5, 0xf⟩ ∧
    256 * 48000 * 2 * 5 = 122880000 ∧
    (∀ a ∈ mclk_src_scaling, 256 * 48000 * 2 * a.param < 124000000 →
      256 * 48000 * 2 * a.param ≤ 122880000) := by
  refine ⟨?_, by decide, by decide, by decide, by decide, by decide, by decide, by decide,
    by decide⟩
  rw [calc_fll_success 12000000 48000 p0 (by decide) (by decide) (by decide)]
  decide

theorem C22_example_12mhz_48khz_witness :
    (nau8821_calc_fll_param 12000000 48000 ⟨0, 0, 0, 0, 0⟩).2.ratio = 0x01 :=
  congrArg (fun r => r.2.ratio) (C22_example_12mhz_48khz ⟨0, 0, 0, 0, 0⟩).1

theorem word_join (w : Nat) (hw : w < 2 ^ 34) :
    ((w / 2 ^ 24 % 2 ^ 10) <<< 24) ||| (w % 2 ^ 24) = w := by
  rw [Nat.shiftLeft_eq, Nat.mul_comm,
    ← Nat.mul_add_lt_is_or (Nat.mod_lt w (by decide : 0 < 2 ^ 24))]
  omega

/-- C26: whenever `nau8821_calc_fll_param` succeeds, with `ratio` the stored ratio and
`w = floor((fvco_max * 2^24) / (fref * ratio))`: the product `fref * ratio` is at least
256000, `w` is below `2^34`, `fll_int` is `w / 2^24` itself (below `2^10`, so the 10-bit
mask dropped nothing) and `(fll_int << 24) | fll_frac` is `w`. -/
theorem C26_word_fits (fll_in fs : Nat) (p0 : nau8821_fll)
    (hok : (nau8821_calc_fll_param fll_in fs p0).1 = 0) :
    ∃ ratio : Nat,
      (nau8821_calc_fll_param fll_in fs p0).2.ratio = (ratio : Int) ∧
      256000 ≤ (pre_scalar_loop fll_in fll_pre_scalar 0 0).2 * ratio ∧
      (fvco_loop fs mclk_src_scaling 0 (0, mclk_src_scaling.length)).1 * 2 ^ 24 /
        ((pre_scalar_loop fll_in fll_pre_scalar 0 0).2 * ratio) < 2 ^ 34 ∧
      (nau8821_calc_fll_param fll_in fs p0).2.fll_int =
        (((fvco_loop fs mclk_src_scaling 0 (0, mclk_src_scaling.length)).1 * 2 ^ 24 /
          ((pre_scalar_loop fll_in fll_pre_scalar 0 0).2 * ratio) / 2 ^ 24 : Nat) : Int) ∧
      (nau8821_calc_fll_param fll_in fs p0).2.fll_int < 2 ^ 10 ∧
      ((nau8821_calc_fll_param fll_in fs p0).2.fll_int.toNat <<< 24) |||
          (nau8821_calc_fll_param fll_in fs p0).2.fll_frac.toNat =
        (fvco_loop fs mclk_src_scaling 0 (0, mclk_src_scaling.length)).1 * 2 ^ 24 /
          ((pre_scalar_loop fll_in fll_pre_scalar 0 0).2 * ratio) := by
  obtain ⟨h1, h2, h3⟩ := calc_fll_ok_stages fll_in fs p0 hok
  have hfref := pre_scalar_fref_le fll_in h1
  obtain ⟨hlo, hhi⟩ := fref_ratio_bounds _ hfref h2
  have hv : (fvco_loop fs mclk_src_scaling 0 (0, mclk_src_scaling.length)).1 < 124000000 := by
    rcases fvco_loop_table fs with ⟨heq, _⟩ | ⟨_, _, _, hlt, _⟩
    · rw [heq]; decide
    · exact hlt
  obtain ⟨hw, hwlt⟩ := fll_word_exact _ _ _ hv hlo hhi
  obtain ⟨hb1, hb2, hb3⟩ := fll_word_fields _ hwlt
  have hj := word_join _ hwlt
  rw [hw] at hwlt hb1 hb2 hb3 hj
  refine ⟨(attr_at fll_ratio
    (ratio_loop (pre_scalar_loop fll_in fll_pre_scalar 0 0).2 fll_ratio 0)).val,
    ?_, hlo, hwlt, ?_, ?_, ?_⟩
  · rw [calc_fll_success fll_in fs p0 h1 h2 h3]
  · rw [calc_fll_success fll_in fs p0 h1 h2 h3]
    simp only
    rw [hw, hb1, hb3]
  · rw [calc_fll_success fll_in fs p0 h1 h2 h3]
    simp only
    rw [hw, hb1]
    have : (fvco_loop fs mclk_src_scaling 0 (0, mclk_src_scaling.length)).1 * 2 ^ 24 /
        ((pre_scalar_loop fll_in fll_pre_scalar 0 0).2 * (attr_at fll_ratio
          (ratio_loop (pre_scalar_loop fll_in fll_pre_scalar 0 0).2 fll_ratio 0)).val) /
        2 ^ 24 % 2 ^ 10 < 2 ^ 10 := Nat.mod_lt _ (by decide)
    exact_mod_cast this
  · rw [calc_fll_success fll_in fs p0 h1 h2 h3]
    simp only [Int.toNat_ofNat]
    rw [hw, hb1, hb2]
    exact hj

theorem C26_word_fits_witness :
    ∃ ratio : Nat,
      (nau8821_calc_fll_param 12000000 48000 ⟨0, 0, 0, 0, 0⟩).2.ratio = (ratio : Int) ∧
      256000 ≤ (pre_scalar_loop 12000000 fll_pre_scalar 0 0).2 * ratio :=
  (C26_word_fits 12000000 48000 ⟨0, 0, 0, 0, 0⟩ (by decide)).imp
    (fun _ hr => ⟨hr.1, hr.2.1⟩)

/-- C27: for every rate `r` of the machine driver's table `bcm2835_rates_12000000`, the FLL
request it makes is `freq_in = r`, `freq_out = 256 * r` (no unsigned wrap), from which
`nau8821_set_fll` derives `fs = freq_out >> 8 = r`; `nau8821_calc_fll_param r r` returns 0
and so does `nau8821_set_fll` on any device. -/
theorem C27_machine_rates_have_fll_solution (r : Nat) (hr : r ∈ bcm2835_rates_12000000)
    (p0 : nau8821_fll) (h : nau8821_h) (s : nau8821) :
    (pisound_nau8821_set_pll_args r).1 = r ∧
    (pisound_nau8821_set_pll_args r).2 = 256 * r ∧
    (pisound_nau8821_set_pll_args r).2 >>> 8 = r ∧
    (nau8821_calc_fll_param r r p0).1 = 0 ∧
    (nau8821_set_fll h s (pisound_nau8821_set_pll_args r).1
      (pisound_nau8821_set_pll_args r).2).1 = 0 := by
  have key : ∀ q : nau8821_fll, (nau8821_calc_fll_param r r q).1 = 0 := by
    intro q
    simp only [bcm2835_rates_12000000, List.mem_cons, List.mem_singleton, List.mem_nil_iff,
      or_false] at hr
    rcases hr with rfl | rfl | rfl | rfl | rfl | rfl | rfl <;>
      rw [calc_fll_success _ _ q (by decide) (by decide) (by decide)]
  have hsh : (pisound_nau8821_set_pll_args r).2 >>> 8 = r := by
    simp only [bcm2835_rates_12000000, List.mem_cons, List.mem_singleton, List.mem_nil_iff,
      or_false] at hr
    rcases hr with rfl | rfl | rfl | rfl | rfl | rfl | rfl <;> decide
  have h2 : (pisound_nau8821_set_pll_args r).2 = 256 * r := by
    simp only [bcm2835_rates_12000000, List.mem_cons, List.mem_singleton, List.mem_nil_iff,
      or_false] at hr
    rcases hr with rfl | rfl | rfl | rfl | rfl | rfl | rfl <;> decide
  refine ⟨rfl, h2, hsh, key p0, ?_⟩
  simp only [nau8821_set_fll, hsh]
  show (if (nau8821_calc_fll_param r r ⟨0, 0, 0, 0, 0⟩).1 ≠ 0 then _ else _ : Int × nau8821).1 = 0
  rw [if_neg (by rw [key]; decide)]

theorem C27_machine_rates_have_fll_solution_witness :
    (nau8821_calc_fll_param 44100 44100 ⟨0, 0, 0, 0, 0⟩).1 = 0 ∧
    (nau8821_set_fll sample_h (sample_dev 1 (regs_of [])) 44100 11289600).1 = 0 :=
  ⟨(C27_machine_rates_have_fll_solution 44100 (by decide) ⟨0, 0, 0, 0, 0⟩ sample_h
      (sample_dev 1 (regs_of []))).2.2.2.1,
    (C27_machine_rates_have_fll_solution 44100 (by decide) ⟨0, 0, 0, 0, 0⟩ sample_h
      (sample_dev 1 (regs_of []))).2.2.2.2⟩

/-! ## Stream parameters: timeouts, errors and the data length -/

theorem update_bits_regmap_congr (s t : nau8821) (hst : s.regmap = t.regmap)
    (reg mask val : Nat) :
    (regmap_update_bits s reg mask val).regmap = (regmap_update_bits t reg mask val).regmap := by
  simp [regmap_update_bits, emit, hst]

theorem hw_params_width_congr (h : nau8821_h) (s t : nau8821) (hst : s.regmap = t.regmap)
    (width : Int) :
    (nau8821_hw_params_width h s width).1 = (nau8821_hw_params_width h t width).1 ∧
    (nau8821_hw_params_width h s width).2.regmap =
      (nau8821_hw_params_width h t width).2.regmap := by
  simp only [nau8821_hw_params_width]
  split_ifs <;>
    simp [sema_release_regmap, update_bits_regmap_congr s t hst, hst]

theorem hw_params_dividers_congr (h : nau8821_h) (s t : nau8821) (hst : s.regmap = t.regmap)
    (rate : Nat) (width bclk : Int) :
    (nau8821_hw_params_dividers h s rate width bclk).map (fun r => (r.1, r.2.regmap)) =
      (nau8821_hw_params_dividers h t rate width bclk).map (fun r => (r.1, r.2.regmap)) := by
  have key : ∀ d, (fun r : Int × nau8821 => (r.1, r.2.regmap))
      (nau8821_hw_params_width h (nau8821_hw_params_set_div h s d) width) =
      (fun r : Int × nau8821 => (r.1, r.2.regmap))
      (nau8821_hw_params_width h (nau8821_hw_params_set_div h t d) width) := by
    intro d
    obtain ⟨a, b⟩ := hw_params_width_congr h (nau8821_hw_params_set_div h s d)
      (nau8821_hw_params_set_div h t d)
      (update_bits_regmap_congr s t hst _ _ _) width
    simp only [a, b]
  obtain ⟨a, b⟩ := hw_params_width_congr h s t hst width
  simp only [nau8821_hw_params_dividers, regmap_read, hst]
  split_ifs <;> simp only [Option.map_some', Option.map_none', key, a, b, sema_release_regmap, hst]

theorem hw_params_congr (h : nau8821_h) (s t : nau8821) (hst : s.regmap = t.regmap)
    (stream : Int) (rate : Nat) (width bclk : Int) :
    (nau8821_hw_params h s stream rate width bclk).map (fun r => (r.1, r.2.regmap)) =
      (nau8821_hw_params h t stream rate width bclk).map (fun r => (r.1, r.2.regmap)) := by
  have hacq : (nau8821_sema_acquire s HZ).2.regmap = (nau8821_sema_acquire t HZ).2.regmap := by
    rw [sema_acquire_regmap, sema_acquire_regmap, hst]
  simp only [nau8821_hw_params, regmap_read, sema_acquire_regmap, hst]
  split_ifs <;>
    first
    | exact hw_params_dividers_congr h _ _ (update_bits_regmap_congr _ _ hacq _ _ _) _ _ _
    | simp only [Option.map_some', sema_release_regmap, sema_acquire_regmap, hst]

theorem hw_params_gate_log (h : nau8821_h) (s : nau8821) (stream : Int)
    (rate : Nat) (width bclk : Int) (hirq : s.irq ≠ 0) (r : Int × nau8821)
    (hr : nau8821_hw_params h s stream rate width bclk = some r) :
    ∃ new, r.2.log = s.log ++ new ∧
      gate_events new =
        [Event.down_timeout HZ (if 0 < s.jd_sem then 0 else -ETIME), Event.up] := by
  obtain ⟨ha1, _⟩ := sema_acquire_hz s hirq
  have hirq1 : (nau8821_sema_acquire s HZ).2.irq ≠ 0 := by simpa using hirq
  have key : ∀ reg mask val (r : Int × nau8821),
      nau8821_hw_params_dividers h
        (regmap_update_bits (nau8821_sema_acquire s HZ).2 reg mask val) rate width bclk = some r →
      ∃ new, r.2.log = s.log ++ new ∧
        gate_events new =
          [Event.down_timeout HZ (if 0 < s.jd_sem then 0 else -ETIME), Event.up] := by
    intro reg mask val r hd
    obtain ⟨new, h1, h2, _⟩ := hw_params_dividers_log h _ rate width bclk
      (by simpa using hirq1) r hd
    refine ⟨[Event.down_timeout HZ (if 0 < s.jd_sem then 0 else -ETIME)] ++
      ([Event.reg_update reg mask val] ++ new), ?_, ?_⟩
    · rw [h1]; simp [ha1]
    · rw [gate_events_append, gate_events_append, h2]; rfl
  have fail : ∃ new, (nau8821_sema_release (nau8821_sema_acquire s HZ).2).log = s.log ++ new ∧
        gate_events new =
          [Event.down_timeout HZ (if 0 < s.jd_sem then 0 else -ETIME), Event.up] := by
    refine ⟨[Event.down_timeout HZ (if 0 < s.jd_sem then 0 else -ETIME), Event.up], ?_, rfl⟩
    simp [nau8821_sema_release, hirq, up, emit, ha1]
  simp only [nau8821_hw_params] at hr
  split_ifs at hr
  · simp only [Option.some.injEq] at hr; subst hr; exact fail
  · exact key _ _ _ _ hr
  · simp only [Option.some.injEq] at hr; subst hr; exact fail
  · exact key _ _ _ _ hr

/-- C21: on a device with an interrupt line whose semaphore count is 0 the bounded wait
of `nau8821_hw_params` fails (`nau8821_sema_acquire` returns `-ETIME`), and the call goes on
regardless: for every parameter set its return code and the register file it
leaves are the ones of the same call made with the semaphore available (count 1).
In particular, whenever the call with the semaphore available returns 0, so does
the call after the timeout, with the same value in every register; its gate events
are the failed wait followed by one `up`. -/
theorem C21_stream_start_fail_open (h : nau8821_h) (s : nau8821) (stream : Int) (rate : Nat)
    (width bclk : Int) (hirq : s.irq ≠ 0) (hsem : s.jd_sem = 0) :
    (nau8821_sema_acquire s HZ).1 = -ETIME ∧
    (nau8821_hw_params h s stream rate width bclk).map (fun r => (r.1, r.2.regmap)) =
      (nau8821_hw_params h { s with jd_sem := 1 } stream rate width bclk).map
        (fun r => (r.1, r.2.regmap)) ∧
    (∀ t, nau8821_hw_params h { s with jd_sem := 1 } stream rate width bclk = some (0, t) →
      ∃ s1, nau8821_hw_params h s stream rate width bclk = some (0, s1) ∧
        s1.regmap = t.regmap ∧
        ∃ new, s1.log = s.log ++ new ∧
          gate_events new = [Event.down_timeout HZ (-ETIME), Event.up]) := by
  have hz : HZ ≠ 0 := by decide
  have hcong := hw_params_congr h s { s with jd_sem := 1 } rfl stream rate width bclk
  refine ⟨?_, hcong, ?_⟩
  · simp [nau8821_sema_acquire, hirq, hz, down_timeout, hsem]
  · intro t ht
    rw [ht] at hcong
    cases hr : nau8821_hw_params h s stream rate width bclk with
    | none => rw [hr] at hcong; simp at hcong
    | some r =>
      rw [hr] at hcong
      simp only [Option.map_some', Option.some.injEq, Prod.mk.injEq] at hcong
      obtain ⟨new, hn1, hn2⟩ := hw_params_gate_log h s stream rate width bclk hirq r hr
      refine ⟨r.2, ?_, hcong.2, new, hn1, ?_⟩
      · rw [← hcong.1]
      · rw [hn2, hsem]; rfl

theorem C21_stream_start_fail_open_witness :
    (sample_dev 1 (regs_of [])).jd_sem = 0 ∧
    ∃ s1, nau8821_hw_params sample_h (sample_dev 1 (regs_of [])) SNDRV_PCM_STREAM_PLAYBACK
        48000 16 1536000 = some (0, s1) := by
  refine ⟨by decide, ?_⟩
  have hx : (nau8821_hw_params sample_h { sample_dev 1 (regs_of []) with jd_sem := 1 }
      SNDRV_PCM_STREAM_PLAYBACK 48000 16 1536000).map Prod.fst = some 0 := by decide
  cases hr : nau8821_hw_params sample_h { sample_dev 1 (regs_of []) with jd_sem := 1 }
      SNDRV_PCM_STREAM_PLAYBACK 48000 16 1536000 with
  | none => rw [hr] at hx; simp at hx
  | some r =>
    rw [hr] at hx
    simp only [Option.map_some', Option.some.injEq] at hx
    obtain ⟨s1, h1, _⟩ := (C21_stream_start_fail_open sample_h (sample_dev 1 (regs_of []))
      SNDRV_PCM_STREAM_PLAYBACK 48000 16 1536000 (by decide) (by decide)).2.2 r.2
      (by rw [hr, ← hx])
    exact ⟨s1, h1⟩


theorem hw_params_fail_eq (h : nau8821_h) (s : nau8821) (stream : Int) (rate : Nat)
    (width bclk : Int)
    (hcheck : nau8821_clock_check stream (to_int rate)
      (to_int ((s.regmap (if stream = SNDRV_PCM_STREAM_PLAYBACK then h.NAU8821_REG_DAC_CTRL1
          else h.NAU8821_REG_ADC_RATE) &&&
        (if stream = SNDRV_PCM_STREAM_PLAYBACK then h.NAU8821_DAC_OVERSAMPLE_MASK
          else h.NAU8821_ADC_SYNC_DOWN_MASK) : Nat))) ≠ 0) :
    nau8821_hw_params h s stream rate width bclk =
      some (-EINVAL, nau8821_sema_release (nau8821_sema_acquire s HZ).2) := by
  by_cases hs : stream = SNDRV_PCM_STREAM_PLAYBACK
  · simp only [if_pos hs] at hcheck
    simp only [nau8821_hw_params, if_pos hs, regmap_read, sema_acquire_regmap, hcheck, ne_eq,
      not_false_eq_true, if_true]
  · simp only [if_neg hs] at hcheck
    simp only [nau8821_hw_params, if_neg hs, regmap_read, sema_acquire_regmap, hcheck, ne_eq,
      not_false_eq_true, if_true]

theorem hw_params_pass_eq (h : nau8821_h) (s : nau8821) (stream : Int) (rate : Nat)
    (width bclk : Int)
    (hcheck : nau8821_clock_check stream (to_int rate)
      (to_int ((s.regmap (if stream = SNDRV_PCM_STREAM_PLAYBACK then h.NAU8821_REG_DAC_CTRL1
          else h.NAU8821_REG_ADC_RATE) &&&
        (if stream = SNDRV_PCM_STREAM_PLAYBACK then h.NAU8821_DAC_OVERSAMPLE_MASK
          else h.NAU8821_ADC_SYNC_DOWN_MASK) : Nat))) = 0) :
    nau8821_hw_params h s stream rate width bclk =
      nau8821_hw_params_dividers h
        (regmap_update_bits (nau8821_sema_acquire s HZ).2 h.NAU8821_REG_CLK_DIVIDER
          (if stream = SNDRV_PCM_STREAM_PLAYBACK then h.NAU8821_CLK_DAC_SRC_MASK
            else h.NAU8821_CLK_ADC_SRC_MASK)
          (if stream = SNDRV_PCM_STREAM_PLAYBACK then
            ((osr_at osr_dac_sel (s.regmap h.NAU8821_REG_DAC_CTRL1 &&&
              h.NAU8821_DAC_OVERSAMPLE_MASK)).clk_src <<< h.NAU8821_CLK_DAC_SRC_SFT) % 2 ^ 32
            else
            ((osr_at osr_adc_sel (s.regmap h.NAU8821_REG_ADC_RATE &&&
              h.NAU8821_ADC_SYNC_DOWN_MASK)).clk_src <<< h.NAU8821_CLK_ADC_SRC_SFT) % 2 ^ 32))
        rate width bclk := by
  by_cases hs : stream = SNDRV_PCM_STREAM_PLAYBACK
  · simp only [if_pos hs] at hcheck
    simp only [nau8821_hw_params, if_pos hs, regmap_read, sema_acquire_regmap, hcheck, ne_eq,
      not_true_eq_false, if_false]
  · simp only [if_neg hs] at hcheck
    simp only [nau8821_hw_params, if_neg hs, regmap_read, sema_acquire_regmap, hcheck, ne_eq,
      not_true_eq_false, if_false]

theorem hw_params_width_err (h : nau8821_h) (u : nau8821) (width : Int)
    (hne : (nau8821_hw_params_width h u width).1 ≠ 0) :
    (nau8821_hw_params_width h u width).1 = -EINVAL ∧
    (nau8821_hw_params_width h u width).2.regmap = u.regmap := by
  revert hne
  simp only [nau8821_hw_params_width]
  split_ifs <;> simp

theorem hw_params_dividers_err (h : nau8821_h) (u : nau8821) (rate : Nat) (width bclk : Int)
    (ret : Int) (s1 : nau8821)
    (hr : nau8821_hw_params_dividers h u rate width bclk = some (ret, s1)) (hne : ret ≠ 0) :
    ret = -EINVAL ∧ ∀ r, r ≠ h.NAU8821_REG_I2S_PCM_CTRL2 → s1.regmap r = u.regmap r := by
  have key : ∀ d, nau8821_hw_params_width h (nau8821_hw_params_set_div h u d) width =
      (ret, s1) →
      ret = -EINVAL ∧ ∀ r, r ≠ h.NAU8821_REG_I2S_PCM_CTRL2 → s1.regmap r = u.regmap r := by
    intro d hd
    have e := hw_params_width_err h (nau8821_hw_params_set_div h u d) width
      (by rw [hd]; exact hne)
    rw [hd] at e
    refine ⟨e.1, fun r hr2 => ?_⟩
    have e2 : s1.regmap = (nau8821_hw_params_set_div h u d).regmap := e.2
    rw [e2]
    simp only [nau8821_hw_params_set_div]
    exact update_bits_regmap_other _ _ _ _ _ hr2
  simp only [nau8821_hw_params_dividers] at hr
  split_ifs at hr
  · exact key 2 (Option.some.inj hr)
  · exact key 1 (Option.some.inj hr)
  · exact key 0 (Option.some.inj hr)
  · simp only [Option.some.injEq, Prod.mk.injEq] at hr
    obtain ⟨rfl, rfl⟩ := hr
    exact ⟨rfl, fun r _ => by simp⟩
  · have hd := Option.some.inj hr
    have e := hw_params_width_err h u width (by rw [hd]; exact hne)
    rw [hd] at e
    have e2 : s1.regmap = u.regmap := e.2
    exact ⟨e.1, fun r _ => by rw [e2]⟩

theorem hw_params_dividers_ctrl2 (h : nau8821_h) (u : nau8821) (rate : Nat) (width bclk : Int)
    (r : Int × nau8821)
    (hreg : h.NAU8821_REG_I2S_PCM_CTRL1 ≠ h.NAU8821_REG_I2S_PCM_CTRL2)
    (hr : nau8821_hw_params_dividers h u rate width bclk = some r) :
    (u.regmap h.NAU8821_REG_I2S_PCM_CTRL2 &&& h.NAU8821_I2S_MS_MASTER ≠ 0 →
      to_unsigned bclk / rate ≤ 128 →
      r.2.regmap h.NAU8821_REG_I2S_PCM_CTRL2 =
        update_bits_value (u.regmap h.NAU8821_REG_I2S_PCM_CTRL2)
          (h.NAU8821_I2S_LRC_DIV_MASK ||| h.NAU8821_I2S_BLK_DIV_MASK)
          ((((if to_unsigned bclk / rate ≤ 32 then 2
              else if to_unsigned bclk / rate ≤ 64 then 1 else 0) + 1) <<<
              h.NAU8821_I2S_LRC_DIV_SFT) |||
            (if to_unsigned bclk / rate ≤ 32 then 2
              else if to_unsigned bclk / rate ≤ 64 then 1 else 0))) ∧
    (u.regmap h.NAU8821_REG_I2S_PCM_CTRL2 &&& h.NAU8821_I2S_MS_MASTER = 0 ∨
        128 < to_unsigned bclk / rate →
      r.2.regmap h.NAU8821_REG_I2S_PCM_CTRL2 = u.regmap h.NAU8821_REG_I2S_PCM_CTRL2) := by
  by_cases hm : u.regmap h.NAU8821_REG_I2S_PCM_CTRL2 &&& h.NAU8821_I2S_MS_MASTER ≠ 0
  · have hrate : rate ≠ 0 := by
      intro h0
      simp only [nau8821_hw_params_dividers, regmap_read, hm, h0, ne_eq, not_false_eq_true,
        if_true] at hr
      exact absurd hr (by simp)
    have hd := hw_params_dividers_master h u rate width bclk hreg hrate hm
    constructor
    · intro _ hle
      obtain ⟨r1, e1, -, e3⟩ := hd.1 hle
      rw [hr] at e1
      rw [Option.some.inj e1]
      exact e3
    · intro hor
      rcases hor with hs | hgt
      · exact absurd hs hm
      · obtain ⟨s1, e1, -, e3⟩ := hd.2 hgt
        rw [hr] at e1
        rw [Option.some.inj e1]
        exact e3
  · constructor
    · intro hm1
      exact absurd hm1 hm
    · intro _
      simp only [nau8821_hw_params_dividers, regmap_read, hm, if_false,
        Option.some.injEq] at hr
      rw [← hr]
      exact (hw_params_width_frame h u width hreg).1

/-- C24 as stated fails on the sample device: a playback stream at 48 kHz passes the
clock check, the clock divider register is programmed (0 becomes `0x20`), and the
unsupported sample width 8 is then rejected with `-EINVAL`; the register keeps the
new value. -/
theorem C24_error_after_write_counterexample :
    (nau8821_hw_params sample_h (sample_dev 1 (regs_of [])) SNDRV_PCM_STREAM_PLAYBACK
      48000 8 1536000).map Prod.fst = some (-EINVAL) ∧
    (sample_dev 1 (regs_of [])).regmap sample_h.NAU8821_REG_CLK_DIVIDER = 0 ∧
    (nau8821_hw_params sample_h (sample_dev 1 (regs_of [])) SNDRV_PCM_STREAM_PLAYBACK
      48000 8 1536000).map (fun r => r.2.regmap sample_h.NAU8821_REG_CLK_DIVIDER) =
      some 0x20 := by
  decide

/-- C24 (amended): on a header with pairwise distinct register addresses, whenever
`nau8821_hw_params` returns a non-zero code, the code is `-EINVAL`. If the clock check
is what failed, every register holds the value it had before the call. If the
clock check passed (the error is the bit-clock ratio or the sample width), the
clock divider register already carries the new DAC or ADC clock source field,
every register other than the clock divider and `I2S_PCM_CTRL2` holds its prior value,
and `I2S_PCM_CTRL2` carries the new divider fields when the codec is master and the
ratio is at most 128 (the error is then the sample width), and its prior value when
the codec is slave or the ratio is above 128. -/
theorem C24_registers_after_error (h : nau8821_h) (s : nau8821) (stream : Int) (rate : Nat)
    (width bclk : Int) (ret : Int) (s1 : nau8821) (hd : regs_distinct h)
    (hr : nau8821_hw_params h s stream rate width bclk = some (ret, s1)) (hne : ret ≠ 0) :
    ret = -EINVAL ∧
    (nau8821_clock_check stream (to_int rate)
      (to_int ((s.regmap (if stream = SNDRV_PCM_STREAM_PLAYBACK then h.NAU8821_REG_DAC_CTRL1
          else h.NAU8821_REG_ADC_RATE) &&&
        (if stream = SNDRV_PCM_STREAM_PLAYBACK then h.NAU8821_DAC_OVERSAMPLE_MASK
          else h.NAU8821_ADC_SYNC_DOWN_MASK) : Nat))) ≠ 0 →
      s1.regmap = s.regmap) ∧
    (nau8821_clock_check stream (to_int rate)
      (to_int ((s.regmap (if stream = SNDRV_PCM_STREAM_PLAYBACK then h.NAU8821_REG_DAC_CTRL1
          else h.NAU8821_REG_ADC_RATE) &&&
        (if stream = SNDRV_PCM_STREAM_PLAYBACK then h.NAU8821_DAC_OVERSAMPLE_MASK
          else h.NAU8821_ADC_SYNC_DOWN_MASK) : Nat))) = 0 →
      s1.regmap h.NAU8821_REG_CLK_DIVIDER =
        update_bits_value (s.regmap h.NAU8821_REG_CLK_DIVIDER)
          (if stream = SNDRV_PCM_STREAM_PLAYBACK then h.NAU8821_CLK_DAC_SRC_MASK
            else h.NAU8821_CLK_ADC_SRC_MASK)
          (if stream = SNDRV_PCM_STREAM_PLAYBACK then
            ((osr_at osr_dac_sel (s.regmap h.NAU8821_REG_DAC_CTRL1 &&&
              h.NAU8821_DAC_OVERSAMPLE_MASK)).clk_src <<< h.NAU8821_CLK_DAC_SRC_SFT) % 2 ^ 32
            else
            ((osr_at osr_adc_sel (s.regmap h.NAU8821_REG_ADC_RATE &&&
              h.NAU8821_ADC_SYNC_DOWN_MASK)).clk_src <<< h.NAU8821_CLK_ADC_SRC_SFT) % 2 ^ 32) ∧
      (∀ r, r ≠ h.NAU8821_REG_CLK_DIVIDER → r ≠ h.NAU8821_REG_I2S_PCM_CTRL2 →
        s1.regmap r = s.regmap r) ∧
      (s.regmap h.NAU8821_REG_I2S_PCM_CTRL2 &&& h.NAU8821_I2S_MS_MASTER ≠ 0 →
        to_unsigned bclk / rate ≤ 128 →
        s1.regmap h.NAU8821_REG_I2S_PCM_CTRL2 =
          update_bits_value (s.regmap h.NAU8821_REG_I2S_PCM_CTRL2)
            (h.NAU8821_I2S_LRC_DIV_MASK ||| h.NAU8821_I2S_BLK_DIV_MASK)
            ((((if to_unsigned bclk / rate ≤ 32 then 2
                else if to_unsigned bclk / rate ≤ 64 then 1 else 0) + 1) <<<
                h.NAU8821_I2S_LRC_DIV_SFT) |||
              (if to_unsigned bclk / rate ≤ 32 then 2
                else if to_unsigned bclk / rate ≤ 64 then 1 else 0))) ∧
      (s.regmap h.NAU8821_REG_I2S_PCM_CTRL2 &&& h.NAU8821_I2S_MS_MASTER = 0 ∨
          128 < to_unsigned bclk / rate →
        s1.regmap h.NAU8821_REG_I2S_PCM_CTRL2 = s.regmap h.NAU8821_REG_I2S_PCM_CTRL2)) := by
  have q := reg_ne h hd reg_name.CLK_DIVIDER reg_name.I2S_PCM_CTRL2 (by decide)
  have q1 := reg_ne h hd reg_name.I2S_PCM_CTRL1 reg_name.I2S_PCM_CTRL2 (by decide)
  simp only [reg_addr] at q q1
  by_cases hcheck : nau8821_clock_check stream (to_int rate)
      (to_int ((s.regmap (if stream = SNDRV_PCM_STREAM_PLAYBACK then h.NAU8821_REG_DAC_CTRL1
          else h.NAU8821_REG_ADC_RATE) &&&
        (if stream = SNDRV_PCM_STREAM_PLAYBACK then h.NAU8821_DAC_OVERSAMPLE_MASK
          else h.NAU8821_ADC_SYNC_DOWN_MASK) : Nat))) = 0
  · rw [hw_params_pass_eq h s stream rate width bclk hcheck] at hr
    obtain ⟨e1, e2⟩ := hw_params_dividers_err h _ rate width bclk ret s1 hr hne
    have e3 := hw_params_dividers_ctrl2 h _ rate width bclk (ret, s1) q1 hr
    rw [update_bits_regmap_other _ _ _ _ _ q.symm, sema_acquire_regmap] at e3
    refine ⟨e1, fun hc => absurd hcheck hc, fun _ => ⟨?_, fun r hr1 hr2 => ?_, e3.1, e3.2⟩⟩
    · rw [e2 _ q, update_bits_regmap_same, sema_acquire_regmap]
    · rw [e2 _ hr2, update_bits_regmap_other _ _ _ _ _ hr1, sema_acquire_regmap]
  · rw [hw_params_fail_eq h s stream rate width bclk hcheck] at hr
    simp only [Option.some.injEq, Prod.mk.injEq] at hr
    obtain ⟨rfl, rfl⟩ := hr
    exact ⟨rfl, fun _ => by simp, fun hc => absurd hc hcheck⟩

theorem C24_registers_after_error_witness :
    ∃ s1, nau8821_hw_params sample_h (sample_dev 1 (regs_of [(0x2c, 0x1)]))
      SNDRV_PCM_STREAM_PLAYBACK 48000 16 1536000 = some (-EINVAL, s1) ∧
      s1.regmap = (sample_dev 1 (regs_of [(0x2c, 0x1)])).regmap := by
  have hx : (nau8821_hw_params sample_h (sample_dev 1 (regs_of [(0x2c, 0x1)]))
      SNDRV_PCM_STREAM_PLAYBACK 48000 16 1536000).map Prod.fst = some (-EINVAL) := by decide
  cases hr : nau8821_hw_params sample_h (sample_dev 1 (regs_of [(0x2c, 0x1)]))
      SNDRV_PCM_STREAM_PLAYBACK 48000 16 1536000 with
  | none => rw [hr] at hx; simp at hx
  | some r =>
    rw [hr] at hx
    simp only [Option.map_some', Option.some.injEq] at hx
    have hr2 : nau8821_hw_params sample_h (sample_dev 1 (regs_of [(0x2c, 0x1)]))
        SNDRV_PCM_STREAM_PLAYBACK 48000 16 1536000 = some (-EINVAL, r.2) := by rw [hr, ← hx]
    exact ⟨r.2, by rw [← hx], (C24_registers_after_error sample_h (sample_dev 1 (regs_of [(0x2c, 0x1)]))
      SNDRV_PCM_STREAM_PLAYBACK 48000 16 1536000 (-EINVAL) r.2 regs_distinct_sample hr2
      (by decide)).2.1 (by decide)⟩


theorem update_bits_value_outside (orig mask val i : Nat) (hm : mask.testBit i = false) :
    (update_bits_value orig mask val).testBit i = orig.testBit i := by
  rw [update_bits_value_testBit, hm]
  simp

theorem hw_params_width_ctrl1 (h : nau8821_h) (u : nau8821) (width : Int) :
    ((width = 16 ∨ width = 20 ∨ width = 24 ∨ width = 32) →
      (nau8821_hw_params_width h u width).1 = 0 ∧
      (nau8821_hw_params_width h u width).2.regmap h.NAU8821_REG_I2S_PCM_CTRL1 =
        update_bits_value (u.regmap h.NAU8821_REG_I2S_PCM_CTRL1) h.NAU8821_I2S_DL_MASK
          (if width = 16 then h.NAU8821_I2S_DL_16 else if width = 20 then h.NAU8821_I2S_DL_20
            else if width = 24 then h.NAU8821_I2S_DL_24 else h.NAU8821_I2S_DL_32)) ∧
    (¬ (width = 16 ∨ width = 20 ∨ width = 24 ∨ width = 32) →
      (nau8821_hw_params_width h u width).1 = -EINVAL ∧
      (nau8821_hw_params_width h u width).2.regmap = u.regmap) := by
  simp only [nau8821_hw_params_width]
  split_ifs <;> simp_all [update_bits_regmap_same]

/-- C25: on a header with pairwise distinct register addresses, for every parameter set
that passes the clock check and, when the codec is master, has a non-zero rate and
a bit-clock ratio of at most 128, `nau8821_hw_params` returns; it returns 0 exactly
for the widths 16, 20, 24 and 32 and `-EINVAL` for every other width. For a supported
width the data-length field of `I2S_PCM_CTRL1` afterwards holds the matching code
(`NAU8821_I2S_DL_16`, `_20`, `_24`, `_32`) and every bit of that register outside
`NAU8821_I2S_DL_MASK` is as before; for a rejected width the register is unchanged. -/
theorem C25_width_selects_data_length (h : nau8821_h) (s : nau8821) (stream : Int)
    (rate : Nat) (width bclk : Int) (hd : regs_distinct h)
    (hcheck : nau8821_clock_check stream (to_int rate)
      (to_int ((s.regmap (if stream = SNDRV_PCM_STREAM_PLAYBACK then h.NAU8821_REG_DAC_CTRL1
          else h.NAU8821_REG_ADC_RATE) &&&
        (if stream = SNDRV_PCM_STREAM_PLAYBACK then h.NAU8821_DAC_OVERSAMPLE_MASK
          else h.NAU8821_ADC_SYNC_DOWN_MASK) : Nat))) = 0)
    (hdiv : s.regmap h.NAU8821_REG_I2S_PCM_CTRL2 &&& h.NAU8821_I2S_MS_MASTER ≠ 0 →
      rate ≠ 0 ∧ to_unsigned bclk / rate ≤ 128) :
    ∃ r, nau8821_hw_params h s stream rate width bclk = some r ∧
      (r.1 = 0 ↔ width = 16 ∨ width = 20 ∨ width = 24 ∨ width = 32) ∧
      (r.1 ≠ 0 → r.1 = -EINVAL) ∧
      ((width = 16 ∨ width = 20 ∨ width = 24 ∨ width = 32) →
        r.2.regmap h.NAU8821_REG_I2S_PCM_CTRL1 &&& h.NAU8821_I2S_DL_MASK =
          (if width = 16 then h.NAU8821_I2S_DL_16 else if width = 20 then h.NAU8821_I2S_DL_20
            else if width = 24 then h.NAU8821_I2S_DL_24 else h.NAU8821_I2S_DL_32) &&&
            h.NAU8821_I2S_DL_MASK ∧
        ∀ i, h.NAU8821_I2S_DL_MASK.testBit i = false →
          (r.2.regmap h.NAU8821_REG_I2S_PCM_CTRL1).testBit i =
            (s.regmap h.NAU8821_REG_I2S_PCM_CTRL1).testBit i) ∧
      (¬ (width = 16 ∨ width = 20 ∨ width = 24 ∨ width = 32) →
        r.2.regmap h.NAU8821_REG_I2S_PCM_CTRL1 = s.regmap h.NAU8821_REG_I2S_PCM_CTRL1) := by
  have q1 := reg_ne h hd reg_name.I2S_PCM_CTRL2 reg_name.CLK_DIVIDER (by decide)
  have q2 := reg_ne h hd reg_name.I2S_PCM_CTRL1 reg_name.CLK_DIVIDER (by decide)
  have q3 := reg_ne h hd reg_name.I2S_PCM_CTRL1 reg_name.I2S_PCM_CTRL2 (by decide)
  simp only [reg_addr] at q1 q2 q3
  have key : ∀ u : nau8821,
      u.regmap h.NAU8821_REG_I2S_PCM_CTRL1 = s.regmap h.NAU8821_REG_I2S_PCM_CTRL1 →
      ((nau8821_hw_params_width h u width).1 = 0 ↔
        width = 16 ∨ width = 20 ∨ width = 24 ∨ width = 32) ∧
      ((nau8821_hw_params_width h u width).1 ≠ 0 →
        (nau8821_hw_params_width h u width).1 = -EINVAL) ∧
      ((width = 16 ∨ width = 20 ∨ width = 24 ∨ width = 32) →
        (nau8821_hw_params_width h u width).2.regmap h.NAU8821_REG_I2S_PCM_CTRL1 &&&
            h.NAU8821_I2S_DL_MASK =
          (if width = 16 then h.NAU8821_I2S_DL_16 else if width = 20 then h.NAU8821_I2S_DL_20
            else if width = 24 then h.NAU8821_I2S_DL_24 else h.NAU8821_I2S_DL_32) &&&
            h.NAU8821_I2S_DL_MASK ∧
        ∀ i, h.NAU8821_I2S_DL_MASK.testBit i = false →
          ((nau8821_hw_params_width h u width).2.regmap h.NAU8821_REG_I2S_PCM_CTRL1).testBit i =
            (s.regmap h.NAU8821_REG_I2S_PCM_CTRL1).testBit i) ∧
      (¬ (width = 16 ∨ width = 20 ∨ width = 24 ∨ width = 32) →
        (nau8821_hw_params_width h u width).2.regmap h.NAU8821_REG_I2S_PCM_CTRL1 =
          s.regmap h.NAU8821_REG_I2S_PCM_CTRL1) := by
    intro u hu
    obtain ⟨r1, r2⟩ := hw_params_width_ret h u width
    obtain ⟨w1, w2⟩ := hw_params_width_ctrl1 h u width
    refine ⟨r1, r2, fun hv => ?_, fun hv => ?_⟩
    · rw [(w1 hv).2, hu]
      exact ⟨update_bits_value_field _ _ _, fun i hi => update_bits_value_outside _ _ _ i hi⟩
    · rw [(w2 hv).2, hu]
  rw [hw_params_pass_eq h s stream rate width bclk hcheck]
  have hu0 : ∀ m v, (regmap_update_bits (nau8821_sema_acquire s HZ).2
      h.NAU8821_REG_CLK_DIVIDER m v).regmap h.NAU8821_REG_I2S_PCM_CTRL1 =
      s.regmap h.NAU8821_REG_I2S_PCM_CTRL1 := by
    intro m v
    rw [update_bits_regmap_other _ _ _ _ _ q2, sema_acquire_regmap]
  have hu2 : ∀ m v, (regmap_update_bits (nau8821_sema_acquire s HZ).2
      h.NAU8821_REG_CLK_DIVIDER m v).regmap h.NAU8821_REG_I2S_PCM_CTRL2 =
      s.regmap h.NAU8821_REG_I2S_PCM_CTRL2 := by
    intro m v
    rw [update_bits_regmap_other _ _ _ _ _ q1, sema_acquire_regmap]
  have hud : ∀ (u : nau8821) d,
      u.regmap h.NAU8821_REG_I2S_PCM_CTRL1 = s.regmap h.NAU8821_REG_I2S_PCM_CTRL1 →
      (nau8821_hw_params_set_div h u d).regmap h.NAU8821_REG_I2S_PCM_CTRL1 =
        s.regmap h.NAU8821_REG_I2S_PCM_CTRL1 := by
    intro u d hu
    simp only [nau8821_hw_params_set_div]
    rw [update_bits_regmap_other _ _ _ _ _ q3, hu]
  simp only [nau8821_hw_params_dividers, regmap_read, hu2]
  by_cases hm : s.regmap h.NAU8821_REG_I2S_PCM_CTRL2 &&& h.NAU8821_I2S_MS_MASTER ≠ 0
  · obtain ⟨hrate, hle⟩ := hdiv hm
    rw [if_pos hm, if_neg hrate]
    by_cases h32 : to_unsigned bclk / rate ≤ 32
    · rw [if_pos h32]
      exact ⟨_, rfl, key _ (hud _ _ (hu0 _ _))⟩
    · rw [if_neg h32]
      by_cases h64 : to_unsigned bclk / rate ≤ 64
      · rw [if_pos h64]
        exact ⟨_, rfl, key _ (hud _ _ (hu0 _ _))⟩
      · rw [if_neg h64, if_pos hle]
        exact ⟨_, rfl, key _ (hud _ _ (hu0 _ _))⟩
  · rw [if_neg hm]
    exact ⟨_, rfl, key _ (hu0 _ _)⟩

theorem C25_width_selects_data_length_witness :
    ∃ r, nau8821_hw_params sample_h (sample_dev 1 (regs_of [(0x1c, 0x000a)]))
      SNDRV_PCM_STREAM_PLAYBACK 48000 24 2304000 = some r ∧
      (r.1 = 0 ↔ (24 : Int) = 16 ∨ (24 : Int) = 20 ∨ (24 : Int) = 24 ∨ (24 : Int) = 32) :=
  (C25_width_selects_data_length sample_h (sample_dev 1 (regs_of [(0x1c, 0x000a)]))
    SNDRV_PCM_STREAM_PLAYBACK 48000 24 2304000 regs_distinct_sample (by decide)
    (by decide)).imp (fun _ hr => ⟨hr.1, hr.2.1⟩)

/-- C28 as stated fails: `nau8821_clock_check` accepts the rate 0 (the product `0 * osrate`
is below the ceiling), and on the sample device in master mode the call with rate 0
then reaches the quotient `bclk / rate` with a zero divisor. -/
theorem C28_rate_zero_accepted_counterexample :
    nau8821_clock_check SNDRV_PCM_STREAM_PLAYBACK (to_int (0 : Nat)) (to_int (0 : Nat)) = 0 ∧
    nau8821_clock_check SNDRV_PCM_STREAM_CAPTURE (to_int (0 : Nat)) (to_int (0 : Nat)) = 0 ∧
    (sample_dev 1 (regs_of [(0x1d, 0x8)])).regmap sample_h.NAU8821_REG_I2S_PCM_CTRL2 &&&
      sample_h.NAU8821_I2S_MS_MASTER ≠ 0 ∧
    (nau8821_hw_params sample_h (sample_dev 1 (regs_of [(0x1d, 0x8)]))
      SNDRV_PCM_STREAM_PLAYBACK 0 16 0).isNone = true := by
  decide

theorem clock_check_rate_zero (stream osr : Int) :
    nau8821_clock_check stream 0 osr = 0 ↔
      to_unsigned osr < (if stream = SNDRV_PCM_STREAM_PLAYBACK then osr_dac_sel
        else osr_adc_sel).length ∧
      (osr_at (if stream = SNDRV_PCM_STREAM_PLAYBACK then osr_dac_sel else osr_adc_sel)
        (to_unsigned osr)).osr ≠ 0 := by
  have hz : ¬ (to_int 0 > CLK_DA_AD_MAX) := by decide
  have he : (-EINVAL : Int) ≠ 0 := by decide
  simp only [nau8821_clock_check, zero_mul]
  split_ifs <;> simp_all <;> omega

/-- C28 (amended): `nau8821_clock_check` does not look at whether the rate is zero: it
accepts rate 0 for every oversampling selector inside its table whose entry is
non-zero. `nau8821_hw_params` returns for every non-zero rate; with rate 0 (header
with pairwise distinct register addresses) the quotient `bclk / rate` is a division
by zero exactly when the clock check passes and the codec is master. -/
theorem C28_division_defined (h : nau8821_h) (s : nau8821) (stream : Int) (rate : Nat)
    (width bclk : Int) (hd : regs_distinct h) :
    (rate ≠ 0 → ∃ r, nau8821_hw_params h s stream rate width bclk = some r) ∧
    (nau8821_hw_params h s stream 0 width bclk = none ↔
      nau8821_clock_check stream 0
        (to_int ((s.regmap (if stream = SNDRV_PCM_STREAM_PLAYBACK then h.NAU8821_REG_DAC_CTRL1
            else h.NAU8821_REG_ADC_RATE) &&&
          (if stream = SNDRV_PCM_STREAM_PLAYBACK then h.NAU8821_DAC_OVERSAMPLE_MASK
            else h.NAU8821_ADC_SYNC_DOWN_MASK) : Nat))) = 0 ∧
      s.regmap h.NAU8821_REG_I2S_PCM_CTRL2 &&& h.NAU8821_I2S_MS_MASTER ≠ 0) ∧
    (∀ osr : Int, nau8821_clock_check stream 0 osr = 0 ↔
      to_unsigned osr < (if stream = SNDRV_PCM_STREAM_PLAYBACK then osr_dac_sel
        else osr_adc_sel).length ∧
      (osr_at (if stream = SNDRV_PCM_STREAM_PLAYBACK then osr_dac_sel else osr_adc_sel)
        (to_unsigned osr)).osr ≠ 0) := by
  have q1 := reg_ne h hd reg_name.I2S_PCM_CTRL2 reg_name.CLK_DIVIDER (by decide)
  simp only [reg_addr] at q1
  have hz : to_int ((0 : Nat) : Int) = 0 := by decide
  refine ⟨?_, ?_, fun osr => clock_check_rate_zero stream osr⟩
  · intro hrate
    simp only [nau8821_hw_params, nau8821_hw_params_dividers, if_neg hrate]
    split_ifs <;> exact ⟨_, rfl⟩
  · by_cases hcheck : nau8821_clock_check stream (to_int ((0 : Nat) : Int))
        (to_int ((s.regmap (if stream = SNDRV_PCM_STREAM_PLAYBACK then h.NAU8821_REG_DAC_CTRL1
            else h.NAU8821_REG_ADC_RATE) &&&
          (if stream = SNDRV_PCM_STREAM_PLAYBACK then h.NAU8821_DAC_OVERSAMPLE_MASK
            else h.NAU8821_ADC_SYNC_DOWN_MASK) : Nat))) = 0
    · rw [hw_params_pass_eq h s stream 0 width bclk hcheck]
      rw [hz] at hcheck
      simp only [nau8821_hw_params_dividers, regmap_read,
        update_bits_regmap_other _ _ _ _ _ q1, sema_acquire_regmap, if_true]
      by_cases hm : s.regmap h.NAU8821_REG_I2S_PCM_CTRL2 &&& h.NAU8821_I2S_MS_MASTER ≠ 0
      · rw [if_pos hm]; simp [hcheck, hm]
      · rw [if_neg hm]; simp [hm]
    · rw [hw_params_fail_eq h s stream 0 width bclk hcheck]
      rw [hz] at hcheck
      simp [hcheck]

theorem C28_division_defined_witness :
    ∃ r, nau8821_hw_params sample_h (sample_dev 1 (regs_of [(0x1d, 0x8)]))
      SNDRV_PCM_STREAM_PLAYBACK 8000 16 256000 = some r :=
  (C28_division_defined sample_h (sample_dev 1 (regs_of [(0x1d, 0x8)]))
    SNDRV_PCM_STREAM_PLAYBACK 8000 16 256000 regs_distinct_sample).1 (by decide)

/-! ## Validation in nau8821_configure_sysclk and nau8821_set_dai_fmt -/

/-- C29: for a clock id that is none of `NAU8821_CLK_DIS`, `_MCLK`, `_INTERNAL`, `_FLL_MCLK`,
`_FLL_BLK`, `_FLL_FS`, `nau8821_configure_sysclk` returns `-EINVAL` and the device state
is exactly the prior one (recorded clock source, registers, semaphore and log); for
each of the six ids it returns 0 and the recorded clock source is the requested
id. -/
theorem C29_sysclk_id_validation (h : nau8821_h) (s : nau8821) (c : Int) (f : Nat) :
    ((c ≠ h.NAU8821_CLK_DIS ∧ c ≠ h.NAU8821_CLK_MCLK ∧ c ≠ h.NAU8821_CLK_INTERNAL ∧
        c ≠ h.NAU8821_CLK_FLL_MCLK ∧ c ≠ h.NAU8821_CLK_FLL_BLK ∧ c ≠ h.NAU8821_CLK_FLL_FS) →
      nau8821_configure_sysclk h s c f = (-EINVAL, s)) ∧
    ((c = h.NAU8821_CLK_DIS ∨ c = h.NAU8821_CLK_MCLK ∨ c = h.NAU8821_CLK_INTERNAL ∨
        c = h.NAU8821_CLK_FLL_MCLK ∨ c = h.NAU8821_CLK_FLL_BLK ∨ c = h.NAU8821_CLK_FLL_FS) →
      (nau8821_configure_sysclk h s c f).1 = 0 ∧
      (nau8821_configure_sysclk h s c f).2.clk_id = c) := by
  constructor
  · rintro ⟨h0, h1, h2, h3, h4, h5⟩
    simp only [nau8821_configure_sysclk, if_neg h0, if_neg h1, if_neg h2, if_neg h3,
      if_neg h4, if_neg h5]
  · intro hv
    simp only [nau8821_configure_sysclk]
    split_ifs with h0 h1 h2 h3 h4 h5
    · exact ⟨rfl, rfl⟩
    · exact ⟨rfl, rfl⟩
    · exact ⟨rfl, rfl⟩
    · exact ⟨rfl, rfl⟩
    · exact ⟨rfl, rfl⟩
    · exact ⟨rfl, rfl⟩
    · rcases hv with hv | hv | hv | hv | hv | hv <;> contradiction

theorem C29_sysclk_id_validation_witness :
    nau8821_configure_sysclk sample_h (sample_dev 1 (regs_of [])) 6 0 =
      (-EINVAL, sample_dev 1 (regs_of [])) ∧
    (nau8821_configure_sysclk sample_h (sample_dev 1 (regs_of [])) 4 0).2.clk_id = 4 :=
  ⟨(C29_sysclk_id_validation sample_h (sample_dev 1 (regs_of [])) 6 0).1 (by decide),
    ((C29_sysclk_id_validation sample_h (sample_dev 1 (regs_of [])) 4 0).2 (by decide)).2⟩

theorem set_dai_fmt_master_none (h : nau8821_h) (fmt : Nat) :
    set_dai_fmt_master h fmt = none ↔
      fmt &&& SND_SOC_DAIFMT_MASTER_MASK ≠ SND_SOC_DAIFMT_CBM_CFM ∧
      fmt &&& SND_SOC_DAIFMT_MASTER_MASK ≠ SND_SOC_DAIFMT_CBS_CFS := by
  simp only [set_dai_fmt_master]
  split_ifs <;> simp [*]

theorem set_dai_fmt_inv_none (h : nau8821_h) (fmt : Nat) :
    set_dai_fmt_inv h fmt = none ↔
      fmt &&& SND_SOC_DAIFMT_INV_MASK ≠ SND_SOC_DAIFMT_NB_NF ∧
      fmt &&& SND_SOC_DAIFMT_INV_MASK ≠ SND_SOC_DAIFMT_IB_NF := by
  simp only [set_dai_fmt_inv]
  split_ifs <;> simp [*]

theorem set_dai_fmt_format_none (h : nau8821_h) (fmt c : Nat) :
    set_dai_fmt_format h fmt c = none ↔
      fmt &&& SND_SOC_DAIFMT_FORMAT_MASK ≠ SND_SOC_DAIFMT_I2S ∧
      fmt &&& SND_SOC_DAIFMT_FORMAT_MASK ≠ SND_SOC_DAIFMT_LEFT_J ∧
      fmt &&& SND_SOC_DAIFMT_FORMAT_MASK ≠ SND_SOC_DAIFMT_RIGHT_J ∧
      fmt &&& SND_SOC_DAIFMT_FORMAT_MASK ≠ SND_SOC_DAIFMT_DSP_A ∧
      fmt &&& SND_SOC_DAIFMT_FORMAT_MASK ≠ SND_SOC_DAIFMT_DSP_B := by
  simp only [set_dai_fmt_format]
  split_ifs <;> simp [*]

/-- C30: `nau8821_set_dai_fmt` returns `-EINVAL` exactly when the master part of the format
word is neither `CBM_CFM` nor `CBS_CFS`, or the inversion part is neither `NB_NF` nor
`IB_NF`, or the format part is none of `I2S`, `LEFT_J`, `RIGHT_J`, `DSP_A`, `DSP_B`; in that
case the device state is exactly the prior one. For every other format word it
returns 0 and the state is: acquire, update of `I2S_PCM_CTRL1`, update of
`I2S_PCM_CTRL2`, release; on a device with an interrupt line the gate events of the
call are one `down_timeout` followed by one `up`. -/
theorem C30_set_dai_fmt_validates_first (h : nau8821_h) (s : nau8821) (fmt : Nat) :
    ((nau8821_set_dai_fmt h s fmt).1 = -EINVAL ↔
      (fmt &&& SND_SOC_DAIFMT_MASTER_MASK ≠ SND_SOC_DAIFMT_CBM_CFM ∧
        fmt &&& SND_SOC_DAIFMT_MASTER_MASK ≠ SND_SOC_DAIFMT_CBS_CFS) ∨
      (fmt &&& SND_SOC_DAIFMT_INV_MASK ≠ SND_SOC_DAIFMT_NB_NF ∧
        fmt &&& SND_SOC_DAIFMT_INV_MASK ≠ SND_SOC_DAIFMT_IB_NF) ∨
      (fmt &&& SND_SOC_DAIFMT_FORMAT_MASK ≠ SND_SOC_DAIFMT_I2S ∧
        fmt &&& SND_SOC_DAIFMT_FORMAT_MASK ≠ SND_SOC_DAIFMT_LEFT_J ∧
        fmt &&& SND_SOC_DAIFMT_FORMAT_MASK ≠ SND_SOC_DAIFMT_RIGHT_J ∧
        fmt &&& SND_SOC_DAIFMT_FORMAT_MASK ≠ SND_SOC_DAIFMT_DSP_A ∧
        fmt &&& SND_SOC_DAIFMT_FORMAT_MASK ≠ SND_SOC_DAIFMT_DSP_B)) ∧
    ((nau8821_set_dai_fmt h s fmt).1 = -EINVAL → (nau8821_set_dai_fmt h s fmt).2 = s) ∧
    ((nau8821_set_dai_fmt h s fmt).1 ≠ -EINVAL →
      (nau8821_set_dai_fmt h s fmt).1 = 0 ∧
      ∃ ctrl1_val ctrl2_val,
        (nau8821_set_dai_fmt h s fmt).2 =
          nau8821_sema_release
            (regmap_update_bits
              (regmap_update_bits (nau8821_sema_acquire s HZ).2 h.NAU8821_REG_I2S_PCM_CTRL1
                (h.NAU8821_I2S_DL_MASK ||| h.NAU8821_I2S_DF_MASK ||| h.NAU8821_I2S_BP_MASK |||
                  h.NAU8821_I2S_PCMB_MASK) ctrl1_val)
              h.NAU8821_REG_I2S_PCM_CTRL2 h.NAU8821_I2S_MS_MASK ctrl2_val) ∧
        (s.irq ≠ 0 →
          gate_events (nau8821_set_dai_fmt h s fmt).2.log =
            gate_events s.log ++
              [Event.down_timeout HZ (if 0 < s.jd_sem then 0 else -ETIME), Event.up])) := by
  have he : (0 : Int) ≠ -EINVAL := by decide
  have hm := set_dai_fmt_master_none h fmt
  have hi := set_dai_fmt_inv_none h fmt
  cases h1 : set_dai_fmt_master h fmt with
  | none =>
    rw [h1] at hm
    simp [nau8821_set_dai_fmt, h1, hm.1 rfl]
  | some c2 =>
    rw [h1] at hm
    have hm2 : ¬ (fmt &&& SND_SOC_DAIFMT_MASTER_MASK ≠ SND_SOC_DAIFMT_CBM_CFM ∧
        fmt &&& SND_SOC_DAIFMT_MASTER_MASK ≠ SND_SOC_DAIFMT_CBS_CFS) :=
      fun hx => by simpa using hm.2 hx
    cases h2 : set_dai_fmt_inv h fmt with
    | none =>
      rw [h2] at hi
      simp [nau8821_set_dai_fmt, h1, h2, hi.1 rfl]
    | some c1 =>
      rw [h2] at hi
      have hi2 : ¬ (fmt &&& SND_SOC_DAIFMT_INV_MASK ≠ SND_SOC_DAIFMT_NB_NF ∧
          fmt &&& SND_SOC_DAIFMT_INV_MASK ≠ SND_SOC_DAIFMT_IB_NF) :=
        fun hx => by simpa using hi.2 hx
      have hf := set_dai_fmt_format_none h fmt c1
      cases h3 : set_dai_fmt_format h fmt c1 with
      | none =>
        rw [h3] at hf
        simp [nau8821_set_dai_fmt, h1, h2, h3, hf.1 rfl]
      | some cv =>
        rw [h3] at hf
        have hf2 : ¬ (fmt &&& SND_SOC_DAIFMT_FORMAT_MASK ≠ SND_SOC_DAIFMT_I2S ∧
            fmt &&& SND_SOC_DAIFMT_FORMAT_MASK ≠ SND_SOC_DAIFMT_LEFT_J ∧
            fmt &&& SND_SOC_DAIFMT_FORMAT_MASK ≠ SND_SOC_DAIFMT_RIGHT_J ∧
            fmt &&& SND_SOC_DAIFMT_FORMAT_MASK ≠ SND_SOC_DAIFMT_DSP_A ∧
            fmt &&& SND_SOC_DAIFMT_FORMAT_MASK ≠ SND_SOC_DAIFMT_DSP_B) :=
          fun hx => by simpa using hf.2 hx
        have heq : nau8821_set_dai_fmt h s fmt =
            (0, nau8821_sema_release
              (regmap_update_bits
                (regmap_update_bits (nau8821_sema_acquire s HZ).2 h.NAU8821_REG_I2S_PCM_CTRL1
                  (h.NAU8821_I2S_DL_MASK ||| h.NAU8821_I2S_DF_MASK ||| h.NAU8821_I2S_BP_MASK |||
                    h.NAU8821_I2S_PCMB_MASK) cv)
                h.NAU8821_REG_I2S_PCM_CTRL2 h.NAU8821_I2S_MS_MASK c2)) := by
          simp only [nau8821_set_dai_fmt, h1, h2, h3]
        rw [heq]
        refine ⟨⟨fun hx => absurd hx he, fun hx => ?_⟩, fun hx => absurd hx he,
          fun _ => ⟨rfl, cv, c2, rfl, fun hirq => ?_⟩⟩
        · rcases hx with hx | hx | hx
          · exact absurd hx hm2
          · exact absurd hx hi2
          · exact absurd hx hf2
        · obtain ⟨ha, _⟩ := sema_acquire_hz s hirq
          simp [nau8821_sema_release, hirq, up, emit, ha, gate_events, is_gate_event,
            List.filter_append]

theorem C30_set_dai_fmt_validates_first_witness :
    (nau8821_set_dai_fmt sample_h (sample_dev 1 (regs_of [])) 0x2001).2 =
      sample_dev 1 (regs_of []) :=
  (C30_set_dai_fmt_validates_first sample_h (sample_dev 1 (regs_of [])) 0x2001).2.1
    (by decide)

/-! ## The registers after nau8821_fll_apply -/

theorem update_bits_value_inside (x m v d : Nat) (hd : d &&& m = d) :
    update_bits_value x m v &&& d = v &&& d := by
  apply Nat.eq_of_testBit_eq
  intro i
  have h1 := congrArg (fun n => Nat.testBit n i) hd
  simp only [Nat.testBit_and] at h1
  simp only [Nat.testBit_and, update_bits_value_testBit]
  revert h1
  cases x.testBit i <;> cases m.testBit i <;> cases v.testBit i <;> cases d.testBit i <;> simp

theorem update_bits_value_disjoint (x m v d : Nat) (hd : d &&& m = 0) :
    update_bits_value x m v &&& d = x &&& d := by
  apply Nat.eq_of_testBit_eq
  intro i
  have h1 := congrArg (fun n => Nat.testBit n i) hd
  simp only [Nat.testBit_and, Nat.zero_testBit] at h1
  simp only [Nat.testBit_and, update_bits_value_testBit]
  revert h1
  cases x.testBit i <;> cases m.testBit i <;> cases v.testBit i <;> cases d.testBit i <;> simp

theorem and_or_absorb_left (a b : Nat) : a &&& (a ||| b) = a := by
  apply Nat.eq_of_testBit_eq
  intro i
  simp only [Nat.testBit_and, Nat.testBit_or]
  cases a.testBit i <;> cases b.testBit i <;> rfl

theorem and_or_absorb_right (a b : Nat) : b &&& (a ||| b) = b := by
  apply Nat.eq_of_testBit_eq
  intro i
  simp only [Nat.testBit_and, Nat.testBit_or]
  cases a.testBit i <;> cases b.testBit i <;> rfl

theorem frac_split (n : Nat) :
    (((n >>> 16) &&& 0xff) <<< 16) ||| (n &&& 0xffff) = n % 2 ^ 24 := by
  have h1 : (n >>> 16) &&& 0xff = n / 2 ^ 16 % 2 ^ 8 := by
    rw [Nat.shiftRight_eq_div_pow]
    exact Nat.and_pow_two_sub_one_eq_mod _ 8
  have h2 : n &&& 0xffff = n % 2 ^ 16 := Nat.and_pow_two_sub_one_eq_mod _ 16
  rw [h1, h2, Nat.shiftLeft_eq, Nat.mul_comm,
    ← Nat.mul_add_lt_is_or (Nat.mod_lt n (by decide : 0 < 2 ^ 16))]
  omega

theorem fll_apply_fll6 (h : nau8821_h) (hd : regs_distinct h) (s : nau8821)
    (p : nau8821_fll) :
    ∃ x, (nau8821_fll_apply h s p).regmap h.NAU8821_REG_FLL6 =
      update_bits_value (update_bits_value x h.NAU8821_DCO_EN 0)
        (h.NAU8821_SDM_EN ||| h.NAU8821_CUTOFF500)
        (if p.fll_frac ≠ 0 then h.NAU8821_SDM_EN ||| h.NAU8821_CUTOFF500 else 0) := by
  have q := reg_ne h hd reg_name.FLL6 reg_name.FLL5 (by decide)
  simp only [reg_addr] at q
  simp only [nau8821_fll_apply]
  split_ifs with hfr
  · exact ⟨_, by rw [update_bits_regmap_same, update_bits_regmap_other _ _ _ _ _ q,
      update_bits_regmap_same]⟩
  · exact ⟨_, by rw [update_bits_regmap_same, update_bits_regmap_other _ _ _ _ _ q,
      update_bits_regmap_same]⟩

theorem fll_apply_fll5 (h : nau8821_h) (hd : regs_distinct h) (s : nau8821)
    (p : nau8821_fll) :
    ∃ x, (nau8821_fll_apply h s p).regmap h.NAU8821_REG_FLL5 =
      update_bits_value x
        (h.NAU8821_FLL_PDB_DAC_EN ||| h.NAU8821_FLL_LOOP_FTR_EN ||| h.NAU8821_FLL_FTR_SW_MASK)
        (if p.fll_frac ≠ 0 then
          h.NAU8821_FLL_PDB_DAC_EN ||| h.NAU8821_FLL_LOOP_FTR_EN ||| h.NAU8821_FLL_FTR_SW_FILTER
          else h.NAU8821_FLL_FTR_SW_ACCU) := by
  have q := reg_ne h hd reg_name.FLL5 reg_name.FLL6 (by decide)
  simp only [reg_addr] at q
  simp only [nau8821_fll_apply]
  split_ifs with hfr
  · exact ⟨_, by rw [update_bits_regmap_other _ _ _ _ _ q, update_bits_regmap_same]⟩
  · exact ⟨_, by rw [update_bits_regmap_other _ _ _ _ _ q, update_bits_regmap_same]⟩

theorem fll_apply_fll78 (h : nau8821_h) (hd : regs_distinct h) (s : nau8821)
    (p : nau8821_fll) :
    (nau8821_fll_apply h s p).regmap h.NAU8821_REG_FLL7 =
      (to_unsigned p.fll_frac >>> 16) &&& 0xff ∧
    (nau8821_fll_apply h s p).regmap h.NAU8821_REG_FLL8 = to_unsigned p.fll_frac &&& 0xffff := by
  have a3 := reg_ne h hd reg_name.FLL7 reg_name.FLL3 (by decide)
  have a4 := reg_ne h hd reg_name.FLL7 reg_name.FLL4 (by decide)
  have a5 := reg_ne h hd reg_name.FLL7 reg_name.FLL5 (by decide)
  have a6 := reg_ne h hd reg_name.FLL7 reg_name.FLL6 (by decide)
  have a8 := reg_ne h hd reg_name.FLL7 reg_name.FLL8 (by decide)
  have b3 := reg_ne h hd reg_name.FLL8 reg_name.FLL3 (by decide)
  have b4 := reg_ne h hd reg_name.FLL8 reg_name.FLL4 (by decide)
  have b5 := reg_ne h hd reg_name.FLL8 reg_name.FLL5 (by decide)
  have b6 := reg_ne h hd reg_name.FLL8 reg_name.FLL6 (by decide)
  simp only [reg_addr] at a3 a4 a5 a6 a8 b3 b4 b5 b6
  simp only [nau8821_fll_apply]
  split_ifs with hfr
  · constructor
    · rw [update_bits_regmap_other _ _ _ _ _ a6, update_bits_regmap_other _ _ _ _ _ a5,
        update_bits_regmap_other _ _ _ _ _ a6, update_bits_regmap_other _ _ _ _ _ a5,
        update_bits_regmap_other _ _ _ _ _ a4, update_bits_regmap_other _ _ _ _ _ a3,
        regmap_write_regmap_other _ _ _ _ a8, regmap_write_regmap_same]
    · rw [update_bits_regmap_other _ _ _ _ _ b6, update_bits_regmap_other _ _ _ _ _ b5,
        update_bits_regmap_other _ _ _ _ _ b6, update_bits_regmap_other _ _ _ _ _ b5,
        update_bits_regmap_other _ _ _ _ _ b4, update_bits_regmap_other _ _ _ _ _ b3,
        regmap_write_regmap_same]
  · constructor
    · rw [update_bits_regmap_other _ _ _ _ _ a6, update_bits_regmap_other _ _ _ _ _ a5,
        update_bits_regmap_other _ _ _ _ _ a6, update_bits_regmap_other _ _ _ _ _ a5,
        update_bits_regmap_other _ _ _ _ _ a4, update_bits_regmap_other _ _ _ _ _ a3,
        regmap_write_regmap_other _ _ _ _ a8, regmap_write_regmap_same]
    · rw [update_bits_regmap_other _ _ _ _ _ b6, update_bits_regmap_other _ _ _ _ _ b5,
        update_bits_regmap_other _ _ _ _ _ b6, update_bits_regmap_other _ _ _ _ _ b5,
        update_bits_regmap_other _ _ _ _ _ b4, update_bits_regmap_other _ _ _ _ _ b3,
        regmap_write_regmap_same]

/-- C23: on a header with pairwise distinct register addresses whose FLL5 and FLL6 bit
fields do not overlap, after `nau8821_fll_apply`, for every parameter set: if
`fll_frac` is non-zero, `NAU8821_SDM_EN`, `NAU8821_CUTOFF500`, `NAU8821_FLL_LOOP_FTR_EN` and
`NAU8821_FLL_PDB_DAC_EN` read set and the filter switch field holds
`NAU8821_FLL_FTR_SW_FILTER`; if `fll_frac` is zero, the four bits read clear and the
filter switch field holds `NAU8821_FLL_FTR_SW_ACCU`; in both cases `NAU8821_DCO_EN` reads
clear and `(FLL7 << 16) | FLL8` is the low 24 bits of `fll_frac`, which is `fll_frac`
itself when `0 <= fll_frac < 2^24`. -/
theorem C23_fll_apply_fraction_path (h : nau8821_h) (s : nau8821) (p : nau8821_fll)
    (hd : regs_distinct h) (hf : fll_fields_disjoint h) :
    (p.fll_frac ≠ 0 →
      (nau8821_fll_apply h s p).regmap h.NAU8821_REG_FLL6 &&& h.NAU8821_SDM_EN =
        h.NAU8821_SDM_EN ∧
      (nau8821_fll_apply h s p).regmap h.NAU8821_REG_FLL6 &&& h.NAU8821_CUTOFF500 =
        h.NAU8821_CUTOFF500 ∧
      (nau8821_fll_apply h s p).regmap h.NAU8821_REG_FLL5 &&& h.NAU8821_FLL_LOOP_FTR_EN =
        h.NAU8821_FLL_LOOP_FTR_EN ∧
      (nau8821_fll_apply h s p).regmap h.NAU8821_REG_FLL5 &&& h.NAU8821_FLL_PDB_DAC_EN =
        h.NAU8821_FLL_PDB_DAC_EN ∧
      (nau8821_fll_apply h s p).regmap h.NAU8821_REG_FLL5 &&& h.NAU8821_FLL_FTR_SW_MASK =
        h.NAU8821_FLL_FTR_SW_FILTER) ∧
    (p.fll_frac = 0 →
      (nau8821_fll_apply h s p).regmap h.NAU8821_REG_FLL6 &&& h.NAU8821_SDM_EN = 0 ∧
      (nau8821_fll_apply h s p).regmap h.NAU8821_REG_FLL6 &&& h.NAU8821_CUTOFF500 = 0 ∧
      (nau8821_fll_apply h s p).regmap h.NAU8821_REG_FLL5 &&& h.NAU8821_FLL_LOOP_FTR_EN = 0 ∧
      (nau8821_fll_apply h s p).regmap h.NAU8821_REG_FLL5 &&& h.NAU8821_FLL_PDB_DAC_EN = 0 ∧
      (nau8821_fll_apply h s p).regmap h.NAU8821_REG_FLL5 &&& h.NAU8821_FLL_FTR_SW_MASK =
        h.NAU8821_FLL_FTR_SW_ACCU) ∧
    (nau8821_fll_apply h s p).regmap h.NAU8821_REG_FLL6 &&& h.NAU8821_DCO_EN = 0 ∧
    ((nau8821_fll_apply h s p).regmap h.NAU8821_REG_FLL7 <<< 16) |||
        (nau8821_fll_apply h s p).regmap h.NAU8821_REG_FLL8 =
      to_unsigned p.fll_frac % 2 ^ 24 ∧
    (0 ≤ p.fll_frac → p.fll_frac < 2 ^ 24 →
      ((((nau8821_fll_apply h s p).regmap h.NAU8821_REG_FLL7 <<< 16) |||
        (nau8821_fll_apply h s p).regmap h.NAU8821_REG_FLL8 : Nat) : Int) = p.fll_frac) := by
  obtain ⟨f1, f2, f3, f4⟩ := hf
  obtain ⟨x6, e6⟩ := fll_apply_fll6 h hd s p
  obtain ⟨x5, e5⟩ := fll_apply_fll5 h hd s p
  obtain ⟨e7, e8⟩ := fll_apply_fll78 h hd s p
  have g1 : h.NAU8821_SDM_EN &&& (h.NAU8821_SDM_EN ||| h.NAU8821_CUTOFF500) =
      h.NAU8821_SDM_EN := and_or_absorb_left _ _
  have g2 : h.NAU8821_CUTOFF500 &&& (h.NAU8821_SDM_EN ||| h.NAU8821_CUTOFF500) =
      h.NAU8821_CUTOFF500 := and_or_absorb_right _ _
  have g3 : h.NAU8821_FLL_LOOP_FTR_EN &&&
      (h.NAU8821_FLL_PDB_DAC_EN ||| h.NAU8821_FLL_LOOP_FTR_EN ||| h.NAU8821_FLL_FTR_SW_MASK) =
      h.NAU8821_FLL_LOOP_FTR_EN := by
    apply Nat.eq_of_testBit_eq
    intro i
    simp only [Nat.testBit_and, Nat.testBit_or]
    cases h.NAU8821_FLL_LOOP_FTR_EN.testBit i <;> cases h.NAU8821_FLL_PDB_DAC_EN.testBit i <;>
      cases h.NAU8821_FLL_FTR_SW_MASK.testBit i <;> rfl
  have g4 : h.NAU8821_FLL_PDB_DAC_EN &&&
      (h.NAU8821_FLL_PDB_DAC_EN ||| h.NAU8821_FLL_LOOP_FTR_EN ||| h.NAU8821_FLL_FTR_SW_MASK) =
      h.NAU8821_FLL_PDB_DAC_EN := by
    apply Nat.eq_of_testBit_eq
    intro i
    simp only [Nat.testBit_and, Nat.testBit_or]
    cases h.NAU8821_FLL_LOOP_FTR_EN.testBit i <;> cases h.NAU8821_FLL_PDB_DAC_EN.testBit i <;>
      cases h.NAU8821_FLL_FTR_SW_MASK.testBit i <;> rfl
  have g5 : h.NAU8821_FLL_FTR_SW_MASK &&&
      (h.NAU8821_FLL_PDB_DAC_EN ||| h.NAU8821_FLL_LOOP_FTR_EN ||| h.NAU8821_FLL_FTR_SW_MASK) =
      h.NAU8821_FLL_FTR_SW_MASK := and_or_absorb_right _ _
  have bits : ∀ i,
      ((h.NAU8821_FLL_PDB_DAC_EN.testBit i || h.NAU8821_FLL_LOOP_FTR_EN.testBit i) &&
        h.NAU8821_FLL_FTR_SW_MASK.testBit i) = false ∧
      (h.NAU8821_FLL_FTR_SW_ACCU.testBit i && h.NAU8821_FLL_FTR_SW_MASK.testBit i) =
        h.NAU8821_FLL_FTR_SW_ACCU.testBit i ∧
      (h.NAU8821_FLL_FTR_SW_FILTER.testBit i && h.NAU8821_FLL_FTR_SW_MASK.testBit i) =
        h.NAU8821_FLL_FTR_SW_FILTER.testBit i := by
    intro i
    have b2 := congrArg (fun n => Nat.testBit n i) f2
    have b3 := congrArg (fun n => Nat.testBit n i) f3
    have b4 := congrArg (fun n => Nat.testBit n i) f4
    simp only [Nat.testBit_and, Nat.testBit_or, Nat.zero_testBit] at b2 b3 b4
    exact ⟨b2, b3, b4⟩
  have hsplit := frac_split (to_unsigned p.fll_frac)
  refine ⟨fun hfr => ?_, fun hfr => ?_, ?_, ?_, ?_⟩
  · rw [e6, e5, if_pos hfr, if_pos hfr, update_bits_value_inside _ _ _ _ g1,
      update_bits_value_inside _ _ _ _ g2, update_bits_value_inside _ _ _ _ g3,
      update_bits_value_inside _ _ _ _ g4, update_bits_value_inside _ _ _ _ g5]
    refine ⟨?_, ?_, ?_, ?_, ?_⟩ <;>
      · apply Nat.eq_of_testBit_eq
        intro i
        obtain ⟨b2, b3, b4⟩ := bits i
        simp only [Nat.testBit_and, Nat.testBit_or]
        revert b2 b3 b4
        cases h.NAU8821_FLL_LOOP_FTR_EN.testBit i <;> cases h.NAU8821_FLL_PDB_DAC_EN.testBit i <;>
          cases h.NAU8821_FLL_FTR_SW_MASK.testBit i <;>
          cases h.NAU8821_FLL_FTR_SW_FILTER.testBit i <;>
          cases h.NAU8821_SDM_EN.testBit i <;> cases h.NAU8821_CUTOFF500.testBit i <;> simp
  · have hfr2 : ¬ p.fll_frac ≠ 0 := by simpa using hfr
    rw [e6, e5, if_neg hfr2, if_neg hfr2, update_bits_value_inside _ _ _ _ g1,
      update_bits_value_inside _ _ _ _ g2, update_bits_value_inside _ _ _ _ g3,
      update_bits_value_inside _ _ _ _ g4, update_bits_value_inside _ _ _ _ g5]
    refine ⟨by simp, by simp, ?_, ?_, f3⟩ <;>
      · apply Nat.eq_of_testBit_eq
        intro i
        obtain ⟨b2, b3, b4⟩ := bits i
        simp only [Nat.testBit_and, Nat.testBit_or, Nat.zero_testBit]
        revert b2 b3 b4
        cases h.NAU8821_FLL_LOOP_FTR_EN.testBit i <;> cases h.NAU8821_FLL_PDB_DAC_EN.testBit i <;>
          cases h.NAU8821_FLL_FTR_SW_MASK.testBit i <;>
          cases h.NAU8821_FLL_FTR_SW_ACCU.testBit i <;> simp
  · rw [e6, update_bits_value_disjoint _ _ _ _ f1, update_bits_value_clear]
  · rw [e7, e8, hsplit]
  · intro h0 h1
    rw [e7, e8, hsplit]
    have hu : to_unsigned p.fll_frac = p.fll_frac.toNat := by
      unfold to_unsigned
      rw [Int.emod_eq_of_lt h0 (by omega)]
    rw [hu]
    omega

theorem fll_fields_disjoint_sample : fll_fields_disjoint sample_h := by
  unfold fll_fields_disjoint; decide

theorem C23_fll_apply_fraction_path_witness :
    (nau8821_fll_apply sample_h (sample_dev 1 (regs_of [(0x09, 0xe000), (0x08, 0xc000)]))
      ⟨0xf, 0x10, 0, 160, 0⟩).regmap sample_h.NAU8821_REG_FLL6 &&&
      sample_h.NAU8821_SDM_EN = 0 ∧
    (nau8821_fll_apply sample_h (sample_dev 1 (regs_of []))
      ⟨0xf, 0x01, 4026531, 10, 0⟩).regmap sample_h.NAU8821_REG_FLL6 &&&
      sample_h.NAU8821_SDM_EN = sample_h.NAU8821_SDM_EN :=
  ⟨((C23_fll_apply_fraction_path sample_h
      (sample_dev 1 (regs_of [(0x09, 0xe000), (0x08, 0xc000)])) ⟨0xf, 0x10, 0, 160, 0⟩
      regs_distinct_sample fll_fields_disjoint_sample).2.1 (by decide)).1,
    ((C23_fll_apply_fraction_path sample_h (sample_dev 1 (regs_of []))
      ⟨0xf, 0x01, 4026531, 10, 0⟩
      regs_distinct_sample fll_fields_disjoint_sample).1 (by decide)).1⟩

/-! ## The semaphore count, operation by operation -/

theorem acquire_release_bound (s s2 : nau8821) (timeout n : Nat)
    (h2 : regs_only (nau8821_sema_acquire s timeout).2 s2) (hn : 1 ≤ n) (hle : s.jd_sem ≤ n) :
    (nau8821_sema_release s2).jd_sem ≤ n := by
  obtain ⟨a1, a2, -⟩ := h2
  rw [sema_release_jd_sem, a1, a2, sema_acquire_irq, sema_acquire_jd_sem]
  split_ifs <;> omega

theorem configure_sysclk_bound (h : nau8821_h) (s : nau8821) (clk_id : Int) (freq n : Nat)
    (hn : 1 ≤ n) (hle : s.jd_sem ≤ n) :
    (nau8821_configure_sysclk h s clk_id freq).2.jd_sem ≤ n := by
  have hm := regs_only_mclk h s
  have hi := regs_only_internal h s
  simp only [nau8821_configure_sysclk]
  split_ifs with c1 c2 c3 c4 c5 c6
  · show (nau8821_configure_mclk_as_sysclk h s).jd_sem ≤ n
    rw [hm.2.1]; exact hle
  · exact acquire_release_bound s _ HZ n
      (regs_only_trans (regs_only_mclk h _) (regs_only_update_bits _ _ _ _)) hn hle
  · show (nau8821_configure_sysclk_internal h s).jd_sem ≤ n
    rw [hi.2.1]; exact hle
  · exact acquire_release_bound s _ HZ n (regs_only_update_bits _ _ _ _) hn hle
  · exact acquire_release_bound s _ HZ n (regs_only_update_bits _ _ _ _) hn hle
  · exact acquire_release_bound s _ HZ n (regs_only_update_bits _ _ _ _) hn hle
  · exact hle

theorem setup_auto_irq_bound (h : nau8821_h) (s : nau8821) (n : Nat)
    (hn : 1 ≤ n) (hle : s.jd_sem ≤ n) : (nau8821_setup_auto_irq h s).jd_sem ≤ n := by
  have hr : regs_only (nau8821_configure_sysclk h s h.NAU8821_CLK_INTERNAL 0).2
      (nau8821_setup_auto_irq h s) := by
    simp only [nau8821_setup_auto_irq]
    repeat' first
      | exact regs_only_refl _
      | refine regs_only_trans ?_ (regs_only_update_bits _ _ _ _)
  rw [hr.2.1]
  exact configure_sysclk_bound h s _ 0 n hn hle

theorem interrupt_bound (h : nau8821_h) (s : nau8821) (n : Nat)
    (hc : completes_insert h s = false) (hn : 1 ≤ n) (hle : s.jd_sem ≤ n) :
    (nau8821_interrupt h s).2.jd_sem ≤ n := by
  by_cases hret : regmap_read_ret s = 0
  · rw [interrupt_jd_sem_eq h s hret]
    simp only [nau8821_interrupt_dispatch]
    split_ifs with c1 c2 c3 c4 c5 c6
    · rw [(eject_jack_frame h s).2.2.2.2.1]; exact hn
    · exact hle
    · exact hle
    · exact setup_auto_irq_bound h _ n hn (by simpa using hle)
    · exfalso
      have : completes_insert h s = true := by
        simp only [completes_insert, hret, c1, c4, c5, c6]
        simp only [ne_eq, Decidable.not_not] at c2 c3
        simp [c2, c3]
      rw [hc] at this
      exact Bool.false_ne_true this
    · rw [(eject_jack_frame h s).2.2.2.2.1]; exact hn
    · exact hle
  · simp only [nau8821_interrupt, ne_eq, hret, not_false_eq_true, if_true]
    exact hle

theorem hw_params_bound (h : nau8821_h) (s : nau8821) (stream : Int) (rate : Nat)
    (width bclk : Int) (r : Int × nau8821) (n : Nat)
    (hr : nau8821_hw_params h s stream rate width bclk = some r)
    (hn : 1 ≤ n) (hle : s.jd_sem ≤ n) : r.2.jd_sem ≤ n := by
  have key : ∀ reg mask val, nau8821_hw_params_dividers h
      (regmap_update_bits (nau8821_sema_acquire s HZ).2 reg mask val) rate width bclk = some r →
      r.2.jd_sem ≤ n := by
    intro reg mask val hd
    rw [hw_params_dividers_jd_sem h _ rate width bclk r hd]
    simp only [update_bits_irq, update_bits_jd_sem, sema_acquire_irq, sema_acquire_jd_sem]
    split_ifs <;> omega
  have fail : (nau8821_sema_release (nau8821_sema_acquire s HZ).2).jd_sem ≤ n := by
    rw [sema_release_jd_sem, sema_acquire_irq, sema_acquire_jd_sem]
    split_ifs <;> omega
  simp only [nau8821_hw_params] at hr
  split_ifs at hr
  · simp only [Option.some.injEq] at hr; subst hr; exact fail
  · exact key _ _ _ hr
  · simp only [Option.some.injEq] at hr; subst hr; exact fail
  · exact key _ _ _ hr

theorem set_dai_fmt_bound (h : nau8821_h) (s : nau8821) (fmt n : Nat)
    (hn : 1 ≤ n) (hle : s.jd_sem ≤ n) : (nau8821_set_dai_fmt h s fmt).2.jd_sem ≤ n := by
  simp only [nau8821_set_dai_fmt]
  split
  · exact hle
  · split
    · exact hle
    · split
      · exact hle
      · simp only [sema_release_jd_sem, update_bits_irq, update_bits_jd_sem, sema_acquire_irq,
          sema_acquire_jd_sem]
        split_ifs <;> omega

theorem set_bias_level_bound (h : nau8821_h) (s : nau8821) (level : Int) (n : Nat)
    (hn : 1 ≤ n) (hle : s.jd_sem ≤ n) : (nau8821_set_bias_level h s level).2.jd_sem ≤ n := by
  simp only [nau8821_set_bias_level]
  split_ifs
  all_goals first
    | exact hle
    | (rw [resume_setup_jd_sem]; exact hle)
    | (simp [nau8821_sema_reset, emit]; exact hn)

theorem force_bias_level_bound (h : nau8821_h) (s : nau8821) (level : Int) (n : Nat)
    (hn : 1 ≤ n) (hle : s.jd_sem ≤ n) :
    (snd_soc_component_force_bias_level h s level).2.jd_sem ≤ n := by
  simp only [snd_soc_component_force_bias_level]
  split_ifs
  · exact set_bias_level_bound h s level n hn hle
  · exact set_bias_level_bound h s level n hn hle

theorem suspend_bound (h : nau8821_h) (s : nau8821) (n : Nat)
    (hn : 1 ≤ n) (hle : s.jd_sem ≤ n) : (nau8821_suspend h s).2.jd_sem ≤ n := by
  simp only [nau8821_suspend]
  have := force_bias_level_bound h (if s.irq ≠ 0 then emit s Event.disable_irq else s)
    SND_SOC_BIAS_OFF n hn (by split_ifs <;> simpa [emit] using hle)
  simpa [emit] using this

theorem resume_bound (s : nau8821) (n : Nat) (hle : s.jd_sem ≤ n) :
    (nau8821_resume s).2.jd_sem ≤ n := by
  simp only [nau8821_resume]
  split_ifs
  · simp only [emit, sema_acquire_jd_sem]
    split_ifs <;> omega
  · simpa [emit] using hle

theorem codec_remove_bound (s : nau8821) (n : Nat) (hn : 1 ≤ n) (hle : s.jd_sem ≤ n) :
    (nau8821_codec_remove s).jd_sem ≤ n := by
  simp only [nau8821_codec_remove]
  split_ifs
  · simp [nau8821_sema_reset, emit]; exact hn
  · exact hle

theorem step_bound (h : nau8821_h) (s s1 : nau8821) (op : Op) (n : Nat)
    (hs : step h s op = some s1)
    (hp : ¬ (op = Op.interrupt ∧ completes_insert h s = true))
    (hn : 1 ≤ n) (hle : s.jd_sem ≤ n) : s1.jd_sem ≤ n := by
  cases op with
  | hardware reg val =>
    simp only [step, Option.some.injEq] at hs; subst hs; exact hle
  | bus error =>
    simp only [step, Option.some.injEq] at hs; subst hs; exact hle
  | interrupt =>
    simp only [step, Option.some.injEq] at hs; subst hs
    cases hc : completes_insert h s with
    | false => exact interrupt_bound h s n hc hn hle
    | true => exact absurd ⟨rfl, hc⟩ hp
  | hw_params stream rate width bclk =>
    simp only [step, Option.map_eq_some'] at hs
    obtain ⟨r, hr, rfl⟩ := hs
    exact hw_params_bound h s stream rate width bclk r n hr hn hle
  | set_dai_fmt fmt =>
    simp only [step, Option.some.injEq] at hs; subst hs
    exact set_dai_fmt_bound h s fmt n hn hle
  | configure_sysclk clk_id freq =>
    simp only [step, Option.some.injEq] at hs; subst hs
    exact configure_sysclk_bound h s clk_id freq n hn hle
  | set_bias_level level =>
    simp only [step, Option.some.injEq] at hs; subst hs
    exact force_bias_level_bound h s level n hn hle
  | suspend =>
    simp only [step, Option.some.injEq] at hs; subst hs
    exact suspend_bound h s n hn hle
  | resume =>
    simp only [step, Option.some.injEq] at hs; subst hs
    exact resume_bound s n hle
  | codec_remove =>
    simp only [step, Option.some.injEq] at hs; subst hs
    exact codec_remove_bound s n hn hle

theorem completion_adds_at_most_one (h : nau8821_h) (s : nau8821)
    (hc : completes_insert h s = true) :
    (nau8821_interrupt h s).2.jd_sem ≤ s.jd_sem + 1 := by
  rw [(interrupt_jd_sem h s).2 hc]
  split_ifs
  · omega
  · exact Nat.mod_le _ _

theorem run_bound (h : nau8821_h) (ops : List Op) :
    ∀ (s s1 : nau8821) (n : Nat), run h s ops = some s1 → 1 ≤ n → s.jd_sem ≤ n →
      s1.jd_sem ≤ n + insert_completions h s ops := by
  induction ops with
  | nil =>
    intro s s1 n hr _ hle
    simp only [run, Option.some.injEq] at hr
    subst hr
    simpa [insert_completions] using hle
  | cons op ops ih =>
    intro s s1 n hr hn hle
    simp only [run] at hr
    cases hst : step h s op with
    | none => rw [hst] at hr; exact absurd hr (by simp)
    | some s2 =>
      rw [hst] at hr
      simp only [insert_completions, hst]
      by_cases hp : op = Op.interrupt ∧ completes_insert h s = true
      · rw [if_pos hp]
        have h2 : s2.jd_sem ≤ n + 1 := by
          obtain ⟨rfl, hc⟩ := hp
          simp only [step, Option.some.injEq] at hst
          subst hst
          exact (completion_adds_at_most_one h s hc).trans (by omega)
        have := ih s2 s1 (n + 1) hr (by omega) h2
        omega
      · rw [if_neg hp]
        have := ih s2 s1 n hr hn (step_bound h s s2 op n hst hp hn hle)
        omega

theorem run_no_completion (h : nau8821_h) (ops : List Op) :
    ∀ (s s1 : nau8821), run h s ops = some s1 → insert_completions h s ops = 0 →
      s.jd_sem ≤ 1 → s1.jd_sem ≤ 1 := by
  intro s s1 hr h0 hle
  have := run_bound h ops s s1 1 hr (le_refl 1) hle
  omega

/-- C9 (the count, operation by operation): for every header,
(1) `nau8821_setup_irq` leaves the semaphore count at 1;
(2) every operation of a run other than an interrupt that completes an insertion in
auto-precision mode (any other interrupt, `nau8821_hw_params`, `nau8821_set_dai_fmt`,
`nau8821_configure_sysclk`, the bias-level transitions, suspend, resume,
`nau8821_codec_remove`, and the hardware and bus events) preserves every bound
`n >= 1` on the count, in particular the bound 1;
(3) an interrupt that completes an insertion in auto-precision mode on a device with
an interrupt line raises the count by one (the 32-bit counter not wrapping), whatever
the count was: the release has no acquire of its own;
(4) an eject interrupt read without bus error leaves the count at 1, and so do
`nau8821_codec_remove` and the transition to `SND_SOC_BIAS_OFF` on a device with an
interrupt line, whatever the count was;
(5) after every run from the state left by `nau8821_setup_irq` the count is at most
1 plus the number of interrupts of the run that completed an insertion in
auto-precision mode. -/
theorem C9_gate_count_by_operation (h : nau8821_h) :
    (∀ s : nau8821, (nau8821_setup_irq h s).2.jd_sem = 1) ∧
    (∀ (s s1 : nau8821) (op : Op) (n : Nat), step h s op = some s1 →
      ¬ (op = Op.interrupt ∧ completes_insert h s = true) →
      1 ≤ n → s.jd_sem ≤ n → s1.jd_sem ≤ n) ∧
    (∀ s : nau8821, completes_insert h s = true → s.irq ≠ 0 → s.jd_sem + 1 < 2 ^ 32 →
      (nau8821_interrupt h s).2.jd_sem = s.jd_sem + 1) ∧
    (∀ s : nau8821, s.bus_error = false →
      s.regmap h.NAU8821_REG_IRQ_STATUS &&& h.NAU8821_JACK_EJECT_IRQ_MASK =
        h.NAU8821_JACK_EJECT_DETECTED →
      (nau8821_interrupt h s).2.jd_sem = 1) ∧
    (∀ s : nau8821, s.irq ≠ 0 →
      (nau8821_codec_remove s).jd_sem = 1 ∧
      (nau8821_set_bias_level h s SND_SOC_BIAS_OFF).2.jd_sem = 1) ∧
    (∀ (s s1 : nau8821) (ops : List Op),
      run h (nau8821_setup_irq h s).2 ops = some s1 →
      s1.jd_sem ≤ 1 + insert_completions h (nau8821_setup_irq h s).2 ops) := by
  refine ⟨setup_irq_jd_sem h, ?_, ?_, ?_, ?_, ?_⟩
  · intro s s1 op n hs hp hn hle
    exact step_bound h s s1 op n hs hp hn hle
  · intro s hc hirq hlt
    rw [(interrupt_jd_sem h s).2 hc, if_neg hirq, Nat.mod_eq_of_lt hlt]
  · intro s hbus he
    rw [interrupt_eq_eject h s hbus he]
    simpa [snd_soc_jack_report, emit] using (eject_jack_frame h s).2.2.2.2.1
  · intro s hirq
    constructor
    · simp [nau8821_codec_remove, hirq, nau8821_sema_reset, emit]
    · have h1 : SND_SOC_BIAS_OFF ≠ SND_SOC_BIAS_ON := by decide
      have h2 : SND_SOC_BIAS_OFF ≠ SND_SOC_BIAS_PREPARE := by decide
      have h3 : SND_SOC_BIAS_OFF ≠ SND_SOC_BIAS_STANDBY := by decide
      simp [nau8821_set_bias_level, h1, h2, h3, hirq, nau8821_sema_reset, emit]
  · intro s s1 ops hr
    exact run_bound h ops _ s1 1 hr (le_refl 1) (le_of_eq (setup_irq_jd_sem h s))

/-- C9 on the sample device: in the run insert status, interrupt (re-arm), interrupt
(completion), stream start, one interrupt completes an insertion, the run returns,
and the count it leaves is at most 2. -/
theorem C9_gate_count_by_operation_witness :
    insert_completions sample_h (nau8821_setup_irq sample_h (sample_dev 1 (regs_of []))).2
      [Op.hardware 0x10 0x1, Op.interrupt, Op.interrupt, Op.hw_params 0 48000 16 1536000] = 1 ∧
    ∃ s1, run sample_h (nau8821_setup_irq sample_h (sample_dev 1 (regs_of []))).2
        [Op.hardware 0x10 0x1, Op.interrupt, Op.interrupt,
          Op.hw_params 0 48000 16 1536000] = some s1 ∧
      s1.jd_sem ≤ 2 :=
  ⟨by decide,
    (Option.isSome_iff_exists.1 (by decide :
      (run sample_h (nau8821_setup_irq sample_h (sample_dev 1 (regs_of []))).2
        [Op.hardware 0x10 0x1, Op.interrupt, Op.interrupt,
          Op.hw_params 0 48000 16 1536000]).isSome = true)).imp
      (fun s1 hs1 => ⟨hs1, ((C9_gate_count_by_operation sample_h).2.2.2.2.2
        (sample_dev 1 (regs_of [])) s1 _ hs1).trans (by decide)⟩)⟩

end Nau8821
